import Mathlib

/-! Foster D3D11 renderer: state tracker, layout cache, texture lifetimes, shaders,
targets and clears.

A shallow embedding of `Platform/src/foster_renderer_d3d11.c`.

* The file-static `fdx` record and the heap objects reachable from the public
  handles are gathered in one explicit `World`; every C function becomes a
  function on `World`.
* Every call that creates, binds, releases or frees something outside the
  translation unit (D3D11 device/context methods, `Release`, `SDL_free`) and every
  `FosterLogError` and `FosterLogWarn` is appended to `World.log`, in program order,
  so "issued exactly once" is a count over that log. `FosterLogInfo` lines and the
  adapter query that only feeds one are not recorded.
* What the outside world hands back (the `HRESULT` and out-parameter of a native
  create call, the address returned by `SDL_malloc`, the bytes found in a fresh
  block, the window size) is an explicit argument of the function that asks for it.
* A read or write through a null or freed pointer has no defined result in C;
  functions that can do so return `Option World` and yield `none` there.
* C `int` arithmetic is 32-bit two's complement (`wrap32`); `unsigned int`
  arithmetic is reduction modulo `2^32` (`wrapU32`).
* Fixed-size C arrays (`textures[FOSTER_MAX_UNIFORM_TEXTURES]`, ...) are lists whose
  length is the array bound; a (pointer, count) pair is a list.
-/

namespace Foster

/-! ## Machine-level basics -/

/-- Addresses and COM handles; `0` is the null pointer. -/
abbrev Ptr := Nat

/-- The null pointer. -/
def NULL : Ptr := 0

/-- Reduction of an integer to the range of a 32-bit two's complement `int`. -/
def wrap32 (z : Int) : Int := (z + 2147483648) % 4294967296 - 2147483648

/-- The values a C `int` can hold. -/
def isInt32 (z : Int) : Prop := -2147483648 ≤ z ∧ z < 2147483648

instance (z : Int) : Decidable (isInt32 z) := by
  unfold isInt32; exact inferInstance

/-- What a native create call hands back: whether `SUCCEEDED(hr)` holds and the
value it left in its out-parameter. -/
structure NativeOut where
  ok : Bool
  out : Ptr
  deriving DecidableEq, Repr

/-! ## Frontend types (declared in `foster_renderer.h`, used by value here) -/

/-- Rectangle `{x, y, w, h}` of four `int`s, as read by `FOSTER_RECT_EQUAL`. -/
structure FosterRect where
  x : Int
  y : Int
  w : Int
  h : Int
  deriving DecidableEq, Repr

/-- Cull modes named by `FosterCullModeToD3D11`. -/
inductive FosterCull where
  | FOSTER_CULL_NONE
  | FOSTER_CULL_FRONT
  | FOSTER_CULL_BACK
  deriving DecidableEq, Repr

/-- Depth-compare functions named by `FosterSetCompare_D3D11`. -/
inductive FosterCompare where
  | FOSTER_COMPARE_NONE
  | FOSTER_COMPARE_LESS
  | FOSTER_COMPARE_EQUAL
  | FOSTER_COMPARE_LESS_OR_EQUAL
  | FOSTER_COMPARE_GREATER
  | FOSTER_COMPARE_NOT_EQUAL
  | FOSTER_COMPARE_GREATOR_OR_EQUAL
  | FOSTER_COMPARE_ALWAYS
  | FOSTER_COMPARE_NEVER
  deriving DecidableEq, Repr

/-- Blend operations named by `FosterBlendOpToD3D11`. -/
inductive FosterBlendOp where
  | FOSTER_BLEND_OP_ADD
  | FOSTER_BLEND_OP_SUBTRACT
  | FOSTER_BLEND_OP_REVERSE_SUBTRACT
  | FOSTER_BLEND_OP_MIN
  | FOSTER_BLEND_OP_MAX
  deriving DecidableEq, Repr

/-- Blend factors named by `FosterBlendFactorToD3D11`. -/
inductive FosterBlendFactor where
  | FOSTER_BLEND_FACTOR_Zero
  | FOSTER_BLEND_FACTOR_One
  | FOSTER_BLEND_FACTOR_SrcColor
  | FOSTER_BLEND_FACTOR_OneMinusSrcColor
  | FOSTER_BLEND_FACTOR_DstColor
  | FOSTER_BLEND_FACTOR_OneMinusDstColor
  | FOSTER_BLEND_FACTOR_SrcAlpha
  | FOSTER_BLEND_FACTOR_OneMinusSrcAlpha
  | FOSTER_BLEND_FACTOR_DstAlpha
  | FOSTER_BLEND_FACTOR_OneMinusDstAlpha
  | FOSTER_BLEND_FACTOR_ConstantColor
  | FOSTER_BLEND_FACTOR_OneMinusConstantColor
  | FOSTER_BLEND_FACTOR_ConstantAlpha
  | FOSTER_BLEND_FACTOR_OneMinusConstantAlpha
  | FOSTER_BLEND_FACTOR_SrcAlphaSaturate
  deriving DecidableEq, Repr

/-- Blend descriptor; the fields are the ones `FosterSetBlend_D3D11` reads. All of
them are `int`-sized, so `SDL_memcmp` over the struct is equality of the fields. -/
structure FosterBlend where
  colorOp : FosterBlendOp
  colorSrc : FosterBlendFactor
  colorDst : FosterBlendFactor
  alphaOp : FosterBlendOp
  alphaSrc : FosterBlendFactor
  alphaDst : FosterBlendFactor
  mask : Nat
  rgba : Nat
  deriving DecidableEq, Repr

/-- Texture filters named by `FosterFilterToD3D11`. -/
inductive FosterTextureFilter where
  | FOSTER_TEXTURE_FILTER_NEAREST
  | FOSTER_TEXTURE_FILTER_LINEAR
  deriving DecidableEq, Repr

/-- Texture wrap modes named by `FosterWrapToD3D11`. -/
inductive FosterTextureWrap where
  | FOSTER_TEXTURE_WRAP_REPEAT
  | FOSTER_TEXTURE_WRAP_CLAMP_TO_EDGE
  | FOSTER_TEXTURE_WRAP_MIRRORED_REPEAT
  deriving DecidableEq, Repr

/-- Sampler settings `{filter, wrapX, wrapY}`. -/
structure FosterTextureSampler where
  filter : FosterTextureFilter
  wrapX : FosterTextureWrap
  wrapY : FosterTextureWrap
  deriving DecidableEq, Repr

/-- Texture formats named by `FosterTextureCreate_D3D11`. -/
inductive FosterTextureFormat where
  | FOSTER_TEXTURE_FORMAT_R8
  | FOSTER_TEXTURE_FORMAT_R8G8B8A8
  | FOSTER_TEXTURE_FORMAT_DEPTH24_STENCIL8
  deriving DecidableEq, Repr

/-- Vertex element types named by `FosterVertexTypeToD3D11`. -/
inductive FosterVertexType where
  | FOSTER_VERTEX_TYPE_NONE
  | FOSTER_VERTEX_TYPE_FLOAT
  | FOSTER_VERTEX_TYPE_FLOAT2
  | FOSTER_VERTEX_TYPE_FLOAT3
  | FOSTER_VERTEX_TYPE_FLOAT4
  | FOSTER_VERTEX_TYPE_BYTE4
  | FOSTER_VERTEX_TYPE_UBYTE4
  | FOSTER_VERTEX_TYPE_SHORT2
  | FOSTER_VERTEX_TYPE_USHORT2
  | FOSTER_VERTEX_TYPE_SHORT4
  | FOSTER_VERTEX_TYPE_USHORT4
  deriving DecidableEq, Repr

/-- One vertex element: the three fields `FosterVertexFormatEqual` compares. -/
structure FosterVertexFormatElement where
  index : Int
  type : FosterVertexType
  normalized : Int
  deriving DecidableEq, Repr

/-- Vertex format. The C struct holds `stride`, `elementCount` and a pointer to
`elementCount` elements; the pointed-to array is the list `elements` and
`elementCount` is its length. -/
structure FosterVertexFormat where
  stride : Int
  elements : List FosterVertexFormatElement
  deriving DecidableEq, Repr

/-- The `elementCount` field of a vertex format. -/
def FosterVertexFormat.elementCount (f : FosterVertexFormat) : Int := f.elements.length

/-- Index formats; `FosterBindMesh` only asks whether it is the 32-bit one. -/
inductive FosterIndexFormat where
  | FOSTER_INDEX_FORMAT_SIXTEEN
  | FOSTER_INDEX_FORMAT_THIRTY_TWO
  deriving DecidableEq, Repr

/-- Uniform kinds produced by `FosterUniformTypeFromD3D11` and the reflection pass. -/
inductive FosterUniformType where
  | FOSTER_UNIFORM_TYPE_NONE
  | FOSTER_UNIFORM_TYPE_FLOAT
  | FOSTER_UNIFORM_TYPE_FLOAT2
  | FOSTER_UNIFORM_TYPE_FLOAT3
  | FOSTER_UNIFORM_TYPE_FLOAT4
  | FOSTER_UNIFORM_TYPE_MAT3X2
  | FOSTER_UNIFORM_TYPE_MAT4X4
  | FOSTER_UNIFORM_TYPE_SAMPLER2D
  | FOSTER_UNIFORM_TYPE_TEXTURE2D
  deriving DecidableEq, Repr

/-! ## Native enumerations and descriptors -/

/-- Native cull modes. -/
inductive D3D11_CULL_MODE where
  | D3D11_CULL_NONE
  | D3D11_CULL_FRONT
  | D3D11_CULL_BACK
  deriving DecidableEq, Repr

/-- Native comparison functions. -/
inductive D3D11_COMPARISON_FUNC where
  | D3D11_COMPARISON_NEVER
  | D3D11_COMPARISON_LESS
  | D3D11_COMPARISON_EQUAL
  | D3D11_COMPARISON_LESS_EQUAL
  | D3D11_COMPARISON_GREATER
  | D3D11_COMPARISON_NOT_EQUAL
  | D3D11_COMPARISON_GREATER_EQUAL
  | D3D11_COMPARISON_ALWAYS
  deriving DecidableEq, Repr

/-- Native blend operations. -/
inductive D3D11_BLEND_OP where
  | D3D11_BLEND_OP_ADD
  | D3D11_BLEND_OP_SUBTRACT
  | D3D11_BLEND_OP_REV_SUBTRACT
  | D3D11_BLEND_OP_MIN
  | D3D11_BLEND_OP_MAX
  deriving DecidableEq, Repr

/-- Native blend factors. -/
inductive D3D11_BLEND where
  | D3D11_BLEND_ZERO
  | D3D11_BLEND_ONE
  | D3D11_BLEND_SRC_COLOR
  | D3D11_BLEND_INV_SRC_COLOR
  | D3D11_BLEND_DEST_COLOR
  | D3D11_BLEND_INV_DEST_COLOR
  | D3D11_BLEND_SRC_ALPHA
  | D3D11_BLEND_INV_SRC_ALPHA
  | D3D11_BLEND_DEST_ALPHA
  | D3D11_BLEND_INV_DEST_ALPHA
  | D3D11_BLEND_BLEND_FACTOR
  | D3D11_BLEND_INV_BLEND_FACTOR
  | D3D11_BLEND_SRC_ALPHA_SAT
  deriving DecidableEq, Repr

/-- Native texel formats written by `FosterTextureCreate_D3D11`. -/
inductive DXGI_FORMAT where
  | DXGI_FORMAT_R8_UNORM
  | DXGI_FORMAT_R8G8B8A8_UNORM
  | DXGI_FORMAT_R16_UNORM
  | DXGI_FORMAT_UNKNOWN
  | DXGI_FORMAT_R32_FLOAT
  | DXGI_FORMAT_R32G32_FLOAT
  | DXGI_FORMAT_R32G32B32_FLOAT
  | DXGI_FORMAT_R32G32B32A32_FLOAT
  | DXGI_FORMAT_R8G8B8A8_SINT
  | DXGI_FORMAT_R8G8B8A8_UINT
  | DXGI_FORMAT_R16G16_SINT
  | DXGI_FORMAT_R16G16_UINT
  | DXGI_FORMAT_R16G16B16A16_SINT
  | DXGI_FORMAT_R16G16B16A16_UINT
  | DXGI_FORMAT_R32_UINT
  | DXGI_FORMAT_R16_UINT
  deriving DecidableEq, Repr

/-- Conversion of a blend operation (lines 216-233). -/
def FosterBlendOpToD3D11 : FosterBlendOp → D3D11_BLEND_OP
  | .FOSTER_BLEND_OP_ADD => .D3D11_BLEND_OP_ADD
  | .FOSTER_BLEND_OP_SUBTRACT => .D3D11_BLEND_OP_SUBTRACT
  | .FOSTER_BLEND_OP_REVERSE_SUBTRACT => .D3D11_BLEND_OP_REV_SUBTRACT
  | .FOSTER_BLEND_OP_MIN => .D3D11_BLEND_OP_MIN
  | .FOSTER_BLEND_OP_MAX => .D3D11_BLEND_OP_MAX

/-- Conversion of a blend factor (lines 235-272). -/
def FosterBlendFactorToD3D11 : FosterBlendFactor → D3D11_BLEND
  | .FOSTER_BLEND_FACTOR_Zero => .D3D11_BLEND_ZERO
  | .FOSTER_BLEND_FACTOR_One => .D3D11_BLEND_ONE
  | .FOSTER_BLEND_FACTOR_SrcColor => .D3D11_BLEND_SRC_COLOR
  | .FOSTER_BLEND_FACTOR_OneMinusSrcColor => .D3D11_BLEND_INV_SRC_COLOR
  | .FOSTER_BLEND_FACTOR_DstColor => .D3D11_BLEND_DEST_COLOR
  | .FOSTER_BLEND_FACTOR_OneMinusDstColor => .D3D11_BLEND_INV_DEST_COLOR
  | .FOSTER_BLEND_FACTOR_SrcAlpha => .D3D11_BLEND_SRC_ALPHA
  | .FOSTER_BLEND_FACTOR_OneMinusSrcAlpha => .D3D11_BLEND_INV_SRC_ALPHA
  | .FOSTER_BLEND_FACTOR_DstAlpha => .D3D11_BLEND_DEST_ALPHA
  | .FOSTER_BLEND_FACTOR_OneMinusDstAlpha => .D3D11_BLEND_INV_DEST_ALPHA
  | .FOSTER_BLEND_FACTOR_ConstantColor => .D3D11_BLEND_BLEND_FACTOR
  | .FOSTER_BLEND_FACTOR_OneMinusConstantColor => .D3D11_BLEND_INV_BLEND_FACTOR
  | .FOSTER_BLEND_FACTOR_ConstantAlpha => .D3D11_BLEND_BLEND_FACTOR
  | .FOSTER_BLEND_FACTOR_OneMinusConstantAlpha => .D3D11_BLEND_INV_BLEND_FACTOR
  | .FOSTER_BLEND_FACTOR_SrcAlphaSaturate => .D3D11_BLEND_SRC_ALPHA_SAT

/-- Conversion of a cull mode (lines 335-348). -/
def FosterCullModeToD3D11 : FosterCull → D3D11_CULL_MODE
  | .FOSTER_CULL_NONE => .D3D11_CULL_NONE
  | .FOSTER_CULL_FRONT => .D3D11_CULL_FRONT
  | .FOSTER_CULL_BACK => .D3D11_CULL_BACK

/-- The `D3D11_VIEWPORT` filled by `FosterSetViewport_D3D11`. The four rect
coordinates are `int`s converted to `float`; the integer that is converted is kept. -/
structure D3D11_VIEWPORT where
  TopLeftX : Int
  TopLeftY : Int
  Width : Int
  Height : Int
  MinDepth : Int
  MaxDepth : Int
  deriving DecidableEq, Repr

/-- The struct `D3D11_RECT` (the Windows `RECT`): four `LONG`s naming the edges of
the rectangle, in this order in memory. -/
structure D3D11_RECT where
  left : Int
  top : Int
  right : Int
  bottom : Int
  deriving DecidableEq, Repr

/-- The width of the rectangle a `D3D11_RECT` names. -/
def D3D11_RECT.width (r : D3D11_RECT) : Int := r.right - r.left

/-- The height of the rectangle a `D3D11_RECT` names. -/
def D3D11_RECT.height (r : D3D11_RECT) : Int := r.bottom - r.top

/-- The cast `(D3D11_RECT*)&scissor` of line 720: the four `int`s `x, y, w, h` of a
`FosterRect` are read by the callee as the four `LONG`s `left, top, right, bottom`. -/
def rectAsD3D11 (r : FosterRect) : D3D11_RECT :=
  { left := r.x, top := r.y, right := r.w, bottom := r.h }

/-- The fields of `D3D11_RASTERIZER_DESC` in the order `FosterSetCull_D3D11` assigns
them; `FillMode` is always `D3D11_FILL_SOLID` and the two float biases are `0.0f`. -/
structure D3D11_RASTERIZER_DESC where
  CullMode : D3D11_CULL_MODE
  FrontCounterClockwise : Bool
  DepthBias : Int
  DepthClipEnable : Bool
  ScissorEnable : Bool
  MultisampleEnable : Bool
  AntialiasedLineEnable : Bool
  deriving DecidableEq, Repr

/-- The fields of `D3D11_DEPTH_STENCIL_DESC` that `FosterSetCompare_D3D11` assigns;
`DepthWriteMask` is always `D3D11_DEPTH_WRITE_MASK_ALL`. `DepthFunc` is assigned only
when `DepthEnable` holds (`none`: left as found on the stack). -/
structure D3D11_DEPTH_STENCIL_DESC where
  DepthEnable : Bool
  DepthFunc : Option D3D11_COMPARISON_FUNC
  deriving DecidableEq, Repr

/-- The fields of `D3D11_BLEND_DESC` and its `RenderTarget[0]` that
`FosterSetBlend_D3D11` assigns for a non-null descriptor; the write mask is always
`D3D11_COLOR_WRITE_ENABLE_ALL`. -/
structure D3D11_BLEND_DESC where
  AlphaToCoverageEnable : Bool
  IndependentBlendEnable : Bool
  BlendEnable : Bool
  BlendOp : D3D11_BLEND_OP
  BlendOpAlpha : D3D11_BLEND_OP
  DestBlend : D3D11_BLEND
  DestBlendAlpha : D3D11_BLEND
  SrcBlend : D3D11_BLEND
  SrcBlendAlpha : D3D11_BLEND
  deriving DecidableEq, Repr

/-- Native texture address modes. -/
inductive D3D11_TEXTURE_ADDRESS_MODE where
  | D3D11_TEXTURE_ADDRESS_WRAP
  | D3D11_TEXTURE_ADDRESS_MIRROR
  | D3D11_TEXTURE_ADDRESS_CLAMP
  deriving DecidableEq, Repr

/-- Native sampler filters. -/
inductive D3D11_FILTER where
  | D3D11_FILTER_MIN_MAG_MIP_POINT
  | D3D11_FILTER_MIN_MAG_MIP_LINEAR
  deriving DecidableEq, Repr

/-- Conversion of a wrap mode (lines 188-201). -/
def FosterWrapToD3D11 : FosterTextureWrap → D3D11_TEXTURE_ADDRESS_MODE
  | .FOSTER_TEXTURE_WRAP_REPEAT => .D3D11_TEXTURE_ADDRESS_WRAP
  | .FOSTER_TEXTURE_WRAP_CLAMP_TO_EDGE => .D3D11_TEXTURE_ADDRESS_CLAMP
  | .FOSTER_TEXTURE_WRAP_MIRRORED_REPEAT => .D3D11_TEXTURE_ADDRESS_MIRROR

/-- Conversion of a filter (lines 203-214). -/
def FosterFilterToD3D11 : FosterTextureFilter → D3D11_FILTER
  | .FOSTER_TEXTURE_FILTER_NEAREST => .D3D11_FILTER_MIN_MAG_MIP_POINT
  | .FOSTER_TEXTURE_FILTER_LINEAR => .D3D11_FILTER_MIN_MAG_MIP_LINEAR

/-- The fields of `D3D11_SAMPLER_DESC` that `FosterShaderSetSampler_D3D11` assigns from
the incoming settings (lines 1472-1475); the border colour is always `1.0f` four
times and the comparison function `D3D11_COMPARISON_NEVER`. -/
structure D3D11_SAMPLER_DESC where
  Filter : D3D11_FILTER
  AddressU : D3D11_TEXTURE_ADDRESS_MODE
  AddressV : D3D11_TEXTURE_ADDRESS_MODE
  AddressW : D3D11_TEXTURE_ADDRESS_MODE
  deriving DecidableEq, Repr

/-- The two flags `FosterClear_D3D11` passes to `ClearDepthStencilView`. -/
inductive D3D11_CLEAR_FLAG where
  | D3D11_CLEAR_DEPTH
  | D3D11_CLEAR_STENCIL
  deriving DecidableEq, Repr

/-! ## The log of calls leaving the translation unit -/

/-- Texts handed to `FosterLogError`. -/
inductive ErrorText where
  | Failed_to_create_blend_state
  | Failed_to_create_depth_stencil_state
  | Failed_to_create_rasterizer_state
  | Failed_to_create_vertex_buffer
  | Failed_to_get_window_info
  | Invalid_window_handle_for_D3D11
  | Failed_to_create_a_D3D11_device
  | Failed_to_get_the_back_buffer
  | Texture_is_being_freed_without_deleting_its_GPU_Texture_Data
  | Exceeded_Max_Texture_Size
  | Failed_to_create_Texture
  | Failed_to_create_Shader_Resource_View
  | Invalid_Texture_Index
  | Uniform_is_not_a_texture
  | Invalid_Uniform_Index
  | Invalid_Sampler_Index
  | Uniform_is_not_a_sampler
  | Failed_to_create_sampler_state
  | Failed_to_create_depth_attachment
  | Failed_to_create_attachment
  | Invalid_Attachment_Index
  | Invalid_Vertex_Shader
  | Invalid_Fragment_Shader
  | Failed_to_compile_vertex_shader
  | Failed_to_compile_pixel_shader
  | Failed_to_create_vertex_shader
  | Failed_to_create_pixel_shader
  | Failed_to_reflect_vertex_shader
  | Failed_to_reflect_pixel_shader
  | Failed_to_get_vertex_shader_description
  | Failed_to_get_resource_binding_description
  | Failed_to_get_constant_buffer_description
  | Failed_to_get_variable_description
  | Failed_to_get_type_description
  | Failed_to_get_input_parameter_description
  | Failed_to_create_uniform_buffer
  | Failed_to_create_input_layout
  deriving DecidableEq, Repr

/-- Texts handed to `FosterLogWarn`. -/
inductive WarnText where
  | Multiple_Depth_Attachments_are_not_supported
  deriving DecidableEq, Repr

/-- The two shader stages. -/
inductive ShaderStage where
  | vertex
  | pixel
  deriving DecidableEq, Repr

/-- Blocks handed to `SDL_free`. Wrapper objects are named by their address; arrays
and strings owned by a shader or mesh are named by their owner and role. -/
inductive Block where
  | texture (p : Ptr)
  | shader (p : Ptr)
  | mesh (p : Ptr)
  | uniformName (shader : Ptr) (i : Nat)
  | inputName (shader : Ptr) (i : Nat)
  | samplerSettings (sampler : Ptr)
  | samplerObject (sampler : Ptr)
  | inputs (shader : Ptr)
  | uniforms (shader : Ptr)
  | formatElements (mesh : Ptr)
  | layoutInstances (groupIndex : Nat)
  | target (p : Ptr)
  | inputElements
  deriving DecidableEq, Repr

/-- The fields of the `D3D11_INPUT_ELEMENT_DESC` filled at lines 427-433 that differ
between elements; `InputSlot`, `InputSlotClass` and `InstanceDataStepRate` are the
same for all. -/
structure D3D11_INPUT_ELEMENT_DESC where
  SemanticName : String
  SemanticIndex : Nat
  Format : DXGI_FORMAT
  AlignedByteOffset : Int
  deriving DecidableEq, Repr

/-- One call that leaves the translation unit. -/
inductive NativeCall where
  | FosterLogError (text : ErrorText)
  | SDL_free (b : Block)
  | ShaderResourceView_Release (view : Ptr)
  | Texture2D_Release (texture : Ptr)
  | VertexShader_Release (p : Ptr)
  | PixelShader_Release (p : Ptr)
  | SamplerState_Release (p : Ptr)
  | InputLayout_Release (layout : Ptr)
  | Buffer_Release (buffer : Ptr)
  | BlendState_Release (p : Ptr)
  | DepthStencilState_Release (p : Ptr)
  | RasterizerState_Release (p : Ptr)
  | CreateDeviceAndSwapChain (width height : Int)
  | SwapChain_GetBuffer
  | CreateRenderTargetView (resource : Ptr)
  | CreateTexture2D (width height : Int) (format : DXGI_FORMAT)
  | CreateShaderResourceView (resource : Ptr)
  | CreateBuffer (byteWidth : Int)
  | CreateBlendState (desc : D3D11_BLEND_DESC)
  | CreateDepthStencilState (desc : D3D11_DEPTH_STENCIL_DESC)
  | CreateRasterizerState (desc : D3D11_RASTERIZER_DESC)
  | OMSetRenderTargets (viewCount : Int) (views : List Ptr) (depthView : Ptr)
  | OMSetBlendState (state : Ptr) (factor : List Nat) (sampleMask : Nat)
  | OMSetDepthStencilState (state : Ptr) (stencilRef : Nat)
  | RSSetState (state : Ptr)
  | RSSetViewports (count : Nat) (vp : D3D11_VIEWPORT)
  | RSSetScissorRects (count : Nat) (rect : Option D3D11_RECT)
  | FosterLogWarn (text : WarnText)
  | Map (resource : Ptr)
  | SDL_memcpy_mapped (resource : Ptr) (offset : Nat) (bytes : List Nat)
  | Unmap (resource : Ptr)
  | CreateSamplerState (desc : Option D3D11_SAMPLER_DESC)
  | CreateDepthStencilView (resource : Ptr)
  | RenderTargetView_Release (view : Ptr)
  | DepthStencilView_Release (view : Ptr)
  | ClearRenderTargetView (view : Ptr) (rgba : List Nat)
  | ClearDepthStencilView (view : Ptr) (flag : D3D11_CLEAR_FLAG) (depth : Nat) (stencil : Int)
  | D3DCompile (stage : ShaderStage)
  | CreateVertexShader (blob : Ptr)
  | CreatePixelShader (blob : Ptr)
  | D3DReflect (blob : Ptr)
  | Blob_Release (blob : Ptr)
  | ShaderReflection_Release (stage : ShaderStage)
  | CreateInputLayout (elements : List D3D11_INPUT_ELEMENT_DESC) (blob : Ptr)
  | VSSetShader (shader : Ptr)
  | PSSetShader (shader : Ptr)
  | VSSetConstantBuffers (slot : Nat) (buffers : List Ptr)
  | PSSetShaderResources (slot : Nat) (view : Ptr)
  | PSSetSamplers (slot : Nat) (sampler : Ptr)
  | IASetInputLayout (layout : Ptr)
  | IASetVertexBuffers (buffer : Ptr) (stride : Int)
  | IASetIndexBuffer (buffer : Ptr) (format : DXGI_FORMAT)
  | IASetPrimitiveTopology
  | DrawIndexedInstanced (indexCount instanceCount : Int) (indexStart : Nat)
  | DrawIndexed (indexCount : Int) (indexStart : Nat)
  deriving Repr

set_option maxHeartbeats 3200000 in
/-- Equality of native calls is decided constructor by constructor and then field by
field. -/
instance : DecidableEq NativeCall := fun a b => by
  cases a <;> cases b <;>
    first
      | exact isFalse (fun h => NativeCall.noConfusion h)
      | exact isTrue rfl
      | (rename_i x1 x2 x3 x4 y1 y2 y3 y4
         exact decidable_of_iff (x1 = y1 ∧ x2 = y2 ∧ x3 = y3 ∧ x4 = y4)
           ⟨fun h => by rw [h.1, h.2.1, h.2.2.1, h.2.2.2],
            fun h => by injection h with h1 h2 h3 h4; exact ⟨h1, h2, h3, h4⟩⟩)
      | (rename_i x1 x2 x3 y1 y2 y3
         exact decidable_of_iff (x1 = y1 ∧ x2 = y2 ∧ x3 = y3)
           ⟨fun h => by rw [h.1, h.2.1, h.2.2],
            fun h => by injection h with h1 h2 h3; exact ⟨h1, h2, h3⟩⟩)
      | (rename_i x1 x2 y1 y2
         exact decidable_of_iff (x1 = y1 ∧ x2 = y2)
           ⟨fun h => by rw [h.1, h.2], fun h => by injection h with h1 h2; exact ⟨h1, h2⟩⟩)
      | (rename_i x y
         exact decidable_of_iff (x = y) ⟨fun h => by rw [h], fun h => by injection h⟩)

/-! ## Objects behind the public handles -/

/-- The struct `FosterTexture_D3D11` (lines 47-62). -/
structure FosterTexture_D3D11 where
  texture : Ptr
  view : Ptr
  sampler : FosterTextureSampler
  width : Int
  height : Int
  dxgiFormat : DXGI_FORMAT
  refCount : Int
  disposed : Int
  deriving DecidableEq, Repr

/-- The struct `FosterTarget_D3D11` (lines 64-73); the two arrays have
`FOSTER_MAX_TARGET_ATTACHMENTS` entries. -/
structure FosterTarget_D3D11 where
  depthView : Ptr
  width : Int
  height : Int
  colorViewCount : Int
  colorViews : List Ptr
  colorTextures : List Ptr
  depthTexture : Ptr
  deriving DecidableEq, Repr

/-- The struct `FosterUniform_D3D11` (lines 75-82); `name` is the owned string. -/
structure FosterUniform_D3D11 where
  name : String
  index : Nat
  size : Nat
  offset : Nat
  type : FosterUniformType
  deriving DecidableEq, Repr

/-- The struct `FosterShaderInput_D3D11` (lines 84-88). -/
structure FosterShaderInput_D3D11 where
  name : String
  index : Nat
  deriving DecidableEq, Repr

/-- The struct `FosterSampler_D3D11` (lines 90-94) together with the address `addr`
of the block that holds it; `settings` is the owned snapshot (`none`: null). -/
structure FosterSampler_D3D11 where
  addr : Ptr
  sampler : Ptr
  settings : Option FosterTextureSampler
  deriving DecidableEq, Repr

/-- The struct `FosterShader_D3D11` (lines 96-108). `uniforms` carries
`uniformCount` as its length and `inputs` carries `inputCount`; `textures` and
`samplers` have `FOSTER_MAX_UNIFORM_TEXTURES` entries, a null sampler slot is `none`. -/
structure FosterShader_D3D11 where
  vertexShader : Ptr
  pixelShader : Ptr
  uniformBuffer : Ptr
  uniforms : List FosterUniform_D3D11
  textures : List Ptr
  samplers : List (Option FosterSampler_D3D11)
  inputs : List FosterShaderInput_D3D11
  vertexBlob : Ptr
  deriving DecidableEq, Repr

/-- The `uniformCount` field of a shader. -/
def FosterShader_D3D11.uniformCount (sh : FosterShader_D3D11) : Int := sh.uniforms.length

/-- The struct `FosterMesh_D3D11` (lines 110-120). `elementsAllocated` records
whether `vertexFormat.elements` is a non-null pointer. -/
structure FosterMesh_D3D11 where
  vertexBuffer : Ptr
  indexBuffer : Ptr
  vertexBytes : Int
  indexBytes : Int
  vertexSize : Int
  indexSize : Int
  vertexFormat : FosterVertexFormat
  elementsAllocated : Bool
  indexFormat : FosterIndexFormat
  deriving DecidableEq, Repr

/-- The struct `FosterLayoutInstance_D3D11` (lines 129-133). -/
structure FosterLayoutInstance_D3D11 where
  shader : Ptr
  layout : Ptr
  deriving DecidableEq, Repr

/-- The struct `FosterLayoutGroup_D3D11` (lines 135-141); `instances` carries
`count` as its length. -/
structure FosterLayoutGroup_D3D11 where
  format : FosterVertexFormat
  instances : List FosterLayoutInstance_D3D11
  references : Int
  deriving DecidableEq, Repr

/-- The struct `FosterLayoutCache_D3D11` (lines 143-147): the list of groups, whose
length is `count`. -/
abbrev FosterLayoutCache_D3D11 := List FosterLayoutGroup_D3D11

/-- The struct `FosterDX11State` (lines 149-184), of which `fdx` is the one instance. -/
structure FosterDX11State where
  stateInitializing : Bool
  device : Ptr
  context : Ptr
  swapChain : Ptr
  backBufferView : Ptr
  backBufferDepthView : Ptr
  depthState : Ptr
  blendState : Ptr
  rasterizerState : Ptr
  layoutCache : FosterLayoutCache_D3D11
  stateVertexBuffer : Ptr
  stateIndexBuffer : Ptr
  stateTextureSlots : List Ptr
  stateSamplerSlots : List Ptr
  stateFrameBuffer : Ptr
  stateShader : Ptr
  stateFrameBufferWidth : Int
  stateFrameBufferHeight : Int
  stateViewport : FosterRect
  stateScissor : FosterRect
  stateBlend : FosterBlend
  stateCompare : FosterCompare
  stateBlendEnabled : Bool
  stateCull : FosterCull
  stateVertexFormat : FosterVertexFormat
  max_renderbuffer_size : Int
  max_texture_image_units : Int
  max_texture_size : Int
  deriving DecidableEq, Repr

/-- The program state: the static `fdx`, the live heap objects by address (`none`:
no live object of that kind at the address) and the log of outgoing calls. -/
structure World where
  fdx : FosterDX11State
  textures : Ptr → Option FosterTexture_D3D11
  targets : Ptr → Option FosterTarget_D3D11
  shaders : Ptr → Option FosterShader_D3D11
  meshes : Ptr → Option FosterMesh_D3D11
  log : List NativeCall

/-- Append one outgoing call to the log. -/
def World.emit (w : World) (c : NativeCall) : World :=
  { w with log := w.log ++ [c] }

/-- Append outgoing calls to the log, in order. -/
def World.emits (w : World) (cs : List NativeCall) : World :=
  { w with log := w.log ++ cs }

/-- Store a new value for the static `fdx`. -/
def World.setFdx (w : World) (f : FosterDX11State) : World :=
  { w with fdx := f }

/-! ## Device state tracker: the state setters -/

/-- The rect `viewport` computed at lines 679-691 of `FosterSetViewport_D3D11`. -/
def derivedViewport (fdx : FosterDX11State) (enabled : Int) (rect : FosterRect) : FosterRect :=
  if enabled ≠ 0 then
    { rect with y := wrap32 (wrap32 (fdx.stateFrameBufferHeight - rect.y) - rect.h) }
  else
    { x := 0, y := 0, w := fdx.stateFrameBufferWidth, h := fdx.stateFrameBufferHeight }

/-- The `D3D11_VIEWPORT` filled at lines 696-702 from the derived rect. -/
def viewportDesc (viewport : FosterRect) : D3D11_VIEWPORT :=
  { TopLeftX := viewport.x, TopLeftY := viewport.y, Width := viewport.w,
    Height := viewport.h, MinDepth := 0, MaxDepth := 1 }

/-- The function `FosterSetViewport_D3D11` (lines 677-705). -/
def FosterSetViewport_D3D11 (enabled : Int) (rect : FosterRect) (w : World) : World :=
  let viewport := derivedViewport w.fdx enabled rect
  if w.fdx.stateInitializing = true ∨ viewport ≠ w.fdx.stateViewport then
    (w.setFdx { w.fdx with stateViewport := viewport }).emit
      (.RSSetViewports 1 (viewportDesc viewport))
  else
    w

/-- The rect `scissor` computed at lines 710-713 of `FosterSetScissor_D3D11`: the
Y flip uses the incoming height, then width and height are clamped at zero. -/
def derivedScissor (fdx : FosterDX11State) (rect : FosterRect) : FosterRect :=
  let scissor := rect
  let scissor := { scissor with
    y := wrap32 (wrap32 (fdx.stateFrameBufferHeight - scissor.y) - scissor.h) }
  let scissor := if scissor.w < 0 then { scissor with w := 0 } else scissor
  let scissor := if scissor.h < 0 then { scissor with h := 0 } else scissor
  scissor

/-- The function `FosterSetScissor_D3D11` (lines 707-724). The condition is
`initializing || (enabled && !equal)`. The rect reaches the native call through the
cast `(D3D11_RECT*)&scissor`; the log keeps the `D3D11_RECT` the callee reads at that
address. Nothing is stored in `fdx.stateScissor`. -/
def FosterSetScissor_D3D11 (enabled : Int) (rect : FosterRect) (w : World) : World :=
  let scissor := derivedScissor w.fdx rect
  if w.fdx.stateInitializing = true ∨ (enabled ≠ 0 ∧ scissor ≠ w.fdx.stateScissor) then
    if enabled ≠ 0 then
      w.emit (.RSSetScissorRects 1 (some (rectAsD3D11 scissor)))
    else
      w.emit (.RSSetScissorRects 0 none)
  else
    w

/-- The `D3D11_BLEND_DESC` built at lines 734-748 for a non-null descriptor. -/
def blendDescOf (blend : FosterBlend) : D3D11_BLEND_DESC :=
  { AlphaToCoverageEnable := false
    IndependentBlendEnable := false
    BlendEnable := true
    BlendOp := FosterBlendOpToD3D11 blend.colorOp
    BlendOpAlpha := FosterBlendOpToD3D11 blend.alphaOp
    DestBlend := FosterBlendFactorToD3D11 blend.colorDst
    DestBlendAlpha := FosterBlendFactorToD3D11 blend.alphaDst
    SrcBlend := FosterBlendFactorToD3D11 blend.colorSrc
    SrcBlendAlpha := FosterBlendFactorToD3D11 blend.alphaSrc }

/-- The four blend-factor components of lines 755-760, before the cast to `float`. -/
def blendFactorOf (blend : FosterBlend) : List Nat :=
  [blend.rgba % 256, (blend.rgba / 256) % 256, (blend.rgba / 65536) % 256,
   (blend.rgba / 16777216) % 256]

/-- The body of the `if` of `FosterSetBlend_D3D11` (lines 734-761) for a non-null
descriptor; `created` is what `CreateBlendState` hands back. -/
def applyBlend (created : NativeOut) (blend : FosterBlend) (w : World) : World :=
  let w := w.setFdx { w.fdx with stateBlendEnabled := true, stateBlend := blend }
  let w := if w.fdx.blendState ≠ NULL then w.emit (.BlendState_Release w.fdx.blendState) else w
  let w := (w.setFdx { w.fdx with blendState := created.out }).emit
    (.CreateBlendState (blendDescOf blend))
  let w := if created.ok then w else w.emit (.FosterLogError .Failed_to_create_blend_state)
  w.emit (.OMSetBlendState w.fdx.blendState (blendFactorOf blend) blend.mask)

/-- The function `FosterSetBlend_D3D11` (lines 726-763); `none` is the null
descriptor. With a null descriptor the function returns at line 728 when blending is
tracked as enabled; otherwise it reads through the null pointer, either in
`SDL_memcmp` (line 732, reached when `stateInitializing` is clear since then both
sides of the `!=` at line 731 are false) or at `blend->rgba` (line 756). -/
def FosterSetBlend_D3D11 (created : NativeOut) (blend : Option FosterBlend) (w : World) :
    Option World :=
  match blend with
  | none => if w.fdx.stateBlendEnabled = true then some w else none
  | some b =>
    if w.fdx.stateInitializing = true ∨ true ≠ w.fdx.stateBlendEnabled
        ∨ b ≠ w.fdx.stateBlend then
      some (applyBlend created b w)
    else
      some w

/-- The `D3D11_DEPTH_STENCIL_DESC` built at lines 768-801. -/
def depthDescOf (compare : FosterCompare) : D3D11_DEPTH_STENCIL_DESC :=
  { DepthEnable := decide (compare ≠ .FOSTER_COMPARE_NONE)
    DepthFunc :=
      match compare with
      | .FOSTER_COMPARE_NONE => none
      | .FOSTER_COMPARE_LESS => some .D3D11_COMPARISON_LESS
      | .FOSTER_COMPARE_EQUAL => some .D3D11_COMPARISON_EQUAL
      | .FOSTER_COMPARE_LESS_OR_EQUAL => some .D3D11_COMPARISON_LESS_EQUAL
      | .FOSTER_COMPARE_GREATER => some .D3D11_COMPARISON_GREATER
      | .FOSTER_COMPARE_NOT_EQUAL => some .D3D11_COMPARISON_NOT_EQUAL
      | .FOSTER_COMPARE_GREATOR_OR_EQUAL => some .D3D11_COMPARISON_GREATER_EQUAL
      | .FOSTER_COMPARE_ALWAYS => some .D3D11_COMPARISON_ALWAYS
      | .FOSTER_COMPARE_NEVER => some .D3D11_COMPARISON_NEVER }

/-- The function `FosterSetCompare_D3D11` (lines 765-814); `created` is what
`CreateDepthStencilState` hands back. -/
def FosterSetCompare_D3D11 (created : NativeOut) (compare : FosterCompare) (w : World) : World :=
  if w.fdx.stateInitializing = true ∨ compare ≠ w.fdx.stateCompare then
    let w := if w.fdx.depthState ≠ NULL then
      w.emit (.DepthStencilState_Release w.fdx.depthState) else w
    let w := (w.setFdx { w.fdx with depthState := created.out }).emit
      (.CreateDepthStencilState (depthDescOf compare))
    let w := if created.ok then w
      else w.emit (.FosterLogError .Failed_to_create_depth_stencil_state)
    let w := w.emit (.OMSetDepthStencilState w.fdx.depthState 0)
    w.setFdx { w.fdx with stateCompare := compare }
  else
    w

/-- The `D3D11_RASTERIZER_DESC` built at lines 820-830. -/
def rasterizerDescOf (cull : FosterCull) : D3D11_RASTERIZER_DESC :=
  { CullMode := FosterCullModeToD3D11 cull
    FrontCounterClockwise := true
    DepthBias := 0
    DepthClipEnable := true
    ScissorEnable := false
    MultisampleEnable := false
    AntialiasedLineEnable := false }

/-- The function `FosterSetCull_D3D11` (lines 816-840); `created` is what
`CreateRasterizerState` hands back. -/
def FosterSetCull_D3D11 (created : NativeOut) (cull : FosterCull) (w : World) : World :=
  if w.fdx.stateInitializing = true ∨ cull ≠ w.fdx.stateCull then
    let w := if w.fdx.rasterizerState ≠ NULL then
      w.emit (.RasterizerState_Release w.fdx.rasterizerState) else w
    let w := (w.setFdx { w.fdx with rasterizerState := created.out }).emit
      (.CreateRasterizerState (rasterizerDescOf cull))
    let w := if created.ok then w
      else w.emit (.FosterLogError .Failed_to_create_rasterizer_state)
    let w := w.emit (.RSSetState w.fdx.rasterizerState)
    w.setFdx { w.fdx with stateCull := cull }
  else
    w

/-! ## Heap access -/

/-- Read through a texture pointer: defined for a non-null address holding a live
wrapper. -/
def World.texture? (w : World) (p : Ptr) : Option FosterTexture_D3D11 :=
  if p = NULL then none else w.textures p

/-- Read through a target pointer. -/
def World.target? (w : World) (p : Ptr) : Option FosterTarget_D3D11 :=
  if p = NULL then none else w.targets p

/-- Read through a shader pointer. -/
def World.shader? (w : World) (p : Ptr) : Option FosterShader_D3D11 :=
  if p = NULL then none else w.shaders p

/-- Read through a mesh pointer. -/
def World.mesh? (w : World) (p : Ptr) : Option FosterMesh_D3D11 :=
  if p = NULL then none else w.meshes p

/-- Write a texture wrapper at an address (`none`: the block is freed). -/
def World.setTexture (w : World) (p : Ptr) (t : Option FosterTexture_D3D11) : World :=
  { w with textures := Function.update w.textures p t }

/-- Write a shader at an address (`none`: the block is freed). -/
def World.setShader (w : World) (p : Ptr) (s : Option FosterShader_D3D11) : World :=
  { w with shaders := Function.update w.shaders p s }

/-- Write a mesh at an address (`none`: the block is freed). -/
def World.setMesh (w : World) (p : Ptr) (m : Option FosterMesh_D3D11) : World :=
  { w with meshes := Function.update w.meshes p m }

/-! ## Framebuffer binding and device bring-up -/

/-- The function `FosterBindFrameBuffer_D3D11` (lines 621-643). `sizeInPixels` is
what `FosterGetSizeInPixels` reports; `*views` is the first colour view. -/
def FosterBindFrameBuffer_D3D11 (sizeInPixels : Int × Int) (target : Ptr) (w : World) :
    Option World :=
  if target ≠ NULL then
    match w.targets target with
    | none => none
    | some t =>
      match t.colorViews.head? with
      | none => none
      | some first =>
        let w := w.setFdx { w.fdx with
          stateFrameBufferWidth := t.width, stateFrameBufferHeight := t.height }
        if w.fdx.stateInitializing = true ∨ w.fdx.stateFrameBuffer ≠ first then
          some ((w.setFdx { w.fdx with stateFrameBuffer := first }).emit
            (.OMSetRenderTargets t.colorViewCount
              (t.colorViews.take t.colorViewCount.toNat) t.depthView))
        else
          some w
  else
    let w := w.setFdx { w.fdx with
      stateFrameBufferWidth := sizeInPixels.1, stateFrameBufferHeight := sizeInPixels.2 }
    if w.fdx.stateInitializing = true ∨ w.fdx.stateFrameBuffer ≠ w.fdx.backBufferView then
      some ((w.setFdx { w.fdx with stateFrameBuffer := w.fdx.backBufferView }).emit
        (.OMSetRenderTargets 1 [w.fdx.backBufferView] w.fdx.backBufferDepthView))
    else
      some w

/-- The SDK constant `D3D11_REQ_TEXTURE2D_U_OR_V_DIMENSION`. -/
def D3D11_REQ_TEXTURE2D_U_OR_V_DIMENSION : Int := 16384

/-- The SDK constant `D3D11_REQ_RENDER_TO_BUFFER_WINDOW_WIDTH`. -/
def D3D11_REQ_RENDER_TO_BUFFER_WINDOW_WIDTH : Int := 16384

/-- What the platform and the driver hand back during `FosterInitialize_D3D11`.
`zeroBlend` is the value of `FosterBlend zeroBlend = { 0 }`; which enumerators are
numbered zero is fixed in `foster_renderer.h`. -/
structure InitializeEnv where
  windowInfo : Bool
  isWindow : Bool
  size : Int × Int
  deviceOk : Bool
  swapChain : Ptr
  device : Ptr
  context : Ptr
  bufferOk : Bool
  frameBuffer : Ptr
  backBufferView : Ptr
  sizeInPixels : Int × Int
  blend : NativeOut
  zeroBlend : FosterBlend

/-- The function `FosterInitialize_D3D11` (lines 927-1036), up to the adapter
description that is only logged. The result pairs the returned `bool` with the
state. -/
def FosterInitialize_D3D11 (env : InitializeEnv) (w : World) : Option (Bool × World) :=
  if ¬ env.windowInfo = true then
    some (false, w.emit (.FosterLogError .Failed_to_get_window_info))
  else if ¬ env.isWindow = true then
    some (false, w.emit (.FosterLogError .Invalid_window_handle_for_D3D11))
  else
    let w := (w.setFdx { w.fdx with
      swapChain := env.swapChain, device := env.device, context := env.context }).emit
        (.CreateDeviceAndSwapChain env.size.1 env.size.2)
    if ¬ env.deviceOk = true then
      some (false, w.emit (.FosterLogError .Failed_to_create_a_D3D11_device))
    else
      let w := w.emit .SwapChain_GetBuffer
      if ¬ env.bufferOk = true then
        some (false, w.emit (.FosterLogError .Failed_to_get_the_back_buffer))
      else
        let w := (w.setFdx { w.fdx with backBufferView := env.backBufferView }).emit
          (.CreateRenderTargetView env.frameBuffer)
        let w := w.emit (.Texture2D_Release env.frameBuffer)
        let w := w.setFdx { w.fdx with
          max_texture_size := D3D11_REQ_TEXTURE2D_U_OR_V_DIMENSION
          max_texture_image_units := 65535
          max_renderbuffer_size := D3D11_REQ_RENDER_TO_BUFFER_WINDOW_WIDTH }
        -- initialize rest of state (lines 1002-1009)
        let w := w.setFdx { w.fdx with stateInitializing := true }
        let zeroRect : FosterRect := { x := 0, y := 0, w := 0, h := 0 }
        match FosterBindFrameBuffer_D3D11 env.sizeInPixels NULL w with
        | none => none
        | some w =>
          match FosterSetBlend_D3D11 env.blend (some env.zeroBlend) w with
          | none => none
          | some w =>
            let w := FosterSetViewport_D3D11 0 zeroRect w
            let w := w.setFdx { w.fdx with stateInitializing := false }
            some (true, w)

/-! ## Texture reference counting -/

/-- The function `FosterTextureReturnReference_D3D11` (lines 656-668). -/
def FosterTextureReturnReference_D3D11 (texture : Ptr) (w : World) : Option World :=
  if texture ≠ NULL then
    match w.textures texture with
    | none => none
    | some t =>
      let t := { t with refCount := wrap32 (t.refCount - 1) }
      if t.refCount ≤ 0 then
        let w := if t.disposed = 0 then
          w.emit (.FosterLogError .Texture_is_being_freed_without_deleting_its_GPU_Texture_Data)
          else w
        some ((w.setTexture texture none).emit (.SDL_free (.texture texture)))
      else
        some (w.setTexture texture (some t))
  else
    some w

/-- The function `FosterTextureRequestReference_D3D11` (lines 670-675); the result
pairs the returned pointer with the state. -/
def FosterTextureRequestReference_D3D11 (texture : Ptr) (w : World) : Option (Ptr × World) :=
  if texture ≠ NULL then
    match w.textures texture with
    | none => none
    | some t =>
      some (texture, w.setTexture texture (some { t with refCount := wrap32 (t.refCount + 1) }))
  else
    some (texture, w)

/-- What the driver and the allocator hand back during `FosterTextureCreate_D3D11`:
the two native create results, the address returned by `SDL_malloc` and the
contents found in that block (`SDL_malloc` does not clear it). -/
structure TextureCreateEnv where
  texture : NativeOut
  view : NativeOut
  block : Ptr
  found : FosterTexture_D3D11

/-- The DXGI format chosen by the `switch` at lines 1094-1108. -/
def textureFormatToDXGI : FosterTextureFormat → DXGI_FORMAT
  | .FOSTER_TEXTURE_FORMAT_R8 => .DXGI_FORMAT_R8_UNORM
  | .FOSTER_TEXTURE_FORMAT_R8G8B8A8 => .DXGI_FORMAT_R8G8B8A8_UNORM
  | .FOSTER_TEXTURE_FORMAT_DEPTH24_STENCIL8 => .DXGI_FORMAT_R16_UNORM

/-- The function `FosterTextureCreate_D3D11` (lines 1071-1125); the result pairs the
returned handle (`NULL` on failure) with the state. The six assignments of lines
1118-1123 overwrite `texture`, `view`, `refCount`, `width`, `height` and
`dxgiFormat` of the fresh block; `sampler` and `disposed` keep what was found. -/
def FosterTextureCreate_D3D11 (env : TextureCreateEnv) (width height : Int)
    (format : FosterTextureFormat) (w : World) : Option (Ptr × World) :=
  if width > w.fdx.max_texture_size ∨ height > w.fdx.max_texture_size then
    some (NULL, w.emit (.FosterLogError .Exceeded_Max_Texture_Size))
  else
    let dxgi := textureFormatToDXGI format
    let w := w.emit (.CreateTexture2D width height dxgi)
    if ¬ env.texture.ok = true then
      some (NULL, w.emit (.FosterLogError .Failed_to_create_Texture))
    else
      let w := w.emit (.CreateShaderResourceView env.texture.out)
      if ¬ env.view.ok = true then
        some (NULL, w.emit (.FosterLogError .Failed_to_create_Shader_Resource_View))
      else if env.block = NULL then
        none
      else
        let tex : FosterTexture_D3D11 := { env.found with
          texture := env.texture.out
          view := env.view.out
          refCount := 1
          width := width
          height := height
          dxgiFormat := dxgi }
        some (env.block, w.setTexture env.block (some tex))

/-- The function `FosterTextureDestroy_D3D11` (lines 1147-1159). -/
def FosterTextureDestroy_D3D11 (texture : Ptr) (w : World) : Option World :=
  match w.texture? texture with
  | none => none
  | some tex =>
    if tex.disposed = 0 then
      let w := w.setTexture texture (some { tex with disposed := 1 })
      let w := if tex.view ≠ NULL then w.emit (.ShaderResourceView_Release tex.view) else w
      let w := if tex.texture ≠ NULL then w.emit (.Texture2D_Release tex.texture) else w
      FosterTextureReturnReference_D3D11 texture w
    else
      some w

/-! ## Shader texture slots and shader teardown -/

/-- One pass of the loop body of `FosterShaderSetTexture_D3D11` (lines 1427-1432)
for slot `i`: reads `values[i]` and, when it is non-null, returns the reference held
in `it->textures[i]` and stores a requested reference to the incoming texture. -/
def setTextureSlot (shader : Ptr) (values : List Ptr) (w : World) (i : Nat) : Option World :=
  match values[i]? with
  | none => none
  | some v =>
    if v ≠ NULL then
      match w.shader? shader with
      | none => none
      | some it =>
        match it.textures[i]? with
        | none => none
        | some old =>
          match FosterTextureReturnReference_D3D11 old w with
          | none => none
          | some w =>
            match FosterTextureRequestReference_D3D11 v w with
            | none => none
            | some (tex, w) =>
              some (w.setShader shader (some { it with textures := it.textures.set i tex }))
    else
      some w

/-- The function `FosterShaderSetTexture_D3D11` (lines 1408-1434). -/
def FosterShaderSetTexture_D3D11 (shader : Ptr) (index : Int) (values : List Ptr)
    (w : World) : Option World :=
  match w.shader? shader with
  | none => none
  | some it =>
    if index < 0 ∨ index ≥ it.uniformCount then
      some (w.emit (.FosterLogError .Invalid_Texture_Index))
    else
      match it.uniforms[index.toNat]? with
      | none => none
      | some uniform =>
        if uniform.type ≠ .FOSTER_UNIFORM_TYPE_TEXTURE2D then
          some (w.emit (.FosterLogError .Uniform_is_not_a_texture))
        else
          (List.range uniform.size).foldlM (setTextureSlot shader values) w

/-- The calls made for one sampler slot by the loop at lines 1544-1553. -/
def samplerSlotFrees : Option FosterSampler_D3D11 → List NativeCall
  | none => []
  | some s =>
    (if s.settings.isSome then [NativeCall.SDL_free (.samplerSettings s.addr)] else [])
    ++ (if s.sampler ≠ NULL then [NativeCall.SamplerState_Release s.sampler] else [])
    ++ [NativeCall.SDL_free (.samplerObject s.addr)]

/-- The function `FosterShaderDestroy_D3D11` (lines 1523-1558). It makes no call
into the layout cache. -/
def FosterShaderDestroy_D3D11 (shader : Ptr) (w : World) : Option World :=
  match w.shader? shader with
  | none => none
  | some sh =>
    let w := w.emit (.VertexShader_Release sh.vertexShader)
    let w := w.emit (.PixelShader_Release sh.pixelShader)
    match sh.textures.foldlM (fun w t => FosterTextureReturnReference_D3D11 t w) w with
    | none => none
    | some w =>
      let w := w.emits ((List.range sh.uniforms.length).map
        (fun i => NativeCall.SDL_free (.uniformName shader i)))
      let w := w.emits ((List.range sh.inputs.length).map
        (fun i => NativeCall.SDL_free (.inputName shader i)))
      let w := w.emits (sh.samplers.flatMap samplerSlotFrees)
      let w := w.emit (.SDL_free (.inputs shader))
      let w := w.emit (.SDL_free (.uniforms shader))
      some ((w.setShader shader none).emit (.SDL_free (.shader shader)))

/-! ## Input layout cache -/

/-- The element loop of `FosterVertexFormatEqual` (lines 381-387), entered once the
two element counts are known to agree. -/
def elementsEqualLoop : List FosterVertexFormatElement → List FosterVertexFormatElement → Bool
  | x :: xs, y :: ys =>
    if x.type ≠ y.type ∨ x.index ≠ y.index ∨ x.normalized ≠ y.normalized then false
    else elementsEqualLoop xs ys
  | _, _ => true

/-- The function `FosterVertexFormatEqual` (lines 377-389). -/
def FosterVertexFormatEqual (a b : FosterVertexFormat) : Bool :=
  if a.stride ≠ b.stride ∨ a.elementCount ≠ b.elementCount then false
  else elementsEqualLoop a.elements b.elements

/-- The function `FosterGetLayoutGroup` (lines 391-403): the index of the first
group whose format equals `format` (`none`: the null result). -/
def FosterGetLayoutGroup (cache : FosterLayoutCache_D3D11) (format : FosterVertexFormat) :
    Option Nat :=
  (List.range cache.length).find? fun i =>
    match cache[i]? with
    | some g => FosterVertexFormatEqual g.format format
    | none => false

/-- The inner loop of `FosterRemoveLayoutInstances` (lines 488-499) on one group's
instance list, from index `j`; `fuel` bounds the passes. After an instance is
removed at `j` the loop goes on at `j + 1`. Returns the remaining instances and the
layouts handed to `Release`, in order. -/
def removeInstancesLoop (shader : Ptr) :
    Nat → Nat → List FosterLayoutInstance_D3D11 → List FosterLayoutInstance_D3D11 × List Ptr
  | 0, _, insts => (insts, [])
  | fuel + 1, j, insts =>
    match insts[j]? with
    | none => (insts, [])
    | some inst =>
      if inst.shader = shader then
        let r := removeInstancesLoop shader fuel (j + 1) (insts.eraseIdx j)
        (r.1, inst.layout :: r.2)
      else
        removeInstancesLoop shader fuel (j + 1) insts

/-- The function `FosterRemoveLayoutInstances` (lines 484-501). `Release` is called
on the stored layout without a null test; a null layout is a call through null. -/
def FosterRemoveLayoutInstances (shader : Ptr) (w : World) : Option World :=
  let results := w.fdx.layoutCache.map fun g =>
    (g, removeInstancesLoop shader g.instances.length 0 g.instances)
  if results.any (fun r => r.2.2.any (fun l => l = NULL)) then none
  else
    some ((w.setFdx { w.fdx with
      layoutCache := results.map fun r => { r.1 with instances := r.2.1 } }).emits
        (results.flatMap fun r => r.2.2.map NativeCall.InputLayout_Release))

/-- What `FosterAddLayoutReference` (lines 503-519) does to the group list: a new
group starts with `references = 0` (line 515) and every path ends in
`group->references++` (line 518). -/
def addLayoutReference (cache : FosterLayoutCache_D3D11) (format : FosterVertexFormat) :
    FosterLayoutCache_D3D11 :=
  match FosterGetLayoutGroup cache format with
  | none =>
    let group : FosterLayoutGroup_D3D11 := { format := format, instances := [], references := 0 }
    let group := { group with references := wrap32 (group.references + 1) }
    cache ++ [group]
  | some i =>
    match cache[i]? with
    | none => cache
    | some group =>
      let group := { group with references := wrap32 (group.references + 1) }
      cache.set i group

/-- The function `FosterAddLayoutReference` (lines 503-519). -/
def FosterAddLayoutReference (format : FosterVertexFormat) (w : World) : World :=
  w.setFdx { w.fdx with layoutCache := addLayoutReference w.fdx.layoutCache format }

/-- What `FosterRemoveLayoutReference` (lines 521-543) does to the group list,
paired with the calls it makes: at `references <= 0` every non-null layout of the
group is released, the instance array is freed, the last group is copied over the
freed slot when that slot is not the last one, and `count` drops by one. -/
def removeLayoutReference (cache : FosterLayoutCache_D3D11) (format : FosterVertexFormat) :
    FosterLayoutCache_D3D11 × List NativeCall :=
  match FosterGetLayoutGroup cache format with
  | none => (cache, [])
  | some index =>
    match cache[index]? with
    | none => (cache, [])
    | some group =>
      let group := { group with references := wrap32 (group.references - 1) }
      let cache := cache.set index group
      if group.references ≤ 0 then
        let released := (group.instances.filter fun inst => inst.layout ≠ NULL).map
          fun inst => NativeCall.InputLayout_Release inst.layout
        let cache :=
          match cache.getLast? with
          | some last => if index < cache.length - 1 ∧ cache.length > 1
              then cache.set index last else cache
          | none => cache
        (cache.dropLast, released ++ [NativeCall.SDL_free (.layoutInstances index)])
      else
        (cache, [])

/-- The function `FosterRemoveLayoutReference` (lines 521-543). -/
def FosterRemoveLayoutReference (format : FosterVertexFormat) (w : World) : World :=
  let r := removeLayoutReference w.fdx.layoutCache format
  (w.setFdx { w.fdx with layoutCache := r.1 }).emits r.2

/-- The byte width the `switch` at lines 550-576 adds for one element type. -/
def vertexTypeBytes : FosterVertexType → Int
  | .FOSTER_VERTEX_TYPE_NONE => 0
  | .FOSTER_VERTEX_TYPE_FLOAT => 4
  | .FOSTER_VERTEX_TYPE_FLOAT2 => 8
  | .FOSTER_VERTEX_TYPE_FLOAT3 => 12
  | .FOSTER_VERTEX_TYPE_FLOAT4 => 16
  | .FOSTER_VERTEX_TYPE_BYTE4 => 4
  | .FOSTER_VERTEX_TYPE_UBYTE4 => 4
  | .FOSTER_VERTEX_TYPE_SHORT2 => 4
  | .FOSTER_VERTEX_TYPE_USHORT2 => 4
  | .FOSTER_VERTEX_TYPE_SHORT4 => 8
  | .FOSTER_VERTEX_TYPE_USHORT4 => 8

/-- The function `FosterGetLayoutByteCount` (lines 545-579). -/
def FosterGetLayoutByteCount (format : FosterVertexFormat) : Int :=
  format.elements.foldl (fun byteCount e => wrap32 (byteCount + vertexTypeBytes e.type)) 0

/-! ## Meshes -/

/-- The function `FosterMeshCreate_D3D11` (lines 1560-1571); `block` is the address
returned by `SDL_malloc` and `zeroIndexFormat` the enumerator numbered zero. The
result pairs the returned handle with the state. -/
def FosterMeshCreate_D3D11 (block : Ptr) (zeroIndexFormat : FosterIndexFormat) (w : World) :
    Option (Ptr × World) :=
  if block = NULL then none
  else
    let result : FosterMesh_D3D11 :=
      { vertexBuffer := NULL, indexBuffer := NULL, vertexBytes := 0, indexBytes := 0
        vertexSize := 0, indexSize := 0
        vertexFormat := { stride := 0, elements := [] }, elementsAllocated := false
        indexFormat := zeroIndexFormat }
    some (block, w.setMesh block (some result))

/-- The function `FosterMeshSetVertexFormat_D3D11` (lines 1573-1603); `created` is
what `CreateBuffer` hands back. The mesh's format is overwritten at line 1580, so
the format handed to `FosterRemoveLayoutReference` at line 1600 is the new one. -/
def FosterMeshSetVertexFormat_D3D11 (created : NativeOut) (mesh : Ptr)
    (format : FosterVertexFormat) (w : World) : Option World :=
  match w.mesh? mesh with
  | none => none
  | some m =>
    let w := if m.elementsAllocated = true then w.emit (.SDL_free (.formatElements mesh)) else w
    let m := { m with vertexFormat := format, elementsAllocated := true }
    let mw : FosterMesh_D3D11 × World :=
      if m.vertexBuffer = NULL then
        let w := w.emit (.CreateBuffer format.stride)
        let w := if created.ok then w else w.emit (.FosterLogError .Failed_to_create_vertex_buffer)
        ({ m with vertexBuffer := created.out }, w)
      else (m, w)
    let m := mw.1
    let w := mw.2
    let w := if m.vertexFormat.elementCount ≠ 0 then
      FosterRemoveLayoutReference m.vertexFormat w else w
    let w := FosterAddLayoutReference m.vertexFormat w
    let m := { m with vertexSize := FosterGetLayoutByteCount m.vertexFormat }
    some (w.setMesh mesh (some m))

/-- The function `FosterMeshDestroy_D3D11` (lines 1678-1690). -/
def FosterMeshDestroy_D3D11 (mesh : Ptr) (w : World) : Option World :=
  match w.mesh? mesh with
  | none => none
  | some m =>
    let w := if m.vertexBuffer ≠ NULL then w.emit (.Buffer_Release m.vertexBuffer) else w
    let w := if m.indexBuffer ≠ NULL then w.emit (.Buffer_Release m.indexBuffer) else w
    let w := if m.vertexFormat.elementCount ≠ 0 then
      FosterRemoveLayoutReference m.vertexFormat w else w
    some ((w.setMesh mesh none).emit (.SDL_free (.mesh mesh)))

/-! ## Uniform and sampler setters -/

/-- The function `FosterShaderSetUniform_D3D11` (lines 1388-1406). `values` is the
caller's data as bytes; `mapped` tells whether `Map` handed back a writable
address (its result is not tested by the code, the copy goes through whatever
`mapped.pData` holds). -/
def FosterShaderSetUniform_D3D11 (mapped : Bool) (shader : Ptr) (index : Int)
    (values : List Nat) (w : World) : Option World :=
  match w.shader? shader with
  | none => none
  | some sh =>
    if index < 0 ∨ index ≥ sh.uniformCount then
      some (w.emit (.FosterLogError .Invalid_Uniform_Index))
    else
      match sh.uniforms[index.toNat]? with
      | none => none
      | some uniform =>
        let w := w.emit (.Map sh.uniformBuffer)
        if mapped = true ∧ uniform.size ≤ values.length then
          let w := w.emit
            (.SDL_memcpy_mapped sh.uniformBuffer uniform.offset (values.take uniform.size))
          some (w.emit (.Unmap sh.uniformBuffer))
        else
          none

/-- What the allocator and the driver hand back for one slot during
`FosterShaderSetSampler_D3D11`: the address of a new `FosterSampler_D3D11` block
(used when the slot is null) and the result of `CreateSamplerState`. -/
structure SamplerSlotEnv where
  block : Ptr
  created : NativeOut

/-- The `D3D11_SAMPLER_DESC` filled at lines 1472-1480. -/
def samplerDescOf (s : FosterTextureSampler) : D3D11_SAMPLER_DESC :=
  { Filter := FosterFilterToD3D11 s.filter
    AddressU := FosterWrapToD3D11 s.wrapX
    AddressV := FosterWrapToD3D11 s.wrapY
    AddressW := .D3D11_TEXTURE_ADDRESS_CLAMP }

/-- Lines 1489-1503 of `FosterShaderSetSampler_D3D11` for one slot: create the native
sampler from `desc` (`none`: the zeroed descriptor), release the one held, store
the new one and, when `values` is non-null, store a copy of what `values` points to
(its first element, `snapshot`). -/
def createSamplerForSlot (created : NativeOut) (desc : Option D3D11_SAMPLER_DESC)
    (snapshot : Option FosterTextureSampler) (s : FosterSampler_D3D11) (w : World) :
    FosterSampler_D3D11 × World :=
  let w := w.emit (.CreateSamplerState desc)
  let w := if created.ok then w else w.emit (.FosterLogError .Failed_to_create_sampler_state)
  let w := if s.sampler ≠ NULL then w.emit (.SamplerState_Release s.sampler) else w
  let s := { s with sampler := created.out }
  match snapshot with
  | some v => ({ s with settings := some v }, w)
  | none => (s, w)

/-- One pass of the loop of `FosterShaderSetSampler_D3D11` (lines 1455-1504) for slot
`i`; `values` is `none` for the null pointer. The compare at line 1468 and the copy
at line 1502 read `values` itself, that is element 0 of the array; the conversion
at lines 1472-1474 reads `values[i]`. -/
def setSamplerSlot (env : Nat → SamplerSlotEnv) (shader : Ptr)
    (values : Option (List FosterTextureSampler)) (w : World) (i : Nat) : Option World :=
  match w.shader? shader with
  | none => none
  | some it =>
    match it.samplers[i]? with
    | none => none
    | some slot =>
      let fresh : Option FosterSampler_D3D11 :=
        match slot with
        | some s => some s
        | none =>
          if (env i).block = NULL then none
          else some { addr := (env i).block, sampler := NULL, settings := none }
      match fresh with
      | none => none
      | some s =>
        let store := fun (r : FosterSampler_D3D11 × World) =>
          r.2.setShader shader (some { it with samplers := it.samplers.set i (some r.1) })
        match values with
        | none =>
          match s.settings with
          | none => some (store (s, w))
          | some _ =>
            let w := w.emit (.SDL_free (.samplerSettings s.addr))
            let s := { s with settings := none }
            some (store (createSamplerForSlot (env i).created none none s w))
        | some vs =>
          let unchanged : Option Bool :=
            match s.settings with
            | none => some false
            | some cached =>
              match vs[0]? with
              | none => none
              | some first => some (decide (cached = first))
          match unchanged with
          | none => none
          | some true => some (store (s, w))
          | some false =>
            match vs[i]?, vs[0]? with
            | some v, some first =>
              some (store (createSamplerForSlot (env i).created (some (samplerDescOf v))
                (some first) s w))
            | _, _ => none

/-- The function `FosterShaderSetSampler_D3D11` (lines 1436-1505). -/
def FosterShaderSetSampler_D3D11 (env : Nat → SamplerSlotEnv) (shader : Ptr) (index : Int)
    (values : Option (List FosterTextureSampler)) (w : World) : Option World :=
  match w.shader? shader with
  | none => none
  | some it =>
    if index < 0 ∨ index ≥ it.uniformCount then
      some (w.emit (.FosterLogError .Invalid_Sampler_Index))
    else
      match it.uniforms[index.toNat]? with
      | none => none
      | some uniform =>
        if uniform.type ≠ .FOSTER_UNIFORM_TYPE_SAMPLER2D then
          some (w.emit (.FosterLogError .Uniform_is_not_a_sampler))
        else
          (List.range uniform.size).foldlM (setSamplerSlot env shader values) w

/-! ## Targets -/

/-- Write a target at an address (`none`: the block is freed). -/
def World.setTarget (w : World) (p : Ptr) (t : Option FosterTarget_D3D11) : World :=
  { w with targets := Function.update w.targets p t }

/-- What the stack, the driver and the allocator hand back during
`FosterTargetCreate_D3D11`: the array bound `FOSTER_MAX_TARGET_ATTACHMENTS`, what the
local `result` holds in `depthView` and `depthTexture` before anything is assigned
to them, the texture-creation results and the view-creation result per attachment,
and the address returned by `SDL_malloc`. -/
structure TargetCreateEnv where
  maxAttachments : Nat
  stackDepthView : Ptr
  stackDepthTexture : Ptr
  texture : Nat → TextureCreateEnv
  view : Nat → NativeOut
  block : Ptr

/-- The teardown loops at lines 1191-1194 and 1207-1210: for every `j < i` destroy
colour texture `j` and release colour view `j` (a call through the stored
pointer). -/
def destroyAttachmentsBelow (result : FosterTarget_D3D11) (i : Nat) (w : World) : Option World :=
  (List.range i).foldlM (fun w j =>
    match result.colorTextures[j]?, result.colorViews[j]? with
    | some tex, some view =>
      match FosterTextureDestroy_D3D11 tex w with
      | none => none
      | some w => if view = NULL then none else some (w.emit (.RenderTargetView_Release view))
    | _, _ => none) w

/-- How one pass of the attachment loop ends: the loop goes on with the updated
local `result`, or the function returns `NULL` from inside the pass. -/
inductive AttachmentOutcome where
  | next (result : FosterTarget_D3D11) (w : World)
  | returnedNull (w : World)

/-- One pass of the attachment loop of `FosterTargetCreate_D3D11` (lines 1177-1214)
for attachment `i` (`none`: the pass reads through a null or dangling pointer). In
both branches the created texture is stored in `result.depthTexture` and the
native view is created from `result.colorTextures[i]->texture`. -/
def targetAttachmentPass (env : TargetCreateEnv) (width height : Int)
    (attachments : List FosterTextureFormat) (i : Nat)
    (result : FosterTarget_D3D11) (w : World) : Option AttachmentOutcome :=
  match attachments[i]? with
  | none => none
  | some format =>
    if format = .FOSTER_TEXTURE_FORMAT_DEPTH24_STENCIL8 ∧ result.depthView ≠ NULL then
      some (.next result (w.emit (.FosterLogWarn .Multiple_Depth_Attachments_are_not_supported)))
    else
      match FosterTextureCreate_D3D11 (env.texture i) width height format w with
      | none => none
      | some (created, w) =>
        let result := { result with depthTexture := created }
        match result.colorTextures[i]? with
        | none => none
        | some slot =>
          match w.texture? slot with
          | none => none
          | some tex =>
            if format = .FOSTER_TEXTURE_FORMAT_DEPTH24_STENCIL8 then
              let w := w.emit (.CreateDepthStencilView tex.texture)
              let result := { result with depthView := (env.view i).out }
              if (env.view i).ok = true then some (.next result w)
              else
                let w := w.emit (.FosterLogError .Failed_to_create_depth_attachment)
                match FosterTextureDestroy_D3D11 result.depthTexture w with
                | none => none
                | some w => (destroyAttachmentsBelow result i w).map .returnedNull
            else
              let w := w.emit (.CreateRenderTargetView tex.texture)
              let result := { result with colorViews := result.colorViews.set i (env.view i).out }
              if (env.view i).ok = true then some (.next result w)
              else
                let w := w.emit (.FosterLogError .Failed_to_create_attachment)
                match FosterTextureDestroy_D3D11 slot w with
                | none => none
                | some w => (destroyAttachmentsBelow result i w).map .returnedNull

/-- The attachment loop of `FosterTargetCreate_D3D11` from pass `i`, `fuel` passes
at most. -/
def targetAttachmentLoop (env : TargetCreateEnv) (width height : Int)
    (attachments : List FosterTextureFormat) (attachmentCount : Nat) :
    Nat → Nat → FosterTarget_D3D11 → World → Option AttachmentOutcome
  | 0, _, result, w => some (.next result w)
  | fuel + 1, i, result, w =>
    if i < attachmentCount then
      match targetAttachmentPass env width height attachments i result w with
      | none => none
      | some (.returnedNull w) => some (.returnedNull w)
      | some (.next result w) =>
        targetAttachmentLoop env width height attachments attachmentCount fuel (i + 1) result w
    else
      some (.next result w)

/-- The function `FosterTargetCreate_D3D11` (lines 1161-1219); the result pairs the
returned handle (`NULL` on failure) with the state. -/
def FosterTargetCreate_D3D11 (env : TargetCreateEnv) (width height : Int)
    (attachments : List FosterTextureFormat) (attachmentCount : Int) (w : World) :
    Option (Ptr × World) :=
  let result : FosterTarget_D3D11 :=
    { depthView := env.stackDepthView
      width := width
      height := height
      colorViewCount := attachmentCount
      colorViews := List.replicate env.maxAttachments NULL
      colorTextures := List.replicate env.maxAttachments NULL
      depthTexture := env.stackDepthTexture }
  match targetAttachmentLoop env width height attachments attachmentCount.toNat
      attachmentCount.toNat 0 result w with
  | none => none
  | some (.returnedNull w) => some (NULL, w)
  | some (.next result w) =>
    if env.block = NULL then none
    else some (env.block, w.setTarget env.block (some result))

/-- The function `FosterTargetGetAttachment_D3D11` (lines 1221-1232); `debug` tells
whether `DEBUG` or `_DEBUG` is defined. The result pairs the returned handle with the
state. -/
def FosterTargetGetAttachment_D3D11 (debug : Bool) (target : Ptr) (index : Int) (w : World) :
    Option (Ptr × World) :=
  match w.target? target with
  | none => none
  | some tar =>
    if debug = true ∧ (index < 0 ∨ index ≥ tar.colorViewCount) then
      some (NULL, w.emit (.FosterLogError .Invalid_Attachment_Index))
    else if index < 0 then none
    else
      match tar.colorTextures[index.toNat]? with
      | none => none
      | some texture => some (texture, w)

/-! ## Clear -/

/-- An 8-bit-per-channel colour, as read by `FosterClear_D3D11`. -/
structure FosterColor where
  r : Nat
  g : Nat
  b : Nat
  a : Nat
  deriving DecidableEq, Repr

/-- The fields of `FosterClearCommand` that `FosterClear_D3D11` reads; `depth` is the
bit pattern of the `float`. -/
structure FosterClearCommand where
  target : Ptr
  clip : FosterRect
  color : FosterColor
  depth : Nat
  stencil : Int
  mask : Nat
  deriving DecidableEq, Repr

/-- The two mask constants `FosterClear_D3D11` tests, `FOSTER_CLEAR_MASK_COLOR` and
`FOSTER_CLEAR_MASK_DEPTH` (declared in `foster_renderer.h`). -/
structure ClearMaskBits where
  FOSTER_CLEAR_MASK_COLOR : Nat
  FOSTER_CLEAR_MASK_DEPTH : Nat
  deriving DecidableEq, Repr

/-- The view list, view count and depth view resolved at lines 1730-1744. -/
def clearViews (command : FosterClearCommand) (w : World) : Option (List Ptr × Int × Ptr) :=
  if command.target ≠ NULL then
    match w.targets command.target with
    | none => none
    | some t => some (t.colorViews, t.colorViewCount, t.depthView)
  else
    some ([w.fdx.backBufferView], 1, w.fdx.backBufferDepthView)

/-- The loop at lines 1755-1757 of `FosterClear_D3D11`: one `ClearRenderTargetView`
for each `i < viewCount`, on `view[i]`. -/
def clearColorViews (color : List Nat) (view : List Ptr) (viewCount : Int) (w : World) :
    Option World :=
  (List.range viewCount.toNat).foldlM (fun w i =>
    match view[i]? with
    | none => none
    | some v => some (w.emit (.ClearRenderTargetView v color))) w

/-- The function `FosterClear_D3D11` (lines 1726-1769). The colour handed to
`ClearRenderTargetView` is each component divided by `255.0f`; the log keeps the
four components before the division. -/
def FosterClear_D3D11 (bits : ClearMaskBits) (command : FosterClearCommand) (w : World) :
    Option World :=
  let w := FosterSetViewport_D3D11 1 command.clip w
  let w := FosterSetScissor_D3D11 0 w.fdx.stateScissor w
  match clearViews command w with
  | none => none
  | some (view, viewCount, depthView) =>
    let afterColor : Option World :=
      if command.mask &&& bits.FOSTER_CLEAR_MASK_COLOR = bits.FOSTER_CLEAR_MASK_COLOR then
        clearColorViews
          [command.color.r, command.color.g, command.color.b, command.color.a]
          view viewCount w
      else some w
    match afterColor with
    | none => none
    | some w =>
      let w := if command.mask &&& bits.FOSTER_CLEAR_MASK_DEPTH = bits.FOSTER_CLEAR_MASK_DEPTH
        then w.emit (.ClearDepthStencilView depthView .D3D11_CLEAR_DEPTH command.depth 0)
        else w
      let w := if command.mask &&& bits.FOSTER_CLEAR_MASK_DEPTH = bits.FOSTER_CLEAR_MASK_DEPTH
        then w.emit (.ClearDepthStencilView depthView .D3D11_CLEAR_STENCIL 0 command.stencil)
        else w
      some w

/-! ## Shader reflection and creation -/

/-- Reduction of a natural number to the range of a 32-bit `unsigned int`. -/
def wrapU32 (n : Nat) : Nat := n % 4294967296

/-- The C expression `x & ~15` on an `unsigned int`: `x` with its four low bits
cleared. -/
def clearLow4 (x : Nat) : Nat := x - x % 16

/-- The resource kinds `FosterReflectUniforms_D3D11` tells apart. -/
inductive D3D_SHADER_INPUT_TYPE where
  | D3D_SIT_CBUFFER
  | D3D_SIT_TEXTURE
  | D3D_SIT_SAMPLER
  | D3D_SIT_OTHER
  deriving DecidableEq, Repr

/-- The resource dimensions `FosterReflectUniforms_D3D11` tells apart. -/
inductive D3D_SRV_DIMENSION where
  | D3D_SRV_DIMENSION_TEXTURE2D
  | D3D_SRV_DIMENSION_OTHER
  deriving DecidableEq, Repr

/-- The variable types `FosterUniformTypeFromD3D11` tells apart. -/
inductive D3D_SHADER_VARIABLE_TYPE where
  | D3D_SVT_FLOAT
  | D3D_SVT_SAMPLER
  | D3D_SVT_TEXTURE2D
  | D3D_SVT_OTHER
  deriving DecidableEq, Repr

/-- The fields of `D3D11_SHADER_INPUT_BIND_DESC` that are read, with the `HRESULT`
of the `GetResourceBindingDesc` call that fills it (`ok`); `Type_` is the field
`Type`. -/
structure ReflectedResource where
  ok : Bool
  Name : String
  Type_ : D3D_SHADER_INPUT_TYPE
  Dimension : D3D_SRV_DIMENSION
  BindPoint : Nat
  BindCount : Nat
  deriving DecidableEq, Repr

/-- The fields of `D3D11_SHADER_TYPE_DESC` that are read; `Type_` is the field
`Type`. -/
structure D3D11_SHADER_TYPE_DESC where
  Type_ : D3D_SHADER_VARIABLE_TYPE
  Rows : Nat
  Columns : Nat
  deriving DecidableEq, Repr

/-- One constant-buffer variable as reflection reports it: the `HRESULT`s of the
variable's and the type's `GetDesc` (`ok`, `typeOk`) and the fields read from the
two descriptors. -/
structure ReflectedVariable where
  ok : Bool
  Name : String
  StartOffset : Nat
  Size : Nat
  typeOk : Bool
  typeDesc : D3D11_SHADER_TYPE_DESC
  deriving DecidableEq, Repr

/-- One constant buffer as reflection reports it. -/
structure ReflectedBuffer where
  ok : Bool
  Variables : List ReflectedVariable
  deriving DecidableEq, Repr

/-- What an `ID3D11ShaderReflection` reports for one stage: the `HRESULT` of
`GetDesc` and the `BoundResources` and `ConstantBuffers` entries in index order. -/
structure ShaderReflection where
  descOk : Bool
  resources : List ReflectedResource
  constantBuffers : List ReflectedBuffer
  deriving DecidableEq, Repr

/-- The function `FosterUniformTypeFromD3D11` (lines 274-301). The `D3D_SVT_FLOAT`
case has no `break`: a float shape that matches none of its tests falls through to
the sampler case. -/
def FosterUniformTypeFromD3D11 (desc : D3D11_SHADER_TYPE_DESC) : FosterUniformType :=
  match desc.Type_ with
  | .D3D_SVT_FLOAT =>
    if desc.Rows = 1 then
      if desc.Columns = 1 then .FOSTER_UNIFORM_TYPE_FLOAT
      else if desc.Columns = 2 then .FOSTER_UNIFORM_TYPE_FLOAT2
      else if desc.Columns = 3 then .FOSTER_UNIFORM_TYPE_FLOAT3
      else if desc.Columns = 4 then .FOSTER_UNIFORM_TYPE_FLOAT4
      else .FOSTER_UNIFORM_TYPE_SAMPLER2D
    else if desc.Rows = 2 ∧ desc.Columns = 3 then .FOSTER_UNIFORM_TYPE_MAT3X2
    else if desc.Rows = 4 ∧ desc.Columns = 4 then .FOSTER_UNIFORM_TYPE_MAT4X4
    else .FOSTER_UNIFORM_TYPE_SAMPLER2D
  | .D3D_SVT_SAMPLER => .FOSTER_UNIFORM_TYPE_SAMPLER2D
  | .D3D_SVT_TEXTURE2D => .FOSTER_UNIFORM_TYPE_TEXTURE2D
  | .D3D_SVT_OTHER => .FOSTER_UNIFORM_TYPE_NONE

/-- The locals of `FosterReflectUniforms_D3D11` while it runs: the array `*dest`, the
counter `*bytes`, `uniformCount`, and the text of the `CHECK_RESULT` that made the
function return, if one did. -/
structure ReflectPass where
  dest : List FosterUniform_D3D11
  bytes : Nat
  uniformCount : Nat
  failed : Option ErrorText
  deriving DecidableEq, Repr

/-- Append one uniform as lines 858-868, 872-882 and 907-916 do: the array is
resized to `uniformCount + 1` entries, entry `uniformCount` is filled with the
current `*bytes` as offset, `*bytes` grows by `size` and `uniformCount` by one. -/
def ReflectPass.push (p : ReflectPass) (name : String) (size : Nat)
    (type : FosterUniformType) : ReflectPass :=
  { p with
    dest := p.dest.take p.uniformCount
      ++ [{ name := name, index := p.uniformCount, size := size, offset := p.bytes
            type := type }]
    bytes := wrapU32 (p.bytes + size)
    uniformCount := wrapU32 (p.uniformCount + 1) }

/-- One pass of the bound-resource loop (lines 850-884). -/
def reflectResource (p : ReflectPass) (r : ReflectedResource) : ReflectPass :=
  if p.failed.isSome then p
  else if ¬ r.ok = true then
    { p with failed := some .Failed_to_get_resource_binding_description }
  else if r.Type_ = .D3D_SIT_TEXTURE ∧ r.Dimension = .D3D_SRV_DIMENSION_TEXTURE2D then
    p.push r.Name r.BindCount .FOSTER_UNIFORM_TYPE_TEXTURE2D
  else if r.Type_ = .D3D_SIT_SAMPLER then
    p.push r.Name r.BindCount .FOSTER_UNIFORM_TYPE_SAMPLER2D
  else p

/-- One pass of the variable loop (lines 895-917). -/
def reflectVariable (p : ReflectPass) (v : ReflectedVariable) : ReflectPass :=
  if p.failed.isSome then p
  else if ¬ v.ok = true then { p with failed := some .Failed_to_get_variable_description }
  else if ¬ v.typeOk = true then { p with failed := some .Failed_to_get_type_description }
  else p.push v.Name v.Size (FosterUniformTypeFromD3D11 v.typeDesc)

/-- One pass of the constant-buffer loop (lines 887-918). -/
def reflectBuffer (p : ReflectPass) (b : ReflectedBuffer) : ReflectPass :=
  if p.failed.isSome then p
  else if ¬ b.ok = true then
    { p with failed := some .Failed_to_get_constant_buffer_description }
  else b.Variables.foldl reflectVariable p

/-- The function `FosterReflectUniforms_D3D11` (lines 842-920) on its locals. A
failed `CHECK_RESULT` makes it return `false`, that is 0; what it has written to
`*dest` and `*bytes` until then stays. -/
def reflectUniforms (reflector : ShaderReflection) (dest : List FosterUniform_D3D11)
    (start_at : Int) (bytes : Nat) : ReflectPass :=
  if ¬ reflector.descOk = true then
    { dest := dest, bytes := bytes, uniformCount := 0
      failed := some .Failed_to_get_vertex_shader_description }
  else
    let p : ReflectPass :=
      { dest := dest, bytes := bytes, uniformCount := wrapU32 (start_at % 4294967296).toNat
        failed := none }
    let p := reflector.resources.foldl reflectResource p
    reflector.constantBuffers.foldl reflectBuffer p

/-- The value `FosterReflectUniforms_D3D11` returns. -/
def ReflectPass.returned (p : ReflectPass) : Nat :=
  if p.failed.isSome then 0 else p.uniformCount

/-- The function `FosterReflectUniforms_D3D11` (lines 842-920) with its log: the
returned count, the new `*dest` and `*bytes`. -/
def FosterReflectUniforms_D3D11 (reflector : ShaderReflection)
    (dest : List FosterUniform_D3D11) (start_at : Int) (bytes : Nat) (w : World) :
    Nat × List FosterUniform_D3D11 × Nat × World :=
  let p := reflectUniforms reflector dest start_at bytes
  (p.returned, p.dest, p.bytes,
    match p.failed with
    | some text => w.emit (.FosterLogError text)
    | none => w)

/-- The two sources of `FosterShaderData` (`none`: a null pointer). -/
structure FosterShaderData where
  vertexShader : Option String
  fragmentShader : Option String
  deriving DecidableEq, Repr

/-- What the compiler, the driver, reflection, the stack and the allocator hand
back during `FosterShaderCreate_D3D11`. `inputs` are the `GetInputParameterDesc`
results (with their `HRESULT`) for the `InputParameters` of the vertex stage;
`stackUniformBuffer` is what the local `result.uniformBuffer` holds before anything
is assigned to it; `maxUniformTextures` is `FOSTER_MAX_UNIFORM_TEXTURES`. -/
structure ShaderCreateEnv where
  vertexCompile : NativeOut
  pixelCompile : NativeOut
  errorBlob : Ptr
  vertexShader : NativeOut
  pixelShader : NativeOut
  reflectVertexOk : Bool
  reflectPixelOk : Bool
  vertex : ShaderReflection
  pixel : ShaderReflection
  inputs : List (Bool × FosterShaderInput_D3D11)
  uniformBuffer : NativeOut
  stackUniformBuffer : Ptr
  maxUniformTextures : Nat
  block : Ptr

/-- The input-semantics loop (lines 1345-1353): the inputs read before the first
failing `GetInputParameterDesc`, and whether one failed. -/
def reflectInputs : List (Bool × FosterShaderInput_D3D11) → List FosterShaderInput_D3D11 × Bool
  | [] => ([], false)
  | (ok, input) :: rest =>
    if ok = true then
      let r := reflectInputs rest
      (input :: r.1, r.2)
    else ([], true)

/-- The function `FosterShaderCreate_D3D11` (lines 1247-1386); the result pairs the
returned handle (`NULL` on failure) with the state. -/
def FosterShaderCreate_D3D11 (env : ShaderCreateEnv) (data : FosterShaderData) (w : World) :
    Option (Ptr × World) :=
  if data.vertexShader.isNone then
    some (NULL, w.emit (.FosterLogError .Invalid_Vertex_Shader))
  else if data.fragmentShader.isNone then
    some (NULL, w.emit (.FosterLogError .Invalid_Fragment_Shader))
  else
    let w := w.emit (.D3DCompile .vertex)
    if ¬ env.vertexCompile.ok = true then
      some (NULL, (w.emit (.FosterLogError .Failed_to_compile_vertex_shader)).emit
        (.Blob_Release env.errorBlob))
    else
      let w := w.emit (.D3DCompile .pixel)
      if ¬ env.pixelCompile.ok = true then
        some (NULL, (w.emit (.FosterLogError .Failed_to_compile_pixel_shader)).emit
          (.Blob_Release env.errorBlob))
      else
        let vertexBlob := env.vertexCompile.out
        let pixelBlob := env.pixelCompile.out
        let w := w.emit (.CreateVertexShader vertexBlob)
        if ¬ env.vertexShader.ok = true then
          some (NULL, w.emit (.FosterLogError .Failed_to_create_vertex_shader))
        else
          let w := w.emit (.CreatePixelShader pixelBlob)
          if ¬ env.pixelShader.ok = true then
            some (NULL, w.emit (.FosterLogError .Failed_to_create_pixel_shader))
          else
            let w := w.emit (.D3DReflect vertexBlob)
            if ¬ env.reflectVertexOk = true then
              some (NULL, w.emit (.FosterLogError .Failed_to_reflect_vertex_shader))
            else
              let w := w.emit (.D3DReflect pixelBlob)
              if ¬ env.reflectPixelOk = true then
                some (NULL, w.emit (.FosterLogError .Failed_to_reflect_pixel_shader))
              else
                let rv := FosterReflectUniforms_D3D11 env.vertex [] 0 0 w
                let rp := FosterReflectUniforms_D3D11 env.pixel rv.2.1 rv.1 rv.2.2.1 rv.2.2.2
                let uniformCount := rp.1
                let uniforms := rp.2.1
                let uniformBytes := rp.2.2.1
                let w := rp.2.2.2
                if ¬ env.vertex.descOk = true then
                  some (NULL, w.emit (.FosterLogError .Failed_to_get_vertex_shader_description))
                else
                  let inputs := reflectInputs env.inputs
                  if inputs.2 = true then
                    some (NULL,
                      w.emit (.FosterLogError .Failed_to_get_input_parameter_description))
                  else
                    let w := (w.emit (.ShaderReflection_Release .vertex)).emit
                      (.ShaderReflection_Release .pixel)
                    let byteWidth := clearLow4 (wrapU32 (uniformBytes + 15))
                    if uniformBytes > 0 ∧ ¬ env.uniformBuffer.ok = true then
                      some (NULL, (w.emit (.CreateBuffer byteWidth)).emit
                        (.FosterLogError .Failed_to_create_uniform_buffer))
                    else
                      let w := if uniformBytes > 0 then w.emit (.CreateBuffer byteWidth) else w
                      let uniformBuffer :=
                        if uniformBytes > 0 then env.uniformBuffer.out
                        else env.stackUniformBuffer
                      let w := w.emit (.Blob_Release pixelBlob)
                      if env.block = NULL then none
                      else
                        let result : FosterShader_D3D11 :=
                          { vertexShader := env.vertexShader.out
                            pixelShader := env.pixelShader.out
                            uniformBuffer := uniformBuffer
                            uniforms := uniforms.take uniformCount
                            textures := List.replicate env.maxUniformTextures NULL
                            samplers := List.replicate env.maxUniformTextures none
                            inputs := inputs.1
                            vertexBlob := vertexBlob }
                        some (env.block, w.setShader env.block (some result))

/-! ## Layout instances, binding and drawing -/

/-- Conversion of a vertex element type (lines 303-332). -/
def FosterVertexTypeToD3D11 : FosterVertexType → DXGI_FORMAT
  | .FOSTER_VERTEX_TYPE_NONE => .DXGI_FORMAT_UNKNOWN
  | .FOSTER_VERTEX_TYPE_FLOAT => .DXGI_FORMAT_R32_FLOAT
  | .FOSTER_VERTEX_TYPE_FLOAT2 => .DXGI_FORMAT_R32G32_FLOAT
  | .FOSTER_VERTEX_TYPE_FLOAT3 => .DXGI_FORMAT_R32G32B32_FLOAT
  | .FOSTER_VERTEX_TYPE_FLOAT4 => .DXGI_FORMAT_R32G32B32A32_FLOAT
  | .FOSTER_VERTEX_TYPE_BYTE4 => .DXGI_FORMAT_R8G8B8A8_SINT
  | .FOSTER_VERTEX_TYPE_UBYTE4 => .DXGI_FORMAT_R8G8B8A8_UINT
  | .FOSTER_VERTEX_TYPE_SHORT2 => .DXGI_FORMAT_R16G16_SINT
  | .FOSTER_VERTEX_TYPE_USHORT2 => .DXGI_FORMAT_R16G16_UINT
  | .FOSTER_VERTEX_TYPE_SHORT4 => .DXGI_FORMAT_R16G16B16A16_SINT
  | .FOSTER_VERTEX_TYPE_USHORT4 => .DXGI_FORMAT_R16G16B16A16_UINT

/-- The element loop of `FosterGetLayoutInstance` (lines 423-464) from element `i`
with the running `byteOffset`: element `i` takes its semantic from
`shader->inputs[i]` (`none`: a read past the end of `inputs`). The `switch` at lines
436-463 adds the same widths as the one in `FosterGetLayoutByteCount`. -/
def inputElementLoop (inputs : List FosterShaderInput_D3D11) :
    Nat → Int → List FosterVertexFormatElement → Option (List D3D11_INPUT_ELEMENT_DESC)
  | _, _, [] => some []
  | i, byteOffset, e :: rest =>
    match inputs[i]? with
    | none => none
    | some input =>
      match inputElementLoop inputs (i + 1) (wrap32 (byteOffset + vertexTypeBytes e.type)) rest with
      | none => none
      | some descs =>
        some ({ SemanticName := input.name, SemanticIndex := input.index
                Format := FosterVertexTypeToD3D11 e.type
                AlignedByteOffset := byteOffset } :: descs)

/-- The function `FosterGetLayoutInstance` (lines 405-481); `created` is what
`CreateInputLayout` hands back. The result pairs the returned layout (`NULL` when
there is no group or the creation fails) with the state. -/
def FosterGetLayoutInstance (created : NativeOut) (shader : Ptr) (format : FosterVertexFormat)
    (w : World) : Option (Ptr × World) :=
  match FosterGetLayoutGroup w.fdx.layoutCache format with
  | none => some (NULL, w)
  | some gi =>
    match w.fdx.layoutCache[gi]? with
    | none => none
    | some group =>
      match group.instances.find? (fun inst => inst.shader = shader ∧ inst.layout ≠ NULL) with
      | some inst => some (inst.layout, w)
      | none =>
        match w.shader? shader with
        | none => none
        | some sh =>
          match inputElementLoop sh.inputs 0 0 format.elements with
          | none => none
          | some elements =>
            if sh.vertexBlob = NULL then none
            else
              let w := (w.emit (.CreateInputLayout elements sh.vertexBlob)).emit
                (.SDL_free .inputElements)
              if ¬ created.ok = true then
                some (NULL, w.emit (.FosterLogError .Failed_to_create_input_layout))
              else
                let group := { group with
                  instances := group.instances ++ [{ shader := shader, layout := created.out }] }
                some (created.out,
                  w.setFdx { w.fdx with layoutCache := w.fdx.layoutCache.set gi group })

/-- One pass of the slot loop of `FosterBindShader_D3D11` (lines 364-373) for slot `i`
(`none`: a read through a dangling texture pointer or past an array). Samplers are
compared by the address of their `FosterSampler_D3D11` block. -/
def bindShaderSlot (sh : FosterShader_D3D11) (w : World) (i : Nat) : Option World :=
  match sh.textures[i]?, sh.samplers[i]?, w.fdx.stateTextureSlots[i]?,
      w.fdx.stateSamplerSlots[i]? with
  | some tex, some samp, some curTex, some curSamp =>
    let afterTexture : Option World :=
      if tex ≠ NULL ∧ curTex ≠ tex then
        match w.textures tex with
        | none => none
        | some t =>
          some ((w.setFdx { w.fdx with
            stateTextureSlots := w.fdx.stateTextureSlots.set i tex }).emit
              (.PSSetShaderResources i t.view))
      else some w
    match afterTexture with
    | none => none
    | some w =>
      match samp with
      | some s =>
        if curSamp ≠ s.addr then
          some ((w.setFdx { w.fdx with
            stateSamplerSlots := w.fdx.stateSamplerSlots.set i s.addr }).emit
              (.PSSetSamplers i s.sampler))
        else some w
      | none => some w
  | _, _, _, _ => none

/-- The `if` at lines 352-359 of `FosterBindShader_D3D11`. -/
def bindShaderPrograms (shader : Ptr) (sh : FosterShader_D3D11) (w : World) : World :=
  if w.fdx.stateInitializing = true ∨ w.fdx.stateShader ≠ shader then
    let w := w.setFdx { w.fdx with stateShader := shader }
    let w := (w.emit (.VSSetShader sh.vertexShader)).emit (.PSSetShader sh.pixelShader)
    if sh.uniformBuffer ≠ NULL then w.emit (.VSSetConstantBuffers 0 [sh.uniformBuffer]) else w
  else w

/-- The function `FosterBindShader_D3D11` (lines 350-375); the slot loop runs over the
`FOSTER_MAX_UNIFORM_TEXTURES` entries of `shader->textures`. -/
def FosterBindShader_D3D11 (shader : Ptr) (w : World) : Option World :=
  match w.shader? shader with
  | none => none
  | some sh =>
    (List.range sh.textures.length).foldlM (bindShaderSlot sh) (bindShaderPrograms shader sh w)

/-- Lines 606-618 of `FosterBindMesh`: the vertex buffer and the index buffer are
bound when they differ from the tracked ones. -/
def bindMeshBuffers (m : FosterMesh_D3D11) (w : World) : World :=
  let w := if w.fdx.stateInitializing = true ∨ w.fdx.stateVertexBuffer ≠ m.vertexBuffer then
    (w.setFdx { w.fdx with stateVertexBuffer := m.vertexBuffer }).emit
      (.IASetVertexBuffers m.vertexBuffer m.vertexSize)
    else w
  if w.fdx.stateInitializing = true ∨ w.fdx.stateIndexBuffer ≠ m.indexBuffer then
    (w.setFdx { w.fdx with stateIndexBuffer := m.indexBuffer }).emit
      (.IASetIndexBuffer m.indexBuffer
        (if m.indexFormat = .FOSTER_INDEX_FORMAT_THIRTY_TWO then .DXGI_FORMAT_R32_UINT
         else .DXGI_FORMAT_R16_UINT))
  else w

/-- The function `FosterBindMesh` (lines 597-619); `created` is what
`CreateInputLayout` hands back if a layout is created. The layout is looked up only
when the mesh's vertex format differs from the tracked one. -/
def FosterBindMesh (created : NativeOut) (mesh : Ptr) (w : World) : Option World :=
  match w.mesh? mesh with
  | none => none
  | some m =>
    if w.fdx.stateInitializing = true
        ∨ ¬ FosterVertexFormatEqual w.fdx.stateVertexFormat m.vertexFormat = true then
      match FosterGetLayoutInstance created w.fdx.stateShader m.vertexFormat w with
      | none => none
      | some (layout, w) =>
        some (bindMeshBuffers m
          ((w.setFdx { w.fdx with stateVertexFormat := m.vertexFormat }).emit
            (.IASetInputLayout layout)))
    else some (bindMeshBuffers m w)

/-- The fields of `FosterDrawCommand` (declared in `foster_renderer.h`) that
`FosterDraw_D3D11` reads. -/
structure FosterDrawCommand where
  target : Ptr
  mesh : Ptr
  shader : Ptr
  hasViewport : Int
  hasScissor : Int
  viewport : FosterRect
  scissor : FosterRect
  indexCount : Int
  instanceCount : Int
  compare : FosterCompare
  cull : FosterCull
  blend : FosterBlend
  deriving DecidableEq, Repr

/-- What the platform and the driver hand back during one `FosterDraw_D3D11`: the
window size in pixels and the results of the native creates that the draw may
issue. -/
structure DrawEnv where
  sizeInPixels : Int × Int
  layout : NativeOut
  blend : NativeOut
  compare : NativeOut
  cull : NativeOut

/-- The function `FosterDraw_D3D11` (lines 1692-1724). The viewport and the scissor
are set (lines 1699-1700) before the command's target is bound (line 1701). -/
def FosterDraw_D3D11 (env : DrawEnv) (command : FosterDrawCommand) (w : World) : Option World :=
  let w := FosterSetViewport_D3D11 command.hasViewport command.viewport w
  let w := FosterSetScissor_D3D11 command.hasScissor command.scissor w
  match FosterBindFrameBuffer_D3D11 env.sizeInPixels command.target w with
  | none => none
  | some w =>
    let w := w.emit .IASetPrimitiveTopology
    match FosterBindShader_D3D11 command.shader w with
    | none => none
    | some w =>
      match FosterBindMesh env.layout command.mesh w with
      | none => none
      | some w =>
        match FosterSetBlend_D3D11 env.blend (some command.blend) w with
        | none => none
        | some w =>
          let w := FosterSetCompare_D3D11 env.compare command.compare w
          let w := FosterSetCull_D3D11 env.cull command.cull w
          if command.instanceCount > 0 then
            some (w.emit (.DrawIndexedInstanced command.indexCount command.instanceCount 0))
          else
            some (w.emit (.DrawIndexed command.indexCount 0))

/-! ## Reading the log -/

/-- Is the call a native rasterizer-state creation? -/
def NativeCall.isCreateRasterizerState : NativeCall → Bool
  | .CreateRasterizerState _ => true
  | _ => false

/-- Is the call the native application of a rasterizer (cull) state? -/
def NativeCall.isRSSetState : NativeCall → Bool
  | .RSSetState _ => true
  | _ => false

/-- Is the call the native application of render targets? -/
def NativeCall.isOMSetRenderTargets : NativeCall → Bool
  | .OMSetRenderTargets _ _ _ => true
  | _ => false

/-- Is the call the native application of a viewport? -/
def NativeCall.isRSSetViewports : NativeCall → Bool
  | .RSSetViewports _ _ => true
  | _ => false

/-- Is the call the native application of scissor rects? -/
def NativeCall.isRSSetScissorRects : NativeCall → Bool
  | .RSSetScissorRects _ _ => true
  | _ => false

/-- Is the call the native application of a blend state? -/
def NativeCall.isOMSetBlendState : NativeCall → Bool
  | .OMSetBlendState _ _ _ => true
  | _ => false

/-- Is the call the native application of a depth-stencil state? -/
def NativeCall.isOMSetDepthStencilState : NativeCall → Bool
  | .OMSetDepthStencilState _ _ => true
  | _ => false

/-- Is the call a release of a native input layout? -/
def NativeCall.isInputLayout_Release : NativeCall → Bool
  | .InputLayout_Release _ => true
  | _ => false

/-- Number of calls in a log that satisfy `p`. -/
def calls (p : NativeCall → Bool) (log : List NativeCall) : Nat := log.countP p

/-! ## Sample states -/

/-- A tracker with nothing bound, an 800 x 600 framebuffer and an empty layout cache. -/
def sampleFdx : FosterDX11State :=
  { stateInitializing := false
    device := 1, context := 2, swapChain := 3, backBufferView := 4
    backBufferDepthView := NULL, depthState := NULL, blendState := NULL
    rasterizerState := NULL, layoutCache := []
    stateVertexBuffer := NULL, stateIndexBuffer := NULL
    stateTextureSlots := [NULL, NULL, NULL, NULL]
    stateSamplerSlots := [NULL, NULL, NULL, NULL]
    stateFrameBuffer := 4, stateShader := NULL
    stateFrameBufferWidth := 800, stateFrameBufferHeight := 600
    stateViewport := { x := 0, y := 0, w := 800, h := 600 }
    stateScissor := { x := 0, y := 0, w := 0, h := 0 }
    stateBlend :=
      { colorOp := .FOSTER_BLEND_OP_ADD, colorSrc := .FOSTER_BLEND_FACTOR_Zero
        colorDst := .FOSTER_BLEND_FACTOR_Zero, alphaOp := .FOSTER_BLEND_OP_ADD
        alphaSrc := .FOSTER_BLEND_FACTOR_Zero, alphaDst := .FOSTER_BLEND_FACTOR_Zero
        mask := 0, rgba := 0 }
    stateCompare := .FOSTER_COMPARE_NONE
    stateBlendEnabled := false
    stateCull := .FOSTER_CULL_NONE
    stateVertexFormat := { stride := 0, elements := [] }
    max_renderbuffer_size := 16384, max_texture_image_units := 65535
    max_texture_size := 16384 }

/-- A world with the sample tracker, no live heap object and an empty log. -/
def sampleWorld : World :=
  { fdx := sampleFdx
    textures := fun _ => none
    targets := fun _ => none
    shaders := fun _ => none
    meshes := fun _ => none
    log := [] }

/-- Premultiplied-alpha blending, as a sample descriptor. -/
def sampleBlend : FosterBlend :=
  { colorOp := .FOSTER_BLEND_OP_ADD, colorSrc := .FOSTER_BLEND_FACTOR_One
    colorDst := .FOSTER_BLEND_FACTOR_OneMinusSrcAlpha, alphaOp := .FOSTER_BLEND_OP_ADD
    alphaSrc := .FOSTER_BLEND_FACTOR_One, alphaDst := .FOSTER_BLEND_FACTOR_OneMinusSrcAlpha
    mask := 15, rgba := 4294967295 }

/-- A texture wrapper as `FosterTextureCreate_D3D11` leaves it when the fresh block
read zero in `disposed`: one reference, not disposed, both native handles set. -/
def sampleTexture : FosterTexture_D3D11 :=
  { texture := 5, view := 6
    sampler := { filter := .FOSTER_TEXTURE_FILTER_NEAREST
                 wrapX := .FOSTER_TEXTURE_WRAP_REPEAT, wrapY := .FOSTER_TEXTURE_WRAP_REPEAT }
    width := 64, height := 64, dxgiFormat := .DXGI_FORMAT_R8G8B8A8_UNORM
    refCount := 1, disposed := 0 }

/-- The sample world with one live texture at address 10 whose only reference is
the creator's. -/
def soleOwnerWorld : World :=
  sampleWorld.setTexture 10 (some sampleTexture)

/-- The sample world with one live texture at address 10 that is also referenced
once more (reference count 2). -/
def sharedTextureWorld : World :=
  sampleWorld.setTexture 10 (some { sampleTexture with refCount := 2 })

/-- A shader with one `Texture2D` uniform of array size 1 at index 0, four empty
texture slots and four empty sampler slots. -/
def sampleShader : FosterShader_D3D11 :=
  { vertexShader := 21, pixelShader := 22, uniformBuffer := NULL
    uniforms := [{ name := "u_texture", index := 0, size := 1, offset := 0
                   type := .FOSTER_UNIFORM_TYPE_TEXTURE2D }]
    textures := [NULL, NULL, NULL, NULL]
    samplers := [none, none, none, none]
    inputs := [{ name := "POSITION", index := 0 }]
    vertexBlob := 23 }

/-- The sample world with the sample shader live at address 20. -/
def shaderWorld : World :=
  sampleWorld.setShader 20 (some sampleShader)

/-- A texture creation in which both native creates succeed, `SDL_malloc` returns
address 10 and the block still holds an earlier wrapper whose `disposed` was 1. -/
def staleBlockEnv : TextureCreateEnv :=
  { texture := { ok := true, out := 5 }, view := { ok := true, out := 6 }, block := 10
    found := { sampleTexture with texture := 70, view := 71, refCount := 0, disposed := 1 } }

/-- A vertex format with one three-float element. -/
def sampleFormat : FosterVertexFormat :=
  { stride := 12
    elements := [{ index := 0, type := .FOSTER_VERTEX_TYPE_FLOAT3, normalized := 0 }] }

/-- The sample tracker whose layout cache holds one group for the sample format,
referenced by two meshes, with one layout instance for shader 20 and one for
shader 30. -/
def twoInstanceWorld : World :=
  ((sampleWorld.setShader 20 (some sampleShader)).setShader 30 (some sampleShader)).setFdx
    { sampleFdx with layoutCache :=
        [{ format := sampleFormat
           instances := [{ shader := 20, layout := 41 }, { shader := 30, layout := 42 }]
           references := 2 }] }

/-- A bring-up in which every platform and native call succeeds, on an 800 x 600
window. -/
def sampleInitializeEnv : InitializeEnv :=
  { windowInfo := true, isWindow := true, size := (800, 600), deviceOk := true
    swapChain := 3, device := 1, context := 2, bufferOk := true, frameBuffer := 9
    backBufferView := 4, sizeInPixels := (800, 600), blend := { ok := true, out := 11 }
    zeroBlend := sampleFdx.stateBlend }

/-- Nearest filtering with repeat wrapping. -/
def nearestRepeat : FosterTextureSampler :=
  { filter := .FOSTER_TEXTURE_FILTER_NEAREST
    wrapX := .FOSTER_TEXTURE_WRAP_REPEAT, wrapY := .FOSTER_TEXTURE_WRAP_REPEAT }

/-- Linear filtering with clamp-to-edge wrapping. -/
def linearClamp : FosterTextureSampler :=
  { filter := .FOSTER_TEXTURE_FILTER_LINEAR
    wrapX := .FOSTER_TEXTURE_WRAP_CLAMP_TO_EDGE, wrapY := .FOSTER_TEXTURE_WRAP_CLAMP_TO_EDGE }

/-- Linear filtering with mirrored-repeat wrapping. -/
def linearMirror : FosterTextureSampler :=
  { filter := .FOSTER_TEXTURE_FILTER_LINEAR
    wrapX := .FOSTER_TEXTURE_WRAP_MIRRORED_REPEAT
    wrapY := .FOSTER_TEXTURE_WRAP_MIRRORED_REPEAT }

/-- A shader with one `Sampler2D` uniform of array size 2 at index 0 and four empty
sampler slots. -/
def samplerShader : FosterShader_D3D11 :=
  { sampleShader with
    uniforms := [{ name := "u_sampler", index := 0, size := 2, offset := 0
                   type := .FOSTER_UNIFORM_TYPE_SAMPLER2D }] }

/-- The sample world with the sampler shader live at address 20. -/
def samplerWorld : World :=
  sampleWorld.setShader 20 (some samplerShader)

/-- An allocator and driver that succeed for every slot: slot `i` gets the block
`80 + i` and the native sampler `90 + i`. -/
def sampleSamplerEnv : Nat → SamplerSlotEnv :=
  fun i => { block := 80 + i, created := { ok := true, out := 90 + i } }

/-- Is the call a native sampler-state creation? -/
def NativeCall.isCreateSamplerState : NativeCall → Bool
  | .CreateSamplerState _ => true
  | _ => false

/-- Is the call a native colour clear? -/
def NativeCall.isClearRenderTargetView : NativeCall → Bool
  | .ClearRenderTargetView _ _ => true
  | _ => false

/-- Is the call a native depth clear? -/
def NativeCall.isClearDepth : NativeCall → Bool
  | .ClearDepthStencilView _ .D3D11_CLEAR_DEPTH _ _ => true
  | _ => false

/-- Is the call a native stencil clear? -/
def NativeCall.isClearStencil : NativeCall → Bool
  | .ClearDepthStencilView _ .D3D11_CLEAR_STENCIL _ _ => true
  | _ => false

/-- The clear-mask constants with colour as bit 0 and depth as bit 1. -/
def sampleMaskBits : ClearMaskBits :=
  { FOSTER_CLEAR_MASK_COLOR := 1, FOSTER_CLEAR_MASK_DEPTH := 2 }

/-- A clear of the back buffer with the clip rect `{10, 20, 100, 50}` that asks for
colour and depth. -/
def sampleClear : FosterClearCommand :=
  { target := NULL, clip := { x := 10, y := 20, w := 100, h := 50 }
    color := { r := 255, g := 128, b := 0, a := 255 }
    depth := 1065353216, stencil := 0, mask := 3 }

/-- A target creation in which every native call and allocation succeeds, with room
for four attachments; attachment `i` gets the texture block `100 + i`. -/
def sampleTargetEnv : TargetCreateEnv :=
  { maxAttachments := 4, stackDepthView := NULL, stackDepthTexture := NULL
    texture := fun i =>
      { texture := { ok := true, out := 110 + i }, view := { ok := true, out := 120 + i }
        block := 100 + i, found := sampleTexture }
    view := fun i => { ok := true, out := 130 + i }
    block := 50 }

/-! ## Byte counts of a reflected stage -/

/-- The bytes of the constant-buffer variables of one stage: the sum of `Size` over
the variables of its constant buffers. -/
def constantBytes (reflector : ShaderReflection) : Nat :=
  (reflector.constantBuffers.map (fun b => (b.Variables.map (fun v => v.Size)).sum)).sum

/-- What one bound resource adds to the byte counter: its `BindCount` when it is a
2D texture or a sampler, nothing otherwise. -/
def resourceBytes (r : ReflectedResource) : Nat :=
  if (r.Type_ = .D3D_SIT_TEXTURE ∧ r.Dimension = .D3D_SRV_DIMENSION_TEXTURE2D)
      ∨ r.Type_ = .D3D_SIT_SAMPLER then r.BindCount else 0

/-- The sum of `BindCount` over the 2D-texture and sampler resources of one stage. -/
def bindingBytes (reflector : ShaderReflection) : Nat :=
  (reflector.resources.map resourceBytes).sum

/-- Every reflection query of the stage succeeds. -/
def ShaderReflection.allOk (reflector : ShaderReflection) : Bool :=
  reflector.descOk
  && reflector.resources.all (fun r => r.ok)
  && reflector.constantBuffers.all (fun b => b.ok && b.Variables.all (fun v => v.ok && v.typeOk))

/-- Is the call a native buffer creation? -/
def NativeCall.isCreateBuffer : NativeCall → Bool
  | .CreateBuffer _ => true
  | _ => false

/-- A vertex stage with one constant buffer holding one 4 x 4 float matrix (64
bytes) and no bound texture or sampler. -/
def matrixStage : ShaderReflection :=
  { descOk := true
    resources := [{ ok := true, Name := "Constants", Type_ := .D3D_SIT_CBUFFER
                    Dimension := .D3D_SRV_DIMENSION_OTHER, BindPoint := 0, BindCount := 1 }]
    constantBuffers :=
      [{ ok := true
         Variables := [{ ok := true, Name := "u_matrix", StartOffset := 0, Size := 64
                         typeOk := true
                         typeDesc := { Type_ := .D3D_SVT_FLOAT, Rows := 4, Columns := 4 } }] }] }

/-- A pixel stage with one 2D texture and one sampler, each of bind count 1, and no
constant buffer. -/
def textureStage : ShaderReflection :=
  { descOk := true
    resources := [{ ok := true, Name := "u_texture", Type_ := .D3D_SIT_TEXTURE
                    Dimension := .D3D_SRV_DIMENSION_TEXTURE2D, BindPoint := 0, BindCount := 1 },
                  { ok := true, Name := "u_texture_sampler", Type_ := .D3D_SIT_SAMPLER
                    Dimension := .D3D_SRV_DIMENSION_OTHER, BindPoint := 0, BindCount := 1 }]
    constantBuffers := [] }

/-- A stage with no bound resource and no constant buffer. -/
def emptyStage : ShaderReflection :=
  { descOk := true, resources := [], constantBuffers := [] }

/-- A shader creation in which every compile, create, reflect and allocation step
succeeds, for the given two stages. -/
def sampleShaderEnv (vertex pixel : ShaderReflection) : ShaderCreateEnv :=
  { vertexCompile := { ok := true, out := 31 }, pixelCompile := { ok := true, out := 32 }
    errorBlob := NULL
    vertexShader := { ok := true, out := 33 }, pixelShader := { ok := true, out := 34 }
    reflectVertexOk := true, reflectPixelOk := true
    vertex := vertex, pixel := pixel
    inputs := [(true, { name := "POSITION", index := 0 })]
    uniformBuffer := { ok := true, out := 35 }, stackUniformBuffer := NULL
    maxUniformTextures := 4, block := 20 }

/-- Two non-null shader sources. -/
def sampleShaderData : FosterShaderData :=
  { vertexShader := some "vs_main", fragmentShader := some "ps_main" }

/-- Every step of `FosterShaderCreate_D3D11` other than the uniform-buffer creation
succeeds, and so does the uniform-buffer creation if it is attempted. -/
def ShaderCreateEnv.succeeds (env : ShaderCreateEnv) (data : FosterShaderData) : Bool :=
  data.vertexShader.isSome && data.fragmentShader.isSome
  && env.vertexCompile.ok && env.pixelCompile.ok
  && env.vertexShader.ok && env.pixelShader.ok
  && env.reflectVertexOk && env.reflectPixelOk
  && env.vertex.allOk && env.pixel.allOk
  && !(reflectInputs env.inputs).2
  && env.uniformBuffer.ok
  && decide (env.block ≠ NULL)

/-- The byte total the uniform buffer is sized from: the constant bytes of both
stages plus the bind counts of their 2D textures and samplers, as an
`unsigned int`. -/
def countedUniformBytes (vertex pixel : ShaderReflection) : Nat :=
  wrapU32 (constantBytes vertex + constantBytes pixel
    + (bindingBytes vertex + bindingBytes pixel))

/-! ## Reachable states -/

/-- A device on which no texture has been created yet: no live wrapper, every
texture slot of every shader null, nothing logged. -/
def EmptyDevice (w : World) : Prop :=
  (∀ p, w.textures p = none)
  ∧ (∀ p sh, w.shaders p = some sh → ∀ t ∈ sh.textures, t = NULL)
  ∧ w.log = []

/-- The states reached from an empty device by `FosterTextureCreate_D3D11` (into a
block that holds no live wrapper), `FosterTextureDestroy_D3D11`,
`FosterShaderSetTexture_D3D11` and `FosterShaderDestroy_D3D11`, each call returning. -/
inductive Reachable : World → Prop where
  | empty {w : World} : EmptyDevice w → Reachable w
  | textureCreate {w w1 : World} (env : TextureCreateEnv) (width height : Int)
      (format : FosterTextureFormat) (p : Ptr) :
      Reachable w → w.textures env.block = none →
      FosterTextureCreate_D3D11 env width height format w = some (p, w1) → Reachable w1
  | textureDestroy {w w1 : World} (texture : Ptr) :
      Reachable w → FosterTextureDestroy_D3D11 texture w = some w1 → Reachable w1
  | shaderSetTexture {w w1 : World} (shader : Ptr) (index : Int) (values : List Ptr) :
      Reachable w → FosterShaderSetTexture_D3D11 shader index values w = some w1 →
      Reachable w1
  | shaderDestroy {w w1 : World} (shader : Ptr) :
      Reachable w → FosterShaderDestroy_D3D11 shader w = some w1 → Reachable w1

/-- The sample world in which the texture at address 10 is referenced by its
creator and by slot 0 of the shader at address 20 (reference count 2). -/
def boundTextureWorld : World :=
  (sampleWorld.setTexture 10 (some { sampleTexture with refCount := 2 })).setShader 20
    (some { sampleShader with textures := [10, NULL, NULL, NULL] })

/-- The sample world with the sample shader at address 20 (slot 0 holding the
texture at address 10, reference count 2) and a second texture at address 11 with
one reference. -/
def twoTextureWorld : World :=
  boundTextureWorld.setTexture 11 (some { sampleTexture with texture := 7, view := 8 })

/-- A cache with a group for the sample format (two references, one instance for
shader 20) followed by a group for a two-float format (one reference). -/
def twoGroupCache : FosterLayoutCache_D3D11 :=
  [{ format := sampleFormat, instances := [{ shader := 20, layout := 41 }], references := 2 },
   { format := { stride := 8
                 elements := [{ index := 0, type := .FOSTER_VERTEX_TYPE_FLOAT2, normalized := 0 }] }
     instances := [{ shader := 20, layout := 43 }, { shader := 30, layout := 44 }]
     references := 1 }]

/-- The sample world whose layout cache holds one group for the sample format with
one reference and no instance, the sample shader being live at address 20. -/
def oneGroupWorld : World :=
  shaderWorld.setFdx { sampleFdx with
    layoutCache := [{ format := sampleFormat, instances := [], references := 1 }] }

/-- The sample tracker whose one layout group holds two instances for shader 20
followed by one for shader 30. -/
def doubledInstanceWorld : World :=
  twoInstanceWorld.setFdx { sampleFdx with layoutCache :=
    [{ format := sampleFormat
       instances := [{ shader := 20, layout := 41 }, { shader := 20, layout := 42 },
                     { shader := 30, layout := 43 }]
       references := 2 }] }

/-! ## The layout cache invariant -/

/-- What holds of each group of a reachable layout cache: the reference count is a
positive `int`, no two instances are keyed to the same shader, and every instance
has a non-null layout. -/
def LayoutGroupInvariant (g : FosterLayoutGroup_D3D11) : Prop :=
  1 ≤ g.references ∧ g.references ≤ 2147483647
  ∧ g.instances.Pairwise (fun a b => a.shader ≠ b.shader)
  ∧ ∀ inst ∈ g.instances, inst.layout ≠ NULL

/-- What holds of a reachable layout cache: no two groups have formats that are equal
under `FosterVertexFormatEqual`, and every group satisfies `LayoutGroupInvariant`. -/
def LayoutCacheInvariant (cache : FosterLayoutCache_D3D11) : Prop :=
  (∀ (i j : Nat) (gi gj : FosterLayoutGroup_D3D11), cache[i]? = some gi → cache[j]? = some gj → i ≠ j →
    FosterVertexFormatEqual gi.format gj.format = false)
  ∧ ∀ g ∈ cache, LayoutGroupInvariant g

/-- The states reached from an empty layout cache by `FosterAddLayoutReference` (the
increment at line 518 not overflowing `int`), `FosterRemoveLayoutReference`,
`FosterGetLayoutInstance` (a successful native creation handing back a non-null
layout) and `FosterRemoveLayoutInstances`, each call returning, interleaved with
anything that leaves the cache alone. -/
inductive CacheReachable : World → Prop where
  | empty {w : World} : w.fdx.layoutCache = [] → CacheReachable w
  | addReference {w : World} (f : FosterVertexFormat) :
      CacheReachable w →
      (∀ i g, FosterGetLayoutGroup w.fdx.layoutCache f = some i →
        w.fdx.layoutCache[i]? = some g → g.references < 2147483647) →
      CacheReachable (FosterAddLayoutReference f w)
  | removeReference {w : World} (f : FosterVertexFormat) :
      CacheReachable w → CacheReachable (FosterRemoveLayoutReference f w)
  | getInstance {w w1 : World} (created : NativeOut) (s : Ptr) (f : FosterVertexFormat)
      (layout : Ptr) :
      CacheReachable w → (created.ok = true → created.out ≠ NULL) →
      FosterGetLayoutInstance created s f w = some (layout, w1) → CacheReachable w1
  | removeInstances {w w1 : World} (s : Ptr) :
      CacheReachable w → FosterRemoveLayoutInstances s w = some w1 → CacheReachable w1
  | other {w w1 : World} :
      CacheReachable w → w1.fdx.layoutCache = w.fdx.layoutCache → CacheReachable w1

/-- Is the call a native texture bind for slot `i`? -/
def NativeCall.isTextureBindAt (i : Nat) : NativeCall → Bool
  | .PSSetShaderResources j _ => decide (j = i)
  | _ => false

/-- Is the call a native bind of a vertex program? -/
def NativeCall.isVSSetShader : NativeCall → Bool
  | .VSSetShader _ => true
  | _ => false

/-- A second shader that holds the texture at address 10 in slot 0, with its own
programs. -/
def otherShader : FosterShader_D3D11 :=
  { sampleShader with vertexShader := 24, pixelShader := 25, vertexBlob := 26
                      textures := [10, NULL, NULL, NULL] }

/-- The world in which the shaders at addresses 20 and 30 both hold the texture at
address 10 in slot 0. -/
def sharedSlotWorld : World :=
  (boundTextureWorld.setTexture 10 (some { sampleTexture with refCount := 3 })).setShader 30
    (some otherShader)

/-- The input layout bound natively after the calls of a log: the argument of the
last `IASetInputLayout` (`none`: no layout was ever bound). -/
def boundInputLayout (log : List NativeCall) : Option Ptr :=
  log.foldl (fun cur c =>
    match c with
    | .IASetInputLayout layout => some layout
    | _ => cur) none

/-- Is the call a native input-layout bind? -/
def NativeCall.isIASetInputLayout : NativeCall → Bool
  | .IASetInputLayout _ => true
  | _ => false

/-- A 256 x 256 target with one colour view. -/
def sampleTarget : FosterTarget_D3D11 :=
  { depthView := NULL, width := 256, height := 256, colorViewCount := 1
    colorViews := [61, NULL, NULL, NULL], colorTextures := [62, NULL, NULL, NULL]
    depthTexture := NULL }

/-- A mesh with the sample vertex format and both buffers created. -/
def sampleMesh : FosterMesh_D3D11 :=
  { vertexBuffer := 51, indexBuffer := 52, vertexBytes := 64, indexBytes := 16
    vertexSize := 12, indexSize := 0, vertexFormat := sampleFormat
    elementsAllocated := true, indexFormat := .FOSTER_INDEX_FORMAT_SIXTEEN }

/-- The sample tracker (back buffer of 800 x 600 bound) with two shaders (addresses
20 and 30, no texture in any slot), the sample mesh at address 50, the sample
target at address 60 and a layout cache holding one group for the sample format,
referenced once, with no instance. -/
def drawWorld : World :=
  ((((sampleWorld.setShader 20 (some sampleShader)).setShader 30
      (some { sampleShader with vertexShader := 24, pixelShader := 25, vertexBlob := 26 })).setMesh
      50 (some sampleMesh)).setTarget 60 (some sampleTarget)).setFdx
    { sampleFdx with
      layoutCache := [{ format := sampleFormat, instances := [], references := 1 }] }

/-- A draw of the sample mesh with the given shader and target, viewport and scissor
as given, three indices, no instancing. -/
def sampleDraw (shader target : Ptr) (hasViewport : Int) (viewport : FosterRect) :
    FosterDrawCommand :=
  { target := target, mesh := 50, shader := shader
    hasViewport := hasViewport, hasScissor := 0
    viewport := viewport, scissor := { x := 0, y := 0, w := 0, h := 0 }
    indexCount := 3, instanceCount := 0
    compare := .FOSTER_COMPARE_NONE, cull := .FOSTER_CULL_NONE, blend := sampleBlend }

/-- A draw in which every native create succeeds; a created input layout is
`layout`. -/
def sampleDrawEnv (layout : Ptr) : DrawEnv :=
  { sizeInPixels := (800, 600), layout := { ok := true, out := layout }
    blend := { ok := true, out := 11 }, compare := { ok := true, out := 12 }
    cull := { ok := true, out := 13 } }

/-- A pixel stage that binds two 2D textures, each of bind count 1, and no constant
buffer. -/
def twoTextureStage : ShaderReflection :=
  { descOk := true
    resources := [{ ok := true, Name := "u_first", Type_ := .D3D_SIT_TEXTURE
                    Dimension := .D3D_SRV_DIMENSION_TEXTURE2D, BindPoint := 0, BindCount := 1 },
                  { ok := true, Name := "u_second", Type_ := .D3D_SIT_TEXTURE
                    Dimension := .D3D_SRV_DIMENSION_TEXTURE2D, BindPoint := 1, BindCount := 1 }]
    constantBuffers := [] }

/-- The sample world with two live textures, at addresses 10 and 11, each with the
creator's reference only, and no shader. -/
def texturePairWorld : World :=
  (sampleWorld.setTexture 10 (some sampleTexture)).setTexture 11
    (some { sampleTexture with texture := 7, view := 8 })

/-! ## The order of reflected uniforms -/

/-- A uniform before it is given an index and an offset: name, size and kind. -/
abbrev UniformEntry := String × Nat × FosterUniformType

/-- The entry of a bound resource that is a 2D texture or a sampler (`none`: the
resource is neither and yields no uniform). -/
def resourceEntry (r : ReflectedResource) : Option UniformEntry :=
  if r.Type_ = .D3D_SIT_TEXTURE ∧ r.Dimension = .D3D_SRV_DIMENSION_TEXTURE2D then
    some (r.Name, r.BindCount, .FOSTER_UNIFORM_TYPE_TEXTURE2D)
  else if r.Type_ = .D3D_SIT_SAMPLER then
    some (r.Name, r.BindCount, .FOSTER_UNIFORM_TYPE_SAMPLER2D)
  else none

/-- The entry of a constant-buffer variable. -/
def variableEntry (v : ReflectedVariable) : UniformEntry :=
  (v.Name, v.Size, FosterUniformTypeFromD3D11 v.typeDesc)

/-- The texture and sampler resources of a stage, in reflection order. -/
def stageResources (reflector : ShaderReflection) : List UniformEntry :=
  reflector.resources.filterMap resourceEntry

/-- The constant variables of a stage, buffer by buffer, in reflection order. -/
def stageConstants (reflector : ShaderReflection) : List UniformEntry :=
  reflector.constantBuffers.flatMap (fun b => b.Variables.map variableEntry)

/-- The order the specification gives for the uniform list: vertex-stage resources,
vertex-stage constants, pixel-stage resources, pixel-stage constants. -/
def specUniformOrder (vertex pixel : ShaderReflection) : List UniformEntry :=
  (stageResources vertex ++ stageConstants vertex)
    ++ (stageResources pixel ++ stageConstants pixel)

/-- The entries laid out from a first index and a first offset: each entry takes the
next index, and its offset is the first offset plus the sizes of the entries before
it. -/
def layOut : List UniformEntry → Nat → Nat → List FosterUniform_D3D11
  | [], _, _ => []
  | e :: rest, index, offset =>
    { name := e.1, index := index, size := e.2.1, offset := offset, type := e.2.2 }
      :: layOut rest (index + 1) (offset + e.2.1)

/-- The entries pushed one after the other onto the locals of a reflection pass. -/
def pushEntries (p : ReflectPass) (es : List UniformEntry) : ReflectPass :=
  es.foldl (fun q e => q.push e.1 e.2.1 e.2.2) p

/-- The sum of the sizes of a list of uniforms. -/
def sizeSum (us : List FosterUniform_D3D11) : Nat := (us.map (fun u => u.size)).sum

/-- A vertex stage with one sampler-less 2D texture of bind count 2 and one constant
buffer holding a 4 x 4 float matrix (64 bytes) and a float4 (16 bytes). -/
def mixedStage : ShaderReflection :=
  { descOk := true
    resources := [{ ok := true, Name := "Constants", Type_ := .D3D_SIT_CBUFFER
                    Dimension := .D3D_SRV_DIMENSION_OTHER, BindPoint := 0, BindCount := 1 },
                  { ok := true, Name := "u_heights", Type_ := .D3D_SIT_TEXTURE
                    Dimension := .D3D_SRV_DIMENSION_TEXTURE2D, BindPoint := 0, BindCount := 2 }]
    constantBuffers :=
      [{ ok := true
         Variables := [{ ok := true, Name := "u_matrix", StartOffset := 0, Size := 64
                         typeOk := true
                         typeDesc := { Type_ := .D3D_SVT_FLOAT, Rows := 4, Columns := 4 } },
                       { ok := true, Name := "u_tint", StartOffset := 64, Size := 16
                         typeOk := true
                         typeDesc := { Type_ := .D3D_SVT_FLOAT, Rows := 1, Columns := 4 } }] }] }

/-! # Theorems -/

/-! ## Arithmetic of `wrap32` -/

theorem wrap32_of_isInt32 {z : Int} (h : isInt32 z) : wrap32 z = z := by
  unfold isInt32 at h
  unfold wrap32
  omega

theorem wrap32_wrap32_sub (a b : Int) : wrap32 (wrap32 a - b) = wrap32 (a - b) := by
  unfold wrap32
  omega

theorem wrap32_flip {H y h : Int} (hr : isInt32 (H - y - h)) :
    wrap32 (wrap32 (H - y) - h) = H - y - h := by
  rw [wrap32_wrap32_sub, wrap32_of_isInt32 hr]

/-! ## State setters -/

theorem FosterSetCull_D3D11_changed (c : NativeOut) (cull : FosterCull) (w : World)
    (h : w.fdx.stateInitializing = true ∨ cull ≠ w.fdx.stateCull) :
    FosterSetCull_D3D11 c cull w =
      { w with
        fdx := { w.fdx with rasterizerState := c.out, stateCull := cull }
        log := w.log
          ++ (if w.fdx.rasterizerState ≠ NULL
              then [NativeCall.RasterizerState_Release w.fdx.rasterizerState] else [])
          ++ [NativeCall.CreateRasterizerState (rasterizerDescOf cull)]
          ++ (if c.ok = true then []
              else [NativeCall.FosterLogError .Failed_to_create_rasterizer_state])
          ++ [NativeCall.RSSetState c.out] } := by
  unfold FosterSetCull_D3D11
  rw [if_pos h]
  by_cases h1 : w.fdx.rasterizerState = NULL <;> by_cases h2 : c.ok = true <;>
    simp [h1, h2, World.emit, World.setFdx]

theorem FosterSetCull_D3D11_same (c : NativeOut) (cull : FosterCull) (w : World)
    (h : ¬ (w.fdx.stateInitializing = true ∨ cull ≠ w.fdx.stateCull)) :
    FosterSetCull_D3D11 c cull w = w := by
  unfold FosterSetCull_D3D11
  rw [if_neg h]

theorem FosterSetCompare_D3D11_changed (c : NativeOut) (compare : FosterCompare) (w : World)
    (h : w.fdx.stateInitializing = true ∨ compare ≠ w.fdx.stateCompare) :
    FosterSetCompare_D3D11 c compare w =
      { w with
        fdx := { w.fdx with depthState := c.out, stateCompare := compare }
        log := w.log
          ++ (if w.fdx.depthState ≠ NULL
              then [NativeCall.DepthStencilState_Release w.fdx.depthState] else [])
          ++ [NativeCall.CreateDepthStencilState (depthDescOf compare)]
          ++ (if c.ok = true then []
              else [NativeCall.FosterLogError .Failed_to_create_depth_stencil_state])
          ++ [NativeCall.OMSetDepthStencilState c.out 0] } := by
  unfold FosterSetCompare_D3D11
  rw [if_pos h]
  by_cases h1 : w.fdx.depthState = NULL <;> by_cases h2 : c.ok = true <;>
    simp [h1, h2, World.emit, World.setFdx]

theorem applyBlend_eq (c : NativeOut) (b : FosterBlend) (w : World) :
    applyBlend c b w =
      { w with
        fdx := { w.fdx with blendState := c.out, stateBlendEnabled := true, stateBlend := b }
        log := w.log
          ++ (if w.fdx.blendState ≠ NULL
              then [NativeCall.BlendState_Release w.fdx.blendState] else [])
          ++ [NativeCall.CreateBlendState (blendDescOf b)]
          ++ (if c.ok = true then []
              else [NativeCall.FosterLogError .Failed_to_create_blend_state])
          ++ [NativeCall.OMSetBlendState c.out (blendFactorOf b) b.mask] } := by
  unfold applyBlend
  by_cases h1 : w.fdx.blendState = NULL <;> by_cases h2 : c.ok = true <;>
    simp [h1, h2, World.emit, World.setFdx]

/-- Claim C5. With `stateInitializing` clear, two consecutive `FosterSetCull_D3D11`
calls with the same mode `X` create a native rasterizer state exactly once over
both calls when `X` differs from the mode tracked before the first call (and not at
all when it is the tracked mode), the second call creates none and changes
nothing, and afterwards the tracked mode is `X`. -/
theorem C5_SetCull_twice_creates_once (w : World) (X : FosterCull) (c1 c2 : NativeOut)
    (hinit : w.fdx.stateInitializing = false) :
    calls NativeCall.isCreateRasterizerState
        (FosterSetCull_D3D11 c2 X (FosterSetCull_D3D11 c1 X w)).log
      = calls NativeCall.isCreateRasterizerState w.log
        + (if X ≠ w.fdx.stateCull then 1 else 0)
    ∧ FosterSetCull_D3D11 c2 X (FosterSetCull_D3D11 c1 X w) = FosterSetCull_D3D11 c1 X w
    ∧ (FosterSetCull_D3D11 c2 X (FosterSetCull_D3D11 c1 X w)).fdx.stateCull = X := by
  by_cases hx : X = w.fdx.stateCull
  · have hs : FosterSetCull_D3D11 c1 X w = w :=
      FosterSetCull_D3D11_same c1 X w (by simp [hinit, hx])
    have hs2 : FosterSetCull_D3D11 c2 X w = w :=
      FosterSetCull_D3D11_same c2 X w (by simp [hinit, hx])
    rw [hs, hs2]
    simp [hx]
  · have hc := FosterSetCull_D3D11_changed c1 X w (Or.inr hx)
    have hs2 : FosterSetCull_D3D11 c2 X (FosterSetCull_D3D11 c1 X w)
        = FosterSetCull_D3D11 c1 X w := by
      apply FosterSetCull_D3D11_same
      rw [hc]
      simp [hinit]
    rw [hs2, hc]
    refine ⟨?_, rfl, rfl⟩
    simp only [calls, if_pos hx]
    split <;> split <;>
      simp [List.countP_append, List.countP_cons, NativeCall.isCreateRasterizerState]

/-- Witness for C5 on the sample tracker: culling goes from none to back. -/
theorem C5_SetCull_twice_creates_once_witness :
    sampleWorld.fdx.stateInitializing = false
    ∧ calls NativeCall.isCreateRasterizerState
        (FosterSetCull_D3D11 ⟨true, 8⟩ .FOSTER_CULL_BACK
          (FosterSetCull_D3D11 ⟨true, 7⟩ .FOSTER_CULL_BACK sampleWorld)).log = 1 :=
  ⟨rfl, by
    have h := (C5_SetCull_twice_creates_once sampleWorld .FOSTER_CULL_BACK ⟨true, 7⟩ ⟨true, 8⟩
      rfl).1
    simpa [calls, sampleWorld, sampleFdx] using h⟩


theorem FosterSetViewport_D3D11_changed (enabled : Int) (rect : FosterRect) (w : World)
    (h : w.fdx.stateInitializing = true ∨ derivedViewport w.fdx enabled rect ≠ w.fdx.stateViewport) :
    FosterSetViewport_D3D11 enabled rect w =
      { w with
        fdx := { w.fdx with stateViewport := derivedViewport w.fdx enabled rect }
        log := w.log ++ [NativeCall.RSSetViewports 1
          (viewportDesc (derivedViewport w.fdx enabled rect))] } := by
  unfold FosterSetViewport_D3D11
  simp only [if_pos h, World.emit, World.setFdx]

theorem FosterSetViewport_D3D11_same (enabled : Int) (rect : FosterRect) (w : World)
    (h : ¬ (w.fdx.stateInitializing = true
      ∨ derivedViewport w.fdx enabled rect ≠ w.fdx.stateViewport)) :
    FosterSetViewport_D3D11 enabled rect w = w := by
  unfold FosterSetViewport_D3D11
  simp only [if_neg h]

/-- Claim C7. With `stateInitializing` clear: `FosterSetViewport_D3D11`,
`FosterSetCompare_D3D11` and `FosterSetBlend_D3D11` with a non-null descriptor leave
the whole state (tracker and log) unchanged when the requested value equals the
tracked one (for the viewport: the derived rect; for blend: blending tracked as
enabled with an equal descriptor); otherwise they append the native state change to
the log and the tracked value becomes the requested one. -/
theorem C7_setters_apply_only_on_change (w : World)
    (hinit : w.fdx.stateInitializing = false) :
    (∀ (enabled : Int) (rect : FosterRect),
      (derivedViewport w.fdx enabled rect = w.fdx.stateViewport →
        FosterSetViewport_D3D11 enabled rect w = w)
      ∧ (derivedViewport w.fdx enabled rect ≠ w.fdx.stateViewport →
        (FosterSetViewport_D3D11 enabled rect w).fdx.stateViewport
            = derivedViewport w.fdx enabled rect
        ∧ (FosterSetViewport_D3D11 enabled rect w).log
            = w.log ++ [NativeCall.RSSetViewports 1
                (viewportDesc (derivedViewport w.fdx enabled rect))]))
    ∧ (∀ (c : NativeOut) (compare : FosterCompare),
      (compare = w.fdx.stateCompare → FosterSetCompare_D3D11 c compare w = w)
      ∧ (compare ≠ w.fdx.stateCompare →
        (FosterSetCompare_D3D11 c compare w).fdx.stateCompare = compare
        ∧ (FosterSetCompare_D3D11 c compare w).log
            = w.log
              ++ (if w.fdx.depthState ≠ NULL
                  then [NativeCall.DepthStencilState_Release w.fdx.depthState] else [])
              ++ [NativeCall.CreateDepthStencilState (depthDescOf compare)]
              ++ (if c.ok = true then []
                  else [NativeCall.FosterLogError .Failed_to_create_depth_stencil_state])
              ++ [NativeCall.OMSetDepthStencilState c.out 0]))
    ∧ (∀ (c : NativeOut) (blend : FosterBlend),
      (w.fdx.stateBlendEnabled = true ∧ blend = w.fdx.stateBlend →
        FosterSetBlend_D3D11 c (some blend) w = some w)
      ∧ (¬ (w.fdx.stateBlendEnabled = true ∧ blend = w.fdx.stateBlend) →
        ∃ w1, FosterSetBlend_D3D11 c (some blend) w = some w1
          ∧ w1.fdx.stateBlendEnabled = true
          ∧ w1.fdx.stateBlend = blend
          ∧ w1.log
            = w.log
              ++ (if w.fdx.blendState ≠ NULL
                  then [NativeCall.BlendState_Release w.fdx.blendState] else [])
              ++ [NativeCall.CreateBlendState (blendDescOf blend)]
              ++ (if c.ok = true then []
                  else [NativeCall.FosterLogError .Failed_to_create_blend_state])
              ++ [NativeCall.OMSetBlendState c.out (blendFactorOf blend) blend.mask])) := by
  refine ⟨?_, ?_, ?_⟩
  · intro enabled rect
    constructor
    · intro h
      exact FosterSetViewport_D3D11_same enabled rect w (by simp [hinit, h])
    · intro h
      rw [FosterSetViewport_D3D11_changed enabled rect w (Or.inr h)]
      exact ⟨rfl, rfl⟩
  · intro c compare
    constructor
    · intro h
      unfold FosterSetCompare_D3D11
      rw [if_neg (by simp [hinit, h])]
    · intro h
      rw [FosterSetCompare_D3D11_changed c compare w (Or.inr h)]
      exact ⟨rfl, rfl⟩
  · intro c blend
    constructor
    · intro h
      unfold FosterSetBlend_D3D11
      simp [hinit, h.1, h.2]
    · intro h
      refine ⟨applyBlend c blend w, ?_, ?_⟩
      · unfold FosterSetBlend_D3D11
        have : w.fdx.stateInitializing = true ∨ true ≠ w.fdx.stateBlendEnabled
            ∨ blend ≠ w.fdx.stateBlend := by
          by_cases he : w.fdx.stateBlendEnabled = true
          · exact Or.inr (Or.inr (fun hb => h ⟨he, hb⟩))
          · exact Or.inr (Or.inl (fun hb => he hb.symm))
        simp only [if_pos this]
      · rw [applyBlend_eq]
        exact ⟨rfl, rfl, rfl⟩

/-- Witness for C7 on the sample tracker: a first depth compare `LESS` is applied. -/
theorem C7_setters_apply_only_on_change_witness :
    sampleWorld.fdx.stateInitializing = false
    ∧ (FosterSetCompare_D3D11 ⟨true, 9⟩ .FOSTER_COMPARE_LESS sampleWorld).fdx.stateCompare
        = .FOSTER_COMPARE_LESS
    ∧ FosterSetCompare_D3D11 ⟨true, 9⟩ .FOSTER_COMPARE_NONE sampleWorld = sampleWorld :=
  ⟨rfl,
   ((((C7_setters_apply_only_on_change sampleWorld rfl).2.1 ⟨true, 9⟩
      .FOSTER_COMPARE_LESS).2) (by decide)).1,
   (((C7_setters_apply_only_on_change sampleWorld rfl).2.1 ⟨true, 9⟩
      .FOSTER_COMPARE_NONE).1) rfl⟩

/-- Claim C9. `FosterSetViewport_D3D11` derives `(x, H - y - h, w, h)` when `enabled`
is set (the subtraction is the C `int` one, and is the exact integer whenever
`H - y - h` fits an `int`) and `(0, 0, W, H)` when it is clear, where `W`, `H` are the
tracked framebuffer size. The derived rect is the one compared with the tracked
viewport; when the call applies, it is stored in the tracker and its four
coordinates are passed to `RSSetViewports`. -/
theorem C9_viewport_derivation (w : World) (enabled : Int) (rect : FosterRect) :
    (enabled ≠ 0 →
      derivedViewport w.fdx enabled rect
        = { x := rect.x
            y := wrap32 (wrap32 (w.fdx.stateFrameBufferHeight - rect.y) - rect.h)
            w := rect.w, h := rect.h }
      ∧ (isInt32 (w.fdx.stateFrameBufferHeight - rect.y - rect.h) →
          (derivedViewport w.fdx enabled rect).y
            = w.fdx.stateFrameBufferHeight - rect.y - rect.h))
    ∧ (enabled = 0 →
      derivedViewport w.fdx enabled rect
        = { x := 0, y := 0, w := w.fdx.stateFrameBufferWidth
            h := w.fdx.stateFrameBufferHeight })
    ∧ (w.fdx.stateInitializing = true
        ∨ derivedViewport w.fdx enabled rect ≠ w.fdx.stateViewport →
      (FosterSetViewport_D3D11 enabled rect w).fdx.stateViewport
          = derivedViewport w.fdx enabled rect
      ∧ (FosterSetViewport_D3D11 enabled rect w).log
          = w.log ++ [NativeCall.RSSetViewports 1
              { TopLeftX := (derivedViewport w.fdx enabled rect).x
                TopLeftY := (derivedViewport w.fdx enabled rect).y
                Width := (derivedViewport w.fdx enabled rect).w
                Height := (derivedViewport w.fdx enabled rect).h
                MinDepth := 0, MaxDepth := 1 }])
    ∧ (¬ (w.fdx.stateInitializing = true
        ∨ derivedViewport w.fdx enabled rect ≠ w.fdx.stateViewport) →
      FosterSetViewport_D3D11 enabled rect w = w) := by
  refine ⟨?_, ?_, ?_, ?_⟩
  · intro he
    have hd : derivedViewport w.fdx enabled rect
        = { x := rect.x
            y := wrap32 (wrap32 (w.fdx.stateFrameBufferHeight - rect.y) - rect.h)
            w := rect.w, h := rect.h } := by
      unfold derivedViewport
      rw [if_pos he]
    refine ⟨hd, ?_⟩
    intro hr
    rw [hd]
    exact wrap32_flip hr
  · intro he
    unfold derivedViewport
    rw [if_neg (by simp [he])]
  · intro h
    rw [FosterSetViewport_D3D11_changed enabled rect w h]
    exact ⟨rfl, rfl⟩
  · intro h
    exact FosterSetViewport_D3D11_same enabled rect w h

/-- Witness for C9: framebuffer height 600 and rect `{10, 20, 100, 50}` give the
native top-left Y `530`. -/
theorem C9_viewport_derivation_witness :
    isInt32 (sampleWorld.fdx.stateFrameBufferHeight - 20 - 50)
    ∧ (derivedViewport sampleWorld.fdx 1 { x := 10, y := 20, w := 100, h := 50 }).y = 530
    ∧ (FosterSetViewport_D3D11 1 { x := 10, y := 20, w := 100, h := 50 } sampleWorld).log
        = [NativeCall.RSSetViewports 1
            { TopLeftX := 10, TopLeftY := 530, Width := 100, Height := 50
              MinDepth := 0, MaxDepth := 1 }] := by
  have hT := C9_viewport_derivation sampleWorld 1 { x := 10, y := 20, w := 100, h := 50 }
  have hr : isInt32 (sampleWorld.fdx.stateFrameBufferHeight - 20 - 50) := by
    simp [isInt32, sampleWorld, sampleFdx]
  have hy : (derivedViewport sampleWorld.fdx 1 { x := 10, y := 20, w := 100, h := 50 }).y
      = 530 := by
    rw [(hT.1 (by decide)).2 hr]
    simp [sampleWorld, sampleFdx]
  have hx := (hT.1 (by decide)).1
  refine ⟨hr, hy, ?_⟩
  have hne : derivedViewport sampleWorld.fdx 1 { x := 10, y := 20, w := 100, h := 50 }
      ≠ sampleWorld.fdx.stateViewport := by
    intro hc
    have := congrArg FosterRect.y hc
    rw [hy] at this
    simp [sampleWorld, sampleFdx] at this
  rw [(hT.2.2.1 (Or.inr hne)).2, hy, hx]
  simp [sampleWorld]

/-- Claim C10, what the code does. Whatever `FosterSetScissor_D3D11` appends to the
log, every scissor call in it that carries a rect was made with `enabled` set, and
the `D3D11_RECT` the native call reads has `left = x`, `top = H - y - h` (the C `int`
subtraction on the incoming `h`), `right = max w 0` and `bottom = max h 0`: the
clamped width and height sit where the callee reads the right and bottom edges.
The rectangle the native call receives therefore has width `max w 0 - x` and
height `max h 0 - (H - y - h)`. Such a call is made, once, whenever `enabled` is set
and the tracker is initializing or the rect differs from the tracked scissor. -/
theorem C10_scissor_rect_read_as_edges (w : World) (enabled : Int) (rect : FosterRect) :
    ∃ new, (FosterSetScissor_D3D11 enabled rect w).log = w.log ++ new
      ∧ (∀ n r, NativeCall.RSSetScissorRects n (some r) ∈ new →
          enabled ≠ 0 ∧ r.left = rect.x
          ∧ r.top = wrap32 (wrap32 (w.fdx.stateFrameBufferHeight - rect.y) - rect.h)
          ∧ r.right = max rect.w 0 ∧ r.bottom = max rect.h 0
          ∧ r.width = max rect.w 0 - rect.x
          ∧ r.height = max rect.h 0
              - wrap32 (wrap32 (w.fdx.stateFrameBufferHeight - rect.y) - rect.h))
      ∧ (enabled ≠ 0 →
          w.fdx.stateInitializing = true ∨ derivedScissor w.fdx rect ≠ w.fdx.stateScissor →
          new = [NativeCall.RSSetScissorRects 1
            (some (rectAsD3D11 (derivedScissor w.fdx rect)))]) := by
  have hd : (derivedScissor w.fdx rect).x = rect.x
      ∧ (derivedScissor w.fdx rect).w = max rect.w 0
      ∧ (derivedScissor w.fdx rect).h = max rect.h 0
      ∧ (derivedScissor w.fdx rect).y
          = wrap32 (wrap32 (w.fdx.stateFrameBufferHeight - rect.y) - rect.h) := by
    unfold derivedScissor
    by_cases h1 : rect.w < 0 <;> by_cases h2 : rect.h < 0 <;>
      simp [h1, h2] <;> omega
  have hprops : ∀ n r,
      NativeCall.RSSetScissorRects n (some r)
        = NativeCall.RSSetScissorRects 1 (some (rectAsD3D11 (derivedScissor w.fdx rect))) →
      r.left = rect.x
      ∧ r.top = wrap32 (wrap32 (w.fdx.stateFrameBufferHeight - rect.y) - rect.h)
      ∧ r.right = max rect.w 0 ∧ r.bottom = max rect.h 0
      ∧ r.width = max rect.w 0 - rect.x
      ∧ r.height = max rect.h 0
          - wrap32 (wrap32 (w.fdx.stateFrameBufferHeight - rect.y) - rect.h) := by
    intro n r hs
    injection hs with _ hs
    injection hs with hs
    subst hs
    refine ⟨hd.1, hd.2.2.2, hd.2.1, hd.2.2.1, ?_, ?_⟩
    · show (derivedScissor w.fdx rect).w - (derivedScissor w.fdx rect).x = _
      rw [hd.1, hd.2.1]
    · show (derivedScissor w.fdx rect).h - (derivedScissor w.fdx rect).y = _
      rw [hd.2.2.1, hd.2.2.2]
  unfold FosterSetScissor_D3D11
  by_cases hc : w.fdx.stateInitializing = true
      ∨ (enabled ≠ 0 ∧ derivedScissor w.fdx rect ≠ w.fdx.stateScissor)
  · by_cases he : enabled ≠ 0
    · refine ⟨[NativeCall.RSSetScissorRects 1
        (some (rectAsD3D11 (derivedScissor w.fdx rect)))], ?_, ?_, ?_⟩
      · simp only [if_pos hc, if_pos he, World.emit]
      · intro n r hmem
        rw [List.mem_singleton] at hmem
        exact ⟨he, hprops n r hmem⟩
      · intro _ _
        rfl
    · refine ⟨[NativeCall.RSSetScissorRects 0 none], ?_, ?_, ?_⟩
      · simp only [if_pos hc, if_neg he, World.emit]
      · intro n r hmem
        rw [List.mem_singleton] at hmem
        injection hmem with _ h2
        exact absurd h2 (by simp)
      · intro he2
        exact absurd he2 he
  · refine ⟨[], ?_, ?_, ?_⟩
    · simp only [if_neg hc, List.append_nil]
    · intro n r hmem
      exact absurd hmem (List.not_mem_nil _)
    · intro he hi
      exfalso
      apply hc
      rcases hi with hi | hi
      · exact Or.inl hi
      · exact Or.inr ⟨he, hi⟩

/-- Witness for C10: on the 600-high sample framebuffer the scissor
`{x = 10, y = 20, w = 100, h = 50}` reaches the native call as the `D3D11_RECT`
`{left = 10, top = 530, right = 100, bottom = 50}`, a rectangle of width 90 and
height -480, where the claim gives width 100 and height 50. -/
theorem C10_scissor_rect_read_as_edges_witness :
    (FosterSetScissor_D3D11 1 { x := 10, y := 20, w := 100, h := 50 } sampleWorld).log
      = [NativeCall.RSSetScissorRects 1
          (some { left := 10, top := 530, right := 100, bottom := 50 })]
    ∧ D3D11_RECT.width { left := 10, top := 530, right := 100, bottom := 50 } = 90
    ∧ D3D11_RECT.height { left := 10, top := 530, right := 100, bottom := 50 } = -480 := by
  obtain ⟨new, hlog, _, hnew⟩ :=
    C10_scissor_rect_read_as_edges sampleWorld 1 { x := 10, y := 20, w := 100, h := 50 }
  have hds : derivedScissor sampleWorld.fdx { x := 10, y := 20, w := 100, h := 50 }
      = { x := 10, y := 530, w := 100, h := 50 } := by decide
  refine ⟨?_, by decide, by decide⟩
  rw [hlog, hnew (by decide) (Or.inr (by rw [hds]; decide)), hds]
  rfl


/-! ## Destroying a texture twice -/

theorem World.texture?_of_ne_null {w : World} {p : Ptr} (hp : p ≠ NULL) :
    w.texture? p = w.textures p := by
  unfold World.texture?
  rw [if_neg hp]

theorem World.texture?_some_iff {w : World} {p : Ptr} {t : FosterTexture_D3D11} :
    w.texture? p = some t ↔ p ≠ NULL ∧ w.textures p = some t := by
  unfold World.texture?
  by_cases hp : p = NULL <;> simp [hp]

theorem returnReference_keeps {w : World} {p : Ptr} {t : FosterTexture_D3D11}
    (hp : p ≠ NULL) (ht : w.textures p = some t) (h : 0 < wrap32 (t.refCount - 1)) :
    FosterTextureReturnReference_D3D11 p w
      = some (w.setTexture p (some { t with refCount := wrap32 (t.refCount - 1) })) := by
  unfold FosterTextureReturnReference_D3D11
  simp only [if_pos hp, ht]
  rw [if_neg (not_le.mpr h)]

theorem returnReference_frees {w : World} {p : Ptr} {t : FosterTexture_D3D11}
    (hp : p ≠ NULL) (ht : w.textures p = some t) (h : wrap32 (t.refCount - 1) ≤ 0) :
    FosterTextureReturnReference_D3D11 p w
      = some (((if t.disposed = 0 then
          w.emit (.FosterLogError .Texture_is_being_freed_without_deleting_its_GPU_Texture_Data)
          else w).setTexture p none).emit (.SDL_free (.texture p))) := by
  unfold FosterTextureReturnReference_D3D11
  simp only [if_pos hp, ht]
  rw [if_pos h]

theorem returnReference_null (w : World) :
    FosterTextureReturnReference_D3D11 NULL w = some w := by
  unfold FosterTextureReturnReference_D3D11
  simp

/-- Claim C1, counterexample. A live, undisposed texture whose only reference is the
creator's: the first `FosterTextureDestroy_D3D11` frees the wrapper, so two calls in
a row do not both have a defined result (the second reads `disposed` in the freed
block). -/
theorem C1_counterexample_sole_owner :
    soleOwnerWorld.texture? 10 = some sampleTexture
    ∧ sampleTexture.disposed = 0
    ∧ (FosterTextureDestroy_D3D11 10 soleOwnerWorld).map (fun w => w.textures 10) = some none
    ∧ ¬ ∃ w1 w2, FosterTextureDestroy_D3D11 10 soleOwnerWorld = some w1
        ∧ FosterTextureDestroy_D3D11 10 w1 = some w2 := by
  refine ⟨by decide, by decide, by decide, ?_⟩
  rintro ⟨w1, w2, h1, h2⟩
  have hfreed : w1.textures 10 = none := by
    have h : (FosterTextureDestroy_D3D11 10 soleOwnerWorld).map (fun w => w.textures 10)
        = some none := by decide
    rw [h1] at h
    simpa using h
  unfold FosterTextureDestroy_D3D11 at h2
  rw [World.texture?_of_ne_null (by decide), hfreed] at h2
  exact absurd h2 (by simp)

theorem textureDestroy_keeps {w : World} {p : Ptr} {tex : FosterTexture_D3D11}
    (hlive : w.texture? p = some tex) (hundisposed : tex.disposed = 0)
    (h : 0 < wrap32 (tex.refCount - 1)) :
    FosterTextureDestroy_D3D11 p w
      = some { w with
          textures := Function.update w.textures p
            (some { tex with disposed := 1, refCount := wrap32 (tex.refCount - 1) })
          log := w.log
            ++ (if tex.view ≠ NULL then [NativeCall.ShaderResourceView_Release tex.view] else [])
            ++ (if tex.texture ≠ NULL then [NativeCall.Texture2D_Release tex.texture] else []) } := by
  obtain ⟨hp, ht⟩ := World.texture?_some_iff.mp hlive
  unfold FosterTextureDestroy_D3D11
  simp only [hlive, hundisposed, if_true]
  rw [returnReference_keeps (t := { tex with disposed := 1 }) hp
    (by by_cases h1 : tex.view = NULL <;> by_cases h2 : tex.texture = NULL <;>
          simp [World.emit, World.setTexture, h1, h2]) h]
  by_cases h1 : tex.view = NULL <;> by_cases h2 : tex.texture = NULL <;>
    simp [World.emit, World.setTexture, h1, h2]

theorem textureDestroy_frees {w : World} {p : Ptr} {tex : FosterTexture_D3D11}
    (hlive : w.texture? p = some tex) (hundisposed : tex.disposed = 0)
    (h : wrap32 (tex.refCount - 1) ≤ 0) :
    FosterTextureDestroy_D3D11 p w
      = some { w with
          textures := Function.update w.textures p none
          log := w.log
            ++ (if tex.view ≠ NULL then [NativeCall.ShaderResourceView_Release tex.view] else [])
            ++ (if tex.texture ≠ NULL then [NativeCall.Texture2D_Release tex.texture] else [])
            ++ [NativeCall.SDL_free (.texture p)] } := by
  obtain ⟨hp, ht⟩ := World.texture?_some_iff.mp hlive
  unfold FosterTextureDestroy_D3D11
  simp only [hlive, hundisposed, if_true]
  rw [returnReference_frees (t := { tex with disposed := 1 }) hp
    (by by_cases h1 : tex.view = NULL <;> by_cases h2 : tex.texture = NULL <;>
          simp [World.emit, World.setTexture, h1, h2]) h]
  by_cases h1 : tex.view = NULL <;> by_cases h2 : tex.texture = NULL <;>
    simp [World.emit, World.setTexture, h1, h2]

theorem textureDestroy_disposed {w : World} {p : Ptr} {tex : FosterTexture_D3D11}
    (hlive : w.texture? p = some tex) (hdisposed : tex.disposed ≠ 0) :
    FosterTextureDestroy_D3D11 p w = some w := by
  unfold FosterTextureDestroy_D3D11
  simp only [hlive, if_neg hdisposed]

theorem textureDestroy_dangling {w : World} {p : Ptr} (hgone : w.texture? p = none) :
    FosterTextureDestroy_D3D11 p w = none := by
  unfold FosterTextureDestroy_D3D11
  simp only [hgone]

/-- Claim C1, amended. For every live, undisposed texture, the first
`FosterTextureDestroy_D3D11` releases the native view and the native image exactly
once each (a null handle is skipped), and frees the wrapper when the decremented
reference count is `<= 0`. When the decremented count is still positive (the
texture is referenced elsewhere) the wrapper stays, marked disposed, and a second
call releases nothing and changes no state. When it is `<= 0` the wrapper is gone
after the first call and a second call has no defined result. -/
theorem C1_TextureDestroy_twice_amended (w : World) (p : Ptr) (tex : FosterTexture_D3D11)
    (hlive : w.texture? p = some tex) (hundisposed : tex.disposed = 0) :
    ∃ w1, FosterTextureDestroy_D3D11 p w = some w1
      ∧ w1.log = w.log
          ++ (if tex.view ≠ NULL then [NativeCall.ShaderResourceView_Release tex.view] else [])
          ++ (if tex.texture ≠ NULL then [NativeCall.Texture2D_Release tex.texture] else [])
          ++ (if wrap32 (tex.refCount - 1) ≤ 0 then [NativeCall.SDL_free (.texture p)] else [])
      ∧ (0 < wrap32 (tex.refCount - 1) →
          w1.texture? p
            = some { tex with disposed := 1, refCount := wrap32 (tex.refCount - 1) }
          ∧ FosterTextureDestroy_D3D11 p w1 = some w1)
      ∧ (wrap32 (tex.refCount - 1) ≤ 0 →
          w1.texture? p = none ∧ FosterTextureDestroy_D3D11 p w1 = none) := by
  obtain ⟨hp, ht⟩ := World.texture?_some_iff.mp hlive
  by_cases hrc : wrap32 (tex.refCount - 1) ≤ 0
  · refine ⟨_, textureDestroy_frees hlive hundisposed hrc, ?_, ?_, ?_⟩
    · simp [hrc]
    · intro h
      exact absurd hrc (not_le.mpr h)
    · intro _
      have hnone : World.texture? { w with
          textures := Function.update w.textures p none
          log := w.log
            ++ (if tex.view ≠ NULL then [NativeCall.ShaderResourceView_Release tex.view] else [])
            ++ (if tex.texture ≠ NULL then [NativeCall.Texture2D_Release tex.texture] else [])
            ++ [NativeCall.SDL_free (.texture p)] } p = none := by
        simp [World.texture?, hp]
      exact ⟨hnone, textureDestroy_dangling hnone⟩
  · have hpos : 0 < wrap32 (tex.refCount - 1) := not_le.mp hrc
    refine ⟨_, textureDestroy_keeps hlive hundisposed hpos, ?_, ?_, ?_⟩
    · simp [hrc]
    · intro _
      have hsome : World.texture? { w with
          textures := Function.update w.textures p
            (some { tex with disposed := 1, refCount := wrap32 (tex.refCount - 1) })
          log := w.log
            ++ (if tex.view ≠ NULL then [NativeCall.ShaderResourceView_Release tex.view] else [])
            ++ (if tex.texture ≠ NULL then [NativeCall.Texture2D_Release tex.texture] else []) } p
          = some { tex with disposed := 1, refCount := wrap32 (tex.refCount - 1) } := by
        simp [World.texture?, hp]
      exact ⟨hsome, textureDestroy_disposed hsome (by simp)⟩
    · intro h
      exact absurd h hrc

/-- Witness for C1 (amended): a texture with reference count 2 at address 10. -/
theorem C1_TextureDestroy_twice_amended_witness :
    sharedTextureWorld.texture? 10 = some { sampleTexture with refCount := 2 }
    ∧ ∃ w1, FosterTextureDestroy_D3D11 10 sharedTextureWorld = some w1
      ∧ w1.log = [NativeCall.ShaderResourceView_Release 6, NativeCall.Texture2D_Release 5]
      ∧ FosterTextureDestroy_D3D11 10 w1 = some w1 := by
  refine ⟨by decide, ?_⟩
  obtain ⟨w1, h1, hlog, hkeep, _⟩ :=
    C1_TextureDestroy_twice_amended sharedTextureWorld 10 { sampleTexture with refCount := 2 }
      (by decide) (by decide)
  refine ⟨w1, h1, ?_, (hkeep (by decide)).2⟩
  rw [hlog]
  decide


/-! ## Device bring-up -/

/-- The calls a successful `FosterInitialize_D3D11` appends to the log. -/
theorem FosterInitialize_D3D11_success (env : InitializeEnv)
    (w : World) (hwindow : env.windowInfo = true) (hisWindow : env.isWindow = true)
    (hdevice : env.deviceOk = true) (hbuffer : env.bufferOk = true) :
    FosterInitialize_D3D11 env w = some (true,
      { w with
        fdx := { w.fdx with
          stateInitializing := false
          swapChain := env.swapChain, device := env.device, context := env.context
          backBufferView := env.backBufferView
          max_texture_size := D3D11_REQ_TEXTURE2D_U_OR_V_DIMENSION
          max_texture_image_units := 65535
          max_renderbuffer_size := D3D11_REQ_RENDER_TO_BUFFER_WINDOW_WIDTH
          stateFrameBufferWidth := env.sizeInPixels.1
          stateFrameBufferHeight := env.sizeInPixels.2
          stateFrameBuffer := env.backBufferView
          blendState := env.blend.out
          stateBlendEnabled := true
          stateBlend := env.zeroBlend
          stateViewport := { x := 0, y := 0, w := env.sizeInPixels.1, h := env.sizeInPixels.2 } }
        log := w.log ++
          ([NativeCall.CreateDeviceAndSwapChain env.size.1 env.size.2,
            NativeCall.SwapChain_GetBuffer,
            NativeCall.CreateRenderTargetView env.frameBuffer,
            NativeCall.Texture2D_Release env.frameBuffer,
            NativeCall.OMSetRenderTargets 1 [env.backBufferView] w.fdx.backBufferDepthView]
          ++ (if w.fdx.blendState ≠ NULL
              then [NativeCall.BlendState_Release w.fdx.blendState] else [])
          ++ [NativeCall.CreateBlendState (blendDescOf env.zeroBlend)]
          ++ (if env.blend.ok = true then []
              else [NativeCall.FosterLogError .Failed_to_create_blend_state])
          ++ [NativeCall.OMSetBlendState env.blend.out (blendFactorOf env.zeroBlend)
                env.zeroBlend.mask,
              NativeCall.RSSetViewports 1
                (viewportDesc { x := 0, y := 0, w := env.sizeInPixels.1
                                h := env.sizeInPixels.2 })]) }) := by
  unfold FosterInitialize_D3D11
  simp only [hwindow, hisWindow, hdevice, hbuffer, not_true_eq_false, if_false]
  simp only [FosterBindFrameBuffer_D3D11, World.setFdx, World.emit, ne_eq, not_true_eq_false,
    if_false, true_or, if_true, FosterSetBlend_D3D11, applyBlend_eq,
    FosterSetViewport_D3D11, derivedViewport]
  by_cases h1 : w.fdx.blendState = NULL <;> by_cases h2 : env.blend.ok = true <;>
    simp [h1, h2]

/-- Claim C6, what the code does. In every bring-up in which the platform and native
calls succeed, from any prior state, `FosterInitialize_D3D11` returns `true` with
`stateInitializing` clear again and has applied the framebuffer, the blend state
and the viewport natively exactly once each; it has issued no scissor call, no
depth-stencil call and no rasterizer call, and the tracked scissor, depth-compare
and cull values are the ones found before. -/
theorem C6_Initialize_applies_framebuffer_blend_viewport_only (env : InitializeEnv)
    (w : World) (hwindow : env.windowInfo = true) (hisWindow : env.isWindow = true)
    (hdevice : env.deviceOk = true) (hbuffer : env.bufferOk = true) :
    ∃ w1 new, FosterInitialize_D3D11 env w = some (true, w1)
      ∧ w1.fdx.stateInitializing = false
      ∧ w1.log = w.log ++ new
      ∧ calls NativeCall.isOMSetRenderTargets new = 1
      ∧ calls NativeCall.isOMSetBlendState new = 1
      ∧ calls NativeCall.isRSSetViewports new = 1
      ∧ calls NativeCall.isRSSetScissorRects new = 0
      ∧ calls NativeCall.isOMSetDepthStencilState new = 0
      ∧ calls NativeCall.isRSSetState new = 0
      ∧ calls NativeCall.isCreateRasterizerState new = 0
      ∧ w1.fdx.stateCompare = w.fdx.stateCompare
      ∧ w1.fdx.stateCull = w.fdx.stateCull
      ∧ w1.fdx.stateScissor = w.fdx.stateScissor := by
  refine ⟨_, _, FosterInitialize_D3D11_success env w hwindow hisWindow hdevice hbuffer,
    rfl, rfl, ?_⟩
  by_cases h1 : w.fdx.blendState = NULL <;> by_cases h2 : env.blend.ok = true <;>
    simp [calls, h1, h2, List.countP_cons, NativeCall.isOMSetRenderTargets,
      NativeCall.isOMSetBlendState, NativeCall.isRSSetViewports,
      NativeCall.isRSSetScissorRects, NativeCall.isOMSetDepthStencilState,
      NativeCall.isRSSetState, NativeCall.isCreateRasterizerState]

/-- Witness for C6: the sample bring-up from the sample state. The log holds one
render-target, one blend and one viewport application and nothing for scissor,
depth compare or cull. -/
theorem C6_Initialize_applies_framebuffer_blend_viewport_only_witness :
    sampleInitializeEnv.windowInfo = true ∧ sampleInitializeEnv.isWindow = true
    ∧ sampleInitializeEnv.deviceOk = true ∧ sampleInitializeEnv.bufferOk = true
    ∧ ∃ w1, FosterInitialize_D3D11 sampleInitializeEnv sampleWorld = some (true, w1)
      ∧ calls NativeCall.isRSSetScissorRects w1.log = 0
      ∧ calls NativeCall.isOMSetDepthStencilState w1.log = 0
      ∧ calls NativeCall.isRSSetState w1.log = 0 := by
  refine ⟨rfl, rfl, rfl, rfl, ?_⟩
  obtain ⟨w1, new, h, _, hlog, _, _, _, hs, hd, hr, _⟩ :=
    C6_Initialize_applies_framebuffer_blend_viewport_only sampleInitializeEnv sampleWorld
      rfl rfl rfl rfl
  refine ⟨w1, h, ?_, ?_, ?_⟩
  · rw [hlog]; simpa [calls, sampleWorld] using hs
  · rw [hlog]; simpa [calls, sampleWorld] using hd
  · rw [hlog]; simpa [calls, sampleWorld] using hr


/-! ## Shader teardown and the layout cache -/

theorem returnReference_frame {w w1 : World} {p : Ptr}
    (h : FosterTextureReturnReference_D3D11 p w = some w1) :
    w1.fdx = w.fdx ∧ w1.shaders = w.shaders ∧ w1.meshes = w.meshes
    ∧ calls NativeCall.isInputLayout_Release w1.log
        = calls NativeCall.isInputLayout_Release w.log := by
  unfold FosterTextureReturnReference_D3D11 at h
  by_cases hp : p = NULL
  · simp [hp] at h
    subst h
    exact ⟨rfl, rfl, rfl, rfl⟩
  · simp only [ne_eq, hp, not_false_eq_true, if_true] at h
    cases ht : w.textures p with
    | none => simp [ht] at h
    | some t =>
      simp only [ht] at h
      by_cases hrc : wrap32 (t.refCount - 1) ≤ 0
      · simp only [hrc, if_true, Option.some.injEq] at h
        subst h
        by_cases hd : t.disposed = 0 <;>
          simp [hd, World.emit, World.setTexture, calls, List.countP_append,
            NativeCall.isInputLayout_Release]
      · simp only [hrc, if_false, Option.some.injEq] at h
        subst h
        simp [World.setTexture]

theorem returnReferences_frame (l : List Ptr) :
    ∀ {w w1 : World},
      l.foldlM (fun w t => FosterTextureReturnReference_D3D11 t w) w = some w1 →
      w1.fdx = w.fdx ∧ w1.shaders = w.shaders ∧ w1.meshes = w.meshes
      ∧ calls NativeCall.isInputLayout_Release w1.log
          = calls NativeCall.isInputLayout_Release w.log := by
  induction l with
  | nil =>
    intro w w1 h
    simp at h
    subst h
    exact ⟨rfl, rfl, rfl, rfl⟩
  | cons t rest ih =>
    intro w w1 h
    rw [List.foldlM_cons] at h
    cases h0 : FosterTextureReturnReference_D3D11 t w with
    | none => simp [h0] at h
    | some w0 =>
      simp only [h0, Option.bind_eq_bind, Option.some_bind] at h
      obtain ⟨a1, a2, a3, a4⟩ := returnReference_frame h0
      obtain ⟨b1, b2, b3, b4⟩ := ih h
      exact ⟨b1.trans a1, b2.trans a2, b3.trans a3, b4.trans a4⟩

theorem samplerSlotFrees_no_layout (s : Option FosterSampler_D3D11) :
    ∀ c ∈ samplerSlotFrees s, NativeCall.isInputLayout_Release c = false := by
  intro c hc
  cases s with
  | none => simp [samplerSlotFrees] at hc
  | some s =>
    simp only [samplerSlotFrees, List.mem_append, List.mem_singleton] at hc
    rcases hc with (hc | hc) | hc
    · split at hc
      · rw [List.mem_singleton] at hc; subst hc; rfl
      · exact absurd hc (List.not_mem_nil _)
    · split at hc
      · rw [List.mem_singleton] at hc; subst hc; rfl
      · exact absurd hc (List.not_mem_nil _)
    · subst hc; rfl

/-- Whenever `FosterShaderDestroy_D3D11` returns, the static `fdx` (the layout cache
included) is what it was before and no input layout has been released. -/
theorem shaderDestroy_leaves_fdx {w w1 : World} {shader : Ptr}
    (h : FosterShaderDestroy_D3D11 shader w = some w1) :
    w1.fdx = w.fdx
    ∧ calls NativeCall.isInputLayout_Release w1.log
        = calls NativeCall.isInputLayout_Release w.log := by
  unfold FosterShaderDestroy_D3D11 at h
  cases hs : w.shader? shader with
  | none => simp [hs] at h
  | some sh =>
    simp only [hs] at h
    cases hf : sh.textures.foldlM (fun w t => FosterTextureReturnReference_D3D11 t w)
        ((w.emit (.VertexShader_Release sh.vertexShader)).emit
          (.PixelShader_Release sh.pixelShader)) with
    | none => simp [hf] at h
    | some w0 =>
      simp only [hf, Option.some.injEq] at h
      obtain ⟨a1, _, _, a4⟩ := returnReferences_frame sh.textures hf
      subst h
      refine ⟨by simpa [World.emit, World.emits, World.setShader] using a1, ?_⟩
      have hz : List.countP NativeCall.isInputLayout_Release
          (sh.samplers.flatMap samplerSlotFrees) = 0 := by
        rw [List.countP_eq_zero]
        intro c hc
        rw [List.mem_flatMap] at hc
        obtain ⟨s, _, hcs⟩ := hc
        simp [samplerSlotFrees_no_layout s c hcs]
      have hu : ∀ (f : Nat → Block) (n : Nat), List.countP NativeCall.isInputLayout_Release
          ((List.range n).map (fun i => NativeCall.SDL_free (f i))) = 0 := by
        intro f n
        rw [List.countP_eq_zero]
        intro c hc
        rw [List.mem_map] at hc
        obtain ⟨i, _, hi⟩ := hc
        subst hi
        simp [NativeCall.isInputLayout_Release]
      simp only [calls] at a4 ⊢
      simp only [World.emit, World.emits, World.setShader, List.countP_append, hz, hu,
        List.countP_cons, List.countP_nil, NativeCall.isInputLayout_Release] at a4 ⊢
      simp only [Bool.false_eq_true, if_false, Nat.add_zero] at a4 ⊢
      exact a4


/-- Claim C4, what the code does. One group holds an instance keyed to shader 20
and one keyed to shader 30. `FosterShaderDestroy_D3D11` on shader 20 frees the shader
but leaves the layout cache exactly as it was and releases no input layout, so the
instance keyed to the destroyed shader stays. `FosterRemoveLayoutInstances`, which
nothing calls, would have removed exactly that instance and released its layout. -/
theorem C4_ShaderDestroy_leaves_layout_cache :
    ∃ w1, FosterShaderDestroy_D3D11 20 twoInstanceWorld = some w1
      ∧ w1.shaders 20 = none
      ∧ w1.fdx.layoutCache
          = [{ format := sampleFormat
               instances := [{ shader := 20, layout := 41 }, { shader := 30, layout := 42 }]
               references := 2 }]
      ∧ calls NativeCall.isInputLayout_Release w1.log = 0
      ∧ (FosterRemoveLayoutInstances 20 twoInstanceWorld).map
          (fun w => (w.fdx.layoutCache, w.log))
          = some ([{ format := sampleFormat
                     instances := [{ shader := 30, layout := 42 }]
                     references := 2 }],
                  [NativeCall.InputLayout_Release 41]) := by
  refine ⟨_, rfl, ?_, ?_, ?_, ?_⟩ <;> decide


/-! ## A fresh texture bound to a shader and destroyed by its owner -/

theorem World.shader?_some_iff {w : World} {p : Ptr} {s : FosterShader_D3D11} :
    w.shader? p = some s ↔ p ≠ NULL ∧ w.shaders p = some s := by
  unfold World.shader?
  by_cases hp : p = NULL <;> simp [hp]

theorem returnReferences_nulls (l : List Ptr) (hl : ∀ t ∈ l, t = NULL) (w : World) :
    l.foldlM (fun w t => FosterTextureReturnReference_D3D11 t w) w = some w := by
  induction l with
  | nil => rfl
  | cons t rest ih =>
    have ht : t = NULL := hl t (List.mem_cons_self _ _)
    subst ht
    rw [List.foldlM_cons, returnReference_null]
    exact ih (fun t ht => hl t (List.mem_cons_of_mem _ ht))

theorem textureCreate_success (env : TextureCreateEnv) (w : World) (width height : Int)
    (format : FosterTextureFormat)
    (hsize : ¬ (width > w.fdx.max_texture_size ∨ height > w.fdx.max_texture_size))
    (htexture : env.texture.ok = true) (hview : env.view.ok = true)
    (hblock : env.block ≠ NULL) :
    FosterTextureCreate_D3D11 env width height format w
      = some (env.block,
          { w with
            textures := Function.update w.textures env.block
              (some { env.found with
                texture := env.texture.out, view := env.view.out, refCount := 1
                width := width, height := height
                dxgiFormat := textureFormatToDXGI format })
            log := w.log ++ [NativeCall.CreateTexture2D width height (textureFormatToDXGI format),
              NativeCall.CreateShaderResourceView env.texture.out] }) := by
  unfold FosterTextureCreate_D3D11
  simp [hsize, htexture, hview, hblock, World.emit, World.setTexture]

theorem shaderSetTexture_one_slot {w : World} {S T : Ptr} {sh : FosterShader_D3D11}
    {tex : FosterTexture_D3D11} {index : Int} {u : FosterUniform_D3D11} {rest : List Ptr}
    (hS : w.shader? S = some sh) (hT : w.texture? T = some tex)
    (hindex : 0 ≤ index) (hu : sh.uniforms[index.toNat]? = some u)
    (hkind : u.type = .FOSTER_UNIFORM_TYPE_TEXTURE2D) (hsize : u.size = 1)
    (hslots : sh.textures = NULL :: rest) :
    FosterShaderSetTexture_D3D11 S index [T] w
      = some { w with
          textures := Function.update w.textures T
            (some { tex with refCount := wrap32 (tex.refCount + 1) })
          shaders := Function.update w.shaders S (some { sh with textures := T :: rest }) } := by
  obtain ⟨hTn, hTl⟩ := World.texture?_some_iff.mp hT
  have hlt : index.toNat < sh.uniforms.length := by
    by_contra hge
    rw [List.getElem?_eq_none (not_lt.mp hge)] at hu
    exact absurd hu (by simp)
  have hrange : ¬ (index < 0 ∨ index ≥ sh.uniformCount) := by
    unfold FosterShader_D3D11.uniformCount
    omega
  unfold FosterShaderSetTexture_D3D11
  simp only [hS, if_neg hrange, hu, hkind, ne_eq, not_true_eq_false, if_false, hsize]
  have hr : List.range 1 = [0] := rfl
  have hslot : setTextureSlot S [T] w 0
      = some { w with
          textures := Function.update w.textures T
            (some { tex with refCount := wrap32 (tex.refCount + 1) })
          shaders := Function.update w.shaders S (some { sh with textures := T :: rest }) } := by
    unfold setTextureSlot
    simp [hTn, hS, hslots, returnReference_null, FosterTextureRequestReference_D3D11, hTl,
      World.setTexture, World.setShader]
  rw [hr, List.foldlM_cons, hslot]
  rfl

/-- The calls `FosterShaderDestroy_D3D11` makes after the texture loop. -/
theorem shaderDestroy_last_reference {w : World} {S T : Ptr} {sh : FosterShader_D3D11}
    {tex : FosterTexture_D3D11} {rest : List Ptr}
    (hS : w.shader? S = some sh) (hT : w.texture? T = some tex)
    (hlast : wrap32 (tex.refCount - 1) ≤ 0) (hflag : tex.disposed ≠ 0)
    (hslots : sh.textures = T :: rest) (hrest : ∀ t ∈ rest, t = NULL) :
    FosterShaderDestroy_D3D11 S w
      = some { w with
          textures := Function.update w.textures T none
          shaders := Function.update w.shaders S none
          log := w.log
            ++ [NativeCall.VertexShader_Release sh.vertexShader,
                NativeCall.PixelShader_Release sh.pixelShader,
                NativeCall.SDL_free (.texture T)]
            ++ (List.range sh.uniforms.length).map
                (fun i => NativeCall.SDL_free (.uniformName S i))
            ++ (List.range sh.inputs.length).map
                (fun i => NativeCall.SDL_free (.inputName S i))
            ++ sh.samplers.flatMap samplerSlotFrees
            ++ [NativeCall.SDL_free (.inputs S), NativeCall.SDL_free (.uniforms S),
                NativeCall.SDL_free (.shader S)] } := by
  obtain ⟨hTn, hTl⟩ := World.texture?_some_iff.mp hT
  unfold FosterShaderDestroy_D3D11
  simp only [hS, hslots, List.foldlM_cons]
  rw [returnReference_frees (t := tex) hTn (by simpa [World.emit] using hTl) hlast]
  simp only [Option.bind_eq_bind, Option.some_bind, if_neg hflag]
  rw [returnReferences_nulls rest hrest]
  simp [World.emit, World.emits, World.setTexture, World.setShader]

theorem count_free_texture_in_shader_blocks (S T : Ptr) (sh : FosterShader_D3D11) :
    (((List.range sh.uniforms.length).map (fun i => NativeCall.SDL_free (.uniformName S i))
      ++ (List.range sh.inputs.length).map (fun i => NativeCall.SDL_free (.inputName S i))
      ++ sh.samplers.flatMap samplerSlotFrees
      ++ [NativeCall.SDL_free (.inputs S), NativeCall.SDL_free (.uniforms S),
          NativeCall.SDL_free (.shader S)]).count (NativeCall.SDL_free (.texture T))) = 0 := by
  rw [List.count_eq_zero]
  intro hmem
  simp only [List.mem_append, List.mem_map, List.mem_range, List.mem_flatMap, List.mem_cons,
    List.mem_singleton, List.not_mem_nil, or_false] at hmem
  rcases hmem with ((((⟨i, _, hi⟩ | ⟨i, _, hi⟩) | ⟨s, _, hs⟩)) | hm)
  · exact absurd hi (by simp)
  · exact absurd hi (by simp)
  · cases s with
    | none => simp [samplerSlotFrees] at hs
    | some s =>
      simp only [samplerSlotFrees, List.mem_append, List.mem_singleton] at hs
      rcases hs with (hs | hs) | hs
      · split at hs
        · rw [List.mem_singleton] at hs; exact absurd hs (by simp)
        · exact absurd hs (List.not_mem_nil _)
      · split at hs
        · rw [List.mem_singleton] at hs; exact absurd hs (by simp)
        · exact absurd hs (List.not_mem_nil _)
      · exact absurd hs (by simp)
  · rcases hm with hm | hm | hm <;> exact absurd hm (by simp)

/-- When the fresh block reads zero in `disposed`, the sequence of C2 runs as the
claim says. For a live texture `T` with one reference and a clear `disposed` flag,
and a shader `S` with no texture bound whose uniform `index` is a `Texture2D` of
array size 1: after `FosterShaderSetTexture_D3D11` the count is 2; after
`FosterTextureDestroy_D3D11` each non-null native handle has been released, the
wrapper is marked disposed with count 1 and is still there; after
`FosterShaderDestroy_D3D11` the wrapper is gone and `SDL_free` was called on it exactly
once. -/
theorem shader_side_drop_when_flag_reads_zero (w : World) (S T : Ptr)
    (sh : FosterShader_D3D11) (tex : FosterTexture_D3D11) (index : Int)
    (u : FosterUniform_D3D11) (rest : List Ptr)
    (hS : w.shader? S = some sh) (hT : w.texture? T = some tex)
    (hfresh : tex.refCount = 1) (hflag : tex.disposed = 0)
    (hindex : 0 ≤ index) (hu : sh.uniforms[index.toNat]? = some u)
    (hkind : u.type = .FOSTER_UNIFORM_TYPE_TEXTURE2D) (hsize : u.size = 1)
    (hslots : sh.textures = NULL :: rest) (hrest : ∀ t ∈ rest, t = NULL) :
    ∃ w1 w2 w3,
      FosterShaderSetTexture_D3D11 S index [T] w = some w1
      ∧ FosterTextureDestroy_D3D11 T w1 = some w2
      ∧ FosterShaderDestroy_D3D11 S w2 = some w3
      ∧ w1.texture? T = some { tex with refCount := 2 }
      ∧ w2.texture? T = some { tex with refCount := 1, disposed := 1 }
      ∧ w2.log = w1.log
          ++ (if tex.view ≠ NULL then [NativeCall.ShaderResourceView_Release tex.view] else [])
          ++ (if tex.texture ≠ NULL then [NativeCall.Texture2D_Release tex.texture] else [])
      ∧ w3.texture? T = none
      ∧ w3.log.count (NativeCall.SDL_free (.texture T))
          = w2.log.count (NativeCall.SDL_free (.texture T)) + 1 := by
  obtain ⟨hTn, hTl⟩ := World.texture?_some_iff.mp hT
  obtain ⟨hSn, hSl⟩ := World.shader?_some_iff.mp hS
  have h2 : wrap32 (tex.refCount + 1) = 2 := by rw [hfresh]; decide
  have h1 := shaderSetTexture_one_slot hS hT hindex hu hkind hsize hslots
  rw [h2] at h1
  obtain ⟨w1, hw1⟩ : ∃ w1 : World, w1 = { w with
      textures := Function.update w.textures T (some { tex with refCount := 2 })
      shaders := Function.update w.shaders S (some { sh with textures := T :: rest }) } :=
    ⟨_, rfl⟩
  rw [← hw1] at h1
  have hT1 : w1.texture? T = some { tex with refCount := 2 } := by
    rw [hw1]; simp [World.texture?, hTn]
  have hS1 : w1.shader? S = some { sh with textures := T :: rest } := by
    rw [hw1]; simp [World.shader?, hSn]
  have hd := textureDestroy_keeps hT1 hflag (by show (0 : Int) < wrap32 ((2 : Int) - 1); decide)
  have h10 : wrap32 ((2 : Int) - 1) = 1 := by decide
  simp only [h10] at hd
  obtain ⟨w2, hw2⟩ : ∃ w2 : World, w2 = { w1 with
      textures := Function.update w1.textures T (some { tex with refCount := 1, disposed := 1 })
      log := w1.log
        ++ (if tex.view ≠ NULL then [NativeCall.ShaderResourceView_Release tex.view] else [])
        ++ (if tex.texture ≠ NULL then [NativeCall.Texture2D_Release tex.texture] else []) } :=
    ⟨_, rfl⟩
  rw [← hw2] at hd
  have hT2 : w2.texture? T = some { tex with refCount := 1, disposed := 1 } := by
    rw [hw2]; simp [World.texture?, hTn]
  have hS2 : w2.shader? S = some { sh with textures := T :: rest } := by
    rw [hw2]; exact hS1
  have hlog2 : w2.log = w1.log
      ++ (if tex.view ≠ NULL then [NativeCall.ShaderResourceView_Release tex.view] else [])
      ++ (if tex.texture ≠ NULL then [NativeCall.Texture2D_Release tex.texture] else []) := by
    rw [hw2]
  have h3 := shaderDestroy_last_reference hS2 hT2
    (by show wrap32 ((1 : Int) - 1) ≤ 0; decide) (by show (1 : Int) ≠ 0; decide) rfl hrest
  refine ⟨w1, w2, _, h1, hd, h3, hT1, hT2, hlog2, ?_, ?_⟩
  · simp [World.texture?, hTn]
  · have hc := count_free_texture_in_shader_blocks S T { sh with textures := T :: rest }
    simp only [List.append_assoc] at hc ⊢
    simp only [List.count_append, hc]
    simp [List.count_cons]


/-- Claim C2, what the code does. `FosterTextureCreate_D3D11` never assigns
`disposed`, so a wrapper created in a block that still reads nonzero there starts
out marked disposed. On such a fresh texture (address 10, bound to the one
`Texture2D` uniform of the shader at address 20): `FosterShaderSetTexture_D3D11`
raises the count to 2; `FosterTextureDestroy_D3D11` then does nothing at all (no native
release, count still 2); `FosterShaderDestroy_D3D11` lowers the count to 1 and the
wrapper is never freed nor its native handles released. -/
theorem C2_fresh_texture_with_stale_disposed_flag :
    ∃ w0 w1 w2 w3,
      FosterTextureCreate_D3D11 staleBlockEnv 64 64 .FOSTER_TEXTURE_FORMAT_R8G8B8A8 shaderWorld
        = some (10, w0)
      ∧ FosterShaderSetTexture_D3D11 20 0 [10] w0 = some w1
      ∧ FosterTextureDestroy_D3D11 10 w1 = some w2
      ∧ FosterShaderDestroy_D3D11 20 w2 = some w3
      ∧ (w0.textures 10).map (fun t => (t.refCount, t.disposed)) = some (1, 1)
      ∧ (w1.textures 10).map (fun t => t.refCount) = some 2
      ∧ w2.log = w1.log
      ∧ (w2.textures 10).map (fun t => t.refCount) = some 2
      ∧ (w3.textures 10).map (fun t => t.refCount) = some 1
      ∧ NativeCall.SDL_free (.texture 10) ∉ w3.log
      ∧ NativeCall.ShaderResourceView_Release 6 ∉ w3.log
      ∧ NativeCall.Texture2D_Release 5 ∉ w3.log := by
  refine ⟨_, _, _, _, rfl, rfl, rfl, rfl, ?_, ?_, ?_, ?_, ?_, ?_, ?_, ?_⟩ <;> decide

/-! ## Mesh format registration and the layout cache -/

theorem elementsEqualLoop_refl (l : List FosterVertexFormatElement) :
    elementsEqualLoop l l = true := by
  induction l with
  | nil => rfl
  | cons x xs ih => simp [elementsEqualLoop, ih]

theorem FosterVertexFormatEqual_refl (f : FosterVertexFormat) :
    FosterVertexFormatEqual f f = true := by
  simp [FosterVertexFormatEqual, elementsEqualLoop_refl]

theorem addLayoutReference_nil (f : FosterVertexFormat) :
    addLayoutReference [] f = [{ format := f, instances := [], references := 1 }] := by
  simp [addLayoutReference, FosterGetLayoutGroup]
  decide

theorem removeLayoutReference_nil (f : FosterVertexFormat) :
    removeLayoutReference [] f = ([], []) := by
  simp [removeLayoutReference, FosterGetLayoutGroup]

theorem removeLayoutReference_last_reference (f : FosterVertexFormat) :
    removeLayoutReference [{ format := f, instances := [], references := 1 }] f
      = ([], [NativeCall.SDL_free (.layoutInstances 0)]) := by
  have hg : FosterGetLayoutGroup [{ format := f, instances := [], references := 1 }] f
      = some 0 := by
    have hr : List.range 1 = [0] := rfl
    simp [FosterGetLayoutGroup, hr, FosterVertexFormatEqual_refl]
  have h0 : wrap32 0 = 0 := by decide
  simp [removeLayoutReference, hg, h0]

theorem World.mesh?_some_iff {w : World} {p : Ptr} {m : FosterMesh_D3D11} :
    w.mesh? p = some m ↔ p ≠ NULL ∧ w.meshes p = some m := by
  unfold World.mesh?
  by_cases hp : p = NULL <;> simp [hp]

/-- What `FosterMeshSetVertexFormat_D3D11` does to the layout cache and to the
meshes: the reference that is removed is one of the new format. -/
theorem meshSetVertexFormat_cache {w : World} {m : Ptr} {M : FosterMesh_D3D11}
    (c : NativeOut) (f : FosterVertexFormat) (hm : w.mesh? m = some M) :
    ∃ w1 M1, FosterMeshSetVertexFormat_D3D11 c m f w = some w1
      ∧ w1.fdx.layoutCache
          = addLayoutReference
              (if f.elementCount ≠ 0 then (removeLayoutReference w.fdx.layoutCache f).1
                else w.fdx.layoutCache) f
      ∧ w1.meshes = Function.update w.meshes m (some M1)
      ∧ M1.vertexFormat = f := by
  unfold FosterMeshSetVertexFormat_D3D11
  simp only [hm]
  by_cases h1 : M.elementsAllocated = true <;> by_cases h2 : M.vertexBuffer = NULL <;>
    by_cases h3 : c.ok = true <;> by_cases h4 : f.elementCount = 0 <;>
    exact ⟨_, _, rfl, by simp [h1, h2, h3, h4, World.emit, World.emits, World.setFdx,
      World.setMesh, FosterAddLayoutReference, FosterRemoveLayoutReference],
      by simp [h1, h2, h3, h4, World.emit, World.emits, World.setFdx,
      World.setMesh, FosterAddLayoutReference, FosterRemoveLayoutReference]; rfl, rfl⟩

/-- What `FosterMeshDestroy_D3D11` does to the layout cache. -/
theorem meshDestroy_cache {w : World} {m : Ptr} {M : FosterMesh_D3D11}
    (hm : w.mesh? m = some M) :
    ∃ w1, FosterMeshDestroy_D3D11 m w = some w1
      ∧ w1.fdx.layoutCache
          = (if M.vertexFormat.elementCount ≠ 0
              then (removeLayoutReference w.fdx.layoutCache M.vertexFormat).1
              else w.fdx.layoutCache)
      ∧ w1.meshes = Function.update w.meshes m none := by
  unfold FosterMeshDestroy_D3D11
  simp only [hm]
  by_cases h1 : M.vertexBuffer = NULL <;> by_cases h2 : M.indexBuffer = NULL <;>
    by_cases h4 : M.vertexFormat.elementCount = 0 <;>
    exact ⟨_, rfl, by simp [h1, h2, h4, World.emit, World.emits, World.setFdx,
      World.setMesh, FosterRemoveLayoutReference],
      by simp [h1, h2, h4, World.emit, World.emits, World.setFdx,
      World.setMesh, FosterRemoveLayoutReference]⟩

/-- For every format `f` with at least one element and any two distinct live
meshes on an empty layout cache: after both meshes have registered `f` the cache
holds one group for `f` with reference count 1, and destroying the first mesh
empties the cache while the second mesh is still live with format `f`. -/
theorem two_registrations_leave_one_reference (w : World) (m1 m2 : Ptr)
    (M1 M2 : FosterMesh_D3D11) (f : FosterVertexFormat) (c1 c2 : NativeOut)
    (hcache : w.fdx.layoutCache = []) (h1 : w.mesh? m1 = some M1)
    (h2 : w.mesh? m2 = some M2) (hne : m1 ≠ m2) (hf : f.elements ≠ []) :
    ∃ w1 w2 w3,
      FosterMeshSetVertexFormat_D3D11 c1 m1 f w = some w1
      ∧ FosterMeshSetVertexFormat_D3D11 c2 m2 f w1 = some w2
      ∧ FosterMeshDestroy_D3D11 m1 w2 = some w3
      ∧ w1.fdx.layoutCache = [{ format := f, instances := [], references := 1 }]
      ∧ w2.fdx.layoutCache = [{ format := f, instances := [], references := 1 }]
      ∧ w3.fdx.layoutCache = []
      ∧ ∃ M, w3.mesh? m2 = some M ∧ M.vertexFormat = f := by
  have hcount : f.elementCount ≠ 0 := by
    unfold FosterVertexFormat.elementCount
    cases hfe : f.elements with
    | nil => exact absurd hfe hf
    | cons x xs => simp; omega
  obtain ⟨hn1, _⟩ := World.mesh?_some_iff.mp h1
  obtain ⟨hn2, hl2⟩ := World.mesh?_some_iff.mp h2
  obtain ⟨w1, N1, hs1, hc1, hm1, hf1⟩ := meshSetVertexFormat_cache c1 f h1
  rw [hcache, if_pos hcount, removeLayoutReference_nil, addLayoutReference_nil] at hc1
  have h2' : w1.mesh? m2 = some M2 := by
    rw [World.mesh?_some_iff]
    refine ⟨hn2, ?_⟩
    rw [hm1, Function.update_noteq (Ne.symm hne)]
    exact hl2
  obtain ⟨w2, N2, hs2, hc2, hm2, hf2⟩ := meshSetVertexFormat_cache c2 f h2'
  rw [hc1, if_pos hcount, removeLayoutReference_last_reference, addLayoutReference_nil] at hc2
  have h1' : w2.mesh? m1 = some N1 := by
    rw [World.mesh?_some_iff]
    refine ⟨hn1, ?_⟩
    rw [hm2, Function.update_noteq hne, hm1, Function.update_same]
  obtain ⟨w3, hs3, hc3, hm3⟩ := meshDestroy_cache h1'
  rw [hf1, if_pos hcount, hc2, removeLayoutReference_last_reference] at hc3
  refine ⟨w1, w2, w3, hs1, hs2, hs3, hc1, hc2, hc3, N2, ?_, hf2⟩
  rw [World.mesh?_some_iff]
  refine ⟨hn2, ?_⟩
  rw [hm3, Function.update_noteq (Ne.symm hne), hm2, Function.update_same]

/-- Claim C3, what the code does. Two fresh meshes (addresses 51 and 52) register
the same one-element format on an empty layout cache. The second registration
first drops the reference the first one took (line 1600 passes the format just
stored), so afterwards the one group has reference count 1, not 2; destroying the
first mesh alone removes the group although the second mesh still uses the
format. -/
theorem C3_two_meshes_share_one_reference :
    ∃ w1 w2 w3 w4 w5,
      FosterMeshCreate_D3D11 51 .FOSTER_INDEX_FORMAT_SIXTEEN sampleWorld = some (51, w1)
      ∧ FosterMeshCreate_D3D11 52 .FOSTER_INDEX_FORMAT_SIXTEEN w1 = some (52, w2)
      ∧ FosterMeshSetVertexFormat_D3D11 ⟨true, 61⟩ 51 sampleFormat w2 = some w3
      ∧ FosterMeshSetVertexFormat_D3D11 ⟨true, 62⟩ 52 sampleFormat w3 = some w4
      ∧ FosterMeshDestroy_D3D11 51 w4 = some w5
      ∧ w3.fdx.layoutCache = [{ format := sampleFormat, instances := [], references := 1 }]
      ∧ w4.fdx.layoutCache = [{ format := sampleFormat, instances := [], references := 1 }]
      ∧ w5.fdx.layoutCache = []
      ∧ (w5.meshes 52).map (fun m => m.vertexFormat) = some sampleFormat := by
  refine ⟨_, _, _, _, _, rfl, rfl, rfl, rfl, rfl, ?_, ?_, ?_, ?_⟩ <;> decide

/-! ## Disabling the scissor -/

theorem FosterSetScissor_D3D11_disabled (rect : FosterRect) (w : World)
    (hinit : w.fdx.stateInitializing = false) :
    FosterSetScissor_D3D11 0 rect w = w := by
  unfold FosterSetScissor_D3D11
  simp [hinit]

/-- Claim C11, what the code does. With `stateInitializing` clear,
`FosterSetScissor_D3D11` with `enabled` clear issues no native call and changes
nothing, in any state. In particular, right after an enabled scissor has been
applied natively, the first disabled call issues no "no scissor" call: the log of
the two calls holds the one-rect call only. (A further disabled call issues
nothing either.) -/
theorem C11_disabling_scissor_issues_nothing (w : World) (enabled : Int)
    (rect rect2 rect3 : FosterRect) (hinit : w.fdx.stateInitializing = false)
    (henabled : enabled ≠ 0) (hnew : derivedScissor w.fdx rect ≠ w.fdx.stateScissor) :
    (FosterSetScissor_D3D11 enabled rect w).log
        = w.log ++ [NativeCall.RSSetScissorRects 1
            (some (rectAsD3D11 (derivedScissor w.fdx rect)))]
    ∧ FosterSetScissor_D3D11 0 rect2 (FosterSetScissor_D3D11 enabled rect w)
        = FosterSetScissor_D3D11 enabled rect w
    ∧ FosterSetScissor_D3D11 0 rect3
        (FosterSetScissor_D3D11 0 rect2 (FosterSetScissor_D3D11 enabled rect w))
        = FosterSetScissor_D3D11 enabled rect w := by
  have h1 : FosterSetScissor_D3D11 enabled rect w
      = w.emit (NativeCall.RSSetScissorRects 1
          (some (rectAsD3D11 (derivedScissor w.fdx rect)))) := by
    unfold FosterSetScissor_D3D11
    simp [hinit, henabled, hnew]
  have hi : (FosterSetScissor_D3D11 enabled rect w).fdx.stateInitializing = false := by
    rw [h1]; exact hinit
  have h2 := FosterSetScissor_D3D11_disabled rect2 _ hi
  refine ⟨by rw [h1]; rfl, h2, ?_⟩
  rw [h2]
  exact FosterSetScissor_D3D11_disabled rect3 _ hi

/-- Witness for C11 on the sample tracker: a scissor `{10, 20, 100, 50}` is applied,
then scissoring is switched off; the log holds the one-rect call and nothing
else. -/
theorem C11_disabling_scissor_issues_nothing_witness :
    sampleWorld.fdx.stateInitializing = false
    ∧ (FosterSetScissor_D3D11 0 { x := 0, y := 0, w := 0, h := 0 }
        (FosterSetScissor_D3D11 1 { x := 10, y := 20, w := 100, h := 50 } sampleWorld)).log
      = [NativeCall.RSSetScissorRects 1
          (some { left := 10, top := 530, right := 100, bottom := 50 })] := by
  have h := C11_disabling_scissor_issues_nothing sampleWorld 1
    { x := 10, y := 20, w := 100, h := 50 } { x := 0, y := 0, w := 0, h := 0 }
    { x := 0, y := 0, w := 0, h := 0 } rfl (by decide) (by decide)
  refine ⟨rfl, ?_⟩
  rw [h.2.1, h.1]
  decide

/-! ## Returning a texture reference -/

/-- Claim C13. For every live texture with reference count `n`,
`FosterTextureReturnReference_D3D11` returns; the wrapper is freed if and only if the
decremented count (the C `int` value of `n - 1`, which is `n - 1` whenever that fits
an `int`) is `<= 0`. When it is not freed the wrapper holds the decremented count
and nothing is logged. When it is freed, `SDL_free` is called on it once, preceded
by one error report exactly when `disposed` is clear. No other texture changes.
For the null pointer the function does nothing. -/
theorem C13_ReturnReference (w : World) :
    (∀ (p : Ptr) (tex : FosterTexture_D3D11), w.texture? p = some tex →
      ∃ w1, FosterTextureReturnReference_D3D11 p w = some w1
        ∧ (w1.textures p = none ↔ wrap32 (tex.refCount - 1) ≤ 0)
        ∧ (isInt32 (tex.refCount - 1) → wrap32 (tex.refCount - 1) = tex.refCount - 1)
        ∧ (0 < wrap32 (tex.refCount - 1) →
            w1.textures p = some { tex with refCount := wrap32 (tex.refCount - 1) }
            ∧ w1.log = w.log)
        ∧ (wrap32 (tex.refCount - 1) ≤ 0 →
            w1.log = w.log
              ++ (if tex.disposed = 0 then [NativeCall.FosterLogError
                    .Texture_is_being_freed_without_deleting_its_GPU_Texture_Data] else [])
              ++ [NativeCall.SDL_free (.texture p)])
        ∧ (∀ q, q ≠ p → w1.textures q = w.textures q)
        ∧ w1.fdx = w.fdx ∧ w1.shaders = w.shaders)
    ∧ FosterTextureReturnReference_D3D11 NULL w = some w := by
  refine ⟨?_, returnReference_null w⟩
  intro p tex hlive
  obtain ⟨hp, ht⟩ := World.texture?_some_iff.mp hlive
  by_cases hrc : wrap32 (tex.refCount - 1) ≤ 0
  · refine ⟨_, returnReference_frees hp ht hrc, ?_, fun h => wrap32_of_isInt32 h, ?_, ?_, ?_, ?_, ?_⟩
    · simp [World.emit, World.setTexture, hrc]
    · intro h; exact absurd hrc (not_le.mpr h)
    · intro _
      by_cases hd : tex.disposed = 0 <;> simp [World.emit, World.setTexture, hd]
    · intro q hq
      by_cases hd : tex.disposed = 0 <;>
        simp [World.emit, World.setTexture, hd, Function.update_noteq hq]
    · by_cases hd : tex.disposed = 0 <;> simp [World.emit, World.setTexture, hd]
    · by_cases hd : tex.disposed = 0 <;> simp [World.emit, World.setTexture, hd]
  · have hpos : 0 < wrap32 (tex.refCount - 1) := not_le.mp hrc
    refine ⟨_, returnReference_keeps hp ht hpos, ?_, fun h => wrap32_of_isInt32 h, ?_, ?_, ?_, ?_, ?_⟩
    · simp [World.setTexture, hrc]
    · intro _; simp [World.setTexture]
    · intro h; exact absurd h hrc
    · intro q hq
      simp [World.setTexture, Function.update_noteq hq]
    · simp [World.setTexture]
    · simp [World.setTexture]

/-- Witness for C13: the last reference of an undisposed texture is returned; the
wrapper is freed after an error report. -/
theorem C13_ReturnReference_witness :
    soleOwnerWorld.texture? 10 = some sampleTexture
    ∧ ∃ w1, FosterTextureReturnReference_D3D11 10 soleOwnerWorld = some w1
      ∧ w1.textures 10 = none
      ∧ w1.log = [NativeCall.FosterLogError
            .Texture_is_being_freed_without_deleting_its_GPU_Texture_Data,
          NativeCall.SDL_free (.texture 10)] := by
  refine ⟨by decide, ?_⟩
  obtain ⟨w1, h1, hfree, _, _, hlog, _⟩ :=
    (C13_ReturnReference soleOwnerWorld).1 10 sampleTexture (by decide)
  refine ⟨w1, h1, hfree.mpr (by decide), ?_⟩
  rw [hlog (by decide)]
  decide

/-! ## Sampler slots -/

/-- Claim C15, what the code does. On a `Sampler2D` uniform of array size 2 with
empty slots, `FosterShaderSetSampler_D3D11` with `values = [nearestRepeat,
linearClamp]` returns; it creates the native sampler of slot 1 from `values[1]`
but caches `values[0]` as the settings of slot 1. A second call with
`values = [nearestRepeat, linearMirror]`, whose element 1 differs from both
the element the slot's sampler was made from and the settings the slot caches,
returns and creates no native sampler: it leaves the state as it was. -/
theorem C15_SetSampler_caches_and_compares_first_element :
    ∃ w1 sh1 s1,
      FosterShaderSetSampler_D3D11 sampleSamplerEnv 20 0
          (some [nearestRepeat, linearClamp]) samplerWorld = some w1
      ∧ w1.log = [NativeCall.CreateSamplerState (some (samplerDescOf nearestRepeat)),
                  NativeCall.CreateSamplerState (some (samplerDescOf linearClamp))]
      ∧ w1.shaders 20 = some sh1
      ∧ sh1.samplers[1]? = some (some s1)
      ∧ s1.settings = some nearestRepeat
      ∧ s1.settings ≠ some linearClamp
      ∧ s1.settings ≠ some linearMirror
      ∧ ∃ w2, FosterShaderSetSampler_D3D11 sampleSamplerEnv 20 0
          (some [nearestRepeat, linearMirror]) w1 = some w2
        ∧ calls NativeCall.isCreateSamplerState w2.log
            = calls NativeCall.isCreateSamplerState w1.log
        ∧ w2.log = w1.log
        ∧ w2.shaders 20 = some sh1 := by
  refine ⟨_, _, _, rfl, ?_, rfl, rfl, ?_, ?_, ?_, _, rfl, ?_, ?_, ?_⟩ <;> decide

/-! ## Misuse of the uniform setters -/

/-- Claim C16. For every live shader and every index with `index < 0` or
`index >= uniformCount`, `FosterShaderSetUniform_D3D11`,
`FosterShaderSetTexture_D3D11` and `FosterShaderSetSampler_D3D11` return a state
that differs from the one they started in by one `FosterLogError` entry at the end
of the log: no native call is logged, and the tracker, the shaders (slots and
uniform buffer field included) and the textures (reference counts included) are
the same. The same holds for `FosterShaderSetTexture_D3D11` on an in-range uniform
whose kind is not `Texture2D` and for `FosterShaderSetSampler_D3D11` on one whose
kind is not `Sampler2D`. -/
theorem C16_setter_misuse_only_logs (w : World) (shader : Ptr) (sh : FosterShader_D3D11)
    (index : Int) (hlive : w.shader? shader = some sh) :
    (index < 0 ∨ index ≥ sh.uniformCount →
      (∀ mapped values, FosterShaderSetUniform_D3D11 mapped shader index values w
          = some (w.emit (.FosterLogError .Invalid_Uniform_Index)))
      ∧ (∀ values, FosterShaderSetTexture_D3D11 shader index values w
          = some (w.emit (.FosterLogError .Invalid_Texture_Index)))
      ∧ (∀ env values, FosterShaderSetSampler_D3D11 env shader index values w
          = some (w.emit (.FosterLogError .Invalid_Sampler_Index))))
    ∧ (∀ u, 0 ≤ index → sh.uniforms[index.toNat]? = some u →
        u.type ≠ .FOSTER_UNIFORM_TYPE_TEXTURE2D →
        ∀ values, FosterShaderSetTexture_D3D11 shader index values w
          = some (w.emit (.FosterLogError .Uniform_is_not_a_texture)))
    ∧ (∀ u, 0 ≤ index → sh.uniforms[index.toNat]? = some u →
        u.type ≠ .FOSTER_UNIFORM_TYPE_SAMPLER2D →
        ∀ env values, FosterShaderSetSampler_D3D11 env shader index values w
          = some (w.emit (.FosterLogError .Uniform_is_not_a_sampler)))
    ∧ (∀ text, (w.emit (.FosterLogError text)).fdx = w.fdx
        ∧ (w.emit (.FosterLogError text)).shaders = w.shaders
        ∧ (w.emit (.FosterLogError text)).textures = w.textures
        ∧ (w.emit (.FosterLogError text)).log = w.log ++ [.FosterLogError text]) := by
  refine ⟨?_, ?_, ?_, fun _ => ⟨rfl, rfl, rfl, rfl⟩⟩
  · intro hout
    refine ⟨?_, ?_, ?_⟩
    · intro mapped values
      unfold FosterShaderSetUniform_D3D11
      simp only [hlive]
      rw [if_pos hout]
    · intro values
      unfold FosterShaderSetTexture_D3D11
      simp only [hlive]
      rw [if_pos hout]
    · intro env values
      unfold FosterShaderSetSampler_D3D11
      simp only [hlive]
      rw [if_pos hout]
  · intro u h0 hu hkind values
    have hlt : index.toNat < sh.uniforms.length := by
      by_contra hge
      rw [List.getElem?_eq_none (not_lt.mp hge)] at hu
      cases hu
    have hin : ¬ (index < 0 ∨ index ≥ sh.uniformCount) := by
      unfold FosterShader_D3D11.uniformCount
      omega
    unfold FosterShaderSetTexture_D3D11
    simp only [hlive]
    rw [if_neg hin]
    simp only [hu]
    rw [if_pos hkind]
  · intro u h0 hu hkind env values
    have hlt : index.toNat < sh.uniforms.length := by
      by_contra hge
      rw [List.getElem?_eq_none (not_lt.mp hge)] at hu
      cases hu
    have hin : ¬ (index < 0 ∨ index ≥ sh.uniformCount) := by
      unfold FosterShader_D3D11.uniformCount
      omega
    unfold FosterShaderSetSampler_D3D11
    simp only [hlive]
    rw [if_neg hin]
    simp only [hu]
    rw [if_pos hkind]

/-- Witness for C16 on the sample shader (one `Texture2D` uniform): index 1 is out
of range for the three setters, and index 0 is not a sampler. -/
theorem C16_setter_misuse_only_logs_witness :
    shaderWorld.shader? 20 = some sampleShader
    ∧ FosterShaderSetUniform_D3D11 true 20 1 [0, 0, 128, 63] shaderWorld
        = some (shaderWorld.emit (.FosterLogError .Invalid_Uniform_Index))
    ∧ FosterShaderSetTexture_D3D11 20 1 [10] shaderWorld
        = some (shaderWorld.emit (.FosterLogError .Invalid_Texture_Index))
    ∧ FosterShaderSetSampler_D3D11 sampleSamplerEnv 20 0 (some [nearestRepeat]) shaderWorld
        = some (shaderWorld.emit (.FosterLogError .Uniform_is_not_a_sampler)) := by
  have h := C16_setter_misuse_only_logs shaderWorld 20 sampleShader 1 (by decide)
  have h0 := C16_setter_misuse_only_logs shaderWorld 20 sampleShader 0 (by decide)
  have hout := h.1 (Or.inr (by decide))
  exact ⟨by decide, hout.1 true _, hout.2.1 _,
    h0.2.2.1 { name := "u_texture", index := 0, size := 1, offset := 0
               type := .FOSTER_UNIFORM_TYPE_TEXTURE2D }
      (by decide) (by decide) (by decide) sampleSamplerEnv _⟩

/-! ## Clear -/

/-- The colour loop of `FosterClear_D3D11` returns when the view array holds
`viewCount` entries, and logs one clear per view, in order. -/
theorem clearColorViews_eq (color : List Nat) (view : List Ptr) (viewCount : Int) (w : World)
    (hcount : viewCount.toNat ≤ view.length) :
    clearColorViews color view viewCount w
      = some (w.emits ((view.take viewCount.toNat).map
          (fun v => NativeCall.ClearRenderTargetView v color))) := by
  unfold clearColorViews
  revert hcount
  generalize viewCount.toNat = n
  induction n with
  | zero => intro _; simp [World.emits]
  | succ n ih =>
    intro hn
    have hlt : n < view.length := hn
    rw [List.range_succ, List.foldlM_append, ih (Nat.le_of_lt hlt)]
    rw [List.take_succ, List.getElem?_eq_getElem hlt]
    show (match view[n]? with
          | none => none
          | some v => some ((w.emits ((view.take n).map
              (fun v => NativeCall.ClearRenderTargetView v color))).emit
              (NativeCall.ClearRenderTargetView v color))) >>= pure = _
    rw [List.getElem?_eq_getElem hlt]
    show some ((w.emits ((view.take n).map
      (fun v => NativeCall.ClearRenderTargetView v color))).emit
      (NativeCall.ClearRenderTargetView view[n] color)) = _
    simp only [World.emits, World.emit, Option.toList, List.map_append, List.map_cons,
      List.map_nil, List.append_assoc]

theorem setViewport_frame (enabled : Int) (rect : FosterRect) (w : World) :
    (FosterSetViewport_D3D11 enabled rect w).targets = w.targets
    ∧ (FosterSetViewport_D3D11 enabled rect w).fdx.backBufferView = w.fdx.backBufferView
    ∧ (FosterSetViewport_D3D11 enabled rect w).fdx.backBufferDepthView
        = w.fdx.backBufferDepthView
    ∧ (FosterSetViewport_D3D11 enabled rect w).fdx.stateViewport
        = derivedViewport w.fdx enabled rect
    ∧ ∃ l, (FosterSetViewport_D3D11 enabled rect w).log = w.log ++ l
        ∧ ∀ c ∈ l, c.isRSSetViewports = true := by
  by_cases h : w.fdx.stateInitializing = true
      ∨ derivedViewport w.fdx enabled rect ≠ w.fdx.stateViewport
  · rw [FosterSetViewport_D3D11_changed enabled rect w h]
    exact ⟨rfl, rfl, rfl, rfl, _, rfl, by simp [NativeCall.isRSSetViewports]⟩
  · rw [FosterSetViewport_D3D11_same enabled rect w h]
    have heq : derivedViewport w.fdx enabled rect = w.fdx.stateViewport := by
      by_contra hne
      exact h (Or.inr hne)
    exact ⟨rfl, rfl, rfl, heq.symm, [], by simp, by simp⟩

theorem setScissor_frame (enabled : Int) (rect : FosterRect) (w : World) :
    (FosterSetScissor_D3D11 enabled rect w).targets = w.targets
    ∧ (FosterSetScissor_D3D11 enabled rect w).fdx = w.fdx
    ∧ ∃ l, (FosterSetScissor_D3D11 enabled rect w).log = w.log ++ l
        ∧ ∀ c ∈ l, c.isRSSetScissorRects = true := by
  unfold FosterSetScissor_D3D11
  by_cases h : w.fdx.stateInitializing = true
      ∨ (enabled ≠ 0 ∧ derivedScissor w.fdx rect ≠ w.fdx.stateScissor)
  · by_cases he : enabled ≠ 0
    · simp only [if_pos h, if_pos he]
      exact ⟨rfl, rfl, _, rfl, by simp [NativeCall.isRSSetScissorRects]⟩
    · simp only [if_pos h, if_neg he]
      exact ⟨rfl, rfl, _, rfl, by simp [NativeCall.isRSSetScissorRects]⟩
  · rw [if_neg h]
    exact ⟨rfl, rfl, [], by simp, by simp⟩

/-- What `FosterClear_D3D11` returns when the views it resolves are there: the state
left by the two setters, followed by the clears. -/
theorem FosterClear_D3D11_eq (bits : ClearMaskBits) (command : FosterClearCommand) (w : World)
    (view : List Ptr) (viewCount : Int) (depthView : Ptr)
    (hviews : clearViews command w = some (view, viewCount, depthView))
    (hcount : viewCount.toNat ≤ view.length) :
    ∃ w0 : World, w0.fdx.stateViewport = derivedViewport w.fdx 1 command.clip
      ∧ (∃ l, w0.log = w.log ++ l
          ∧ ∀ c ∈ l, c.isRSSetViewports = true ∨ c.isRSSetScissorRects = true)
      ∧ FosterClear_D3D11 bits command w = some (w0.emits (
          (if command.mask &&& bits.FOSTER_CLEAR_MASK_COLOR = bits.FOSTER_CLEAR_MASK_COLOR
            then (view.take viewCount.toNat).map (fun v => NativeCall.ClearRenderTargetView v
              [command.color.r, command.color.g, command.color.b, command.color.a])
            else [])
          ++ (if command.mask &&& bits.FOSTER_CLEAR_MASK_DEPTH = bits.FOSTER_CLEAR_MASK_DEPTH
            then [NativeCall.ClearDepthStencilView depthView .D3D11_CLEAR_DEPTH command.depth 0,
                  NativeCall.ClearDepthStencilView depthView .D3D11_CLEAR_STENCIL 0
                    command.stencil]
            else []))) := by
  obtain ⟨hvt, hvb, hvd, hvv, lv, hvl, hvp⟩ := setViewport_frame 1 command.clip w
  obtain ⟨hst, hsf, ls, hsl, hsp⟩ := setScissor_frame 0
    (FosterSetViewport_D3D11 1 command.clip w).fdx.stateScissor
    (FosterSetViewport_D3D11 1 command.clip w)
  refine ⟨FosterSetScissor_D3D11 0 (FosterSetViewport_D3D11 1 command.clip w).fdx.stateScissor
    (FosterSetViewport_D3D11 1 command.clip w), ?_, ?_, ?_⟩
  · rw [hsf, hvv]
  · refine ⟨lv ++ ls, by rw [hsl, hvl, List.append_assoc], ?_⟩
    intro c hc
    rcases List.mem_append.mp hc with h | h
    · exact Or.inl (hvp c h)
    · exact Or.inr (hsp c h)
  · have hcv : clearViews command (FosterSetScissor_D3D11 0
        (FosterSetViewport_D3D11 1 command.clip w).fdx.stateScissor
        (FosterSetViewport_D3D11 1 command.clip w)) = some (view, viewCount, depthView) := by
      rw [← hviews]
      unfold clearViews
      rw [hst, hsf, hvt, hvb, hvd]
    unfold FosterClear_D3D11
    simp only [hcv]
    by_cases hc : command.mask &&& bits.FOSTER_CLEAR_MASK_COLOR = bits.FOSTER_CLEAR_MASK_COLOR
    · by_cases hd : command.mask &&& bits.FOSTER_CLEAR_MASK_DEPTH = bits.FOSTER_CLEAR_MASK_DEPTH
      · simp only [if_pos hc, if_pos hd]
        rw [clearColorViews_eq _ view _ _ hcount]
        simp [World.emits, World.emit]
      · simp only [if_pos hc, if_neg hd]
        rw [clearColorViews_eq _ view _ _ hcount]
        simp [World.emits, World.emit]
    · by_cases hd : command.mask &&& bits.FOSTER_CLEAR_MASK_DEPTH = bits.FOSTER_CLEAR_MASK_DEPTH
      · simp only [if_neg hc, if_pos hd]
        simp [World.emits, World.emit]
      · simp only [if_neg hc, if_neg hd]
        simp [World.emits, World.emit]

/-- Claim C19, counterexample. On the sample tracker (800 x 600 framebuffer, tracked
viewport the full framebuffer), clearing the back buffer with the clip rect
`{10, 20, 100, 50}` returns with the tracked viewport `{10, 530, 100, 50}`, which is
not the full-framebuffer rect, and that rect is what was applied natively. -/
theorem C19_counterexample_clip_rect_becomes_viewport :
    ∃ w1, FosterClear_D3D11 sampleMaskBits sampleClear sampleWorld = some w1
      ∧ w1.fdx.stateViewport = { x := 10, y := 530, w := 100, h := 50 }
      ∧ w1.fdx.stateViewport ≠
          { x := 0, y := 0, w := sampleWorld.fdx.stateFrameBufferWidth
            h := sampleWorld.fdx.stateFrameBufferHeight }
      ∧ w1.log.head? = some (NativeCall.RSSetViewports 1
          (viewportDesc { x := 10, y := 530, w := 100, h := 50 })) := by
  refine ⟨_, rfl, ?_, ?_, ?_⟩ <;> decide

/-- Claim C19, amended. For every clear command and tracker state in which the
command's views are there (the back buffer, or a live target whose view count does
not exceed its view array), `FosterClear_D3D11` returns, and afterwards the tracked
viewport is the command's clip rect flipped in Y against the tracked framebuffer
height: `(clip.x, H - clip.y - clip.h, clip.w, clip.h)` in C `int` arithmetic. -/
theorem C19_Clear_applies_clip_viewport (bits : ClearMaskBits) (command : FosterClearCommand)
    (w : World) (view : List Ptr) (viewCount : Int) (depthView : Ptr)
    (hviews : clearViews command w = some (view, viewCount, depthView))
    (hcount : viewCount.toNat ≤ view.length) :
    ∃ w1, FosterClear_D3D11 bits command w = some w1
      ∧ w1.fdx.stateViewport =
          { x := command.clip.x
            y := wrap32 (wrap32 (w.fdx.stateFrameBufferHeight - command.clip.y) - command.clip.h)
            w := command.clip.w
            h := command.clip.h } := by
  obtain ⟨w0, hv, _, heq⟩ := FosterClear_D3D11_eq bits command w view viewCount depthView
    hviews hcount
  refine ⟨_, heq, ?_⟩
  show w0.fdx.stateViewport = _
  rw [hv]
  simp [derivedViewport]

/-- Witness for C19, amended: the sample clear on the sample tracker. -/
theorem C19_Clear_applies_clip_viewport_witness :
    clearViews sampleClear sampleWorld = some ([4], 1, NULL)
    ∧ ∃ w1, FosterClear_D3D11 sampleMaskBits sampleClear sampleWorld = some w1
      ∧ w1.fdx.stateViewport = { x := 10, y := 530, w := 100, h := 50 } := by
  refine ⟨by decide, ?_⟩
  obtain ⟨w1, h1, hv⟩ := C19_Clear_applies_clip_viewport sampleMaskBits sampleClear sampleWorld
    [4] 1 NULL (by decide) (by decide)
  exact ⟨w1, h1, by rw [hv]; decide⟩

theorem calls_append (p : NativeCall → Bool) (l1 l2 : List NativeCall) :
    calls p (l1 ++ l2) = calls p l1 + calls p l2 := by
  simp [calls, List.countP_append]

theorem calls_eq_zero_of (p : NativeCall → Bool) (l : List NativeCall)
    (h : ∀ c ∈ l, p c = false) : calls p l = 0 := by
  unfold calls
  rw [List.countP_eq_zero]
  intro c hc
  simp [h c hc]

theorem calls_colorClears (color : List Nat) (l : List Ptr) :
    calls NativeCall.isClearRenderTargetView
      (l.map (fun v => NativeCall.ClearRenderTargetView v color)) = l.length := by
  induction l with
  | nil => rfl
  | cons a t ih =>
    simp only [calls, List.map_cons, List.countP_cons, List.length_cons] at ih ⊢
    rw [ih]
    simp [NativeCall.isClearRenderTargetView]

theorem setter_call_is_no_clear (c : NativeCall)
    (h : c.isRSSetViewports = true ∨ c.isRSSetScissorRects = true) :
    c.isClearRenderTargetView = false ∧ c.isClearDepth = false ∧ c.isClearStencil = false := by
  cases c <;> first
    | exact ⟨rfl, rfl, rfl⟩
    | (exfalso; simp [NativeCall.isRSSetViewports, NativeCall.isRSSetScissorRects] at h)

/-- Claim C20. For every clear command whose views are there (the back buffer, or
a live target whose view count does not exceed its view array),
`FosterClear_D3D11` returns, and of the calls it adds to the log: the colour clears
number the resolved view count when `mask & COLOR == COLOR` and none otherwise;
the depth clears number one when `mask & DEPTH == DEPTH` and none otherwise; the
stencil clears number one when `mask & DEPTH == DEPTH` and none otherwise. So the
number of stencil clears added equals the number of depth clears added, whatever
the mask. -/
theorem C20_Clear_calls_by_mask (bits : ClearMaskBits) (command : FosterClearCommand)
    (w : World) (view : List Ptr) (viewCount : Int) (depthView : Ptr)
    (hviews : clearViews command w = some (view, viewCount, depthView))
    (hcount : viewCount.toNat ≤ view.length) :
    ∃ w1, FosterClear_D3D11 bits command w = some w1
      ∧ calls NativeCall.isClearRenderTargetView w1.log
          = calls NativeCall.isClearRenderTargetView w.log
            + (if command.mask &&& bits.FOSTER_CLEAR_MASK_COLOR = bits.FOSTER_CLEAR_MASK_COLOR
                then viewCount.toNat else 0)
      ∧ calls NativeCall.isClearDepth w1.log
          = calls NativeCall.isClearDepth w.log
            + (if command.mask &&& bits.FOSTER_CLEAR_MASK_DEPTH = bits.FOSTER_CLEAR_MASK_DEPTH
                then 1 else 0)
      ∧ calls NativeCall.isClearStencil w1.log
          = calls NativeCall.isClearStencil w.log
            + (if command.mask &&& bits.FOSTER_CLEAR_MASK_DEPTH = bits.FOSTER_CLEAR_MASK_DEPTH
                then 1 else 0)
      ∧ calls NativeCall.isClearStencil w1.log - calls NativeCall.isClearStencil w.log
          = calls NativeCall.isClearDepth w1.log - calls NativeCall.isClearDepth w.log := by
  obtain ⟨w0, _, ⟨l, hl, hp⟩, heq⟩ := FosterClear_D3D11_eq bits command w view viewCount
    depthView hviews hcount
  have hz : ∀ p : NativeCall → Bool,
      (∀ c, c.isRSSetViewports = true ∨ c.isRSSetScissorRects = true → p c = false) →
      calls p l = 0 := fun p hpq => calls_eq_zero_of p l (fun c hc => hpq c (hp c hc))
  have hcol := hz NativeCall.isClearRenderTargetView (fun c hc => (setter_call_is_no_clear c hc).1)
  have hdep := hz NativeCall.isClearDepth (fun c hc => (setter_call_is_no_clear c hc).2.1)
  have hste := hz NativeCall.isClearStencil (fun c hc => (setter_call_is_no_clear c hc).2.2)
  have hlen : (view.take viewCount.toNat).length = viewCount.toNat := by
    simp [List.length_take, hcount]
  have hA : calls NativeCall.isClearRenderTargetView (w0.emits (
          (if command.mask &&& bits.FOSTER_CLEAR_MASK_COLOR = bits.FOSTER_CLEAR_MASK_COLOR
            then (view.take viewCount.toNat).map (fun v => NativeCall.ClearRenderTargetView v
              [command.color.r, command.color.g, command.color.b, command.color.a])
            else [])
          ++ (if command.mask &&& bits.FOSTER_CLEAR_MASK_DEPTH = bits.FOSTER_CLEAR_MASK_DEPTH
            then [NativeCall.ClearDepthStencilView depthView .D3D11_CLEAR_DEPTH command.depth 0,
                  NativeCall.ClearDepthStencilView depthView .D3D11_CLEAR_STENCIL 0
                    command.stencil]
            else []))).log
      = calls NativeCall.isClearRenderTargetView w.log
            + (if command.mask &&& bits.FOSTER_CLEAR_MASK_COLOR = bits.FOSTER_CLEAR_MASK_COLOR
                then viewCount.toNat else 0) := by
    simp only [World.emits, hl, calls_append, hcol]
    by_cases hc : command.mask &&& bits.FOSTER_CLEAR_MASK_COLOR = bits.FOSTER_CLEAR_MASK_COLOR
      <;> by_cases hd : command.mask &&& bits.FOSTER_CLEAR_MASK_DEPTH
          = bits.FOSTER_CLEAR_MASK_DEPTH
      <;> simp only [if_pos, if_neg, hc, hd, not_false_eq_true, calls_colorClears, hlen]
      <;> simp [calls, List.countP_cons, NativeCall.isClearRenderTargetView]
  have hB : ∀ (p : NativeCall → Bool), calls p l = 0 →
      (∀ v rgba, p (.ClearRenderTargetView v rgba) = false) →
      (p (.ClearDepthStencilView depthView .D3D11_CLEAR_DEPTH command.depth 0) = true
        ∧ p (.ClearDepthStencilView depthView .D3D11_CLEAR_STENCIL 0 command.stencil) = false
       ∨ p (.ClearDepthStencilView depthView .D3D11_CLEAR_DEPTH command.depth 0) = false
        ∧ p (.ClearDepthStencilView depthView .D3D11_CLEAR_STENCIL 0 command.stencil) = true) →
      calls p (w0.emits (
          (if command.mask &&& bits.FOSTER_CLEAR_MASK_COLOR = bits.FOSTER_CLEAR_MASK_COLOR
            then (view.take viewCount.toNat).map (fun v => NativeCall.ClearRenderTargetView v
              [command.color.r, command.color.g, command.color.b, command.color.a])
            else [])
          ++ (if command.mask &&& bits.FOSTER_CLEAR_MASK_DEPTH = bits.FOSTER_CLEAR_MASK_DEPTH
            then [NativeCall.ClearDepthStencilView depthView .D3D11_CLEAR_DEPTH command.depth 0,
                  NativeCall.ClearDepthStencilView depthView .D3D11_CLEAR_STENCIL 0
                    command.stencil]
            else []))).log
      = calls p w.log
            + (if command.mask &&& bits.FOSTER_CLEAR_MASK_DEPTH = bits.FOSTER_CLEAR_MASK_DEPTH
                then 1 else 0) := by
    intro p hpl hpc hpd
    simp only [World.emits, hl, calls_append, hpl]
    have hcz : calls p ((view.take viewCount.toNat).map (fun v =>
        NativeCall.ClearRenderTargetView v
          [command.color.r, command.color.g, command.color.b, command.color.a])) = 0 := by
      apply calls_eq_zero_of
      intro c hc
      obtain ⟨v, _, rfl⟩ := List.mem_map.mp hc
      exact hpc v _
    by_cases hc : command.mask &&& bits.FOSTER_CLEAR_MASK_COLOR = bits.FOSTER_CLEAR_MASK_COLOR
      <;> by_cases hd : command.mask &&& bits.FOSTER_CLEAR_MASK_DEPTH
          = bits.FOSTER_CLEAR_MASK_DEPTH
      <;> simp only [if_pos, if_neg, hc, hd, hcz, not_false_eq_true]
      <;> rcases hpd with ⟨h1, h2⟩ | ⟨h1, h2⟩
      <;> simp [calls, List.countP_cons, h1, h2]
  have hD := hB NativeCall.isClearDepth hdep (fun _ _ => rfl) (Or.inl ⟨rfl, rfl⟩)
  have hS := hB NativeCall.isClearStencil hste (fun _ _ => rfl) (Or.inr ⟨rfl, rfl⟩)
  refine ⟨_, heq, hA, hD, hS, ?_⟩
  rw [hD, hS]
  simp

/-- Witness for C20: the sample clear (colour and depth bits set) of the back buffer
issues one colour clear, one depth clear and one stencil clear. -/
theorem C20_Clear_calls_by_mask_witness :
    clearViews sampleClear sampleWorld = some ([4], 1, NULL)
    ∧ ∃ w1, FosterClear_D3D11 sampleMaskBits sampleClear sampleWorld = some w1
      ∧ calls NativeCall.isClearRenderTargetView w1.log = 1
      ∧ calls NativeCall.isClearDepth w1.log = 1
      ∧ calls NativeCall.isClearStencil w1.log = 1 := by
  refine ⟨by decide, ?_⟩
  obtain ⟨w1, h1, hc, hd, hs, _⟩ := C20_Clear_calls_by_mask sampleMaskBits sampleClear
    sampleWorld [4] 1 NULL (by decide) (by decide)
  refine ⟨w1, h1, ?_, ?_, ?_⟩
  · rw [hc]; decide
  · rw [hd]; decide
  · rw [hs]; decide

/-! ## Targets -/

/-- A pass of the attachment loop for a colour format reads through the null pointer
`result.colorTextures[i]`. -/
theorem targetAttachmentPass_colour (env : TargetCreateEnv) (width height : Int)
    (attachments : List FosterTextureFormat) (i : Nat) (result : FosterTarget_D3D11) (w : World)
    (hnull : ∀ p, result.colorTextures[i]? = some p → p = NULL)
    (hcolour : ∀ f ∈ attachments, f ≠ .FOSTER_TEXTURE_FORMAT_DEPTH24_STENCIL8) :
    targetAttachmentPass env width height attachments i result w = none := by
  unfold targetAttachmentPass
  cases hf : attachments[i]? with
  | none => rfl
  | some format =>
    have hne : format ≠ .FOSTER_TEXTURE_FORMAT_DEPTH24_STENCIL8 :=
      hcolour format (List.getElem?_mem hf)
    simp only [hne, false_and, if_false]
    cases hc : FosterTextureCreate_D3D11 (env.texture i) width height format w with
    | none => rfl
    | some r =>
      obtain ⟨created, w1⟩ := r
      simp only
      cases hs : result.colorTextures[i]? with
      | none => rfl
      | some slot =>
        have h0 : slot = NULL := hnull slot hs
        subst h0
        simp [World.texture?]

/-- Claim C18, what the code does. For every list of formats none of which is the
depth format and every attachment count `k >= 1`, `FosterTargetCreate_D3D11` returns
no target: in pass 0 the created texture is stored in `result.depthTexture`, and
the view is created from `result.colorTextures[0]->texture`, a read through the
null pointer the array was filled with. So there is no returned target for
`FosterTargetGetAttachment_D3D11` to be applied to. -/
theorem C18_TargetCreate_reads_null_colour_slot (env : TargetCreateEnv) (width height : Int)
    (attachments : List FosterTextureFormat) (attachmentCount : Int) (w : World)
    (hcount : 1 ≤ attachmentCount)
    (hcolour : ∀ f ∈ attachments, f ≠ .FOSTER_TEXTURE_FORMAT_DEPTH24_STENCIL8) :
    FosterTargetCreate_D3D11 env width height attachments attachmentCount w = none := by
  unfold FosterTargetCreate_D3D11
  obtain ⟨n, hn⟩ : ∃ n, attachmentCount.toNat = n + 1 :=
    ⟨attachmentCount.toNat - 1, by omega⟩
  simp only [hn]
  unfold targetAttachmentLoop
  rw [if_pos (Nat.succ_pos n)]
  rw [targetAttachmentPass_colour env width height attachments 0 _ w ?_ hcolour]
  intro p hp
  cases hm : env.maxAttachments with
  | zero => simp [hm] at hp
  | succ m =>
    simp [hm, List.replicate_succ] at hp
    exact hp.symm

/-- Witness for C18: one `R8G8B8A8` attachment of 64 x 64 on the sample world, every
native call and allocation succeeding. -/
theorem C18_TargetCreate_reads_null_colour_slot_witness :
    FosterTargetCreate_D3D11 sampleTargetEnv 64 64 [.FOSTER_TEXTURE_FORMAT_R8G8B8A8] 1
      sampleWorld = none :=
  C18_TargetCreate_reads_null_colour_slot sampleTargetEnv 64 64
    [.FOSTER_TEXTURE_FORMAT_R8G8B8A8] 1 sampleWorld (by decide) (by decide)

/-! ## The uniform buffer of a new shader -/

theorem wrapU32_lt (n : Nat) : wrapU32 n < 4294967296 := by
  unfold wrapU32; omega

theorem wrapU32_add_left (a b : Nat) : wrapU32 (wrapU32 a + b) = wrapU32 (a + b) := by
  unfold wrapU32; omega

theorem wrapU32_of_lt {n : Nat} (h : n < 4294967296) : wrapU32 n = n := by
  unfold wrapU32; omega

theorem reflectResource_ok (p : ReflectPass) (r : ReflectedResource)
    (hp : p.failed = none) (hr : r.ok = true) :
    (reflectResource p r).failed = none
    ∧ wrapU32 (reflectResource p r).bytes = wrapU32 (p.bytes + resourceBytes r) := by
  unfold reflectResource resourceBytes
  simp only [hp, Option.isSome_none, Bool.false_eq_true, if_false, hr, not_true_eq_false]
  by_cases ht : r.Type_ = .D3D_SIT_TEXTURE ∧ r.Dimension = .D3D_SRV_DIMENSION_TEXTURE2D
  · simp only [if_pos ht, if_pos (Or.inl ht), ReflectPass.push, hp, true_and]
    unfold wrapU32; omega
  · by_cases hs : r.Type_ = .D3D_SIT_SAMPLER
    · simp only [if_neg ht, if_pos hs, if_pos (Or.inr hs), ReflectPass.push, hp, true_and]
      unfold wrapU32; omega
    · have hn : ¬ ((r.Type_ = .D3D_SIT_TEXTURE ∧ r.Dimension = .D3D_SRV_DIMENSION_TEXTURE2D)
          ∨ r.Type_ = .D3D_SIT_SAMPLER) := by
        rintro (h | h)
        · exact ht h
        · exact hs h
      simp only [if_neg ht, if_neg hs, if_neg hn, hp, true_and, Nat.add_zero]

theorem reflectResources_ok (rs : List ReflectedResource) :
    ∀ (p : ReflectPass), p.failed = none → (∀ r ∈ rs, r.ok = true) →
      (rs.foldl reflectResource p).failed = none
      ∧ wrapU32 (rs.foldl reflectResource p).bytes
          = wrapU32 (p.bytes + (rs.map resourceBytes).sum) := by
  induction rs with
  | nil => intro p hp _; exact ⟨hp, by simp⟩
  | cons r rest ih =>
    intro p hp hok
    obtain ⟨h1, h2⟩ := reflectResource_ok p r hp (hok r (List.mem_cons_self _ _))
    obtain ⟨h3, h4⟩ := ih (reflectResource p r) h1
      (fun x hx => hok x (List.mem_cons_of_mem _ hx))
    refine ⟨h3, ?_⟩
    rw [List.foldl_cons, h4, List.map_cons, List.sum_cons]
    unfold wrapU32 at h2 ⊢
    omega

theorem reflectVariable_ok (p : ReflectPass) (v : ReflectedVariable)
    (hp : p.failed = none) (hv : v.ok = true) (ht : v.typeOk = true) :
    (reflectVariable p v).failed = none
    ∧ wrapU32 (reflectVariable p v).bytes = wrapU32 (p.bytes + v.Size) := by
  unfold reflectVariable
  simp only [hp, Option.isSome_none, Bool.false_eq_true, if_false, hv, ht, not_true_eq_false,
    ReflectPass.push, true_and]
  unfold wrapU32; omega

theorem reflectVariables_ok (vs : List ReflectedVariable) :
    ∀ (p : ReflectPass), p.failed = none → (∀ v ∈ vs, v.ok = true ∧ v.typeOk = true) →
      (vs.foldl reflectVariable p).failed = none
      ∧ wrapU32 (vs.foldl reflectVariable p).bytes
          = wrapU32 (p.bytes + (vs.map (fun v => v.Size)).sum) := by
  induction vs with
  | nil => intro p hp _; exact ⟨hp, by simp⟩
  | cons v rest ih =>
    intro p hp hok
    obtain ⟨hv, ht⟩ := hok v (List.mem_cons_self _ _)
    obtain ⟨h1, h2⟩ := reflectVariable_ok p v hp hv ht
    obtain ⟨h3, h4⟩ := ih (reflectVariable p v) h1
      (fun x hx => hok x (List.mem_cons_of_mem _ hx))
    refine ⟨h3, ?_⟩
    rw [List.foldl_cons, h4, List.map_cons, List.sum_cons]
    unfold wrapU32 at h2 ⊢
    omega

theorem reflectBuffers_ok (bs : List ReflectedBuffer) :
    ∀ (p : ReflectPass), p.failed = none →
      (∀ b ∈ bs, b.ok = true ∧ ∀ v ∈ b.Variables, v.ok = true ∧ v.typeOk = true) →
      (bs.foldl reflectBuffer p).failed = none
      ∧ wrapU32 (bs.foldl reflectBuffer p).bytes
          = wrapU32 (p.bytes
              + (bs.map (fun b => (b.Variables.map (fun v => v.Size)).sum)).sum) := by
  induction bs with
  | nil => intro p hp _; exact ⟨hp, by simp⟩
  | cons b rest ih =>
    intro p hp hok
    obtain ⟨hb, hvs⟩ := hok b (List.mem_cons_self _ _)
    have hstep : reflectBuffer p b = b.Variables.foldl reflectVariable p := by
      unfold reflectBuffer
      simp [hp, hb]
    obtain ⟨h1, h2⟩ := reflectVariables_ok b.Variables p hp hvs
    rw [← hstep] at h1 h2
    obtain ⟨h3, h4⟩ := ih (reflectBuffer p b) h1
      (fun x hx => hok x (List.mem_cons_of_mem _ hx))
    refine ⟨h3, ?_⟩
    rw [List.foldl_cons, h4, List.map_cons, List.sum_cons]
    unfold wrapU32 at h2 ⊢
    omega

theorem allOk_iff (reflector : ShaderReflection) :
    reflector.allOk = true ↔
      reflector.descOk = true
      ∧ (∀ r ∈ reflector.resources, r.ok = true)
      ∧ (∀ b ∈ reflector.constantBuffers,
          b.ok = true ∧ ∀ v ∈ b.Variables, v.ok = true ∧ v.typeOk = true) := by
  unfold ShaderReflection.allOk
  simp only [Bool.and_eq_true, List.all_eq_true, and_assoc]

/-- A stage whose queries all succeed adds its binding bytes and its constant bytes
to the counter, in `unsigned int` arithmetic, and reports no failure. -/
theorem reflectUniforms_ok (reflector : ShaderReflection) (dest : List FosterUniform_D3D11)
    (start_at : Int) (bytes : Nat) (hok : reflector.allOk = true) :
    (reflectUniforms reflector dest start_at bytes).failed = none
    ∧ wrapU32 (reflectUniforms reflector dest start_at bytes).bytes
        = wrapU32 (bytes + bindingBytes reflector + constantBytes reflector) := by
  obtain ⟨hd, hr, hb⟩ := (allOk_iff reflector).mp hok
  unfold reflectUniforms
  simp only [hd, not_true_eq_false, if_false]
  obtain ⟨h1, h2⟩ := reflectResources_ok reflector.resources
    { dest := dest, bytes := bytes, uniformCount := wrapU32 (start_at % 4294967296).toNat
      failed := none } rfl hr
  obtain ⟨h3, h4⟩ := reflectBuffers_ok reflector.constantBuffers _ h1 hb
  refine ⟨h3, ?_⟩
  rw [h4]
  unfold bindingBytes constantBytes
  simp only at h2
  unfold wrapU32 at h2 ⊢
  omega

theorem foldl_keeps {α β : Type} (P : α → Prop) (f : α → β → α)
    (hstep : ∀ a b, P a → P (f a b)) : ∀ (l : List β) (a : α), P a → P (l.foldl f a) := by
  intro l
  induction l with
  | nil => intro a ha; exact ha
  | cons b rest ih => intro a ha; exact ih (f a b) (hstep a b ha)

theorem push_bytes_lt (p : ReflectPass) (name : String) (size : Nat) (type : FosterUniformType) :
    (p.push name size type).bytes < 4294967296 := wrapU32_lt _

theorem reflectResource_bytes_lt (p : ReflectPass) (r : ReflectedResource)
    (hp : p.bytes < 4294967296) : (reflectResource p r).bytes < 4294967296 := by
  unfold reflectResource
  split_ifs <;> first | exact hp | exact push_bytes_lt _ _ _ _

theorem reflectVariable_bytes_lt (p : ReflectPass) (v : ReflectedVariable)
    (hp : p.bytes < 4294967296) : (reflectVariable p v).bytes < 4294967296 := by
  unfold reflectVariable
  split_ifs <;> first | exact hp | exact push_bytes_lt _ _ _ _

theorem reflectBuffer_bytes_lt (p : ReflectPass) (b : ReflectedBuffer)
    (hp : p.bytes < 4294967296) : (reflectBuffer p b).bytes < 4294967296 := by
  unfold reflectBuffer
  split_ifs <;> first
    | exact hp
    | exact foldl_keeps (fun q => q.bytes < 4294967296) reflectVariable
        reflectVariable_bytes_lt b.Variables p hp

theorem reflectUniforms_bytes_lt (reflector : ShaderReflection)
    (dest : List FosterUniform_D3D11) (start_at : Int) (bytes : Nat)
    (hb : bytes < 4294967296) :
    (reflectUniforms reflector dest start_at bytes).bytes < 4294967296 := by
  unfold reflectUniforms
  split_ifs <;> first
    | exact hb
    | exact foldl_keeps (fun q => q.bytes < 4294967296) reflectBuffer reflectBuffer_bytes_lt
        _ _ (foldl_keeps (fun q => q.bytes < 4294967296) reflectResource
          reflectResource_bytes_lt _
          { dest := dest, bytes := bytes
            uniformCount := wrapU32 (start_at % 4294967296).toNat, failed := none } hb)

/-- The byte counter `FosterShaderCreate_D3D11` ends with after reflecting two stages
whose queries all succeed: the binding bytes and the constant bytes of both stages,
in `unsigned int` arithmetic. -/
theorem uniformBytes_eq (vertex pixel : ShaderReflection) (w : World)
    (hv : vertex.allOk = true) (hp : pixel.allOk = true) :
    let rv := FosterReflectUniforms_D3D11 vertex [] 0 0 w
    let rp := FosterReflectUniforms_D3D11 pixel rv.2.1 rv.1 rv.2.2.1 rv.2.2.2
    rp.2.2.1 = wrapU32 (constantBytes vertex + constantBytes pixel
        + (bindingBytes vertex + bindingBytes pixel))
    ∧ rp.2.2.2 = w := by
  intro rv rp
  obtain ⟨hvf, hvb⟩ := reflectUniforms_ok vertex [] 0 0 hv
  have hvlt := reflectUniforms_bytes_lt vertex [] 0 0 (by decide)
  obtain ⟨hpf, hpb⟩ := reflectUniforms_ok pixel rv.2.1 rv.1 rv.2.2.1 hp
  have hplt := reflectUniforms_bytes_lt pixel rv.2.1 rv.1 rv.2.2.1 hvlt
  have hrvw : rv.2.2.2 = w := by
    show (match (reflectUniforms vertex [] 0 0).failed with
          | some text => w.emit (.FosterLogError text)
          | none => w) = w
    rw [hvf]
  have hrpw : rp.2.2.2 = rv.2.2.2 := by
    show (match (reflectUniforms pixel rv.2.1 rv.1 rv.2.2.1).failed with
          | some text => rv.2.2.2.emit (.FosterLogError text)
          | none => rv.2.2.2) = rv.2.2.2
    rw [hpf]
  refine ⟨?_, hrpw.trans hrvw⟩
  show (reflectUniforms pixel rv.2.1 rv.1 rv.2.2.1).bytes = _
  have hrv : rv.2.2.1 = (reflectUniforms vertex [] 0 0).bytes := rfl
  rw [hrv] at hpb hplt ⊢
  rw [← wrapU32_of_lt hplt, hpb]
  rw [← wrapU32_of_lt hvlt] at *
  unfold wrapU32 at hvb ⊢
  omega

/-- Claim C17, counterexample. With an empty vertex stage and a pixel stage that
binds one 2D texture and one sampler, the constant-buffer variables of both stages
sum to 0 bytes, and `FosterShaderCreate_D3D11` creates a uniform buffer, of 16 bytes.
With a vertex stage holding one 64-byte matrix and the same pixel stage, the
constant-buffer variables sum to 64 bytes, and the buffer created has 80 bytes. -/
theorem C17_counterexample_bindings_counted :
    constantBytes emptyStage + constantBytes textureStage = 0
    ∧ (∃ w1, FosterShaderCreate_D3D11 (sampleShaderEnv emptyStage textureStage)
          sampleShaderData sampleWorld = some (20, w1)
        ∧ calls NativeCall.isCreateBuffer w1.log = 1
        ∧ NativeCall.CreateBuffer 16 ∈ w1.log)
    ∧ constantBytes matrixStage + constantBytes textureStage = 64
    ∧ (∃ w2, FosterShaderCreate_D3D11 (sampleShaderEnv matrixStage textureStage)
          sampleShaderData sampleWorld = some (20, w2)
        ∧ calls NativeCall.isCreateBuffer w2.log = 1
        ∧ NativeCall.CreateBuffer 80 ∈ w2.log) := by
  refine ⟨by decide, ⟨_, rfl, ?_, ?_⟩, by decide, ⟨_, rfl, ?_, ?_⟩⟩ <;> decide

/-- Claim C17, amended. For every pair of reflected stages whose queries
all succeed, in a creation whose other steps succeed, `FosterShaderCreate_D3D11`
returns the new shader, and with `U` the sum, as an `unsigned int`, of the byte
sizes of the constant-buffer variables of both stages and of the bind counts of
their 2D textures and samplers: one `CreateBuffer` is issued if `U` is nonzero and none
otherwise; its byte width is `(U + 15) & ~15`, which for `U <= 4294967280` is the
least multiple of 16 that is `>= U`. -/
theorem C17_uniform_buffer_counts_bindings (env : ShaderCreateEnv) (data : FosterShaderData)
    (w : World) (hok : env.succeeds data = true) :
    ∃ w1, FosterShaderCreate_D3D11 env data w = some (env.block, w1)
      ∧ w1.log = w.log
          ++ [NativeCall.D3DCompile .vertex, NativeCall.D3DCompile .pixel,
              NativeCall.CreateVertexShader env.vertexCompile.out,
              NativeCall.CreatePixelShader env.pixelCompile.out,
              NativeCall.D3DReflect env.vertexCompile.out,
              NativeCall.D3DReflect env.pixelCompile.out,
              NativeCall.ShaderReflection_Release .vertex,
              NativeCall.ShaderReflection_Release .pixel]
          ++ (if countedUniformBytes env.vertex env.pixel ≠ 0 then
                [NativeCall.CreateBuffer
                  (clearLow4 (wrapU32 (countedUniformBytes env.vertex env.pixel + 15)))]
              else [])
          ++ [NativeCall.Blob_Release env.pixelCompile.out]
      ∧ (countedUniformBytes env.vertex env.pixel ≤ 4294967280 →
          16 ∣ clearLow4 (wrapU32 (countedUniformBytes env.vertex env.pixel + 15))
          ∧ countedUniformBytes env.vertex env.pixel
              ≤ clearLow4 (wrapU32 (countedUniformBytes env.vertex env.pixel + 15))
          ∧ ∀ m, 16 ∣ m → countedUniformBytes env.vertex env.pixel ≤ m →
              clearLow4 (wrapU32 (countedUniformBytes env.vertex env.pixel + 15)) ≤ m) := by
  unfold ShaderCreateEnv.succeeds at hok
  simp only [Bool.and_eq_true, Bool.not_eq_true', decide_eq_true_eq, Option.isSome_iff_ne_none,
    ne_eq] at hok
  obtain ⟨⟨⟨⟨⟨⟨⟨⟨⟨⟨⟨⟨hvs, hfs⟩, hvc⟩, hpc⟩, hvsh⟩, hpsh⟩, hrv⟩, hrp⟩, hv⟩, hp⟩, hin⟩, hbuf⟩, hblock⟩ := hok
  obtain ⟨hU, hW⟩ := uniformBytes_eq env.vertex env.pixel
    ((((((w.emit (.D3DCompile .vertex)).emit (.D3DCompile .pixel)).emit
      (.CreateVertexShader env.vertexCompile.out)).emit
      (.CreatePixelShader env.pixelCompile.out)).emit
      (.D3DReflect env.vertexCompile.out)).emit (.D3DReflect env.pixelCompile.out)) hv hp
  have hdesc : env.vertex.descOk = true := ((allOk_iff env.vertex).mp hv).1
  have hvs2 : data.vertexShader.isNone = false := by
    cases h : data.vertexShader <;> simp_all
  have hfs2 : data.fragmentShader.isNone = false := by
    cases h : data.fragmentShader <;> simp_all
  have harith : countedUniformBytes env.vertex env.pixel ≤ 4294967280 →
      16 ∣ clearLow4 (wrapU32 (countedUniformBytes env.vertex env.pixel + 15))
      ∧ countedUniformBytes env.vertex env.pixel
          ≤ clearLow4 (wrapU32 (countedUniformBytes env.vertex env.pixel + 15))
      ∧ ∀ m, 16 ∣ m → countedUniformBytes env.vertex env.pixel ≤ m →
          clearLow4 (wrapU32 (countedUniformBytes env.vertex env.pixel + 15)) ≤ m := by
    intro hle
    generalize countedUniformBytes env.vertex env.pixel = U at hle ⊢
    unfold clearLow4 wrapU32
    refine ⟨by omega, by omega, ?_⟩
    intro m hm hUm
    omega
  unfold FosterShaderCreate_D3D11
  simp only [hvs2, hfs2, hvc, hpc, hvsh, hpsh, hrv, hrp, hdesc, hin, hbuf, hblock,
    Bool.false_eq_true, if_false, not_true_eq_false, and_false, hU, hW]
  refine ⟨_, rfl, ?_, harith⟩
  unfold countedUniformBytes
  by_cases h0 : wrapU32 (constantBytes env.vertex + constantBytes env.pixel
      + (bindingBytes env.vertex + bindingBytes env.pixel)) = 0
  · simp [h0, World.emit, World.setShader]
  · have hpos : wrapU32 (constantBytes env.vertex + constantBytes env.pixel
        + (bindingBytes env.vertex + bindingBytes env.pixel)) > 0 := Nat.pos_of_ne_zero h0
    simp [h0, hpos, World.emit, World.setShader]

/-- Witness for C17, amended: one 64-byte matrix in the vertex stage, one texture
and one sampler in the pixel stage; the buffer has 80 bytes. -/
theorem C17_uniform_buffer_counts_bindings_witness :
    (sampleShaderEnv matrixStage textureStage).succeeds sampleShaderData = true
    ∧ countedUniformBytes matrixStage textureStage = 66
    ∧ ∃ w1, FosterShaderCreate_D3D11 (sampleShaderEnv matrixStage textureStage)
          sampleShaderData sampleWorld = some (20, w1)
        ∧ NativeCall.CreateBuffer 80 ∈ w1.log := by
  obtain ⟨w1, h1, hlog, _⟩ := C17_uniform_buffer_counts_bindings
    (sampleShaderEnv matrixStage textureStage) sampleShaderData sampleWorld (by decide)
  refine ⟨by decide, by decide, w1, h1, ?_⟩
  rw [hlog]
  decide

/-! ## The `disposed` flag in reachable states -/

theorem sampleWorld_empty : EmptyDevice sampleWorld :=
  ⟨fun _ => rfl, fun _ _ h => by simp [sampleWorld] at h, rfl⟩

/-- Claim C12, what the code does. From any reachable state, create a texture in a
fresh block whose `disposed` bytes read nonzero (both native creates succeeding) and
destroy it: both calls return, the state reached is reachable, and in it the
wrapper is still allocated with reference count 1 and `disposed` nonzero while
the two calls have logged the two native creates and no release. A further
`FosterTextureDestroy_D3D11` changes nothing, so the native handles of a texture the
caller has destroyed are released zero times. -/
theorem C12_stale_flag_blocks_release (w : World) (env : TextureCreateEnv) (width height : Int)
    (format : FosterTextureFormat) (hreach : Reachable w)
    (hfresh : w.textures env.block = none) (hblock : env.block ≠ NULL)
    (hsize : ¬ (width > w.fdx.max_texture_size ∨ height > w.fdx.max_texture_size))
    (htexture : env.texture.ok = true) (hview : env.view.ok = true)
    (hstale : env.found.disposed ≠ 0) :
    ∃ w1 w2 tex,
      FosterTextureCreate_D3D11 env width height format w = some (env.block, w1)
      ∧ FosterTextureDestroy_D3D11 env.block w1 = some w2
      ∧ Reachable w2
      ∧ w2.textures env.block = some tex
      ∧ tex.refCount = 1 ∧ tex.disposed = env.found.disposed ∧ tex.disposed ≠ 0
      ∧ tex.texture = env.texture.out ∧ tex.view = env.view.out
      ∧ w2.log = w.log ++ [NativeCall.CreateTexture2D width height (textureFormatToDXGI format),
          NativeCall.CreateShaderResourceView env.texture.out]
      ∧ FosterTextureDestroy_D3D11 env.block w2 = some w2 := by
  have hc := textureCreate_success env w width height format hsize htexture hview hblock
  have hlive : World.texture?
      { w with
        textures := Function.update w.textures env.block
          (some { env.found with
            texture := env.texture.out, view := env.view.out, refCount := 1
            width := width, height := height
            dxgiFormat := textureFormatToDXGI format })
        log := w.log ++ [NativeCall.CreateTexture2D width height (textureFormatToDXGI format),
          NativeCall.CreateShaderResourceView env.texture.out] } env.block
      = some { env.found with
            texture := env.texture.out, view := env.view.out, refCount := 1
            width := width, height := height
            dxgiFormat := textureFormatToDXGI format } := by
    rw [World.texture?_some_iff]
    exact ⟨hblock, by simp⟩
  have hd := textureDestroy_disposed hlive hstale
  refine ⟨_, _, { env.found with
            texture := env.texture.out, view := env.view.out, refCount := 1
            width := width, height := height
            dxgiFormat := textureFormatToDXGI format },
    hc, hd, ?_, ?_, rfl, rfl, hstale, rfl, rfl, rfl, hd⟩
  · exact Reachable.textureDestroy env.block
      (Reachable.textureCreate env width height format env.block hreach hfresh hc) hd
  · simp

/-- Witness for C12: the stale block of address 10 on the empty sample device. -/
theorem C12_stale_flag_blocks_release_witness :
    ∃ w2 tex, Reachable w2
      ∧ w2.textures 10 = some tex
      ∧ tex.refCount = 1 ∧ tex.disposed = 1
      ∧ w2.log = [NativeCall.CreateTexture2D 64 64 .DXGI_FORMAT_R8G8B8A8_UNORM,
          NativeCall.CreateShaderResourceView 5]
      ∧ FosterTextureDestroy_D3D11 10 w2 = some w2 := by
  obtain ⟨w1, w2, tex, _, _, hreach, htex, hrc, hdisp, _, _, _, hlog, hagain⟩ :=
    C12_stale_flag_blocks_release sampleWorld staleBlockEnv 64 64
      .FOSTER_TEXTURE_FORMAT_R8G8B8A8 (Reachable.empty sampleWorld_empty) rfl (by decide)
      (by decide) rfl rfl (by decide)
  exact ⟨w2, tex, hreach, htex, hrc, hdisp, hlog, hagain⟩

/-! ## Setting the textures of a uniform -/

/-- What `FosterTextureReturnReference_D3D11` does to the texture heap, pointwise. -/
theorem returnReference_pointwise (w : World) (o : Ptr)
    (hlive : o = NULL ∨ ∃ t, w.textures o = some t) :
    ∃ w1, FosterTextureReturnReference_D3D11 o w = some w1
      ∧ w1.shaders = w.shaders ∧ w1.fdx = w.fdx
      ∧ (∀ q, q ≠ o → w1.textures q = w.textures q)
      ∧ (o ≠ NULL → ∀ t, w.textures o = some t →
          w1.textures o = if wrap32 (t.refCount - 1) ≤ 0 then none
            else some { t with refCount := wrap32 (t.refCount - 1) }) := by
  by_cases ho : o = NULL
  · subst ho
    exact ⟨w, returnReference_null w, rfl, rfl, fun _ _ => rfl, fun h => absurd rfl h⟩
  · rcases hlive with h | ⟨t, ht⟩
    · exact absurd h ho
    · by_cases hrc : wrap32 (t.refCount - 1) ≤ 0
      · refine ⟨_, returnReference_frees ho ht hrc, ?_, ?_, ?_, ?_⟩
        · by_cases hd : t.disposed = 0 <;> simp [hd, World.emit, World.setTexture]
        · by_cases hd : t.disposed = 0 <;> simp [hd, World.emit, World.setTexture]
        · intro q hq
          by_cases hd : t.disposed = 0 <;>
            simp [hd, World.emit, World.setTexture, Function.update_noteq hq]
        · intro _ t2 ht2
          rw [ht] at ht2
          cases ht2
          by_cases hd : t.disposed = 0 <;> simp [hd, hrc, World.emit, World.setTexture]
      · have hpos : 0 < wrap32 (t.refCount - 1) := not_le.mp hrc
        refine ⟨_, returnReference_keeps ho ht hpos, rfl, rfl, ?_, ?_⟩
        · intro q hq
          simp [World.setTexture, Function.update_noteq hq]
        · intro _ t2 ht2
          rw [ht] at ht2
          cases ht2
          simp [hrc, World.setTexture]

/-- What `FosterTextureRequestReference_D3D11` returns for a live texture. -/
theorem requestReference_live (w : World) (v : Ptr) (t : FosterTexture_D3D11)
    (hv : v ≠ NULL) (ht : w.textures v = some t) :
    FosterTextureRequestReference_D3D11 v w
      = some (v, w.setTexture v (some { t with refCount := wrap32 (t.refCount + 1) })) := by
  unfold FosterTextureRequestReference_D3D11
  simp only [if_pos hv, ht]

/-- One pass of the loop of `FosterShaderSetTexture_D3D11` for a non-null incoming
texture that is live and is not the slot's occupant. -/
theorem setTextureSlot_nonnull (w : World) (S : Ptr) (it : FosterShader_D3D11)
    (values : List Ptr) (i : Nat) (v o : Ptr) (tv : FosterTexture_D3D11)
    (hS : w.shader? S = some it) (hv : values[i]? = some v) (ho : it.textures[i]? = some o)
    (hvn : v ≠ NULL) (hvo : v ≠ o) (htv : w.textures v = some tv)
    (hlive : o = NULL ∨ ∃ t, w.textures o = some t) :
    ∃ w1, setTextureSlot S values w i = some w1
      ∧ w1.shaders S = some { it with textures := it.textures.set i v }
      ∧ (∀ p, p ≠ S → w1.shaders p = w.shaders p)
      ∧ w1.fdx = w.fdx
      ∧ w1.textures v = some { tv with refCount := wrap32 (tv.refCount + 1) }
      ∧ (o ≠ NULL → ∀ t, w.textures o = some t →
          w1.textures o = if wrap32 (t.refCount - 1) ≤ 0 then none
            else some { t with refCount := wrap32 (t.refCount - 1) })
      ∧ (∀ q, q ≠ v → q ≠ o → w1.textures q = w.textures q) := by
  obtain ⟨w', hret, hsh, hfdx, hother, hself⟩ := returnReference_pointwise w o hlive
  have htv' : w'.textures v = some tv := by rw [hother v hvo]; exact htv
  have hreq := requestReference_live w' v tv hvn htv'
  have hstep : setTextureSlot S values w i
      = some ((w'.setTexture v (some { tv with refCount := wrap32 (tv.refCount + 1) })).setShader
          S (some { it with textures := it.textures.set i v })) := by
    unfold setTextureSlot
    simp only [hv, if_pos hvn, hS, ho, hret, hreq]
  refine ⟨_, hstep, ?_, ?_, ?_, ?_, ?_, ?_⟩
  · simp [World.setShader, World.setTexture]
  · intro p hp
    simp [World.setShader, World.setTexture, Function.update_noteq hp, hsh]
  · simp [World.setShader, World.setTexture, hfdx]
  · simp [World.setShader, World.setTexture]
  · intro hon t ht
    have hov : o ≠ v := fun h => hvo h.symm
    simp only [World.setShader, World.setTexture, Function.update_noteq hov]
    exact hself hon t ht
  · intro q hqv hqo
    simp only [World.setShader, World.setTexture, Function.update_noteq hqv]
    exact hother q hqo

theorem foldlM_range_succ (f : World → Nat → Option World) (w : World) (k : Nat) :
    (List.range (k + 1)).foldlM f w = ((List.range k).foldlM f w).bind (fun w => f w k) := by
  rw [List.range_succ, List.foldlM_append]
  cases (List.range k).foldlM f w with
  | none => rfl
  | some w1 =>
    show (f w1 k >>= pure) = f w1 k
    cases f w1 k <;> rfl

/-- The loop of `FosterShaderSetTexture_D3D11` over the first `k` slots, when the
non-null incoming textures are live, pairwise distinct and distinct from the
occupants of the slots they go to, and those occupants are live and pairwise
distinct. `V i` is `values[i]` and `O i` the occupant of slot `i` at entry. -/
theorem setTextureLoop_noalias (w : World) (S : Ptr) (sh : FosterShader_D3D11)
    (values : List Ptr) (n : Nat) (V O : Nat → Ptr)
    (hS : w.shader? S = some sh)
    (hV : ∀ i < n, values[i]? = some (V i))
    (hO : ∀ i < n, sh.textures[i]? = some (O i))
    (hvlive : ∀ i < n, V i ≠ NULL → ∃ t, w.textures (V i) = some t)
    (holive : ∀ i < n, V i ≠ NULL → O i ≠ NULL → ∃ t, w.textures (O i) = some t)
    (hvv : ∀ i < n, ∀ j < n, i ≠ j → V i ≠ NULL → V j ≠ NULL → V i ≠ V j)
    (hoo : ∀ i < n, ∀ j < n, i ≠ j → V i ≠ NULL → V j ≠ NULL → O i ≠ NULL → O i ≠ O j)
    (hvo : ∀ i < n, ∀ j < n, V i ≠ NULL → V j ≠ NULL → V i ≠ O j) :
    ∀ k, k ≤ n → ∃ wk tk,
      (List.range k).foldlM (setTextureSlot S values) w = some wk
      ∧ wk.shaders S = some { sh with textures := tk }
      ∧ (∀ p, p ≠ S → wk.shaders p = w.shaders p)
      ∧ wk.fdx = w.fdx
      ∧ (∀ j, tk[j]? = if j < k ∧ V j ≠ NULL then some (V j) else sh.textures[j]?)
      ∧ (∀ i, i < k → V i ≠ NULL → ∀ t, w.textures (V i) = some t →
          wk.textures (V i) = some { t with refCount := wrap32 (t.refCount + 1) })
      ∧ (∀ i, i < k → V i ≠ NULL → O i ≠ NULL → ∀ t, w.textures (O i) = some t →
          wk.textures (O i) = if wrap32 (t.refCount - 1) ≤ 0 then none
            else some { t with refCount := wrap32 (t.refCount - 1) })
      ∧ (∀ q, (∀ i, i < k → V i ≠ NULL → q ≠ V i ∧ q ≠ O i) →
          wk.textures q = w.textures q) := by
  obtain ⟨hSn, hSl⟩ := World.shader?_some_iff.mp hS
  intro k
  induction k with
  | zero =>
    intro _
    refine ⟨w, sh.textures, rfl, hSl, fun _ _ => rfl, rfl, ?_, ?_, ?_, fun _ _ => rfl⟩
    · intro j; simp
    · intro i hi; exact absurd hi (Nat.not_lt_zero i)
    · intro i hi; exact absurd hi (Nat.not_lt_zero i)
  | succ k ih =>
    intro hk
    have hkn : k < n := hk
    obtain ⟨wk, tk, hfold, hshader, hothers, hfdx, hslots, hB, hC, hA⟩ := ih (Nat.le_of_lt hkn)
    rw [foldlM_range_succ, hfold]
    show ∃ wk1 tk1, setTextureSlot S values wk k = some wk1 ∧ _
    by_cases hvk : V k = NULL
    · -- a null incoming texture: the pass does nothing
      have hpass : setTextureSlot S values wk k = some wk := by
        unfold setTextureSlot
        simp only [hV k hkn, hvk, ne_eq, not_true_eq_false, if_false]
      refine ⟨wk, tk, hpass, hshader, hothers, hfdx, ?_, ?_, ?_, ?_⟩
      · intro j
        rw [hslots j]
        by_cases hjk : j = k
        · subst hjk; simp [hvk]
        · have hiff : (j < k + 1 ∧ V j ≠ NULL) ↔ (j < k ∧ V j ≠ NULL) := by
            constructor <;> rintro ⟨h1, h2⟩ <;> exact ⟨by omega, h2⟩
          exact if_congr hiff.symm rfl rfl
      · intro i hi hvi
        have : i < k := by
          rcases Nat.lt_succ_iff_lt_or_eq.mp hi with h | h
          · exact h
          · subst h; exact absurd hvk hvi
        exact hB i this hvi
      · intro i hi hvi
        have : i < k := by
          rcases Nat.lt_succ_iff_lt_or_eq.mp hi with h | h
          · exact h
          · subst h; exact absurd hvk hvi
        exact hC i this hvi
      · intro q hq
        exact hA q (fun i hi hvi => hq i (Nat.lt_succ_of_lt hi) hvi)
    · -- a non-null incoming texture
      have hSk : wk.shader? S = some { sh with textures := tk } :=
        World.shader?_some_iff.mpr ⟨hSn, hshader⟩
      have hok : ({ sh with textures := tk } : FosterShader_D3D11).textures[k]? = some (O k) := by
        show tk[k]? = some (O k)
        rw [hslots k, if_neg (by omega), hO k hkn]
      -- neither the incoming texture nor the occupant has been touched yet
      have hvk_untouched : wk.textures (V k) = w.textures (V k) :=
        hA (V k) (fun i hi hvi =>
          ⟨hvv k hkn i (by omega) (by omega) hvk hvi, hvo k hkn i (by omega) hvk hvi⟩)
      obtain ⟨tv, htv⟩ := hvlive k hkn hvk
      have hlive : O k = NULL ∨ ∃ t, wk.textures (O k) = some t := by
        by_cases hon : O k = NULL
        · exact Or.inl hon
        · right
          obtain ⟨t, ht⟩ := holive k hkn hvk hon
          refine ⟨t, ?_⟩
          rw [hA (O k) (fun i hi hvi =>
            ⟨fun h => hvo i (by omega) k hkn hvi hvk h.symm,
             hoo k hkn i (by omega) (by omega) hvk hvi hon⟩)]
          exact ht
      obtain ⟨wk1, hpass, hsh1, hoth1, hfdx1, hv1, ho1, hq1⟩ :=
        setTextureSlot_nonnull wk S { sh with textures := tk } values k (V k) (O k) tv
          hSk (hV k hkn) hok hvk (hvo k hkn k hkn hvk hvk) (by rw [hvk_untouched]; exact htv)
          hlive
      refine ⟨wk1, tk.set k (V k), hpass, hsh1, ?_, ?_, ?_, ?_, ?_, ?_⟩
      · intro p hp; rw [hoth1 p hp, hothers p hp]
      · rw [hfdx1, hfdx]
      · intro j
        by_cases hjk : j = k
        · subst hjk
          have hlt : j < tk.length := by
            by_contra hge
            have := hslots j
            rw [List.getElem?_eq_none (not_lt.mp hge), if_neg (by omega), hO j hkn] at this
            cases this
          simp [hvk, List.getElem?_set_self hlt]
        · rw [List.getElem?_set_ne (fun h => hjk h.symm), hslots j]
          have hiff : (j < k + 1 ∧ V j ≠ NULL) ↔ (j < k ∧ V j ≠ NULL) := by
            constructor <;> rintro ⟨h1, h2⟩ <;> exact ⟨by omega, h2⟩
          exact if_congr hiff.symm rfl rfl
      · intro i hi hvi t ht
        rcases Nat.lt_succ_iff_lt_or_eq.mp hi with h | h
        · rw [hq1 (V i) (hvv i (by omega) k hkn (by omega) hvi hvk)
            (hvo i (by omega) k hkn hvi hvk)]
          exact hB i h hvi t ht
        · subst h
          rw [htv] at ht
          cases ht
          exact hv1
      · intro i hi hvi hoi t ht
        rcases Nat.lt_succ_iff_lt_or_eq.mp hi with h | h
        · rw [hq1 (O i) (fun e => hvo k hkn i (by omega) hvk hvi e.symm)
            (hoo i (by omega) k hkn (by omega) hvi hvk hoi)]
          exact hC i h hvi hoi t ht
        · subst h
          have hunt : wk.textures (O i) = w.textures (O i) :=
            hA (O i) (fun j hj hvj =>
              ⟨fun e => hvo j (by omega) i hkn hvj hvi e.symm,
               hoo i hkn j (by omega) (by omega) hvi hvj hoi⟩)
          exact ho1 hoi t (by rw [hunt]; exact ht)
      · intro q hq
        obtain ⟨hqv, hqo⟩ := hq k (Nat.lt_succ_self k) hvk
        rw [hq1 q hqv hqo]
        exact hA q (fun i hi hvi => hq i (Nat.lt_succ_of_lt hi) hvi)

/-- Claim C14, counterexample. Slot 0 of the shader holds the texture at address 10,
whose reference count is 2 (creator and slot). Setting the uniform to that same
texture returns with the slot still holding it and the count still 2: it has not
risen by one. -/
theorem C14_counterexample_rebinding_occupant :
    ∃ w1, FosterShaderSetTexture_D3D11 20 0 [10] boundTextureWorld = some w1
      ∧ (boundTextureWorld.shaders 20).map (fun s => s.textures) = some [10, NULL, NULL, NULL]
      ∧ (boundTextureWorld.textures 10).map (fun t => t.refCount) = some 2
      ∧ (w1.shaders 20).map (fun s => s.textures) = some [10, NULL, NULL, NULL]
      ∧ (w1.textures 10).map (fun t => t.refCount) = some 2 := by
  refine ⟨_, rfl, ?_, ?_, ?_, ?_⟩ <;> decide

/-- Claim C14, amended. Let `S` be a live shader, `index` an in-range uniform of kind
`Texture2D` with array size `n` that no other `Texture2D` uniform precedes in the
shader's uniform list, so that its array elements are the slots `0..n-1`, and
`values` an array of at least `n` entries, the shader having at least `n` slots.
Suppose the non-null incoming textures `values[i]` (`i < n`) are live, pairwise
distinct and distinct from the occupants of the slots that non-null entries go
to, and that those occupants, when non-null, are live and pairwise distinct. Then
`FosterShaderSetTexture_D3D11` returns, and for each `i < n` with `values[i]`
non-null: the slot of array element `i` holds `values[i]`, whose reference count is
the C `int` value of the old count plus one, and the previous occupant of that
slot, if non-null, has the old count minus one, the wrapper being freed when that
is `<= 0`. Every slot `i` with `i >= n` or `values[i]` null is unchanged, and so is
every texture that is neither a non-null incoming texture nor the occupant it
replaces. -/
theorem C14_SetTexture_without_aliasing (w : World) (S : Ptr) (sh : FosterShader_D3D11)
    (index : Int) (u : FosterUniform_D3D11) (values : List Ptr)
    (hS : w.shader? S = some sh) (hindex : 0 ≤ index)
    (hu : sh.uniforms[index.toNat]? = some u)
    (hkind : u.type = .FOSTER_UNIFORM_TYPE_TEXTURE2D)
    (_hfirst : ∀ j, j < index.toNat → ∀ v, sh.uniforms[j]? = some v →
      v.type ≠ .FOSTER_UNIFORM_TYPE_TEXTURE2D)
    (hvalues : u.size ≤ values.length) (hslots : u.size ≤ sh.textures.length)
    (hvlive : ∀ i < u.size, values.getD i NULL ≠ NULL →
      (w.textures (values.getD i NULL)).isSome = true)
    (holive : ∀ i < u.size, values.getD i NULL ≠ NULL → sh.textures.getD i NULL ≠ NULL →
      (w.textures (sh.textures.getD i NULL)).isSome = true)
    (hvv : ∀ i < u.size, ∀ j < u.size, i ≠ j → values.getD i NULL ≠ NULL →
      values.getD j NULL ≠ NULL → values.getD i NULL ≠ values.getD j NULL)
    (hoo : ∀ i < u.size, ∀ j < u.size, i ≠ j → values.getD i NULL ≠ NULL →
      values.getD j NULL ≠ NULL → sh.textures.getD i NULL ≠ NULL →
      sh.textures.getD i NULL ≠ sh.textures.getD j NULL)
    (hvo : ∀ i < u.size, ∀ j < u.size, values.getD i NULL ≠ NULL →
      values.getD j NULL ≠ NULL → values.getD i NULL ≠ sh.textures.getD j NULL) :
    ∃ w1 sh1, FosterShaderSetTexture_D3D11 S index values w = some w1
      ∧ w1.shaders S = some sh1
      ∧ (∀ i, i < u.size → values.getD i NULL ≠ NULL →
          sh1.textures[i]? = some (values.getD i NULL)
          ∧ (∀ t, w.textures (values.getD i NULL) = some t →
              w1.textures (values.getD i NULL)
                = some { t with refCount := wrap32 (t.refCount + 1) })
          ∧ (sh.textures.getD i NULL ≠ NULL →
              ∀ t, w.textures (sh.textures.getD i NULL) = some t →
                w1.textures (sh.textures.getD i NULL)
                  = if wrap32 (t.refCount - 1) ≤ 0 then none
                    else some { t with refCount := wrap32 (t.refCount - 1) }))
      ∧ (∀ i, u.size ≤ i ∨ values.getD i NULL = NULL → sh1.textures[i]? = sh.textures[i]?)
      ∧ (∀ q, (∀ i, i < u.size → values.getD i NULL ≠ NULL →
            q ≠ values.getD i NULL ∧ q ≠ sh.textures.getD i NULL) →
          w1.textures q = w.textures q) := by
  have hlt : index.toNat < sh.uniforms.length := by
    by_contra hge
    rw [List.getElem?_eq_none (not_lt.mp hge)] at hu
    cases hu
  have hin : ¬ (index < 0 ∨ index ≥ sh.uniformCount) := by
    unfold FosterShader_D3D11.uniformCount
    omega
  have hV : ∀ i < u.size, values[i]? = some (values.getD i NULL) := by
    intro i hi
    have : i < values.length := by omega
    rw [List.getD_eq_getElem?_getD, List.getElem?_eq_getElem this]
    rfl
  have hO : ∀ i < u.size, sh.textures[i]? = some (sh.textures.getD i NULL) := by
    intro i hi
    have : i < sh.textures.length := by omega
    rw [List.getD_eq_getElem?_getD, List.getElem?_eq_getElem this]
    rfl
  obtain ⟨w1, tk, hfold, hshader, _, _, hslot, hB, hC, hA⟩ :=
    setTextureLoop_noalias w S sh values u.size (fun i => values.getD i NULL)
      (fun i => sh.textures.getD i NULL) hS hV hO
      (fun i hi hn => Option.isSome_iff_exists.mp (hvlive i hi hn))
      (fun i hi hn hon => Option.isSome_iff_exists.mp (holive i hi hn hon))
      hvv hoo hvo u.size (Nat.le_refl _)
  have hcall : FosterShaderSetTexture_D3D11 S index values w = some w1 := by
    unfold FosterShaderSetTexture_D3D11
    simp only [hS]
    rw [if_neg hin]
    simp only [hu]
    rw [if_neg (by simp [hkind])]
    exact hfold
  refine ⟨w1, { sh with textures := tk }, hcall, hshader, ?_, ?_, hA⟩
  · intro i hi hn
    refine ⟨?_, hB i hi hn, hC i hi hn⟩
    show tk[i]? = _
    rw [hslot i, if_pos ⟨hi, hn⟩]
  · intro i hi
    show tk[i]? = _
    rw [hslot i, if_neg]
    rintro ⟨h1, h2⟩
    rcases hi with h | h
    · omega
    · exact h2 h

/-- Witness for C14, amended: slot 0 holds the texture at address 10 (count 2) and
the uniform is set to the texture at address 11 (count 1); afterwards slot 0
holds 11 with count 2 and the texture at 10 has count 1. -/
theorem C14_SetTexture_without_aliasing_witness :
    ∃ w1 sh1, FosterShaderSetTexture_D3D11 20 0 [11] twoTextureWorld = some w1
      ∧ w1.shaders 20 = some sh1
      ∧ sh1.textures[0]? = some 11
      ∧ (w1.textures 11).map (fun t => t.refCount) = some 2
      ∧ (w1.textures 10).map (fun t => t.refCount) = some 1 := by
  obtain ⟨w1, sh1, hcall, hsh, hper, _, _⟩ :=
    C14_SetTexture_without_aliasing twoTextureWorld 20
      { sampleShader with textures := [10, NULL, NULL, NULL] } 0
      { name := "u_texture", index := 0, size := 1, offset := 0
        type := .FOSTER_UNIFORM_TYPE_TEXTURE2D }
      [11] (by decide) (by decide) (by decide) (by decide)
      (fun j hj => absurd hj (Nat.not_lt_zero j))
      (by decide) (by decide) (by decide) (by decide)
      (fun i hi j hj hij => absurd (show i = j by
        have a : i < 1 := hi
        have b : j < 1 := hj
        omega) hij)
      (fun i hi j hj hij => absurd (show i = j by
        have a : i < 1 := hi
        have b : j < 1 := hj
        omega) hij)
      (fun i hi j hj _ _ => by
        have a : i < 1 := hi
        have b : j < 1 := hj
        have hi0 : i = 0 := by omega
        have hj0 : j = 0 := by omega
        subst hi0 hj0
        decide)
  obtain ⟨hslot, hnew, hold⟩ := hper 0 (by decide) (by decide)
  refine ⟨w1, sh1, hcall, hsh, hslot, ?_, ?_⟩
  · have h := hnew { sampleTexture with texture := 7, view := 8 } (by decide)
    have h2 : w1.textures 11 = some { sampleTexture with texture := 7, view := 8, refCount := 2 } := by
      rw [show (11 : Ptr) = [11].getD 0 NULL from rfl, h]
      decide
    rw [h2]
    decide
  · have h := hold (by decide) { sampleTexture with refCount := 2 } (by decide)
    have h2 : w1.textures 10 = some { sampleTexture with refCount := 1 } := by
      rw [show (10 : Ptr) = ([10, NULL, NULL, NULL] : List Ptr).getD 0 NULL from rfl]
      exact h.trans (by decide)
    rw [h2]
    decide

/-! ## Looking up a layout group -/

theorem range_find?_eq_none (p : Nat → Bool) (n : Nat) :
    (List.range n).find? p = none ↔ ∀ j, j < n → p j = false := by
  rw [List.find?_eq_none]
  constructor
  · intro h j hj
    have := h j (List.mem_range.mpr hj)
    simpa using this
  · intro h j hj
    simp [h j (List.mem_range.mp hj)]

theorem range_find?_eq_some (p : Nat → Bool) (n : Nat) :
    ∀ i, (List.range n).find? p = some i ↔ i < n ∧ p i = true ∧ ∀ j, j < i → p j = false := by
  induction n with
  | zero => intro i; simp
  | succ n ih =>
    intro i
    rw [List.range_succ, List.find?_append]
    cases hf : (List.range n).find? p with
    | some k =>
      obtain ⟨hkn, hpk, hmin⟩ := (ih k).mp hf
      show some k = some i ↔ _
      simp only [Option.some.injEq]
      constructor
      · intro h
        subst h
        exact ⟨by omega, hpk, hmin⟩
      · rintro ⟨_, hpi, himin⟩
        rcases Nat.lt_trichotomy k i with h | h | h
        · rw [himin k h] at hpk; cases hpk
        · exact h
        · rw [hmin i h] at hpi; cases hpi
    | none =>
      have hnone := (range_find?_eq_none p n).mp hf
      show List.find? p [n] = some i ↔ _
      by_cases hpn : p n = true
      · simp only [List.find?_cons, hpn, Option.some.injEq]
        constructor
        · intro h
          subst h
          exact ⟨by omega, hpn, fun j hj => hnone j hj⟩
        · rintro ⟨hin, hpi, _⟩
          by_contra hne
          have : i < n := by omega
          rw [hnone i this] at hpi
          cases hpi
      · have hpn2 : p n = false := by simpa using hpn
        simp only [List.find?_cons, hpn2, List.find?_nil]
        constructor
        · intro h; cases h
        · rintro ⟨hin, hpi, _⟩
          by_cases hi : i = n
          · subst hi; rw [hpn2] at hpi; cases hpi
          · have : i < n := by omega
            rw [hnone i this] at hpi
            cases hpi

theorem getLayoutGroup_eq_none (cache : FosterLayoutCache_D3D11) (f : FosterVertexFormat) :
    FosterGetLayoutGroup cache f = none ↔ ∀ g ∈ cache, FosterVertexFormatEqual g.format f = false := by
  unfold FosterGetLayoutGroup
  rw [range_find?_eq_none]
  constructor
  · intro h g hg
    obtain ⟨i, hi, hgi⟩ := List.getElem_of_mem hg
    have := h i hi
    rw [List.getElem?_eq_getElem hi, hgi] at this
    exact this
  · intro h j hj
    rw [List.getElem?_eq_getElem hj]
    exact h _ (List.getElem_mem _)

theorem getLayoutGroup_eq_some (cache : FosterLayoutCache_D3D11) (f : FosterVertexFormat)
    (i : Nat) :
    FosterGetLayoutGroup cache f = some i ↔
      ∃ g, cache[i]? = some g ∧ FosterVertexFormatEqual g.format f = true
        ∧ ∀ j gj, j < i → cache[j]? = some gj → FosterVertexFormatEqual gj.format f = false := by
  unfold FosterGetLayoutGroup
  rw [range_find?_eq_some]
  constructor
  · rintro ⟨hi, hp, hmin⟩
    rw [List.getElem?_eq_getElem hi] at hp
    refine ⟨cache[i], List.getElem?_eq_getElem hi, hp, ?_⟩
    intro j gj hj hgj
    have := hmin j hj
    rw [hgj] at this
    exact this
  · rintro ⟨g, hg, hp, hmin⟩
    have hi : i < cache.length := by
      by_contra hge
      rw [List.getElem?_eq_none (not_lt.mp hge)] at hg
      cases hg
    refine ⟨hi, by rw [hg]; exact hp, ?_⟩
    intro j hj
    have hjl : j < cache.length := by omega
    rw [List.getElem?_eq_getElem hjl]
    exact hmin j _ hj (List.getElem?_eq_getElem hjl)

theorem elementsEqualLoop_comm (a b : List FosterVertexFormatElement) :
    elementsEqualLoop a b = elementsEqualLoop b a := by
  induction a generalizing b with
  | nil => cases b <;> simp [elementsEqualLoop]
  | cons x xs ih =>
    cases b with
    | nil => simp [elementsEqualLoop]
    | cons y ys =>
      simp only [elementsEqualLoop]
      rw [ih ys]
      have hiff : (x.type ≠ y.type ∨ x.index ≠ y.index ∨ x.normalized ≠ y.normalized)
          ↔ (y.type ≠ x.type ∨ y.index ≠ x.index ∨ y.normalized ≠ x.normalized) := by
        simp only [ne_comm]
      exact if_congr hiff rfl rfl

theorem FosterVertexFormatEqual_comm (a b : FosterVertexFormat) :
    FosterVertexFormatEqual a b = FosterVertexFormatEqual b a := by
  unfold FosterVertexFormatEqual
  rw [elementsEqualLoop_comm]
  have hiff : (a.stride ≠ b.stride ∨ a.elementCount ≠ b.elementCount)
      ↔ (b.stride ≠ a.stride ∨ b.elementCount ≠ a.elementCount) := by
    simp only [ne_comm]
  exact if_congr hiff rfl rfl

/-! ## Adding and removing a layout reference -/

theorem addLayoutReference_new (cache : FosterLayoutCache_D3D11) (f : FosterVertexFormat)
    (hnone : FosterGetLayoutGroup cache f = none) :
    addLayoutReference cache f = cache ++ [{ format := f, instances := [], references := 1 }] := by
  unfold addLayoutReference
  simp only [hnone]
  have h1 : wrap32 (0 + 1) = 1 := by decide
  rw [h1]

theorem addLayoutReference_found (cache : FosterLayoutCache_D3D11) (f : FosterVertexFormat)
    (i : Nat) (g : FosterLayoutGroup_D3D11) (hsome : FosterGetLayoutGroup cache f = some i)
    (hg : cache[i]? = some g) :
    addLayoutReference cache f
      = cache.set i { g with references := wrap32 (g.references + 1) } := by
  unfold addLayoutReference
  simp only [hsome, hg]

/-- The loop of `FosterVertexFormatEqual` on two element arrays of the same length
returns true exactly when the arrays are equal. -/
theorem elementsEqualLoop_iff (a : List FosterVertexFormatElement) :
    ∀ b : List FosterVertexFormatElement, a.length = b.length →
      (elementsEqualLoop a b = true ↔ a = b) := by
  induction a with
  | nil =>
    intro b hlen
    cases b with
    | nil => simp [elementsEqualLoop]
    | cons y ys => simp at hlen
  | cons x xs ih =>
    intro b hlen
    cases b with
    | nil => simp at hlen
    | cons y ys =>
      have hlen2 : xs.length = ys.length := by simpa using hlen
      unfold elementsEqualLoop
      by_cases hc : x.type ≠ y.type ∨ x.index ≠ y.index ∨ x.normalized ≠ y.normalized
      · rw [if_pos hc]
        constructor
        · intro h; cases h
        · intro h
          exfalso
          injection h with hxy _
          subst hxy
          rcases hc with h | h | h <;> exact h rfl
      · rw [if_neg hc, ih ys hlen2]
        have hxy : x = y := by
          cases x
          cases y
          simp only [ne_eq, not_or, not_not] at hc
          obtain ⟨h1, h2, h3⟩ := hc
          subst h1 h2 h3
          rfl
        constructor
        · intro h; rw [hxy, h]
        · intro h
          injection h

/-- `FosterVertexFormatEqual` returns true exactly on structurally equal formats:
same stride, same element count and the same type, index and `normalized` in
every element. -/
theorem FosterVertexFormatEqual_iff (a b : FosterVertexFormat) :
    FosterVertexFormatEqual a b = true ↔ a = b := by
  unfold FosterVertexFormatEqual FosterVertexFormat.elementCount
  by_cases hc : a.stride ≠ b.stride ∨ (a.elements.length : Int) ≠ b.elements.length
  · rw [if_pos hc]
    constructor
    · intro h; cases h
    · intro h
      exfalso
      subst h
      rcases hc with h | h <;> exact h rfl
  · rw [if_neg hc]
    simp only [ne_eq, not_or, not_not] at hc
    obtain ⟨hs, hl⟩ := hc
    have hlen : a.elements.length = b.elements.length := by exact_mod_cast hl
    rw [elementsEqualLoop_iff a.elements b.elements hlen]
    constructor
    · intro h
      cases a
      cases b
      simp only at hs h
      subst hs h
      rfl
    · intro h
      rw [h]

theorem FosterVertexFormatEqual_eq_false_iff (a b : FosterVertexFormat) :
    FosterVertexFormatEqual a b = false ↔ a ≠ b := by
  rw [← Bool.not_eq_true, FosterVertexFormatEqual_iff]

/-- Claim C23. For every layout cache and vertex format `f`: when no group has the
format `f` (equal stride, element count and elements), `FosterAddLayoutReference`
appends one group for `f` with no instance and reference count 1 and leaves the
groups before it as they were; when `g`, at index `i`, is the first group whose
format is `f`, the cache afterwards is the old one with the reference count of
the group at `i` raised by one in C `int` arithmetic (exactly `+ 1` below
`INT_MAX`), so no group is created and every other group is unchanged. The call
logs nothing and touches no other part of the state. -/
theorem C23_AddLayoutReference (cache : FosterLayoutCache_D3D11) (f : FosterVertexFormat) :
    ((∀ g ∈ cache, g.format ≠ f) →
      addLayoutReference cache f
        = cache ++ [{ format := f, instances := [], references := 1 }])
    ∧ (∀ i g, cache[i]? = some g → g.format = f →
        (∀ j gj, j < i → cache[j]? = some gj → gj.format ≠ f) →
        addLayoutReference cache f
            = cache.set i { g with references := wrap32 (g.references + 1) }
        ∧ (addLayoutReference cache f).length = cache.length
        ∧ (∀ k, k ≠ i → (addLayoutReference cache f)[k]? = cache[k]?)
        ∧ (isInt32 (g.references + 1) → wrap32 (g.references + 1) = g.references + 1))
    ∧ (∀ w : World, w.fdx.layoutCache = cache →
        (FosterAddLayoutReference f w).fdx.layoutCache = addLayoutReference cache f
        ∧ (FosterAddLayoutReference f w).log = w.log
        ∧ (FosterAddLayoutReference f w).shaders = w.shaders
        ∧ (FosterAddLayoutReference f w).meshes = w.meshes) := by
  refine ⟨?_, ?_, ?_⟩
  · intro hnone
    exact addLayoutReference_new cache f ((getLayoutGroup_eq_none cache f).mpr
      (fun g hg => (FosterVertexFormatEqual_eq_false_iff g.format f).mpr (hnone g hg)))
  · intro i g hg heq hfirst
    have hsome : FosterGetLayoutGroup cache f = some i :=
      (getLayoutGroup_eq_some cache f i).mpr
        ⟨g, hg, (FosterVertexFormatEqual_iff g.format f).mpr heq,
          fun j gj hj hgj =>
            (FosterVertexFormatEqual_eq_false_iff gj.format f).mpr (hfirst j gj hj hgj)⟩
    have hres := addLayoutReference_found cache f i g hsome hg
    refine ⟨hres, ?_, ?_, fun h => wrap32_of_isInt32 h⟩
    · rw [hres, List.length_set]
    · intro k hk
      rw [hres, List.getElem?_set_ne (fun h => hk h.symm)]
  · intro w hw
    subst hw
    exact ⟨rfl, rfl, rfl, rfl⟩

/-- Witness for C23 on the two-group cache: the sample format is found at index 0
(count 2 becomes 3), a three-float format of stride 16 is new. -/
theorem C23_AddLayoutReference_witness :
    addLayoutReference twoGroupCache sampleFormat
      = twoGroupCache.set 0
          { format := sampleFormat, instances := [{ shader := 20, layout := 41 }]
            references := 3 }
    ∧ addLayoutReference twoGroupCache { sampleFormat with stride := 16 }
      = twoGroupCache
          ++ [{ format := { sampleFormat with stride := 16 }, instances := [], references := 1 }] := by
  have h := C23_AddLayoutReference twoGroupCache sampleFormat
  have h2 := C23_AddLayoutReference twoGroupCache { sampleFormat with stride := 16 }
  refine ⟨?_, h2.1 (by decide)⟩
  have h3 := (h.2.1 0 _ rfl (by decide) (by intro j gj hj; omega)).1
  rw [h3]
  decide

theorem removeLayoutReference_none (cache : FosterLayoutCache_D3D11) (f : FosterVertexFormat)
    (hnone : FosterGetLayoutGroup cache f = none) :
    removeLayoutReference cache f = (cache, []) := by
  unfold removeLayoutReference
  simp only [hnone]

theorem removeLayoutReference_keeps (cache : FosterLayoutCache_D3D11) (f : FosterVertexFormat)
    (i : Nat) (g : FosterLayoutGroup_D3D11) (hsome : FosterGetLayoutGroup cache f = some i)
    (hg : cache[i]? = some g) (hpos : 0 < wrap32 (g.references - 1)) :
    removeLayoutReference cache f
      = (cache.set i { g with references := wrap32 (g.references - 1) }, []) := by
  unfold removeLayoutReference
  simp only [hsome, hg]
  rw [if_neg (not_le.mpr hpos)]

/-- The group list after the group at `i` has been dropped by
`FosterRemoveLayoutReference`: one entry fewer, the former last group at `i`. -/
theorem removeLayoutReference_drops (cache : FosterLayoutCache_D3D11) (f : FosterVertexFormat)
    (i : Nat) (g : FosterLayoutGroup_D3D11) (hsome : FosterGetLayoutGroup cache f = some i)
    (hg : cache[i]? = some g) (hle : wrap32 (g.references - 1) ≤ 0) :
    (removeLayoutReference cache f).2
        = (g.instances.filter fun inst => inst.layout ≠ NULL).map
            (fun inst => NativeCall.InputLayout_Release inst.layout)
          ++ [NativeCall.SDL_free (.layoutInstances i)]
    ∧ (removeLayoutReference cache f).1.length = cache.length - 1
    ∧ ∀ k, k < cache.length - 1 →
        (removeLayoutReference cache f).1[k]?
          = if k = i then cache[cache.length - 1]? else cache[k]? := by
  have hi : i < cache.length := by
    by_contra hge
    rw [List.getElem?_eq_none (not_lt.mp hge)] at hg
    cases hg
  have hlen : (cache.set i { g with references := wrap32 (g.references - 1) }).length
      = cache.length := List.length_set _ _ _
  have hne : cache.set i { g with references := wrap32 (g.references - 1) } ≠ [] := by
    intro h
    rw [h] at hlen
    simp at hlen
    omega
  obtain ⟨last, hlast⟩ : ∃ last, (cache.set i
      { g with references := wrap32 (g.references - 1) }).getLast? = some last :=
    ⟨_, List.getLast?_eq_getLast _ hne⟩
  have hlast2 := hlast
  rw [List.getLast?_eq_getElem?, hlen] at hlast2
  unfold removeLayoutReference
  simp only [hsome, hg, if_pos hle, hlast, hlen]
  refine ⟨trivial, ?_, ?_⟩
  · split_ifs <;> simp [List.length_dropLast, List.length_set]
  · intro k hk
    by_cases hcond : i < cache.length - 1 ∧ cache.length > 1
    · rw [if_pos hcond, List.dropLast_eq_take, List.getElem?_take_of_lt (by
        simp only [List.length_set]; omega)]
      by_cases hki : k = i
      · subst hki
        rw [if_pos rfl, List.getElem?_set_self (by simp only [List.length_set]; omega)]
        rw [List.getElem?_set_ne (by omega)] at hlast2
        exact hlast2.symm
      · rw [if_neg hki, List.getElem?_set_ne (fun h => hki h.symm),
          List.getElem?_set_ne (fun h => hki h.symm)]
    · rw [if_neg hcond, List.dropLast_eq_take, List.getElem?_take_of_lt (by
        simp only [List.length_set]; omega)]
      have hki : k ≠ i := by omega
      rw [if_neg hki, List.getElem?_set_ne (fun h => hki h.symm)]

/-- Claim C24. For every layout cache and vertex format `f`: when no group has a
format equal to `f`, `FosterRemoveLayoutReference` changes nothing and makes no
call. When `g`, at index `i`, is the first group whose format equals `f`, its
reference count is lowered by one in C `int` arithmetic; if the result is `> 0`
the cache is the old one with that count stored and no call is made; if the
result is `<= 0`, every non-null layout of `g` is released once, in order, the
instance array is freed, the cache has one group fewer, index `i` holds the
former last group (when `i` was not the last index) and every other remaining
index holds the group it held before, unchanged. -/
theorem C24_RemoveLayoutReference (cache : FosterLayoutCache_D3D11) (f : FosterVertexFormat) :
    ((∀ g ∈ cache, FosterVertexFormatEqual g.format f = false) →
      removeLayoutReference cache f = (cache, []))
    ∧ (∀ i g, cache[i]? = some g → FosterVertexFormatEqual g.format f = true →
        (∀ j gj, j < i → cache[j]? = some gj → FosterVertexFormatEqual gj.format f = false) →
        (0 < wrap32 (g.references - 1) →
          removeLayoutReference cache f
            = (cache.set i { g with references := wrap32 (g.references - 1) }, []))
        ∧ (wrap32 (g.references - 1) ≤ 0 →
            (removeLayoutReference cache f).2
              = (g.instances.filter fun inst => inst.layout ≠ NULL).map
                  (fun inst => NativeCall.InputLayout_Release inst.layout)
                ++ [NativeCall.SDL_free (.layoutInstances i)]
            ∧ (removeLayoutReference cache f).1.length = cache.length - 1
            ∧ ∀ k, k < cache.length - 1 →
                (removeLayoutReference cache f).1[k]?
                  = if k = i then cache[cache.length - 1]? else cache[k]?)
        ∧ (isInt32 (g.references - 1) → wrap32 (g.references - 1) = g.references - 1))
    ∧ (∀ w : World, w.fdx.layoutCache = cache →
        (FosterRemoveLayoutReference f w).fdx.layoutCache = (removeLayoutReference cache f).1
        ∧ (FosterRemoveLayoutReference f w).log = w.log ++ (removeLayoutReference cache f).2) := by
  refine ⟨?_, ?_, ?_⟩
  · intro hnone
    exact removeLayoutReference_none cache f ((getLayoutGroup_eq_none cache f).mpr hnone)
  · intro i g hg heq hfirst
    have hsome : FosterGetLayoutGroup cache f = some i :=
      (getLayoutGroup_eq_some cache f i).mpr ⟨g, hg, heq, hfirst⟩
    exact ⟨removeLayoutReference_keeps cache f i g hsome hg,
      removeLayoutReference_drops cache f i g hsome hg, fun h => wrap32_of_isInt32 h⟩
  · intro w hw
    subst hw
    exact ⟨rfl, rfl⟩

/-- Witness for C24 on the two-group cache: removing a reference of the sample
format keeps its group (count 2 becomes 1); removing one of the two-float format
drops its group, releasing its two layouts. -/
theorem C24_RemoveLayoutReference_witness :
    removeLayoutReference twoGroupCache sampleFormat
      = (twoGroupCache.set 0
          { format := sampleFormat, instances := [{ shader := 20, layout := 41 }]
            references := 1 }, [])
    ∧ (removeLayoutReference twoGroupCache
        { stride := 8
          elements := [{ index := 0, type := .FOSTER_VERTEX_TYPE_FLOAT2, normalized := 0 }] }).2
      = [NativeCall.InputLayout_Release 43, NativeCall.InputLayout_Release 44,
         NativeCall.SDL_free (.layoutInstances 1)] := by
  have h := (C24_RemoveLayoutReference twoGroupCache sampleFormat).2.1 0 _ rfl (by decide)
    (by intro j gj hj; omega)
  have h2 := (C24_RemoveLayoutReference twoGroupCache
    { stride := 8
      elements := [{ index := 0, type := .FOSTER_VERTEX_TYPE_FLOAT2, normalized := 0 }] }).2.1
    1 _ rfl (by decide) (by
      intro j gj hj hgj
      have hj0 : j = 0 := by omega
      subst hj0
      cases hgj
      decide)
  refine ⟨?_, ?_⟩
  · rw [h.1 (by decide)]
    decide
  · rw [(h2.2.1 (by decide)).1]
    decide

/-! ## Looking up and creating a layout instance -/

theorem getLayoutGroup_set (cache : FosterLayoutCache_D3D11) (f : FosterVertexFormat)
    (i : Nat) (g g1 : FosterLayoutGroup_D3D11)
    (hsome : FosterGetLayoutGroup cache f = some i) (hg : cache[i]? = some g)
    (hformat : g1.format = g.format) :
    FosterGetLayoutGroup (cache.set i g1) f = some i := by
  obtain ⟨g0, hg0, heq, hfirst⟩ := (getLayoutGroup_eq_some cache f i).mp hsome
  rw [hg] at hg0
  cases hg0
  have hi : i < cache.length := by
    by_contra hge
    rw [List.getElem?_eq_none (not_lt.mp hge)] at hg
    cases hg
  refine (getLayoutGroup_eq_some _ f i).mpr ⟨g1, ?_, ?_, ?_⟩
  · rw [List.getElem?_set_self hi]
  · rw [hformat]; exact heq
  · intro j gj hj hgj
    rw [List.getElem?_set_ne (by omega)] at hgj
    exact hfirst j gj hj hgj

theorem getLayoutInstance_found (created : NativeOut) (s : Ptr) (f : FosterVertexFormat)
    (w : World) (gi : Nat) (g : FosterLayoutGroup_D3D11) (inst : FosterLayoutInstance_D3D11)
    (hgroup : FosterGetLayoutGroup w.fdx.layoutCache f = some gi)
    (hg : w.fdx.layoutCache[gi]? = some g)
    (hfind : g.instances.find? (fun inst => inst.shader = s ∧ inst.layout ≠ NULL) = some inst) :
    FosterGetLayoutInstance created s f w = some (inst.layout, w) := by
  unfold FosterGetLayoutInstance
  simp only [hgroup, hg, hfind]

theorem getLayoutInstance_created (created : NativeOut) (s : Ptr) (f : FosterVertexFormat)
    (w : World) (gi : Nat) (g : FosterLayoutGroup_D3D11) (sh : FosterShader_D3D11)
    (descs : List D3D11_INPUT_ELEMENT_DESC)
    (hgroup : FosterGetLayoutGroup w.fdx.layoutCache f = some gi)
    (hg : w.fdx.layoutCache[gi]? = some g)
    (hfind : g.instances.find? (fun inst => inst.shader = s ∧ inst.layout ≠ NULL) = none)
    (hshader : w.shader? s = some sh)
    (hinputs : inputElementLoop sh.inputs 0 0 f.elements = some descs)
    (hblob : sh.vertexBlob ≠ NULL) (hok : created.ok = true) :
    FosterGetLayoutInstance created s f w
      = some (created.out,
          { w with
            fdx := { w.fdx with
              layoutCache := w.fdx.layoutCache.set gi { g with
                instances := g.instances ++ [{ shader := s, layout := created.out }] } }
            log := w.log ++ [NativeCall.CreateInputLayout descs sh.vertexBlob,
              NativeCall.SDL_free .inputElements] }) := by
  unfold FosterGetLayoutInstance
  simp only [hgroup, hg, hfind, hshader, hinputs, if_neg hblob, hok, not_true_eq_false,
    if_false, World.emit, World.setFdx, List.append_assoc, List.singleton_append]

/-- Claim C22. Let the cache have a group for `f` (`g`, at index `gi`, the first
group whose format equals `f`), `s` be a live shader with an input for every
element of `f` and a non-null vertex blob, and the native creation succeed with a
non-null layout. Then `FosterGetLayoutInstance(s, f)` returns a non-null layout, and
a second call (whatever the driver would hand back) returns the same layout and
leaves the whole state, cache and log included, as the first call left it: it
creates nothing. When no instance of `g` was keyed to `s`, the first call creates
one layout and appends exactly the instance `(s, layout)` to `g`, every other
group being unchanged. -/
theorem C22_GetLayoutInstance_twice (w : World) (s : Ptr) (f : FosterVertexFormat) (gi : Nat)
    (g : FosterLayoutGroup_D3D11) (sh : FosterShader_D3D11)
    (descs : List D3D11_INPUT_ELEMENT_DESC) (created created2 : NativeOut)
    (hgroup : FosterGetLayoutGroup w.fdx.layoutCache f = some gi)
    (hg : w.fdx.layoutCache[gi]? = some g)
    (hshader : w.shader? s = some sh)
    (hinputs : inputElementLoop sh.inputs 0 0 f.elements = some descs)
    (hblob : sh.vertexBlob ≠ NULL) (hok : created.ok = true) (hout : created.out ≠ NULL) :
    ∃ layout w1, FosterGetLayoutInstance created s f w = some (layout, w1)
      ∧ layout ≠ NULL
      ∧ FosterGetLayoutInstance created2 s f w1 = some (layout, w1)
      ∧ ((∀ inst ∈ g.instances, inst.shader ≠ s) →
          layout = created.out
          ∧ w1.fdx.layoutCache = w.fdx.layoutCache.set gi { g with
              instances := g.instances ++ [{ shader := s, layout := created.out }] }
          ∧ w1.log = w.log ++ [NativeCall.CreateInputLayout descs sh.vertexBlob,
              NativeCall.SDL_free .inputElements]) := by
  cases hfind : g.instances.find? (fun inst => inst.shader = s ∧ inst.layout ≠ NULL) with
  | some inst =>
    have hp := List.find?_some hfind
    simp only [ne_eq, decide_eq_true_eq] at hp
    refine ⟨inst.layout, w, getLayoutInstance_found created s f w gi g inst hgroup hg hfind,
      hp.2, getLayoutInstance_found created2 s f w gi g inst hgroup hg hfind, ?_⟩
    intro hnone
    exact absurd hp.1 (hnone inst (List.mem_of_find?_eq_some hfind))
  | none =>
    have h1 := getLayoutInstance_created created s f w gi g sh descs hgroup hg hfind hshader
      hinputs hblob hok
    refine ⟨_, _, h1, hout, ?_, fun _ => ⟨rfl, rfl, rfl⟩⟩
    have hi : gi < w.fdx.layoutCache.length := by
      by_contra hge
      rw [List.getElem?_eq_none (not_lt.mp hge)] at hg
      cases hg
    apply getLayoutInstance_found created2 s f _ gi
      { g with instances := g.instances ++ [{ shader := s, layout := created.out }] }
      { shader := s, layout := created.out }
    · exact getLayoutGroup_set _ f gi g _ hgroup hg rfl
    · show (w.fdx.layoutCache.set gi _)[gi]? = _
      rw [List.getElem?_set_self hi]
    · show List.find? _ (g.instances ++ [_]) = _
      rw [List.find?_append, hfind]
      simp [hout]

/-- Witness for C22: the sample shader and the sample format on a cache whose group
for that format has no instance yet; the layout created is 45. -/
theorem C22_GetLayoutInstance_twice_witness :
    ∃ w1, FosterGetLayoutInstance ⟨true, 45⟩ 20 sampleFormat oneGroupWorld = some (45, w1)
      ∧ FosterGetLayoutInstance ⟨true, 46⟩ 20 sampleFormat w1 = some (45, w1)
      ∧ w1.fdx.layoutCache
          = [{ format := sampleFormat, instances := [{ shader := 20, layout := 45 }]
               references := 1 }] := by
  obtain ⟨layout, w1, h1, _, h2, h3⟩ := C22_GetLayoutInstance_twice oneGroupWorld 20 sampleFormat
    0 { format := sampleFormat, instances := [], references := 1 } sampleShader
    [{ SemanticName := "POSITION", SemanticIndex := 0
       Format := .DXGI_FORMAT_R32G32B32_FLOAT, AlignedByteOffset := 0 }]
    ⟨true, 45⟩ ⟨true, 46⟩ (by decide) (by decide) (by decide) (by decide) (by decide)
    (by decide) (by decide)
  obtain ⟨hl, hc, _⟩ := h3 (by simp)
  subst hl
  exact ⟨w1, h1, h2, by rw [hc]; decide⟩

/-! ## Removing the layout instances of a shader -/

/-- From index `j` on, nothing is keyed to the shader: the loop changes nothing. -/
theorem removeInstancesLoop_clean (s : Ptr) :
    ∀ (fuel j : Nat) (insts : List FosterLayoutInstance_D3D11),
      (∀ k inst, j ≤ k → insts[k]? = some inst → inst.shader ≠ s) →
      removeInstancesLoop s fuel j insts = (insts, []) := by
  intro fuel
  induction fuel with
  | zero => intro j insts _; rfl
  | succ fuel ih =>
    intro j insts hclean
    unfold removeInstancesLoop
    cases hj : insts[j]? with
    | none => rfl
    | some inst =>
      simp only [if_neg (hclean j inst (Nat.le_refl j) hj)]
      exact ih (j + 1) insts (fun k i hk hi => hclean k i (by omega) hi)

/-- When at most one instance from index `j` on is keyed to the shader, the loop
removes exactly that instance and reports its layout. -/
theorem removeInstancesLoop_unique (s : Ptr) (suf : List FosterLayoutInstance_D3D11) :
    ∀ (fuel : Nat) (pre : List FosterLayoutInstance_D3D11),
      suf.length ≤ fuel →
      (suf.filter (fun inst => inst.shader = s)).length ≤ 1 →
      removeInstancesLoop s fuel pre.length (pre ++ suf)
        = (pre ++ suf.filter (fun inst => inst.shader ≠ s),
           (suf.filter (fun inst => inst.shader = s)).map (fun inst => inst.layout)) := by
  induction suf with
  | nil =>
    intro fuel pre _ _
    rw [removeInstancesLoop_clean s fuel pre.length _ (by
      intro k inst hk hget
      rw [List.append_nil, List.getElem?_eq_none hk] at hget
      cases hget)]
    simp
  | cons x rest ih =>
    intro fuel pre hfuel huniq
    cases fuel with
    | zero => simp at hfuel
    | succ fuel =>
      have hfuel2 : rest.length ≤ fuel := by simpa using hfuel
      unfold removeInstancesLoop
      have hx : (pre ++ x :: rest)[pre.length]? = some x := by
        rw [List.getElem?_append_right (Nat.le_refl _)]
        simp
      by_cases hxs : x.shader = s
      · have hpx : decide (x.shader = s) = true := by simpa using hxs
        have hpx2 : decide (x.shader ≠ s) = false := by simpa using hxs
        rw [List.filter_cons, if_pos hpx, List.length_cons] at huniq
        have hrest : ∀ inst ∈ rest, inst.shader ≠ s := by
          intro inst hi he
          have hmem : inst ∈ rest.filter (fun inst => inst.shader = s) := by
            simp [List.mem_filter, hi, he]
          have hpos : 0 < (rest.filter (fun inst => inst.shader = s)).length :=
            List.length_pos_of_mem hmem
          omega
        have herase : (pre ++ x :: rest).eraseIdx pre.length = pre ++ rest := by
          rw [List.eraseIdx_append_of_length_le (Nat.le_refl _)]
          simp
        have hf1 : rest.filter (fun inst => inst.shader ≠ s) = rest := by
          rw [List.filter_eq_self]
          intro inst hi
          simpa using hrest inst hi
        have hf2 : rest.filter (fun inst => inst.shader = s) = [] := by
          rw [List.filter_eq_nil_iff]
          intro inst hi
          simpa using hrest inst hi
        simp only [hx, if_pos hxs, herase]
        rw [removeInstancesLoop_clean s fuel (pre.length + 1) (pre ++ rest) (by
          intro k inst hk hget
          rw [List.getElem?_append_right (by omega)] at hget
          exact hrest inst (List.getElem?_mem hget))]
        rw [List.filter_cons, if_neg (by simp [hpx2]), List.filter_cons, if_pos hpx, hf1, hf2]
        rfl
      · have hpx : decide (x.shader = s) = false := by simpa using hxs
        have hpx2 : decide (x.shader ≠ s) = true := by simpa using hxs
        rw [List.filter_cons, if_neg (by simp [hpx])] at huniq
        simp only [hx, if_neg hxs]
        have := ih fuel (pre ++ [x]) hfuel2 huniq
        simp only [List.length_append, List.length_singleton, List.append_assoc,
          List.singleton_append] at this
        rw [this, List.filter_cons, if_pos hpx2, List.filter_cons, if_neg (by simp [hpx])]

/-- The loop on a group that holds two adjacent instances keyed to one shader, a
state no cache operation produces: with the instances `(20, 41)`, `(20, 42)`,
`(30, 43)`, `FosterRemoveLayoutInstances(20)` returns with the instance `(20, 42)`
still in the group and only layout 41 released, since after removing index 0 the
loop goes on at index 1, which by then holds `(30, 43)`. -/
theorem removeLayoutInstances_adjacent_skip :
    ∃ w1, FosterRemoveLayoutInstances 20 doubledInstanceWorld = some w1
      ∧ w1.fdx.layoutCache
          = [{ format := sampleFormat
               instances := [{ shader := 20, layout := 42 }, { shader := 30, layout := 43 }]
               references := 2 }]
      ∧ w1.log = [NativeCall.InputLayout_Release 41] := by
  refine ⟨_, rfl, ?_, ?_⟩ <;> decide

/-- In a layout cache state in which no group holds more than one instance keyed to
`s`, and every instance keyed to `s` has a non-null layout,
`FosterRemoveLayoutInstances(s)` returns; afterwards each group holds its former
instances keyed to other shaders, in their former order, with its format and
reference count unchanged, no instance is keyed to `s`, and the calls made are one
`Release` for the layout of each removed instance, group by group. -/
theorem removeLayoutInstances_of_unique (w : World) (s : Ptr)
    (huniq : ∀ g ∈ w.fdx.layoutCache,
      (g.instances.filter (fun inst => inst.shader = s)).length ≤ 1)
    (hlayout : ∀ g ∈ w.fdx.layoutCache, ∀ inst ∈ g.instances,
      inst.shader = s → inst.layout ≠ NULL) :
    ∃ w1, FosterRemoveLayoutInstances s w = some w1
      ∧ w1.fdx.layoutCache = w.fdx.layoutCache.map (fun g =>
          { g with instances := g.instances.filter (fun inst => inst.shader ≠ s) })
      ∧ w1.log = w.log ++ w.fdx.layoutCache.flatMap (fun g =>
          (g.instances.filter (fun inst => inst.shader = s)).map
            (fun inst => NativeCall.InputLayout_Release inst.layout))
      ∧ (∀ g ∈ w1.fdx.layoutCache, ∀ inst ∈ g.instances, inst.shader ≠ s) := by
  have hloop : w.fdx.layoutCache.map (fun g =>
        (g, removeInstancesLoop s g.instances.length 0 g.instances))
      = w.fdx.layoutCache.map (fun g =>
        (g, (g.instances.filter (fun inst => inst.shader ≠ s),
          (g.instances.filter (fun inst => inst.shader = s)).map (fun inst => inst.layout)))) := by
    apply List.map_congr_left
    intro g hg
    have := removeInstancesLoop_unique s g.instances g.instances.length [] (Nat.le_refl _)
      (huniq g hg)
    simp only [List.length_nil, List.nil_append] at this
    rw [this]
  have hany : (w.fdx.layoutCache.map (fun g =>
        (g, (g.instances.filter (fun inst => inst.shader ≠ s),
          (g.instances.filter (fun inst => inst.shader = s)).map
            (fun inst => inst.layout))))).any
        (fun r => r.2.2.any (fun l => l = NULL)) = false := by
    rw [List.any_eq_false]
    intro r hr
    obtain ⟨g, hg, rfl⟩ := List.mem_map.mp hr
    simp only [Bool.not_eq_true, List.any_eq_false, List.mem_map, List.mem_filter,
      decide_eq_true_eq, forall_exists_index, and_imp]
    intro l inst hi hs hl
    subst hl
    simpa using hlayout g hg inst hi hs
  unfold FosterRemoveLayoutInstances
  simp only [hloop, hany, Bool.false_eq_true, if_false]
  refine ⟨_, rfl, ?_, ?_, ?_⟩
  · simp [World.emits, World.setFdx, List.map_map, Function.comp_def]
  · simp [World.emits, World.setFdx, List.flatMap_map, List.map_map, Function.comp_def,
      List.flatMap_def]
  · intro g hg inst hi
    simp only [World.emits, World.setFdx, List.map_map, List.mem_map, Function.comp_def] at hg
    obtain ⟨g0, _, rfl⟩ := hg
    simp only [List.mem_filter, decide_eq_true_eq] at hi
    exact hi.2

/-! ## The layout cache invariant -/

theorem mem_of_getElem?_eq_some {α : Type} {l : List α} {k : Nat} {a : α}
    (h : l[k]? = some a) : a ∈ l := List.getElem?_mem h

/-- A list of groups whose entries are, index by index, copies (up to reference
count and instances) of distinct entries of a cache with pairwise unequal formats
has pairwise unequal formats. -/
theorem distinct_of_reindex (cache cache1 : FosterLayoutCache_D3D11) (σ : Nat → Nat)
    (hdist : ∀ (i j : Nat) (gi gj : FosterLayoutGroup_D3D11), cache[i]? = some gi → cache[j]? = some gj → i ≠ j →
      FosterVertexFormatEqual gi.format gj.format = false)
    (hσ : ∀ k k1, k < cache1.length → k1 < cache1.length → σ k = σ k1 → k = k1)
    (hget : ∀ k g1, cache1[k]? = some g1 →
      ∃ g, cache[σ k]? = some g ∧ g1.format = g.format) :
    ∀ (i j : Nat) (gi gj : FosterLayoutGroup_D3D11), cache1[i]? = some gi → cache1[j]? = some gj → i ≠ j →
      FosterVertexFormatEqual gi.format gj.format = false := by
  intro i j gi gj hi hj hij
  obtain ⟨g, hg, hfg⟩ := hget i gi hi
  obtain ⟨g2, hg2, hfg2⟩ := hget j gj hj
  have hil : i < cache1.length := by
    by_contra hge
    rw [List.getElem?_eq_none (not_lt.mp hge)] at hi
    cases hi
  have hjl : j < cache1.length := by
    by_contra hge
    rw [List.getElem?_eq_none (not_lt.mp hge)] at hj
    cases hj
  rw [hfg, hfg2]
  exact hdist (σ i) (σ j) g g2 hg hg2 (fun h => hij (hσ i j hil hjl h))

theorem invariant_set (cache : FosterLayoutCache_D3D11) (i : Nat)
    (g g1 : FosterLayoutGroup_D3D11) (hinv : LayoutCacheInvariant cache)
    (hg : cache[i]? = some g) (hformat : g1.format = g.format)
    (hgood : LayoutGroupInvariant g1) :
    LayoutCacheInvariant (cache.set i g1) := by
  have hi : i < cache.length := by
    by_contra hge
    rw [List.getElem?_eq_none (not_lt.mp hge)] at hg
    cases hg
  refine ⟨distinct_of_reindex cache _ id hinv.1 (fun _ _ _ _ h => h) ?_, ?_⟩
  · intro k gk hk
    by_cases hki : i = k
    · subst hki
      rw [List.getElem?_set_self hi] at hk
      cases hk
      exact ⟨g, hg, hformat⟩
    · rw [List.getElem?_set_ne hki] at hk
      exact ⟨gk, hk, rfl⟩
  · intro gk hk
    rcases List.mem_or_eq_of_mem_set hk with h | h
    · exact hinv.2 gk h
    · subst h; exact hgood

theorem invariant_add (cache : FosterLayoutCache_D3D11) (f : FosterVertexFormat)
    (hinv : LayoutCacheInvariant cache)
    (hroom : ∀ i g, FosterGetLayoutGroup cache f = some i → cache[i]? = some g →
      g.references < 2147483647) :
    LayoutCacheInvariant (addLayoutReference cache f) := by
  cases hgroup : FosterGetLayoutGroup cache f with
  | none =>
    rw [addLayoutReference_new cache f hgroup]
    have hnone := (getLayoutGroup_eq_none cache f).mp hgroup
    refine ⟨?_, ?_⟩
    · intro i j gi gj hi hj hij
      by_cases hil : i < cache.length
      · rw [List.getElem?_append_left hil] at hi
        by_cases hjl : j < cache.length
        · rw [List.getElem?_append_left hjl] at hj
          exact hinv.1 i j gi gj hi hj hij
        · rw [List.getElem?_append_right (not_lt.mp hjl)] at hj
          have hj0 : j - cache.length = 0 := by
            by_contra hne
            rw [List.getElem?_eq_none (by simp; omega)] at hj
            cases hj
          rw [hj0] at hj
          cases hj
          exact hnone gi (List.getElem?_mem hi)
      · rw [List.getElem?_append_right (not_lt.mp hil)] at hi
        have hi0 : i - cache.length = 0 := by
          by_contra hne
          rw [List.getElem?_eq_none (by simp; omega)] at hi
          cases hi
        rw [hi0] at hi
        cases hi
        have hjl : j < cache.length := by
          by_contra hge
          rw [List.getElem?_append_right (not_lt.mp hge)] at hj
          have hj0 : j - cache.length = 0 := by
            by_contra hne
            rw [List.getElem?_eq_none (by simp; omega)] at hj
            cases hj
          omega
        rw [List.getElem?_append_left hjl] at hj
        rw [FosterVertexFormatEqual_comm]
        exact hnone gj (List.getElem?_mem hj)
    · intro g hg
      rcases List.mem_append.mp hg with h | h
      · exact hinv.2 g h
      · simp only [List.mem_singleton] at h
        subst h
        exact ⟨Int.le_refl 1, by show (1 : Int) ≤ 2147483647; decide, List.Pairwise.nil,
          fun _ h => by cases h⟩
  | some i =>
    have hi := (getLayoutGroup_eq_some cache f i).mp hgroup
    obtain ⟨g, hg, _, _⟩ := hi
    rw [addLayoutReference_found cache f i g hgroup hg]
    obtain ⟨h1, h2, h3, h4⟩ := hinv.2 g (List.getElem?_mem hg)
    have hlt := hroom i g hgroup hg
    have hw : wrap32 (g.references + 1) = g.references + 1 :=
      wrap32_of_isInt32 ⟨by omega, by omega⟩
    exact invariant_set cache i g _ hinv hg rfl
      ⟨by show 1 ≤ wrap32 (g.references + 1); rw [hw]; omega,
       by show wrap32 (g.references + 1) ≤ 2147483647; rw [hw]; omega, h3, h4⟩

theorem invariant_remove (cache : FosterLayoutCache_D3D11) (f : FosterVertexFormat)
    (hinv : LayoutCacheInvariant cache) :
    LayoutCacheInvariant (removeLayoutReference cache f).1 := by
  cases hgroup : FosterGetLayoutGroup cache f with
  | none =>
    rw [removeLayoutReference_none cache f hgroup]
    exact hinv
  | some i =>
    obtain ⟨g, hg, _, _⟩ := (getLayoutGroup_eq_some cache f i).mp hgroup
    obtain ⟨h1, h2, h3, h4⟩ := hinv.2 g (List.getElem?_mem hg)
    have hw : wrap32 (g.references - 1) = g.references - 1 :=
      wrap32_of_isInt32 ⟨by omega, by omega⟩
    have hi : i < cache.length := by
      by_contra hge
      rw [List.getElem?_eq_none (not_lt.mp hge)] at hg
      cases hg
    by_cases hpos : 0 < wrap32 (g.references - 1)
    · rw [removeLayoutReference_keeps cache f i g hgroup hg hpos]
      exact invariant_set cache i g _ hinv hg rfl
        ⟨by show 1 ≤ wrap32 (g.references - 1); rw [hw] at hpos ⊢; omega,
         by show wrap32 (g.references - 1) ≤ 2147483647; rw [hw]; omega, h3, h4⟩
    · obtain ⟨_, hlen, hget⟩ := removeLayoutReference_drops cache f i g hgroup hg
        (not_lt.mp hpos)
      have hsrc : ∀ k g1, (removeLayoutReference cache f).1[k]? = some g1 →
          cache[if k = i then cache.length - 1 else k]? = some g1 := by
        intro k g1 hk
        have hkl : k < cache.length - 1 := by
          by_contra hge
          rw [List.getElem?_eq_none (by rw [hlen]; omega)] at hk
          cases hk
        rw [hget k hkl] at hk
        by_cases hki : k = i
        · rw [if_pos hki] at hk ⊢; exact hk
        · rw [if_neg hki] at hk ⊢; exact hk
      refine ⟨distinct_of_reindex cache _ (fun k => if k = i then cache.length - 1 else k)
        hinv.1 ?_ (fun k g1 hk => ⟨g1, hsrc k g1 hk, rfl⟩), ?_⟩
      · intro k k1 hk hk1 heq
        rw [hlen] at hk hk1
        simp only at heq
        split_ifs at heq <;> omega
      · intro g1 hg1
        obtain ⟨k, hk, hgk⟩ := List.getElem_of_mem hg1
        have := hsrc k g1 (by rw [List.getElem?_eq_getElem hk, hgk])
        exact hinv.2 g1 (List.getElem?_mem this)

/-- What a returning `FosterGetLayoutInstance` has done to the cache: nothing, or it
has appended one instance, handed back by a successful creation, to a group that
had no instance keyed to the shader with a non-null layout. -/
theorem getLayoutInstance_cache (created : NativeOut) (s : Ptr) (f : FosterVertexFormat)
    (w w1 : World) (layout : Ptr)
    (h : FosterGetLayoutInstance created s f w = some (layout, w1)) :
    w1.fdx.layoutCache = w.fdx.layoutCache
    ∨ ∃ gi g, w.fdx.layoutCache[gi]? = some g
        ∧ g.instances.find? (fun inst => inst.shader = s ∧ inst.layout ≠ NULL) = none
        ∧ created.ok = true
        ∧ w1.fdx.layoutCache = w.fdx.layoutCache.set gi { g with
            instances := g.instances ++ [{ shader := s, layout := created.out }] } := by
  unfold FosterGetLayoutInstance at h
  cases hgroup : FosterGetLayoutGroup w.fdx.layoutCache f with
  | none =>
    simp only [hgroup, Option.some.injEq, Prod.mk.injEq] at h
    left; rw [← h.2]
  | some gi =>
    simp only [hgroup] at h
    cases hg : w.fdx.layoutCache[gi]? with
    | none => simp [hg] at h
    | some g =>
      simp only [hg] at h
      cases hfind : g.instances.find? (fun inst => inst.shader = s ∧ inst.layout ≠ NULL) with
      | some inst =>
        simp only [hfind, Option.some.injEq, Prod.mk.injEq] at h
        left; rw [← h.2]
      | none =>
        simp only [hfind] at h
        cases hsh : w.shader? s with
        | none => simp [hsh] at h
        | some sh =>
          simp only [hsh] at h
          cases hin : inputElementLoop sh.inputs 0 0 f.elements with
          | none => simp [hin] at h
          | some descs =>
            simp only [hin] at h
            by_cases hblob : sh.vertexBlob = NULL
            · simp [hblob] at h
            · simp only [if_neg hblob] at h
              cases hok : created.ok with
              | true =>
                simp only [hok, not_true_eq_false, if_false, Option.some.injEq,
                  Prod.mk.injEq] at h
                right
                refine ⟨gi, g, hg, hfind, rfl, ?_⟩
                rw [← h.2]
                rfl
              | false =>
                simp only [hok, Bool.false_eq_true, not_false_eq_true, if_true,
                  Option.some.injEq, Prod.mk.injEq] at h
                left; rw [← h.2]; rfl

theorem invariant_getInstance (created : NativeOut) (s : Ptr) (f : FosterVertexFormat)
    (w w1 : World) (layout : Ptr) (hinv : LayoutCacheInvariant w.fdx.layoutCache)
    (hout : created.ok = true → created.out ≠ NULL)
    (h : FosterGetLayoutInstance created s f w = some (layout, w1)) :
    LayoutCacheInvariant w1.fdx.layoutCache := by
  rcases getLayoutInstance_cache created s f w w1 layout h with hsame | ⟨gi, g, hg, hfind, hok, hc⟩
  · rw [hsame]; exact hinv
  · rw [hc]
    obtain ⟨h1, h2, h3, h4⟩ := hinv.2 g (List.getElem?_mem hg)
    refine invariant_set _ gi g _ hinv hg rfl ⟨h1, h2, ?_, ?_⟩
    · show List.Pairwise _ (g.instances ++ [_])
      rw [List.pairwise_append]
      refine ⟨h3, List.pairwise_singleton _ _, ?_⟩
      intro a ha b hb
      simp only [List.mem_singleton] at hb
      subst hb
      have := List.find?_eq_none.mp hfind a ha
      simp only [ne_eq, decide_eq_true_eq, not_and, not_not] at this
      intro he
      exact h4 a ha (this he)
    · intro inst hi
      rcases List.mem_append.mp hi with h | h
      · exact h4 inst h
      · simp only [List.mem_singleton] at h
        subst h
        exact hout hok

theorem removeInstancesLoop_sublist (s : Ptr) :
    ∀ (fuel j : Nat) (insts : List FosterLayoutInstance_D3D11),
      (removeInstancesLoop s fuel j insts).1.Sublist insts := by
  intro fuel
  induction fuel with
  | zero => intro j insts; exact List.Sublist.refl _
  | succ fuel ih =>
    intro j insts
    unfold removeInstancesLoop
    cases hj : insts[j]? with
    | none => exact List.Sublist.refl _
    | some inst =>
      by_cases hs : inst.shader = s
      · simp only [if_pos hs]
        exact (ih (j + 1) _).trans (List.eraseIdx_sublist _ _)
      · simp only [if_neg hs]
        exact ih (j + 1) insts

theorem removeLayoutInstances_cache (s : Ptr) (w w1 : World)
    (h : FosterRemoveLayoutInstances s w = some w1) :
    w1.fdx.layoutCache = w.fdx.layoutCache.map (fun g =>
      { g with instances := (removeInstancesLoop s g.instances.length 0 g.instances).1 }) := by
  unfold FosterRemoveLayoutInstances at h
  simp only at h
  split_ifs at h
  simp only [Option.some.injEq] at h
  rw [← h]
  simp [World.emits, World.setFdx, List.map_map, Function.comp_def]

theorem invariant_removeInstances (s : Ptr) (w w1 : World)
    (hinv : LayoutCacheInvariant w.fdx.layoutCache)
    (h : FosterRemoveLayoutInstances s w = some w1) :
    LayoutCacheInvariant w1.fdx.layoutCache := by
  rw [removeLayoutInstances_cache s w w1 h]
  refine ⟨distinct_of_reindex w.fdx.layoutCache _ id hinv.1 (fun _ _ _ _ h => h) ?_, ?_⟩
  · intro k g1 hk
    rw [List.getElem?_map] at hk
    cases hg : w.fdx.layoutCache[k]? with
    | none => rw [hg] at hk; cases hk
    | some g =>
      rw [hg] at hk
      simp only [Option.map_some', Option.some.injEq] at hk
      exact ⟨g, hg, by rw [← hk]⟩
  · intro g1 hg1
    obtain ⟨g, hg, rfl⟩ := List.mem_map.mp hg1
    obtain ⟨h1, h2, h3, h4⟩ := hinv.2 g hg
    have hsub := removeInstancesLoop_sublist s g.instances.length 0 g.instances
    exact ⟨h1, h2, h3.sublist hsub, fun inst hi => h4 inst (hsub.subset hi)⟩

/-- Claim C30. In every state reachable from an empty layout cache by
`FosterAddLayoutReference`, `FosterRemoveLayoutReference`, `FosterGetLayoutInstance`
and `FosterRemoveLayoutInstances` (a successful native creation handing back a
non-null layout, the reference increment not overflowing `int`): no two groups have
formats equal under `FosterVertexFormatEqual`, every group's reference count is
`>= 1` (and an `int`), no group holds two instances keyed to the same shader, and
every instance has a non-null layout. -/
theorem C30_layout_cache_invariant (w : World) (hreach : CacheReachable w) :
    (∀ (i j : Nat) (gi gj : FosterLayoutGroup_D3D11),
      w.fdx.layoutCache[i]? = some gi → w.fdx.layoutCache[j]? = some gj → i ≠ j →
      FosterVertexFormatEqual gi.format gj.format = false)
    ∧ (∀ g ∈ w.fdx.layoutCache, 1 ≤ g.references ∧ g.references ≤ 2147483647)
    ∧ (∀ g ∈ w.fdx.layoutCache, g.instances.Pairwise (fun a b => a.shader ≠ b.shader))
    ∧ (∀ g ∈ w.fdx.layoutCache, ∀ inst ∈ g.instances, inst.layout ≠ NULL) := by
  have hinv : LayoutCacheInvariant w.fdx.layoutCache := by
    induction hreach with
    | empty hempty =>
      rw [hempty]
      exact ⟨fun i j gi gj hi => by simp at hi, fun g hg => by cases hg⟩
    | addReference f _ hroom ih => exact invariant_add _ f ih hroom
    | removeReference f _ ih => exact invariant_remove _ f ih
    | getInstance created s f layout _ hout hcall ih =>
      exact invariant_getInstance created s f _ _ layout ih hout hcall
    | removeInstances s _ hcall ih => exact invariant_removeInstances s _ _ ih hcall
    | other _ hsame ih => rw [hsame]; exact ih
  exact ⟨hinv.1, fun g hg => ⟨(hinv.2 g hg).1, (hinv.2 g hg).2.1⟩,
    fun g hg => (hinv.2 g hg).2.2.1, fun g hg => (hinv.2 g hg).2.2.2⟩

theorem oneGroupWorld_reachable : CacheReachable oneGroupWorld :=
  CacheReachable.addReference sampleFormat
    (CacheReachable.empty (w := shaderWorld) rfl) (by
      intro i g hi
      have hnone : FosterGetLayoutGroup shaderWorld.fdx.layoutCache sampleFormat = none := rfl
      rw [hnone] at hi
      cases hi)

/-- Witness for C30: one reference to the sample format is added on the empty cache
and a layout instance for the sample shader is created; the cache reached holds
one group with reference count 1 and the one instance `(20, 45)`. -/
theorem C30_layout_cache_invariant_witness :
    ∃ w1, FosterGetLayoutInstance ⟨true, 45⟩ 20 sampleFormat oneGroupWorld = some (45, w1)
      ∧ CacheReachable w1
      ∧ (∀ g ∈ w1.fdx.layoutCache, 1 ≤ g.references ∧ g.references ≤ 2147483647)
      ∧ (∀ g ∈ w1.fdx.layoutCache, ∀ inst ∈ g.instances, inst.layout ≠ NULL) := by
  have hcall : FosterGetLayoutInstance ⟨true, 45⟩ 20 sampleFormat oneGroupWorld
      = some (45, _) := rfl
  have hreach := CacheReachable.getInstance ⟨true, 45⟩ 20 sampleFormat 45
    oneGroupWorld_reachable (by decide) hcall
  have h := C30_layout_cache_invariant _ hreach
  exact ⟨_, hcall, hreach, h.2.1, h.2.2.2⟩

/-! ## Removing the layout instances of a shader -/

theorem filter_shader_length_le_one (s : Ptr) (l : List FosterLayoutInstance_D3D11)
    (h : l.Pairwise (fun a b => a.shader ≠ b.shader)) :
    (l.filter (fun inst => inst.shader = s)).length ≤ 1 := by
  induction l with
  | nil => simp
  | cons x rest ih =>
    rw [List.pairwise_cons] at h
    by_cases hx : x.shader = s
    · have hnone : rest.filter (fun inst => inst.shader = s) = [] := by
        rw [List.filter_eq_nil_iff]
        intro inst hi
        have hne := h.1 inst hi
        simp only [decide_eq_true_eq]
        intro he
        exact hne (hx.trans he.symm)
      rw [List.filter_cons, if_pos (by simpa using hx), List.length_cons, hnone]
      simp
    · rw [List.filter_cons, if_neg (by simpa using hx)]
      exact ih h.2

/-- Every state reachable through the cache operations satisfies the layout cache
invariant. -/
theorem cacheReachable_invariant (w : World) (hreach : CacheReachable w) :
    LayoutCacheInvariant w.fdx.layoutCache := by
  induction hreach with
  | empty hempty =>
    rw [hempty]
    exact ⟨fun i j gi gj hi => by simp at hi, fun g hg => by cases hg⟩
  | addReference f _ hroom ih => exact invariant_add _ f ih hroom
  | removeReference f _ ih => exact invariant_remove _ f ih
  | getInstance created s f layout _ hout hcall ih =>
    exact invariant_getInstance created s f _ _ layout ih hout hcall
  | removeInstances s _ hcall ih => exact invariant_removeInstances s _ _ ih hcall
  | other _ hsame ih => rw [hsame]; exact ih

theorem drawWorld_reachable : CacheReachable drawWorld :=
  CacheReachable.other oneGroupWorld_reachable rfl

/-- Claim C25. In every layout cache state reachable through the cache operations
and for every shader `s`, `FosterRemoveLayoutInstances(s)` returns; afterwards each
group holds exactly its former instances keyed to other shaders, in their former
order, with its format and reference count unchanged, so no group contains an
instance keyed to `s`; the calls made are one `Release` for the layout of each
removed instance, group by group, and each group had at most one such instance. -/
theorem C25_RemoveLayoutInstances (w : World) (s : Ptr) (hreach : CacheReachable w) :
    ∃ w1, FosterRemoveLayoutInstances s w = some w1
      ∧ w1.fdx.layoutCache = w.fdx.layoutCache.map (fun g =>
          { g with instances := g.instances.filter (fun inst => inst.shader ≠ s) })
      ∧ w1.log = w.log ++ w.fdx.layoutCache.flatMap (fun g =>
          (g.instances.filter (fun inst => inst.shader = s)).map
            (fun inst => NativeCall.InputLayout_Release inst.layout))
      ∧ (∀ g ∈ w.fdx.layoutCache,
          (g.instances.filter (fun inst => inst.shader = s)).length ≤ 1)
      ∧ (∀ g ∈ w1.fdx.layoutCache, ∀ inst ∈ g.instances, inst.shader ≠ s) := by
  have hinv := cacheReachable_invariant w hreach
  have huniq : ∀ g ∈ w.fdx.layoutCache,
      (g.instances.filter (fun inst => inst.shader = s)).length ≤ 1 :=
    fun g hg => filter_shader_length_le_one s g.instances (hinv.2 g hg).2.2.1
  obtain ⟨w1, h1, h2, h3, h4⟩ := removeLayoutInstances_of_unique w s huniq
    (fun g hg inst hi _ => (hinv.2 g hg).2.2.2 inst hi)
  exact ⟨w1, h1, h2, h3, huniq, h4⟩

set_option maxRecDepth 8000 in
/-- Witness for C25: from the cache with one group for the sample format, layout
instances are created for shader 20 (layout 45) and shader 30 (layout 46); removing
the instances of shader 20 leaves the instance `(30, 46)` and releases layout 45
once. -/
theorem C25_RemoveLayoutInstances_witness :
    ∃ w1 w2 w3, FosterGetLayoutInstance ⟨true, 45⟩ 20 sampleFormat drawWorld = some (45, w1)
      ∧ FosterGetLayoutInstance ⟨true, 46⟩ 30 sampleFormat w1 = some (46, w2)
      ∧ w2.fdx.layoutCache
          = [{ format := sampleFormat
               instances := [{ shader := 20, layout := 45 }, { shader := 30, layout := 46 }]
               references := 1 }]
      ∧ FosterRemoveLayoutInstances 20 w2 = some w3
      ∧ w3.fdx.layoutCache
          = [{ format := sampleFormat, instances := [{ shader := 30, layout := 46 }]
               references := 1 }]
      ∧ w3.log = w2.log ++ [NativeCall.InputLayout_Release 45] := by
  have hex : ∃ w1 w2,
      FosterGetLayoutInstance ⟨true, 45⟩ 20 sampleFormat drawWorld = some (45, w1)
      ∧ FosterGetLayoutInstance ⟨true, 46⟩ 30 sampleFormat w1 = some (46, w2)
      ∧ w2.fdx.layoutCache
          = [{ format := sampleFormat
               instances := [{ shader := 20, layout := 45 }, { shader := 30, layout := 46 }]
               references := 1 }] := ⟨_, _, rfl, rfl, by decide⟩
  obtain ⟨w1, w2, h1, h2, hc2⟩ := hex
  have hreach := CacheReachable.getInstance ⟨true, 46⟩ 30 sampleFormat 46
    (CacheReachable.getInstance ⟨true, 45⟩ 20 sampleFormat 45 drawWorld_reachable
      (by decide) h1) (by decide) h2
  obtain ⟨w3, hcall, hc, hl, _, _⟩ := C25_RemoveLayoutInstances w2 20 hreach
  refine ⟨w1, w2, w3, h1, h2, hc2, hcall, ?_, ?_⟩
  · rw [hc, hc2]
    decide
  · rw [hl, hc2]
    rfl

/-! ## Binding a shader -/

/-- One pass of the slot loop of `FosterBindShader_D3D11`: the texture slot is
rebound exactly when the shader's texture is non-null and differs from the
tracked one. -/
theorem bindShaderSlot_eq (sh : FosterShader_D3D11) (w : World) (i : Nat)
    (tex cur curS : Ptr) (samp : Option FosterSampler_D3D11)
    (htex : sh.textures[i]? = some tex) (hsamp : sh.samplers[i]? = some samp)
    (hcur : w.fdx.stateTextureSlots[i]? = some cur)
    (hcurS : w.fdx.stateSamplerSlots[i]? = some curS)
    (hlive : tex ≠ NULL → cur ≠ tex → (w.textures tex).isSome = true) :
    ∃ w1 l, bindShaderSlot sh w i = some w1
      ∧ w1.textures = w.textures ∧ w1.shaders = w.shaders ∧ w1.meshes = w.meshes
      ∧ w1.targets = w.targets
      ∧ w1.fdx.stateShader = w.fdx.stateShader
      ∧ w1.fdx.stateInitializing = w.fdx.stateInitializing
      ∧ w1.fdx.stateViewport = w.fdx.stateViewport
      ∧ w1.fdx.stateTextureSlots
          = (if tex ≠ NULL ∧ cur ≠ tex then w.fdx.stateTextureSlots.set i tex
             else w.fdx.stateTextureSlots)
      ∧ w1.fdx.stateSamplerSlots.length = w.fdx.stateSamplerSlots.length
      ∧ (∀ j, j ≠ i → w1.fdx.stateSamplerSlots[j]? = w.fdx.stateSamplerSlots[j]?)
      ∧ w1.log = w.log ++ l
      ∧ (∀ j, calls (NativeCall.isTextureBindAt j) l
          = if j = i ∧ tex ≠ NULL ∧ cur ≠ tex then 1 else 0)
      ∧ calls NativeCall.isVSSetShader l = 0 := by
  unfold bindShaderSlot
  simp only [htex, hsamp, hcur, hcurS]
  by_cases hc : tex ≠ NULL ∧ cur ≠ tex
  · obtain ⟨t, ht⟩ := Option.isSome_iff_exists.mp (hlive hc.1 hc.2)
    simp only [if_pos hc, ht]
    cases samp with
    | none =>
      refine ⟨_, [NativeCall.PSSetShaderResources i t.view], rfl, rfl, rfl, rfl, rfl, rfl, rfl,
        rfl, rfl, rfl, fun _ _ => rfl, rfl, ?_, rfl⟩
      intro j
      by_cases hj : j = i
      · subst hj; simp [calls, NativeCall.isTextureBindAt, hc]
      · have hij : ¬ i = j := fun h => hj h.symm
        simp [calls, NativeCall.isTextureBindAt, hj, hij]
    | some s =>
      have hcurS2 : ((w.setFdx { w.fdx with
          stateTextureSlots := w.fdx.stateTextureSlots.set i tex }).emit
            (NativeCall.PSSetShaderResources i t.view)).fdx.stateSamplerSlots[i]? = some curS :=
        hcurS
      by_cases hs : curS ≠ s.addr
      · simp only [if_pos hs]
        refine ⟨_, [NativeCall.PSSetShaderResources i t.view, NativeCall.PSSetSamplers i s.sampler],
          rfl, rfl, rfl, rfl, rfl, rfl, rfl, rfl, rfl, ?_, ?_, ?_, ?_, rfl⟩
        · simp [World.emit, World.setFdx]
        · intro j hj
          simp [World.emit, World.setFdx, List.getElem?_set_ne (fun h => hj h.symm)]
        · simp [World.emit, World.setFdx]
        · intro j
          by_cases hj : j = i
          · subst hj; simp [calls, NativeCall.isTextureBindAt, hc]
          · have hij : ¬ i = j := fun h => hj h.symm
            simp [calls, NativeCall.isTextureBindAt, hj, hij]
      · simp only [if_neg hs]
        refine ⟨_, [NativeCall.PSSetShaderResources i t.view], rfl, rfl, rfl, rfl, rfl, rfl,
          rfl, rfl, rfl, rfl, fun _ _ => rfl, rfl, ?_, rfl⟩
        intro j
        by_cases hj : j = i
        · subst hj; simp [calls, NativeCall.isTextureBindAt, hc]
        · have hij : ¬ i = j := fun h => hj h.symm
          simp [calls, NativeCall.isTextureBindAt, hj, hij]
  · simp only [if_neg hc]
    cases samp with
    | none =>
      refine ⟨_, [], rfl, rfl, rfl, rfl, rfl, rfl, rfl, rfl, rfl, rfl, fun _ _ => rfl,
        by simp, ?_, rfl⟩
      intro j
      simp [calls, hc]
    | some s =>
      by_cases hs : curS ≠ s.addr
      · simp only [if_pos hs]
        refine ⟨_, [NativeCall.PSSetSamplers i s.sampler],
          rfl, rfl, rfl, rfl, rfl, rfl, rfl, rfl, rfl, ?_, ?_, rfl, ?_, rfl⟩
        · simp [World.emit, World.setFdx]
        · intro j hj
          simp [World.emit, World.setFdx, List.getElem?_set_ne (fun h => hj h.symm)]
        · intro j
          simp [calls, NativeCall.isTextureBindAt, hc]
      · simp only [if_neg hs]
        refine ⟨_, [], rfl, rfl, rfl, rfl, rfl, rfl, rfl, rfl, rfl, rfl, fun _ _ => rfl,
          by simp, ?_, rfl⟩
        intro j
        simp [calls, hc]

theorem getD_of_lt {l : List Ptr} {j : Nat} (h : j < l.length) :
    l[j]? = some (l.getD j NULL) := by
  rw [List.getD_eq_getElem?_getD, List.getElem?_eq_getElem h]
  rfl

/-- The slot loop of `FosterBindShader_D3D11` over the first `k` slots. -/
theorem bindShaderLoop (sh : FosterShader_D3D11) (w0 : World) (n : Nat)
    (hn : n ≤ sh.textures.length) (hsn : n ≤ sh.samplers.length)
    (htn : n ≤ w0.fdx.stateTextureSlots.length) (hssn : n ≤ w0.fdx.stateSamplerSlots.length)
    (hlive : ∀ j, j < n → sh.textures.getD j NULL ≠ NULL →
      w0.fdx.stateTextureSlots.getD j NULL ≠ sh.textures.getD j NULL →
      (w0.textures (sh.textures.getD j NULL)).isSome = true) :
    ∀ k, k ≤ n → ∃ wk l,
      (List.range k).foldlM (bindShaderSlot sh) w0 = some wk
      ∧ wk.textures = w0.textures ∧ wk.shaders = w0.shaders ∧ wk.meshes = w0.meshes
      ∧ wk.targets = w0.targets
      ∧ wk.fdx.stateShader = w0.fdx.stateShader
      ∧ wk.fdx.stateInitializing = w0.fdx.stateInitializing
      ∧ wk.fdx.stateViewport = w0.fdx.stateViewport
      ∧ wk.fdx.stateTextureSlots.length = w0.fdx.stateTextureSlots.length
      ∧ (∀ j, wk.fdx.stateTextureSlots[j]?
          = if j < k ∧ sh.textures.getD j NULL ≠ NULL
                ∧ w0.fdx.stateTextureSlots.getD j NULL ≠ sh.textures.getD j NULL
            then some (sh.textures.getD j NULL) else w0.fdx.stateTextureSlots[j]?)
      ∧ wk.fdx.stateSamplerSlots.length = w0.fdx.stateSamplerSlots.length
      ∧ (∀ j, k ≤ j → wk.fdx.stateSamplerSlots[j]? = w0.fdx.stateSamplerSlots[j]?)
      ∧ wk.log = w0.log ++ l
      ∧ (∀ j, calls (NativeCall.isTextureBindAt j) l
          = if j < k ∧ sh.textures.getD j NULL ≠ NULL
                ∧ w0.fdx.stateTextureSlots.getD j NULL ≠ sh.textures.getD j NULL
            then 1 else 0)
      ∧ calls NativeCall.isVSSetShader l = 0 := by
  intro k
  induction k with
  | zero =>
    intro _
    refine ⟨w0, [], rfl, rfl, rfl, rfl, rfl, rfl, rfl, rfl, rfl, ?_, rfl, fun _ _ => rfl,
      by simp, ?_, rfl⟩
    · intro j; simp
    · intro j; simp [calls]
  | succ k ih =>
    intro hk
    have hkn : k < n := hk
    obtain ⟨wk, l, hfold, ht, hs, hm, htg, hst, hin, hvp, hlen, hslots, hslen, hsslots, hlog,
      hcount, hvs⟩ := ih (Nat.le_of_lt hkn)
    rw [foldlM_range_succ, hfold]
    show ∃ wk1 l1, bindShaderSlot sh wk k = some wk1 ∧ _
    have htex : sh.textures[k]? = some (sh.textures.getD k NULL) := getD_of_lt (by omega)
    have hcur : wk.fdx.stateTextureSlots[k]? = some (w0.fdx.stateTextureSlots.getD k NULL) := by
      rw [hslots k, if_neg (by omega)]
      exact getD_of_lt (by omega)
    obtain ⟨samp, hsamp⟩ : ∃ samp, sh.samplers[k]? = some samp :=
      ⟨_, List.getElem?_eq_getElem (by omega)⟩
    obtain ⟨curS, hcurS⟩ : ∃ curS, wk.fdx.stateSamplerSlots[k]? = some curS :=
      ⟨_, List.getElem?_eq_getElem (by omega)⟩
    obtain ⟨wk1, l1, hpass, ht1, hs1, hm1, htg1, hst1, hin1, hvp1, hslots1, hslen1, hsslots1,
      hlog1, hcount1, hvs1⟩ := bindShaderSlot_eq sh wk k _ _ curS samp htex hsamp hcur hcurS
        (by rw [ht]; exact hlive k hkn)
    have hklen : k < wk.fdx.stateTextureSlots.length := by omega
    refine ⟨wk1, l ++ l1, hpass, ht1.trans ht, hs1.trans hs, hm1.trans hm, htg1.trans htg,
      hst1.trans hst, hin1.trans hin, hvp1.trans hvp, ?_, ?_, hslen1.trans hslen, ?_, ?_, ?_, ?_⟩
    · rw [hslots1]
      split_ifs
      · rw [List.length_set, hlen]
      · exact hlen
    · intro j
      rw [hslots1]
      by_cases hc : sh.textures.getD k NULL ≠ NULL
          ∧ w0.fdx.stateTextureSlots.getD k NULL ≠ sh.textures.getD k NULL
      · rw [if_pos hc]
        by_cases hjk : j = k
        · subst hjk
          rw [List.getElem?_set_self hklen, if_pos ⟨Nat.lt_succ_self _, hc⟩]
        · rw [List.getElem?_set_ne (fun h => hjk h.symm), hslots j]
          refine if_congr ?_ rfl rfl
          constructor <;> rintro ⟨h1, h2⟩ <;> exact ⟨by omega, h2⟩
      · rw [if_neg hc, hslots j]
        refine if_congr ?_ rfl rfl
        constructor
        · rintro ⟨h1, h2⟩; exact ⟨by omega, h2⟩
        · rintro ⟨h1, h2⟩
          refine ⟨?_, h2⟩
          by_contra hge
          have hjk : j = k := by omega
          subst hjk
          exact hc h2
    · intro j hj
      rw [hsslots1 j (by omega), hsslots j (by omega)]
    · rw [hlog1, hlog, List.append_assoc]
    · intro j
      rw [calls_append, hcount j, hcount1 j]
      by_cases hjk : j = k
      · subst hjk
        by_cases hc : sh.textures.getD j NULL ≠ NULL
            ∧ w0.fdx.stateTextureSlots.getD j NULL ≠ sh.textures.getD j NULL
        · rw [if_neg (by omega), if_pos ⟨rfl, hc⟩, if_pos ⟨Nat.lt_succ_self _, hc⟩]
        · rw [if_neg (by omega), if_neg (fun h => hc h.2), if_neg (fun h => hc h.2)]
      · have hz : (if j = k ∧ sh.textures.getD k NULL ≠ NULL
            ∧ w0.fdx.stateTextureSlots.getD k NULL ≠ sh.textures.getD k NULL then 1 else 0)
            = 0 := if_neg (fun h => hjk h.1)
        rw [hz, Nat.add_zero]
        refine if_congr ?_ rfl rfl
        constructor <;> rintro ⟨h1, h2⟩ <;> exact ⟨by omega, h2⟩
    · rw [calls_append, hvs, hvs1]

/-- What `FosterBindShader_D3D11` does for a live shader whose non-null textures that
differ from the tracked ones are live: per slot, one texture bind exactly when the
shader's texture is non-null and differs from the tracked one; the programs are
bound exactly when `stateInitializing` is set or another shader is tracked. -/
theorem bindShader_eq (w : World) (S : Ptr) (sh : FosterShader_D3D11)
    (hS : w.shader? S = some sh)
    (hsn : sh.textures.length ≤ sh.samplers.length)
    (htn : sh.textures.length ≤ w.fdx.stateTextureSlots.length)
    (hssn : sh.textures.length ≤ w.fdx.stateSamplerSlots.length)
    (hlive : ∀ j, j < sh.textures.length → sh.textures.getD j NULL ≠ NULL →
      w.fdx.stateTextureSlots.getD j NULL ≠ sh.textures.getD j NULL →
      (w.textures (sh.textures.getD j NULL)).isSome = true) :
    ∃ w1 l, FosterBindShader_D3D11 S w = some w1
      ∧ w1.textures = w.textures ∧ w1.shaders = w.shaders ∧ w1.meshes = w.meshes
      ∧ w1.targets = w.targets
      ∧ w1.fdx.stateShader = S
      ∧ w1.fdx.stateInitializing = w.fdx.stateInitializing
      ∧ w1.fdx.stateViewport = w.fdx.stateViewport
      ∧ w1.fdx.stateTextureSlots.length = w.fdx.stateTextureSlots.length
      ∧ w1.fdx.stateSamplerSlots.length = w.fdx.stateSamplerSlots.length
      ∧ (∀ j, w1.fdx.stateTextureSlots[j]?
          = if j < sh.textures.length ∧ sh.textures.getD j NULL ≠ NULL
                ∧ w.fdx.stateTextureSlots.getD j NULL ≠ sh.textures.getD j NULL
            then some (sh.textures.getD j NULL) else w.fdx.stateTextureSlots[j]?)
      ∧ w1.log = w.log ++ l
      ∧ (∀ j, calls (NativeCall.isTextureBindAt j) l
          = if j < sh.textures.length ∧ sh.textures.getD j NULL ≠ NULL
                ∧ w.fdx.stateTextureSlots.getD j NULL ≠ sh.textures.getD j NULL
            then 1 else 0)
      ∧ calls NativeCall.isVSSetShader l
          = if w.fdx.stateInitializing = true ∨ w.fdx.stateShader ≠ S then 1 else 0 := by
  have hprog : ∃ lp, (bindShaderPrograms S sh w).log = w.log ++ lp
      ∧ (bindShaderPrograms S sh w).textures = w.textures
      ∧ (bindShaderPrograms S sh w).shaders = w.shaders
      ∧ (bindShaderPrograms S sh w).meshes = w.meshes
      ∧ (bindShaderPrograms S sh w).targets = w.targets
      ∧ (bindShaderPrograms S sh w).fdx.stateShader = S
      ∧ (bindShaderPrograms S sh w).fdx.stateInitializing = w.fdx.stateInitializing
      ∧ (bindShaderPrograms S sh w).fdx.stateViewport = w.fdx.stateViewport
      ∧ (bindShaderPrograms S sh w).fdx.stateTextureSlots = w.fdx.stateTextureSlots
      ∧ (bindShaderPrograms S sh w).fdx.stateSamplerSlots = w.fdx.stateSamplerSlots
      ∧ (∀ j, calls (NativeCall.isTextureBindAt j) lp = 0)
      ∧ calls NativeCall.isVSSetShader lp
          = if w.fdx.stateInitializing = true ∨ w.fdx.stateShader ≠ S then 1 else 0 := by
    unfold bindShaderPrograms
    by_cases hc : w.fdx.stateInitializing = true ∨ w.fdx.stateShader ≠ S
    · by_cases hu : sh.uniformBuffer ≠ NULL
      · simp only [if_pos hc, if_pos hu]
        exact ⟨[.VSSetShader sh.vertexShader, .PSSetShader sh.pixelShader,
          .VSSetConstantBuffers 0 [sh.uniformBuffer]], by simp [World.emit, World.setFdx],
          rfl, rfl, rfl, rfl, rfl, rfl, rfl, rfl, rfl, fun _ => rfl, rfl⟩
      · simp only [if_pos hc, if_neg hu]
        exact ⟨[.VSSetShader sh.vertexShader, .PSSetShader sh.pixelShader],
          by simp [World.emit, World.setFdx],
          rfl, rfl, rfl, rfl, rfl, rfl, rfl, rfl, rfl, fun _ => rfl, rfl⟩
    · have hsame : w.fdx.stateShader = S := by
        by_contra hne
        exact hc (Or.inr hne)
      rw [if_neg hc]
      exact ⟨[], by simp, rfl, rfl, rfl, rfl, hsame, rfl, rfl, rfl, rfl, fun _ => rfl,
        (if_neg hc).symm⟩
  obtain ⟨lp, hplog, hpt, hps, hpm, hptg, hpst, hpin, hpvp, hpslots, hpsslots, hpcount, hpvs⟩ :=
    hprog
  obtain ⟨w1, l, hfold, ht, hs, hm, htg, hst, hin, hvp, hlen, hslots, hslen, _, hlog, hcount,
    hvs⟩ := bindShaderLoop sh (bindShaderPrograms S sh w) sh.textures.length (Nat.le_refl _) hsn
      (by rw [hpslots]; exact htn) (by rw [hpsslots]; exact hssn)
      (by rw [hpslots, hpt]; exact hlive) sh.textures.length (Nat.le_refl _)
  have hcall : FosterBindShader_D3D11 S w = some w1 := by
    unfold FosterBindShader_D3D11
    simp only [hS]
    exact hfold
  refine ⟨w1, lp ++ l, hcall, ht.trans hpt, hs.trans hps, hm.trans hpm, htg.trans hptg,
    hst.trans hpst, hin.trans hpin, hvp.trans hpvp, by rw [hlen, hpslots],
    by rw [hslen, hpsslots], ?_, by rw [hlog, hplog, List.append_assoc], ?_, ?_⟩
  · intro j
    rw [hslots j, hpslots]
  · intro j
    rw [calls_append, hpcount j, hcount j, hpslots, Nat.zero_add]
  · rw [calls_append, hpvs, hvs, Nat.add_zero]

/-- Claim C21. Let `A` and `B` be live shaders whose non-null slot textures are live,
the slot arrays of the shaders and of the tracker having the same length. Then
`FosterBindShader_D3D11(A)` followed by `FosterBindShader_D3D11(B)` returns, and for
each bind and each slot `i`: the number of native texture binds for slot `i` grows
by one if the shader's slot-`i` texture is non-null and differs from the tracker's
slot-`i` occupant at entry and by none otherwise, and whenever the shader's
slot-`i` texture is non-null the tracker's slot `i` holds it afterwards. So when
`A` and `B` hold the same non-null texture in slot `i`, binding `B` issues no
texture bind for slot `i`, although for `A ≠ B` it binds the programs of `B`. -/
theorem C21_BindShader_texture_slots (w : World) (A B : Ptr) (shA shB : FosterShader_D3D11)
    (hA : w.shader? A = some shA) (hB : w.shader? B = some shB)
    (hAs : shA.samplers.length = shA.textures.length)
    (hBs : shB.samplers.length = shB.textures.length)
    (hAB : shB.textures.length = shA.textures.length)
    (hts : w.fdx.stateTextureSlots.length = shA.textures.length)
    (hss : w.fdx.stateSamplerSlots.length = shA.textures.length)
    (hliveA : ∀ j, j < shA.textures.length → shA.textures.getD j NULL ≠ NULL →
      (w.textures (shA.textures.getD j NULL)).isSome = true)
    (hliveB : ∀ j, j < shB.textures.length → shB.textures.getD j NULL ≠ NULL →
      (w.textures (shB.textures.getD j NULL)).isSome = true) :
    ∃ wA wB, FosterBindShader_D3D11 A w = some wA ∧ FosterBindShader_D3D11 B wA = some wB
      ∧ (∀ i, i < shA.textures.length →
          calls (NativeCall.isTextureBindAt i) wA.log
            = calls (NativeCall.isTextureBindAt i) w.log
              + (if shA.textures.getD i NULL ≠ NULL
                    ∧ w.fdx.stateTextureSlots.getD i NULL ≠ shA.textures.getD i NULL
                 then 1 else 0)
          ∧ (shA.textures.getD i NULL ≠ NULL →
              wA.fdx.stateTextureSlots[i]? = some (shA.textures.getD i NULL)))
      ∧ (∀ i, i < shB.textures.length →
          calls (NativeCall.isTextureBindAt i) wB.log
            = calls (NativeCall.isTextureBindAt i) wA.log
              + (if shB.textures.getD i NULL ≠ NULL
                    ∧ wA.fdx.stateTextureSlots.getD i NULL ≠ shB.textures.getD i NULL
                 then 1 else 0)
          ∧ (shB.textures.getD i NULL ≠ NULL →
              wB.fdx.stateTextureSlots[i]? = some (shB.textures.getD i NULL)))
      ∧ (∀ i, i < shA.textures.length → shA.textures.getD i NULL ≠ NULL →
          shB.textures.getD i NULL = shA.textures.getD i NULL →
          calls (NativeCall.isTextureBindAt i) wB.log
            = calls (NativeCall.isTextureBindAt i) wA.log)
      ∧ (A ≠ B → calls NativeCall.isVSSetShader wB.log
          = calls NativeCall.isVSSetShader wA.log + 1) := by
  obtain ⟨wA, lA, hcA, htA, hsA, _, _, hstA, _, _, hlenA, hslenA, hslotsA, hlogA, hcountA, _⟩ :=
    bindShader_eq w A shA hA (by omega) (by omega) (by omega)
      (fun j hj hn _ => hliveA j hj hn)
  have hB2 : wA.shader? B = some shB := by
    unfold World.shader? at hB ⊢
    rw [hsA]; exact hB
  obtain ⟨wB, lB, hcB, _, _, _, _, _, _, _, _, _, hslotsB, hlogB, hcountB, hvsB⟩ :=
    bindShader_eq wA B shB hB2 (by omega) (by omega) (by omega)
      (fun j hj hn _ => by rw [htA]; exact hliveB j hj hn)
  have hkeep : ∀ (w0 w1 : World) (sh : FosterShader_D3D11) (i : Nat),
      i < sh.textures.length → sh.textures.length ≤ w0.fdx.stateTextureSlots.length →
      (∀ j, w1.fdx.stateTextureSlots[j]?
          = if j < sh.textures.length ∧ sh.textures.getD j NULL ≠ NULL
                ∧ w0.fdx.stateTextureSlots.getD j NULL ≠ sh.textures.getD j NULL
            then some (sh.textures.getD j NULL) else w0.fdx.stateTextureSlots[j]?) →
      sh.textures.getD i NULL ≠ NULL →
      w1.fdx.stateTextureSlots[i]? = some (sh.textures.getD i NULL) := by
    intro w0 w1 sh i hi hlen hslots hn
    rw [hslots i]
    by_cases hd : w0.fdx.stateTextureSlots.getD i NULL ≠ sh.textures.getD i NULL
    · rw [if_pos ⟨hi, hn, hd⟩]
    · rw [if_neg (fun h => hd h.2.2), getD_of_lt (by omega)]
      rw [not_not.mp hd]
  have hcnt : ∀ (l0 l : List NativeCall) (sh : FosterShader_D3D11) (slots : List Ptr) (i : Nat),
      i < sh.textures.length →
      calls (NativeCall.isTextureBindAt i) l
          = (if i < sh.textures.length ∧ sh.textures.getD i NULL ≠ NULL
                ∧ slots.getD i NULL ≠ sh.textures.getD i NULL then 1 else 0) →
      calls (NativeCall.isTextureBindAt i) (l0 ++ l)
        = calls (NativeCall.isTextureBindAt i) l0
          + (if sh.textures.getD i NULL ≠ NULL ∧ slots.getD i NULL ≠ sh.textures.getD i NULL
             then 1 else 0) := by
    intro l0 l sh slots i hi hl
    rw [calls_append, hl]
    congr 1
    exact if_congr ⟨fun h => h.2, fun h => ⟨hi, h⟩⟩ rfl rfl
  refine ⟨wA, wB, hcA, hcB, ?_, ?_, ?_, ?_⟩
  · intro i hi
    refine ⟨?_, hkeep w wA shA i hi (by omega) hslotsA⟩
    rw [hlogA]
    exact hcnt w.log lA shA _ i hi (hcountA i)
  · intro i hi
    refine ⟨?_, hkeep wA wB shB i hi (by omega) hslotsB⟩
    rw [hlogB]
    exact hcnt wA.log lB shB _ i hi (hcountB i)
  · intro i hi hn heq
    have hslot := hkeep w wA shA i hi (by omega) hslotsA hn
    have hgetD : wA.fdx.stateTextureSlots.getD i NULL = shA.textures.getD i NULL := by
      rw [List.getD_eq_getElem?_getD, hslot]
      rfl
    rw [hlogB, calls_append, hcountB i, if_neg, Nat.add_zero]
    rintro ⟨_, _, hne⟩
    exact hne (by rw [hgetD, heq])
  · intro hne
    rw [hlogB, calls_append, hvsB, hstA, if_pos (Or.inr hne)]

/-- Witness for C21: the shaders at addresses 20 and 30 both hold the texture at
address 10 in slot 0; binding 20 then 30 binds slot 0 once, in the first bind. -/
theorem C21_BindShader_texture_slots_witness :
    ∃ wA wB, FosterBindShader_D3D11 20 sharedSlotWorld = some wA
      ∧ FosterBindShader_D3D11 30 wA = some wB
      ∧ calls (NativeCall.isTextureBindAt 0) wA.log = 1
      ∧ calls (NativeCall.isTextureBindAt 0) wB.log = 1
      ∧ calls NativeCall.isVSSetShader wB.log = calls NativeCall.isVSSetShader wA.log + 1 := by
  obtain ⟨wA, wB, hA, hB, hcA, _, hsame, hprog⟩ := C21_BindShader_texture_slots sharedSlotWorld
    20 30 { sampleShader with textures := [10, NULL, NULL, NULL] } otherShader
    (by decide) (by decide) (by decide) (by decide) (by decide) (by decide) (by decide)
    (by decide) (by decide)
  have h0 := (hcA 0 (by decide)).1
  have h1 := hsame 0 (by decide) (by decide) (by decide)
  have hA1 : calls (NativeCall.isTextureBindAt 0) wA.log = 1 := by
    rw [h0]; decide
  exact ⟨wA, wB, hA, hB, hA1, by rw [h1, hA1], hprog (by decide)⟩

/-! ## Draw -/

set_option maxRecDepth 8000 in
/-- Claim C27, what the code does. Two consecutive draws of the same mesh, the first
with the shader at address 20 and the second with the shader at address 30, both
return. The first creates and binds the layout instance keyed to shader 20
(layout 45). The second binds the programs of shader 30 but, the tracked vertex
format being equal to the mesh's, looks up no layout: it issues no
`IASetInputLayout`, the natively bound layout is still 45, the instance keyed to
shader 20, and the cache holds no instance keyed to shader 30 (a lookup for it
would create layout 46). -/
theorem C27_shader_change_keeps_stale_layout :
    ∃ w1 w2,
      FosterDraw_D3D11 (sampleDrawEnv 45) (sampleDraw 20 NULL 0 { x := 0, y := 0, w := 0, h := 0 })
        drawWorld = some w1
      ∧ FosterDraw_D3D11 (sampleDrawEnv 46) (sampleDraw 30 NULL 0 { x := 0, y := 0, w := 0, h := 0 })
        w1 = some w2
      ∧ boundInputLayout w1.log = some 45
      ∧ w1.fdx.layoutCache
          = [{ format := sampleFormat, instances := [{ shader := 20, layout := 45 }]
               references := 1 }]
      ∧ w2.fdx.stateShader = 30
      ∧ calls NativeCall.isVSSetShader w2.log = calls NativeCall.isVSSetShader w1.log + 1
      ∧ calls NativeCall.isIASetInputLayout w2.log = calls NativeCall.isIASetInputLayout w1.log
      ∧ boundInputLayout w2.log = some 45
      ∧ w2.fdx.layoutCache = w1.fdx.layoutCache
      ∧ (FosterGetLayoutInstance ⟨true, 46⟩ 30 sampleFormat w2).map (fun r => r.1) = some 46 := by
  refine ⟨_, _, rfl, rfl, ?_, ?_, ?_, ?_, ?_, ?_, ?_, ?_⟩ <;> decide

theorem bindMeshBuffers_frame (m : FosterMesh_D3D11) (w : World) :
    (bindMeshBuffers m w).fdx.layoutCache = w.fdx.layoutCache
    ∧ (bindMeshBuffers m w).fdx.stateShader = w.fdx.stateShader
    ∧ (bindMeshBuffers m w).fdx.stateViewport = w.fdx.stateViewport
    ∧ calls NativeCall.isIASetInputLayout (bindMeshBuffers m w).log
        = calls NativeCall.isIASetInputLayout w.log := by
  unfold bindMeshBuffers
  by_cases hv : w.fdx.stateInitializing = true ∨ w.fdx.stateVertexBuffer ≠ m.vertexBuffer
  · simp only [if_pos hv, World.emit, World.setFdx]
    split_ifs <;> simp [calls, List.countP_append, NativeCall.isIASetInputLayout]
  · simp only [if_neg hv, World.emit, World.setFdx]
    split_ifs <;> simp [calls, List.countP_append, NativeCall.isIASetInputLayout]

/-- With `stateInitializing` clear and a tracked vertex format equal to the mesh's,
`FosterBindMesh` looks up no layout, whatever shader is tracked: the cache is
unchanged and no `IASetInputLayout` is issued. -/
theorem bindMesh_equal_format_skips_layout (created : NativeOut) (mesh : Ptr) (w : World)
    (m : FosterMesh_D3D11) (hm : w.mesh? mesh = some m)
    (hinit : w.fdx.stateInitializing = false)
    (hsame : FosterVertexFormatEqual w.fdx.stateVertexFormat m.vertexFormat = true) :
    ∃ w1, FosterBindMesh created mesh w = some w1
      ∧ w1.fdx.layoutCache = w.fdx.layoutCache
      ∧ w1.fdx.stateShader = w.fdx.stateShader
      ∧ calls NativeCall.isIASetInputLayout w1.log
          = calls NativeCall.isIASetInputLayout w.log := by
  have hc : ¬ (w.fdx.stateInitializing = true
      ∨ ¬ FosterVertexFormatEqual w.fdx.stateVertexFormat m.vertexFormat = true) := by
    rw [hinit]
    intro h
    rcases h with h | h
    · cases h
    · exact h hsame
  unfold FosterBindMesh
  simp only [hm]
  rw [if_neg hc]
  have hf := bindMeshBuffers_frame m w
  exact ⟨_, rfl, hf.1, hf.2.1, hf.2.2.2⟩

theorem bindFrameBuffer_viewport (size : Int × Int) (target : Ptr) (w w1 : World)
    (h : FosterBindFrameBuffer_D3D11 size target w = some w1) :
    w1.fdx.stateViewport = w.fdx.stateViewport := by
  unfold FosterBindFrameBuffer_D3D11 at h
  simp only [World.emit, World.setFdx] at h
  repeat' split at h
  all_goals first
    | (simp only [Option.some.injEq] at h; rw [← h])
    | (cases h)

theorem bindShaderSlot_viewport (sh : FosterShader_D3D11) (w w1 : World) (i : Nat)
    (h : bindShaderSlot sh w i = some w1) :
    w1.fdx.stateViewport = w.fdx.stateViewport := by
  unfold bindShaderSlot at h
  split at h
  · rename_i tex samp curTex curSamp _ _ _ _
    simp only [World.emit, World.setFdx] at h
    by_cases hc : tex ≠ NULL ∧ curTex ≠ tex
    · simp only [if_pos hc] at h
      cases hT : w.textures tex with
      | none =>
        simp only [hT] at h
        cases h
      | some t =>
        simp only [hT] at h
        cases samp with
        | none =>
          simp only [Option.some.injEq] at h
          rw [← h]
        | some s =>
          by_cases hs : curSamp ≠ s.addr
          · simp only [if_pos hs, Option.some.injEq] at h
            rw [← h]
          · simp only [if_neg hs, Option.some.injEq] at h
            rw [← h]
    · simp only [if_neg hc] at h
      cases samp with
      | none =>
        simp only [Option.some.injEq] at h
        rw [← h]
      | some s =>
        by_cases hs : curSamp ≠ s.addr
        · simp only [if_pos hs, Option.some.injEq] at h
          rw [← h]
        · simp only [if_neg hs, Option.some.injEq] at h
          rw [← h]
  · cases h

theorem foldlM_viewport (f : World → Nat → Option World)
    (hf : ∀ w w1 i, f w i = some w1 → w1.fdx.stateViewport = w.fdx.stateViewport)
    (l : List Nat) : ∀ w w1 : World, l.foldlM f w = some w1 →
      w1.fdx.stateViewport = w.fdx.stateViewport := by
  induction l with
  | nil =>
    intro w w1 h
    simp only [List.foldlM_nil, Option.pure_def, Option.some.injEq] at h
    rw [← h]
  | cons a l ih =>
    intro w w1 h
    rw [List.foldlM_cons] at h
    cases hfa : f w a with
    | none => rw [hfa] at h; cases h
    | some w2 =>
      rw [hfa] at h
      exact (ih w2 w1 h).trans (hf w w2 a hfa)

theorem bindShaderPrograms_viewport (shader : Ptr) (sh : FosterShader_D3D11) (w : World) :
    (bindShaderPrograms shader sh w).fdx.stateViewport = w.fdx.stateViewport := by
  unfold bindShaderPrograms
  split_ifs <;> rfl

theorem bindShader_viewport (shader : Ptr) (w w1 : World)
    (h : FosterBindShader_D3D11 shader w = some w1) :
    w1.fdx.stateViewport = w.fdx.stateViewport := by
  unfold FosterBindShader_D3D11 at h
  split at h
  · cases h
  · rename_i sh _
    exact (foldlM_viewport (bindShaderSlot sh) (bindShaderSlot_viewport sh) _ _ _ h).trans
      (bindShaderPrograms_viewport shader sh w)

theorem getLayoutInstance_viewport (created : NativeOut) (shader : Ptr)
    (format : FosterVertexFormat) (w w1 : World) (layout : Ptr)
    (h : FosterGetLayoutInstance created shader format w = some (layout, w1)) :
    w1.fdx.stateViewport = w.fdx.stateViewport := by
  unfold FosterGetLayoutInstance at h
  repeat' split at h
  all_goals first
    | (simp only [Option.some.injEq, Prod.mk.injEq] at h; obtain ⟨_, h2⟩ := h; subst h2; rfl)
    | (cases h)

theorem bindMesh_viewport (created : NativeOut) (mesh : Ptr) (w w1 : World)
    (h : FosterBindMesh created mesh w = some w1) :
    w1.fdx.stateViewport = w.fdx.stateViewport := by
  unfold FosterBindMesh at h
  cases hm : w.mesh? mesh with
  | none =>
    simp only [hm] at h
    cases h
  | some m =>
    simp only [hm] at h
    by_cases hc : w.fdx.stateInitializing = true
        ∨ ¬ FosterVertexFormatEqual w.fdx.stateVertexFormat m.vertexFormat = true
    · rw [if_pos hc] at h
      cases hg : FosterGetLayoutInstance created w.fdx.stateShader m.vertexFormat w with
      | none =>
        simp only [hg] at h
        cases h
      | some r =>
        obtain ⟨layout, w2⟩ := r
        simp only [hg, Option.some.injEq] at h
        rw [← h, (bindMeshBuffers_frame _ _).2.2.1]
        exact getLayoutInstance_viewport created _ _ w w2 layout hg
    · rw [if_neg hc] at h
      simp only [Option.some.injEq] at h
      rw [← h, (bindMeshBuffers_frame _ _).2.2.1]

theorem applyBlend_viewport (created : NativeOut) (blend : FosterBlend) (w : World) :
    (applyBlend created blend w).fdx.stateViewport = w.fdx.stateViewport := by
  unfold applyBlend
  simp only [World.emit, World.setFdx]
  split_ifs <;> rfl

theorem setBlend_viewport (created : NativeOut) (blend : Option FosterBlend) (w w1 : World)
    (h : FosterSetBlend_D3D11 created blend w = some w1) :
    w1.fdx.stateViewport = w.fdx.stateViewport := by
  unfold FosterSetBlend_D3D11 at h
  cases blend with
  | none =>
    simp only at h
    split at h
    · simp only [Option.some.injEq] at h
      rw [← h]
    · cases h
  | some b =>
    simp only at h
    split at h
    · simp only [Option.some.injEq] at h
      rw [← h]
      exact applyBlend_viewport _ _ _
    · simp only [Option.some.injEq] at h
      rw [← h]

theorem setCompare_viewport (created : NativeOut) (compare : FosterCompare) (w : World) :
    (FosterSetCompare_D3D11 created compare w).fdx.stateViewport = w.fdx.stateViewport := by
  unfold FosterSetCompare_D3D11
  simp only [World.emit, World.setFdx]
  split_ifs <;> rfl

theorem setCull_viewport (created : NativeOut) (cull : FosterCull) (w : World) :
    (FosterSetCull_D3D11 created cull w).fdx.stateViewport = w.fdx.stateViewport := by
  unfold FosterSetCull_D3D11
  simp only [World.emit, World.setFdx]
  split_ifs <;> rfl

/-- The tracked viewport after a `FosterDraw_D3D11` that returns is the rect that
`FosterSetViewport_D3D11` derived from the tracker as it was on entry. -/
theorem draw_viewport (env : DrawEnv) (command : FosterDrawCommand) (w w1 : World)
    (h : FosterDraw_D3D11 env command w = some w1) :
    w1.fdx.stateViewport = derivedViewport w.fdx command.hasViewport command.viewport := by
  unfold FosterDraw_D3D11 at h
  simp only at h
  split at h
  · cases h
  rename_i wa ha
  split at h
  · cases h
  rename_i wb hb
  split at h
  · cases h
  rename_i wc hc
  split at h
  · cases h
  rename_i wd hd
  have hend : w1.fdx.stateViewport = wd.fdx.stateViewport := by
    split at h <;>
      (simp only [Option.some.injEq] at h
       rw [← h]
       show (FosterSetCull_D3D11 _ _ _).fdx.stateViewport = _
       rw [setCull_viewport, setCompare_viewport])
  rw [hend, setBlend_viewport _ _ _ _ hd, bindMesh_viewport _ _ _ _ hc,
    bindShader_viewport _ _ _ hb]
  show wa.fdx.stateViewport = _
  rw [bindFrameBuffer_viewport _ _ _ _ ha, (setScissor_frame _ _ _).2.1]
  exact (setViewport_frame _ _ _).2.2.2.1

/-- Claim C28, what the code does. `FosterDraw_D3D11` sets the viewport (line 1699)
before it binds the command's target (line 1701), so for every tracker state and
every draw with an enabled viewport rect `(x, y, w, h)` that returns, the viewport
tracked afterwards has top-left Y `(H0 - y) - h` in `int` arithmetic, where `H0` is
the framebuffer height tracked on entry, left by whatever was bound before; the
height of the command's own target does not enter. -/
theorem C28_Draw_viewport_uses_entry_height (env : DrawEnv) (command : FosterDrawCommand)
    (w w1 : World) (hdraw : FosterDraw_D3D11 env command w = some w1)
    (henabled : command.hasViewport ≠ 0) :
    w1.fdx.stateViewport
      = { command.viewport with
          y := wrap32 (wrap32 (w.fdx.stateFrameBufferHeight - command.viewport.y)
                - command.viewport.h) } := by
  rw [draw_viewport env command w w1 hdraw]
  unfold derivedViewport
  rw [if_pos henabled]

set_option maxRecDepth 8000 in
/-- Witness for C28: the back buffer of 800 x 600 is bound on entry and the draw
targets the 256 x 256 target at address 60 with the viewport `(0, 0, 256, 256)`.
The draw returns, the target's height 256 is tracked afterwards, and the viewport
tracked and passed to `RSSetViewports` has top-left Y 344, which is
`600 - 0 - 256`, where the target's own height gives `256 - 0 - 256 = 0`. -/
theorem C28_Draw_viewport_uses_entry_height_witness :
    ∃ w1, FosterDraw_D3D11 (sampleDrawEnv 45)
        (sampleDraw 20 60 1 { x := 0, y := 0, w := 256, h := 256 }) drawWorld = some w1
      ∧ drawWorld.fdx.stateFrameBufferHeight = 600
      ∧ (drawWorld.targets 60).map (fun t => t.height) = some 256
      ∧ w1.fdx.stateFrameBufferHeight = 256
      ∧ w1.fdx.stateViewport = { x := 0, y := 344, w := 256, h := 256 }
      ∧ NativeCall.RSSetViewports 1 (viewportDesc { x := 0, y := 344, w := 256, h := 256 })
          ∈ w1.log :=
  ⟨_, rfl, by decide, by decide, by decide,
    (C28_Draw_viewport_uses_entry_height (sampleDrawEnv 45)
      (sampleDraw 20 60 1 { x := 0, y := 0, w := 256, h := 256 }) drawWorld _ rfl
      (by decide)).trans (by decide),
    by decide⟩

/-! ## Texture uniforms and texture slots -/

/-- Which slots `FosterShaderSetTexture_D3D11` writes depends on the uniform only
through its array size: for two in-range `Texture2D` uniforms of the same size the
call does the same whichever index is passed. -/
theorem setTexture_index_irrelevant (w : World) (S : Ptr) (sh : FosterShader_D3D11)
    (i j : Int) (ui uj : FosterUniform_D3D11) (values : List Ptr)
    (hS : w.shader? S = some sh) (hi : 0 ≤ i) (hj : 0 ≤ j)
    (hui : sh.uniforms[i.toNat]? = some ui) (huj : sh.uniforms[j.toNat]? = some uj)
    (hti : ui.type = .FOSTER_UNIFORM_TYPE_TEXTURE2D)
    (htj : uj.type = .FOSTER_UNIFORM_TYPE_TEXTURE2D) (hsize : ui.size = uj.size) :
    FosterShaderSetTexture_D3D11 S i values w = FosterShaderSetTexture_D3D11 S j values w := by
  have hlt : ∀ (k : Int) (u : FosterUniform_D3D11), 0 ≤ k → sh.uniforms[k.toNat]? = some u →
      ¬ (k < 0 ∨ k ≥ sh.uniformCount) := by
    intro k u hk hu
    have hlen : k.toNat < sh.uniforms.length := by
      by_contra hge
      rw [List.getElem?_eq_none (not_lt.mp hge)] at hu
      cases hu
    unfold FosterShader_D3D11.uniformCount
    omega
  unfold FosterShaderSetTexture_D3D11
  simp only [hS]
  rw [if_neg (hlt i ui hi hui), if_neg (hlt j uj hj huj)]
  simp only [hui, huj]
  rw [if_neg (by simp [hti]), if_neg (by simp [htj]), hsize]

set_option maxRecDepth 8000 in
/-- Claim C29, what the code does. A shader is created from a pixel stage that binds
two 2D textures; its uniforms are `u_first` (index 0) and `u_second` (index 1),
both `Texture2D` of size 1. Setting `u_first` to the texture at address 10 stores
it in slot 0 and raises its reference count to 2. Setting `u_second` to the
texture at address 11 then writes slot 0 again, the loop index, not a slot of
its own: slot 0 holds 11, slot 1 is still null, and the texture bound through
`u_first` is no longer in any slot, its reference count back to 1. -/
theorem C29_SetTexture_second_uniform_overwrites_slot_zero :
    ∃ w0 w1 w2,
      FosterShaderCreate_D3D11 (sampleShaderEnv emptyStage twoTextureStage) sampleShaderData
        texturePairWorld = some (20, w0)
      ∧ (w0.shaders 20).map (fun s => s.uniforms)
          = some [{ name := "u_first", index := 0, size := 1, offset := 0
                    type := .FOSTER_UNIFORM_TYPE_TEXTURE2D },
                  { name := "u_second", index := 1, size := 1, offset := 1
                    type := .FOSTER_UNIFORM_TYPE_TEXTURE2D }]
      ∧ FosterShaderSetTexture_D3D11 20 0 [10] w0 = some w1
      ∧ (w1.shaders 20).map (fun s => s.textures) = some [10, NULL, NULL, NULL]
      ∧ (w1.textures 10).map (fun t => t.refCount) = some 2
      ∧ FosterShaderSetTexture_D3D11 20 1 [11] w1 = some w2
      ∧ (w2.shaders 20).map (fun s => s.textures) = some [11, NULL, NULL, NULL]
      ∧ (w2.textures 10).map (fun t => t.refCount) = some 1
      ∧ (w2.textures 11).map (fun t => t.refCount) = some 2 := by
  refine ⟨_, _, _, rfl, ?_, rfl, ?_, ?_, rfl, ?_, ?_, ?_⟩ <;> decide

/-! ## The order of reflected uniforms -/

theorem pushEntries_append (p : ReflectPass) (a b : List UniformEntry) :
    pushEntries p (a ++ b) = pushEntries (pushEntries p a) b := by
  unfold pushEntries
  rw [List.foldl_append]

theorem pushEntries_failed (es : List UniformEntry) :
    ∀ p : ReflectPass, (pushEntries p es).failed = p.failed := by
  induction es with
  | nil => intro p; rfl
  | cons e rest ih =>
    intro p
    show (pushEntries (p.push e.1 e.2.1 e.2.2) rest).failed = _
    rw [ih]
    rfl

theorem reflectResources_eq (rs : List ReflectedResource) :
    ∀ p : ReflectPass, p.failed = none → (∀ r ∈ rs, r.ok = true) →
      rs.foldl reflectResource p = pushEntries p (rs.filterMap resourceEntry) := by
  induction rs with
  | nil => intro p _ _; rfl
  | cons r rest ih =>
    intro p hp hok
    have hr : r.ok = true := hok r (List.mem_cons_self _ _)
    have hrest : ∀ x ∈ rest, x.ok = true := fun x hx => hok x (List.mem_cons_of_mem _ hx)
    rw [List.foldl_cons]
    by_cases ht : r.Type_ = .D3D_SIT_TEXTURE ∧ r.Dimension = .D3D_SRV_DIMENSION_TEXTURE2D
    · have hstep : reflectResource p r
          = p.push r.Name r.BindCount .FOSTER_UNIFORM_TYPE_TEXTURE2D := by
        unfold reflectResource
        simp [hp, hr, ht]
      have hentry : resourceEntry r
          = some (r.Name, r.BindCount, .FOSTER_UNIFORM_TYPE_TEXTURE2D) := by
        unfold resourceEntry
        rw [if_pos ht]
      rw [hstep, List.filterMap_cons, hentry, ih _ (by exact hp) hrest]
      rfl
    · by_cases hs : r.Type_ = .D3D_SIT_SAMPLER
      · have hstep : reflectResource p r
            = p.push r.Name r.BindCount .FOSTER_UNIFORM_TYPE_SAMPLER2D := by
          unfold reflectResource
          simp only [hp, Option.isSome_none, Bool.false_eq_true, if_false, hr,
            not_true_eq_false]
          rw [if_neg ht, if_pos hs]
        have hentry : resourceEntry r
            = some (r.Name, r.BindCount, .FOSTER_UNIFORM_TYPE_SAMPLER2D) := by
          unfold resourceEntry
          rw [if_neg ht, if_pos hs]
        rw [hstep, List.filterMap_cons, hentry, ih _ (by exact hp) hrest]
        rfl
      · have hstep : reflectResource p r = p := by
          unfold reflectResource
          simp only [hp, Option.isSome_none, Bool.false_eq_true, if_false, hr,
            not_true_eq_false]
          rw [if_neg ht, if_neg hs]
        have hentry : resourceEntry r = none := by
          unfold resourceEntry
          rw [if_neg ht, if_neg hs]
        rw [hstep, List.filterMap_cons, hentry, ih p hp hrest]

theorem reflectVariables_eq (vs : List ReflectedVariable) :
    ∀ p : ReflectPass, p.failed = none → (∀ v ∈ vs, v.ok = true ∧ v.typeOk = true) →
      vs.foldl reflectVariable p = pushEntries p (vs.map variableEntry) := by
  induction vs with
  | nil => intro p _ _; rfl
  | cons v rest ih =>
    intro p hp hok
    obtain ⟨hv, ht⟩ := hok v (List.mem_cons_self _ _)
    have hstep : reflectVariable p v
        = p.push v.Name v.Size (FosterUniformTypeFromD3D11 v.typeDesc) := by
      unfold reflectVariable
      simp only [hp, Option.isSome_none, Bool.false_eq_true, if_false, hv, ht,
        not_true_eq_false]
    rw [List.foldl_cons, hstep, List.map_cons,
      ih _ (by exact hp) (fun x hx => hok x (List.mem_cons_of_mem _ hx))]
    rfl

theorem reflectBuffers_eq (bs : List ReflectedBuffer) :
    ∀ p : ReflectPass, p.failed = none →
      (∀ b ∈ bs, b.ok = true ∧ ∀ v ∈ b.Variables, v.ok = true ∧ v.typeOk = true) →
      bs.foldl reflectBuffer p
        = pushEntries p (bs.flatMap (fun b => b.Variables.map variableEntry)) := by
  induction bs with
  | nil => intro p _ _; rfl
  | cons b rest ih =>
    intro p hp hok
    obtain ⟨hb, hvs⟩ := hok b (List.mem_cons_self _ _)
    have hstep : reflectBuffer p b = pushEntries p (b.Variables.map variableEntry) := by
      unfold reflectBuffer
      simp only [hp, Option.isSome_none, Bool.false_eq_true, if_false, hb, not_true_eq_false]
      exact reflectVariables_eq b.Variables p hp hvs
    rw [List.foldl_cons, hstep, List.flatMap_cons, pushEntries_append,
      ih _ ((pushEntries_failed _ p).trans hp) (fun x hx => hok x (List.mem_cons_of_mem _ hx))]

/-- A stage whose queries all succeed pushes its texture and sampler resources, then
its constant variables, onto the locals it starts from. -/
theorem reflectUniforms_eq (reflector : ShaderReflection) (dest : List FosterUniform_D3D11)
    (start_at : Int) (bytes : Nat) (hok : reflector.allOk = true) :
    reflectUniforms reflector dest start_at bytes
      = pushEntries { dest := dest, bytes := bytes
                      uniformCount := wrapU32 (start_at % 4294967296).toNat, failed := none }
          (stageResources reflector ++ stageConstants reflector) := by
  obtain ⟨hd, hr, hb⟩ := (allOk_iff reflector).mp hok
  unfold reflectUniforms
  simp only [hd, not_true_eq_false, if_false]
  rw [reflectResources_eq reflector.resources _ rfl hr,
    reflectBuffers_eq reflector.constantBuffers _ ((pushEntries_failed _ _).trans rfl) hb,
    pushEntries_append]
  rfl

theorem sizeSum_layOut (es : List UniformEntry) :
    ∀ index offset, sizeSum (layOut es index offset) = (es.map (fun e => e.2.1)).sum := by
  induction es with
  | nil => intro _ _; rfl
  | cons e rest ih =>
    intro index offset
    show e.2.1 + sizeSum (layOut rest (index + 1) (offset + e.2.1)) = _
    rw [ih, List.map_cons, List.sum_cons]

theorem length_layOut (es : List UniformEntry) :
    ∀ index offset, (layOut es index offset).length = es.length := by
  induction es with
  | nil => intro _ _; rfl
  | cons e rest ih =>
    intro index offset
    show (layOut rest (index + 1) (offset + e.2.1)).length + 1 = _
    rw [ih, List.length_cons]

theorem layOut_append (a : List UniformEntry) :
    ∀ (b : List UniformEntry) (index offset : Nat),
      layOut (a ++ b) index offset
        = layOut a index offset
            ++ layOut b (index + a.length) (offset + (a.map (fun e => e.2.1)).sum) := by
  induction a with
  | nil => intro b index offset; simp [layOut]
  | cons e rest ih =>
    intro b index offset
    have h1 : index + 1 + rest.length = index + (rest.length + 1) := by omega
    have h2 : offset + e.2.1 + (rest.map (fun e => e.2.1)).sum
        = offset + (e.2.1 + (rest.map (fun e => e.2.1)).sum) := by omega
    show _ :: layOut (rest ++ b) (index + 1) (offset + e.2.1)
      = (_ :: layOut rest (index + 1) (offset + e.2.1))
          ++ layOut b (index + (rest.length + 1))
              (offset + (e.2.1 + (rest.map (fun e => e.2.1)).sum))
    rw [ih, h1, h2]
    rfl

/-- Pushing entries onto locals whose array has `uniformCount` entries, the counters
staying within `unsigned int`, appends the entries laid out from the current count
and byte total. -/
theorem pushEntries_layOut (es : List UniformEntry) :
    ∀ p : ReflectPass, p.dest.length = p.uniformCount →
      p.uniformCount + es.length < 4294967296 →
      p.bytes + (es.map (fun e => e.2.1)).sum < 4294967296 →
      (pushEntries p es).dest = p.dest ++ layOut es p.uniformCount p.bytes
      ∧ (pushEntries p es).uniformCount = p.uniformCount + es.length
      ∧ (pushEntries p es).bytes = p.bytes + (es.map (fun e => e.2.1)).sum := by
  induction es with
  | nil => intro p _ _ _; exact ⟨by simp [pushEntries, layOut], rfl, by simp [pushEntries]⟩
  | cons e rest ih =>
    intro p hlen hcount hbytes
    rw [List.length_cons] at hcount
    rw [List.map_cons, List.sum_cons] at hbytes
    have hc : (p.push e.1 e.2.1 e.2.2).uniformCount = p.uniformCount + 1 := by
      show wrapU32 (p.uniformCount + 1) = _
      exact wrapU32_of_lt (by omega)
    have hb : (p.push e.1 e.2.1 e.2.2).bytes = p.bytes + e.2.1 := by
      show wrapU32 (p.bytes + e.2.1) = _
      exact wrapU32_of_lt (by omega)
    have hd : (p.push e.1 e.2.1 e.2.2).dest
        = p.dest ++ [{ name := e.1, index := p.uniformCount, size := e.2.1, offset := p.bytes
                       type := e.2.2 }] := by
      show p.dest.take p.uniformCount ++ _ = _
      rw [← hlen, List.take_length]
    obtain ⟨h1, h2, h3⟩ := ih (p.push e.1 e.2.1 e.2.2)
      (by rw [hd, hc, List.length_append, hlen]; rfl) (by rw [hc]; omega) (by rw [hb]; omega)
    show (pushEntries (p.push e.1 e.2.1 e.2.2) rest).dest = _
      ∧ (pushEntries (p.push e.1 e.2.1 e.2.2) rest).uniformCount = _
      ∧ (pushEntries (p.push e.1 e.2.1 e.2.2) rest).bytes = _
    rw [h1, h2, h3, hd, hc, hb, List.length_cons, List.map_cons, List.sum_cons]
    refine ⟨?_, by omega, by omega⟩
    simp [layOut]

/-- In a laid-out list the uniform at position `k` has index `first index + k` and
offset `first offset +` the sizes of the uniforms before it, and the names, sizes
and kinds are those of the entries. -/
theorem layOut_position (es : List UniformEntry) :
    ∀ (index offset k : Nat) (u : FosterUniform_D3D11),
      (layOut es index offset)[k]? = some u →
      u.index = index + k
      ∧ u.offset = offset + sizeSum ((layOut es index offset).take k)
      ∧ es[k]? = some (u.name, u.size, u.type) := by
  induction es with
  | nil => intro index offset k u h; simp [layOut] at h
  | cons e rest ih =>
    intro index offset k u h
    cases k with
    | zero =>
      simp only [layOut, List.getElem?_cons_zero, Option.some.injEq] at h
      subst h
      exact ⟨rfl, rfl, by rw [List.getElem?_cons_zero]⟩
    | succ k =>
      simp only [layOut, List.getElem?_cons_succ] at h
      obtain ⟨h1, h2, h3⟩ := ih (index + 1) (offset + e.2.1) k u h
      refine ⟨by omega, ?_, by simpa using h3⟩
      rw [h2]
      show _ = offset + (e.2.1 + sizeSum ((layOut rest (index + 1) (offset + e.2.1)).take k))
      omega

theorem sizeSum_take_mono (us : List FosterUniform_D3D11) :
    ∀ j k : Nat, j ≤ k → sizeSum (us.take j) ≤ sizeSum (us.take k) := by
  induction us with
  | nil => intro j k _; simp [sizeSum]
  | cons u rest ih =>
    intro j k hjk
    cases j with
    | zero => simp [sizeSum]
    | succ j =>
      cases k with
      | zero => omega
      | succ k =>
        have := ih j k (by omega)
        simp only [sizeSum, List.take_succ_cons, List.map_cons, List.sum_cons] at this ⊢
        omega

/-- The uniform list and count that the two reflection passes of
`FosterShaderCreate_D3D11` end with, for two stages whose queries all succeed and
whose uniform count and byte total fit an `unsigned int`. -/
theorem reflectBoth_eq (vertex pixel : ShaderReflection) (w : World)
    (hv : vertex.allOk = true) (hp : pixel.allOk = true)
    (hcount : (specUniformOrder vertex pixel).length < 4294967296)
    (hbytes : ((specUniformOrder vertex pixel).map (fun e => e.2.1)).sum < 4294967296) :
    let rv := FosterReflectUniforms_D3D11 vertex [] 0 0 w
    let rp := FosterReflectUniforms_D3D11 pixel rv.2.1 rv.1 rv.2.2.1 rv.2.2.2
    rp.1 = (specUniformOrder vertex pixel).length
    ∧ rp.2.1 = layOut (specUniformOrder vertex pixel) 0 0 := by
  intro rv rp
  have hcount2 : (stageResources vertex ++ stageConstants vertex).length
      + (stageResources pixel ++ stageConstants pixel).length < 4294967296 := by
    rw [← List.length_append]
    exact hcount
  have hbytes2 : ((stageResources vertex ++ stageConstants vertex).map (fun e => e.2.1)).sum
      + ((stageResources pixel ++ stageConstants pixel).map (fun e => e.2.1)).sum
        < 4294967296 := by
    rw [← List.sum_append, ← List.map_append]
    exact hbytes
  have hpv : reflectUniforms vertex [] 0 0
      = pushEntries { dest := [], bytes := 0, uniformCount := 0, failed := none }
          (stageResources vertex ++ stageConstants vertex) :=
    reflectUniforms_eq vertex [] 0 0 hv
  obtain ⟨hvd, hvc, hvb⟩ := pushEntries_layOut (stageResources vertex ++ stageConstants vertex)
    { dest := [], bytes := 0, uniformCount := 0, failed := none } rfl
    (by show 0 + _ < _; omega) (by show 0 + _ < _; omega)
  rw [← hpv] at hvd hvc hvb
  have hvf : (reflectUniforms vertex [] 0 0).failed = none :=
    (reflectUniforms_ok vertex [] 0 0 hv).1
  have hrv1 : rv.1 = (stageResources vertex ++ stageConstants vertex).length := by
    show (reflectUniforms vertex [] 0 0).returned = _
    unfold ReflectPass.returned
    rw [hvf, hvc]
    simp
  have hrv2 : rv.2.1 = layOut (stageResources vertex ++ stageConstants vertex) 0 0 := by
    show (reflectUniforms vertex [] 0 0).dest = _
    rw [hvd]
    simp
  have hrv3 : rv.2.2.1 = ((stageResources vertex ++ stageConstants vertex).map
      (fun e => e.2.1)).sum := by
    show (reflectUniforms vertex [] 0 0).bytes = _
    rw [hvb]
    simp
  have hstart : wrapU32 (((rv.1 : Nat) : Int) % 4294967296).toNat = rv.1 := by
    rw [hrv1]
    unfold wrapU32
    omega
  have hpp : reflectUniforms pixel rv.2.1 rv.1 rv.2.2.1
      = pushEntries { dest := rv.2.1, bytes := rv.2.2.1, uniformCount := rv.1, failed := none }
          (stageResources pixel ++ stageConstants pixel) := by
    rw [reflectUniforms_eq pixel rv.2.1 rv.1 rv.2.2.1 hp, hstart]
  obtain ⟨hpd, hpc, _⟩ := pushEntries_layOut (stageResources pixel ++ stageConstants pixel)
    { dest := rv.2.1, bytes := rv.2.2.1, uniformCount := rv.1, failed := none }
    (by show rv.2.1.length = rv.1; rw [hrv2, hrv1, length_layOut])
    (by show rv.1 + _ < _; rw [hrv1]; omega) (by show rv.2.2.1 + _ < _; rw [hrv3]; omega)
  rw [← hpp] at hpd hpc
  have hpf : (reflectUniforms pixel rv.2.1 rv.1 rv.2.2.1).failed = none :=
    (reflectUniforms_ok pixel rv.2.1 rv.1 rv.2.2.1 hp).1
  constructor
  · show (reflectUniforms pixel rv.2.1 rv.1 rv.2.2.1).returned
      = ((stageResources vertex ++ stageConstants vertex)
          ++ (stageResources pixel ++ stageConstants pixel)).length
    unfold ReflectPass.returned
    rw [hpf, hpc]
    show rv.1 + (stageResources pixel ++ stageConstants pixel).length = _
    rw [hrv1, ← List.length_append]
  · show (reflectUniforms pixel rv.2.1 rv.1 rv.2.2.1).dest
      = layOut ((stageResources vertex ++ stageConstants vertex)
          ++ (stageResources pixel ++ stageConstants pixel)) 0 0
    rw [hpd]
    show rv.2.1 ++ layOut (stageResources pixel ++ stageConstants pixel) rv.1 rv.2.2.1 = _
    rw [layOut_append (stageResources vertex ++ stageConstants vertex), hrv2, hrv1, hrv3,
      Nat.zero_add, Nat.zero_add]

theorem layOut_entries (es : List UniformEntry) :
    ∀ index offset : Nat,
      (layOut es index offset).map (fun u => (u.name, u.size, u.type)) = es := by
  induction es with
  | nil => intro _ _; rfl
  | cons e rest ih =>
    intro index offset
    show (e.1, e.2.1, e.2.2) :: (layOut rest (index + 1) (offset + e.2.1)).map _ = _
    rw [ih]

/-- A creation in which every step succeeds, for two stages whose uniform count and
byte total fit an `unsigned int`, returns the new shader, and its uniform list is
the specification's order laid out from index 0 and offset 0. -/
theorem shaderCreate_uniforms (env : ShaderCreateEnv) (data : FosterShaderData) (w : World)
    (hok : env.succeeds data = true)
    (hcount : (specUniformOrder env.vertex env.pixel).length < 4294967296)
    (hbytes : ((specUniformOrder env.vertex env.pixel).map (fun e => e.2.1)).sum
      < 4294967296) :
    ∃ w1 sh, FosterShaderCreate_D3D11 env data w = some (env.block, w1)
      ∧ w1.shaders env.block = some sh
      ∧ sh.uniforms = layOut (specUniformOrder env.vertex env.pixel) 0 0 := by
  unfold ShaderCreateEnv.succeeds at hok
  simp only [Bool.and_eq_true, Bool.not_eq_true', decide_eq_true_eq, Option.isSome_iff_ne_none,
    ne_eq] at hok
  obtain ⟨⟨⟨⟨⟨⟨⟨⟨⟨⟨⟨⟨hvs, hfs⟩, hvc⟩, hpc⟩, hvsh⟩, hpsh⟩, hrv⟩, hrp⟩, hv⟩, hp⟩, hin⟩, hbuf⟩, hblock⟩ := hok
  obtain ⟨hU, hW⟩ := uniformBytes_eq env.vertex env.pixel
    ((((((w.emit (.D3DCompile .vertex)).emit (.D3DCompile .pixel)).emit
      (.CreateVertexShader env.vertexCompile.out)).emit
      (.CreatePixelShader env.pixelCompile.out)).emit
      (.D3DReflect env.vertexCompile.out)).emit (.D3DReflect env.pixelCompile.out)) hv hp
  obtain ⟨hN, hL⟩ := reflectBoth_eq env.vertex env.pixel
    ((((((w.emit (.D3DCompile .vertex)).emit (.D3DCompile .pixel)).emit
      (.CreateVertexShader env.vertexCompile.out)).emit
      (.CreatePixelShader env.pixelCompile.out)).emit
      (.D3DReflect env.vertexCompile.out)).emit (.D3DReflect env.pixelCompile.out)) hv hp
    hcount hbytes
  have hdesc : env.vertex.descOk = true := ((allOk_iff env.vertex).mp hv).1
  have hvs2 : data.vertexShader.isNone = false := by
    cases h : data.vertexShader <;> simp_all
  have hfs2 : data.fragmentShader.isNone = false := by
    cases h : data.fragmentShader <;> simp_all
  unfold FosterShaderCreate_D3D11
  simp only [hvs2, hfs2, hvc, hpc, hvsh, hpsh, hrv, hrp, hdesc, hin, hbuf, hblock,
    Bool.false_eq_true, if_false, not_true_eq_false, and_false, hU, hW, hN, hL]
  refine ⟨_, _, rfl, Function.update_same _ _ _, ?_⟩
  show (layOut (specUniformOrder env.vertex env.pixel) 0 0).take
      (specUniformOrder env.vertex env.pixel).length = _
  rw [← length_layOut (specUniformOrder env.vertex env.pixel) 0 0, List.take_length]

/-- Claim C26. For every pair of reflected stages whose queries all succeed, in a
creation whose other steps succeed and whose uniform count and byte total fit an
`unsigned int`, `FosterShaderCreate_D3D11` returns the new shader and its uniform
list has, in this order, the texture and sampler resources of the vertex stage,
the constant variables of the vertex stage, the resources of the pixel stage and
the constant variables of the pixel stage. The uniform at position `k` has index
`k` and its offset is the sum of the sizes of the uniforms before it, so along
the list the index is strictly increasing and the offset is non-decreasing. -/
theorem C26_uniform_order (env : ShaderCreateEnv) (data : FosterShaderData) (w : World)
    (hok : env.succeeds data = true)
    (hcount : (specUniformOrder env.vertex env.pixel).length < 4294967296)
    (hbytes : ((specUniformOrder env.vertex env.pixel).map (fun e => e.2.1)).sum
      < 4294967296) :
    ∃ w1 sh, FosterShaderCreate_D3D11 env data w = some (env.block, w1)
      ∧ w1.shaders env.block = some sh
      ∧ sh.uniforms.map (fun u => (u.name, u.size, u.type))
          = (stageResources env.vertex ++ stageConstants env.vertex)
              ++ (stageResources env.pixel ++ stageConstants env.pixel)
      ∧ (∀ (k : Nat) (u : FosterUniform_D3D11), sh.uniforms[k]? = some u →
          u.index = k ∧ u.offset = sizeSum (sh.uniforms.take k))
      ∧ (∀ (j k : Nat) (uj uk : FosterUniform_D3D11), j < k →
          sh.uniforms[j]? = some uj → sh.uniforms[k]? = some uk →
          uj.index < uk.index ∧ uj.offset ≤ uk.offset) := by
  obtain ⟨w1, sh, hcall, hsh, hu⟩ := shaderCreate_uniforms env data w hok hcount hbytes
  have hpos : ∀ (k : Nat) (u : FosterUniform_D3D11), sh.uniforms[k]? = some u →
      u.index = k ∧ u.offset = sizeSum (sh.uniforms.take k) := by
    intro k u hk
    rw [hu] at hk ⊢
    obtain ⟨h1, h2, _⟩ := layOut_position _ 0 0 k u hk
    exact ⟨by omega, by omega⟩
  refine ⟨w1, sh, hcall, hsh, ?_, hpos, ?_⟩
  · rw [hu, layOut_entries]
    rfl
  · intro j k uj uk hjk hj hk
    obtain ⟨hj1, hj2⟩ := hpos j uj hj
    obtain ⟨hk1, hk2⟩ := hpos k uk hk
    refine ⟨by omega, ?_⟩
    rw [hj2, hk2]
    exact sizeSum_take_mono sh.uniforms j k (by omega)

/-- Witness for C26: a vertex stage with a constant buffer (a 64-byte matrix and a
16-byte vector) and a 2D texture of bind count 2, and a pixel stage with one
texture and one sampler. The list is the vertex texture, the two vertex
constants, the pixel texture and the pixel sampler, with indexes 0 to 4 and
offsets 0, 2, 66, 82 and 83. -/
theorem C26_uniform_order_witness :
    (sampleShaderEnv mixedStage textureStage).succeeds sampleShaderData = true
    ∧ ∃ w1 sh, FosterShaderCreate_D3D11 (sampleShaderEnv mixedStage textureStage)
          sampleShaderData sampleWorld = some (20, w1)
        ∧ w1.shaders 20 = some sh
        ∧ sh.uniforms.map (fun u => (u.name, u.size, u.type))
            = [("u_heights", 2, .FOSTER_UNIFORM_TYPE_TEXTURE2D),
               ("u_matrix", 64, .FOSTER_UNIFORM_TYPE_MAT4X4),
               ("u_tint", 16, .FOSTER_UNIFORM_TYPE_FLOAT4),
               ("u_texture", 1, .FOSTER_UNIFORM_TYPE_TEXTURE2D),
               ("u_texture_sampler", 1, .FOSTER_UNIFORM_TYPE_SAMPLER2D)]
        ∧ sh.uniforms.map (fun u => (u.index, u.offset))
            = [(0, 0), (1, 2), (2, 66), (3, 82), (4, 83)] := by
  obtain ⟨w1, sh, hcall, hsh, horder, _, _⟩ := C26_uniform_order
    (sampleShaderEnv mixedStage textureStage) sampleShaderData sampleWorld (by decide)
    (by decide) (by decide)
  have hrun : ∃ w0, FosterShaderCreate_D3D11 (sampleShaderEnv mixedStage textureStage)
      sampleShaderData sampleWorld = some (20, w0)
      ∧ (w0.shaders 20).map (fun s => s.uniforms.map (fun u => (u.index, u.offset)))
          = some [(0, 0), (1, 2), (2, 66), (3, 82), (4, 83)] := ⟨_, rfl, by decide⟩
  obtain ⟨w0, h0, hidx⟩ := hrun
  rw [h0] at hcall
  simp only [Option.some.injEq, Prod.mk.injEq] at hcall
  have hsh2 : w1.shaders 20 = some sh := hsh
  rw [hcall.2, hsh2] at hidx
  refine ⟨by decide, w1, sh, h0.trans (by rw [hcall.2]), hsh2, horder.trans (by decide), ?_⟩
  simpa using hidx

end Foster
